import Mathlib

/-!
# Glossy slot engine: a shallow embedding of `core/dev/glossy.c`

The file embeds the Timer-B1 interrupt handler, the four slot functions
(`glossy_begin_rx`, `glossy_end_rx`, `glossy_begin_tx`, `glossy_end_tx`), the
timing pipeline, the timeouts and the public `glossy_start` / `glossy_stop`
entry points as pure functions on an explicit machine state.

Conventions of the embedding.

* The build embedded is the hardware build: `COOJA`, `GLOSSY_DEBUG` and
  `ENERGEST_CONF_ON` are 0 (energy accounting and debug counters touch no
  variable of the engine).  `GLOSSY_SYNC_WINDOW` is a parameter.
* The target is the MSP430: `int` and `rtimer_clock_t` are 16 bits wide,
  `unsigned long` is 32 bits wide, `uint8_t` variables are reduced modulo 256
  at every assignment.
* The static variables of the file are the fields of `State`, under their own
  names.  The radio is represented by the ordered log `ops` of the SPI
  operations performed on it.
* Everything the handler reads from the hardware during one invocation is
  gathered in `IrqEnv`.
* The packet buffer, the caller's data buffer and the local
  `glossy_data_struct` are byte maps `Nat → Nat`; distinct C objects are
  distinct maps, so an access past the end of an object (undefined in C) never
  reaches another object.
-/

namespace Glossy

/-! ## Constants of `glossy.h` and of the platform headers -/

/-- Modelled from the spec: the states of the slot engine, declared in
`glossy.h` (section 3 of the specification lists them). -/
inductive GState
  | OFF
  | WAITING
  | RECEIVING
  | RECEIVED
  | TRANSMITTING
  | ABORTED
  deriving DecidableEq

/-- Command strobes of the CC2420 that the source issues. -/
inductive Strobe
  | SRXON
  | SRFOFF
  | SFLUSHRX
  | SFLUSHTX
  | STXON
  deriving DecidableEq

/-- One SPI operation on the radio: a command strobe, a read of `n` bytes from
the RX FIFO, or a write of the given bytes to the TX FIFO. -/
inductive RadioOp
  | strobe (c : Strobe)
  | readFifo (n : Nat)
  | writeFifo (bytes : List Nat)
  deriving DecidableEq

/-- Constants that `glossy.c` takes from `glossy.h` and from the MSP430 and
CC2420 headers, none of which is part of the source file; the macro
`RTIMER_CLOCK_LT` of the rtimer header, the deadline test of the reception spin
loops, is taken as a function. -/
structure Config where
  GLOSSY_HEADER : Nat
  GLOSSY_HEADER_MASK : Nat
  FOOTER1_CRC_OK : Nat
  GLOSSY_INITIATOR_TIMEOUT : Nat
  GLOSSY_SYNC_WINDOW : Nat
  F_CPU : Nat
  CLOCK_PHI : Nat
  TBIV_TBCCR4 : Nat
  TBIV_TBCCR5 : Nat
  CCIE : Nat
  TBSSEL0 : Nat
  TBSSEL1 : Nat
  MC1 : Nat
  RTIMER_CLOCK_LT : Nat → Nat → Bool

/-- Modelled from the spec: `FOOTER_LEN` of `glossy.h`, the two footer bytes
of the wire format. -/
def FOOTER_LEN : Nat := 2

/-- Modelled from the spec: `GLOSSY_HEADER_LEN` of `glossy.h`, one header
byte. -/
def GLOSSY_HEADER_LEN : Nat := 1

/-- Modelled from the spec: `GLOSSY_RELAY_CNT_LEN` of `glossy.h`, one relay
counter byte. -/
def GLOSSY_RELAY_CNT_LEN : Nat := 1

/-! ## Machine arithmetic -/

/-- Conversion to `uint8_t`. -/
def u8 (n : Nat) : Nat := n % 256

/-- Conversion to a 16-bit unsigned value (`rtimer_clock_t`, `unsigned`). -/
def u16 (n : Nat) : Nat := n % 65536

/-- Conversion to `unsigned long`. -/
def u32 (n : Nat) : Nat := n % 4294967296

/-- Difference `a - b` of two 16-bit unsigned values: `a` plus the two's
complement of `b`, modulo `2^16`. -/
def sub16 (a b : Nat) : Nat := ((65536 - b % 65536) + a % 65536) % 65536

/-- Difference `a - b` of two `unsigned long` values: `a` plus the two's
complement of `b`, modulo `2^32`. -/
def sub32 (a b : Nat) : Nat := ((4294967296 - b % 4294967296) + a % 4294967296) % 4294967296

/-- The expression `x & ~m` on a byte `x`; `~m` is a 16-bit `int`. -/
def and_not (x m : Nat) : Nat := x &&& (65535 ^^^ (m % 65536))

/-- The comparison `(signed short)(a - b) < 0` of two 16-bit clock values: the
value given to `RTIMER_CLOCK_LT` in the configuration used for evaluation. -/
def clock_lt (a b : Nat) : Bool := decide (32768 ≤ sub16 a b)

/-! ## Byte maps -/

/-- Store of one byte: `f[i] = v`. -/
def upd (f : Nat → Nat) (i v : Nat) : Nat → Nat :=
  fun j => if j = i then v else f j

/-- The call `memcpy(dst + doff, src + soff, n)`. -/
def memcpy (dst : Nat → Nat) (doff : Nat) (src : Nat → Nat) (soff n : Nat) : Nat → Nat :=
  fun j => if doff ≤ j ∧ j < doff + n then src (j - doff + soff) else dst j

/-! ## State -/

/-- The static variables of `glossy.c`, the Timer-B registers the engine
writes, the caller's data buffer and the log of radio operations. -/
structure State where
  id : Nat
  initiator : Nat
  sync : Nat
  rx_cnt : Nat
  tx_cnt : Nat
  tx_max : Nat
  data : Nat → Nat
  packet : Nat → Nat
  data_len : Nat
  packet_len : Nat
  packet_len_tmp : Nat
  header : Nat
  bytes_read : Nat
  tx_relay_cnt_last : Nat
  n_timeouts : Nat
  state : GState
  t_rx_start : Nat
  t_rx_stop : Nat
  t_tx_start : Nat
  t_tx_stop : Nat
  t_start : Nat
  t_rx_timeout : Nat
  T_irq : Nat
  t_stop : Nat
  tbiv : Nat
  T_slot_h : Nat
  T_rx_h : Nat
  T_w_rt_h : Nat
  T_tx_h : Nat
  T_w_tr_h : Nat
  t_ref_l : Nat
  T_offset_h : Nat
  t_first_rx_l : Nat
  T_slot_h_sum : Nat
  win_cnt : Nat
  relay_cnt : Nat
  t_ref_l_updated : Nat
  TBCTL : Nat
  TBCCR4 : Nat
  TBCCTL4 : Nat
  TBCCR5 : Nat
  TBCCTL5 : Nat
  ops : List RadioOp

/-- One sample taken by an iteration of a reception spin loop: the FIFO pin,
and the DCO counter read by the deadline test when the pin is low. -/
structure Poll where
  FIFO_IS_1 : Bool
  now_dco : Nat

/-- What one invocation of the interrupt handler reads from the hardware:
the DCO counter at entry, the SFD capture register, the SFD pin, the interrupt
vector register, the samples seen by the spin loops, the bytes returned by the
successive RX FIFO reads of the invocation, the 32 kHz clock, the pair captured
on the next 32 kHz tick, and the indeterminate initial bytes of the local
`glossy_data`. -/
structure IrqEnv where
  now_dco : Nat
  TBCCR1 : Nat
  SFD_IS_1 : Bool
  TBIV : Nat
  polls : List Poll
  fifo : Nat → Nat
  now_lf : Nat
  t_cap_h : Nat
  t_cap_l : Nat
  stack : Nat → Nat

/-! ## Packet fields (`glossy.h`) -/

/-- Modelled from the spec: `GLOSSY_LEN_FIELD`, offset 0 of the wire format. -/
def GLOSSY_LEN_FIELD (s : State) : Nat := s.packet 0

/-- Modelled from the spec: `GLOSSY_HEADER_FIELD`, offset 1 of the wire
format. -/
def GLOSSY_HEADER_FIELD (s : State) : Nat := s.packet 1

/-- Modelled from the spec: index of `GLOSSY_RELAY_CNT_FIELD`, the byte before
the two footer bytes: `packet_len_tmp - FOOTER_LEN`. -/
def relay_cnt_idx (s : State) : Nat := s.packet_len_tmp - FOOTER_LEN

/-- Modelled from the spec: `GLOSSY_RELAY_CNT_FIELD`. -/
def GLOSSY_RELAY_CNT_FIELD (s : State) : Nat := s.packet (relay_cnt_idx s)

/-- Modelled from the spec: `GLOSSY_CRC_FIELD`, the last byte of the frame
(second footer byte, which holds the CRC_OK bit): `packet[packet_len_tmp]`. -/
def GLOSSY_CRC_FIELD (s : State) : Nat := s.packet s.packet_len_tmp

/-! ## Radio functions -/

/-- The assignment `state = st`. -/
def set_state (st : GState) (s : State) : State := { s with state := st }

/-- Append radio operations to the log. -/
def emit (s : State) (l : List RadioOp) : State := { s with ops := s.ops ++ l }

/-- `radio_flush_tx`. -/
def radio_flush_tx (s : State) : State := emit s [.strobe .SFLUSHTX]

/-- `radio_on`; the wait for the crystal oscillator is taken to end. -/
def radio_on (s : State) : State := emit s [.strobe .SRXON]

/-- `radio_off`. -/
def radio_off (s : State) : State := emit s [.strobe .SRFOFF]

/-- `radio_flush_rx`: one dummy read and two flush strobes. -/
def radio_flush_rx (s : State) : State :=
  emit s [.readFifo 1, .strobe .SFLUSHRX, .strobe .SFLUSHRX]

/-- `radio_abort_rx`. -/
def radio_abort_rx (s : State) : State :=
  radio_flush_rx { s with state := .ABORTED }

/-- `radio_abort_tx`. -/
def radio_abort_tx (s : State) : State :=
  radio_flush_rx (emit s [.strobe .SRXON])

/-- `radio_start_tx`. -/
def radio_start_tx (s : State) : State := emit s [.strobe .STXON]

/-- `radio_write_tx`: `FASTSPI_WRITE_FIFO(packet, packet_len_tmp - 1)`. -/
def radio_write_tx (s : State) : State :=
  emit s [.writeFifo ((List.range (s.packet_len_tmp - 1)).map s.packet)]

/-! ## Timeouts -/

/-- `glossy_schedule_rx_timeout`. -/
def glossy_schedule_rx_timeout (cfg : Config) (s : State) : State :=
  { s with TBCCR5 := s.t_rx_timeout, TBCCTL5 := cfg.CCIE }

/-- `glossy_stop_rx_timeout`. -/
def glossy_stop_rx_timeout (s : State) : State := { s with TBCCTL5 := 0 }

/-- The airtime term `(packet_len * F_CPU) / 31250`, in `unsigned long`. -/
def airtime_h (cfg : Config) (s : State) : Nat := u32 (s.packet_len * cfg.F_CPU) / 31250

/-- `glossy_schedule_initiator_timeout`. -/
def glossy_schedule_initiator_timeout (cfg : Config) (s : State) : State :=
  if s.sync ≠ 0 then
    { s with
      TBCCR4 := u16 (s.t_start + (s.n_timeouts + 1) * cfg.GLOSSY_INITIATOR_TIMEOUT
                  * (s.T_slot_h + airtime_h cfg s)),
      TBCCTL4 := cfg.CCIE }
  else
    { s with
      TBCCR4 := u16 (s.t_start + (s.n_timeouts + 1) * cfg.GLOSSY_INITIATOR_TIMEOUT
                  * (s.packet_len * 35 + 400) * 4),
      TBCCTL4 := cfg.CCIE }

/-- `glossy_stop_initiator_timeout`. -/
def glossy_stop_initiator_timeout (s : State) : State := { s with TBCCTL4 := 0 }

/-! ## Timing pipeline -/

/-- In `estimate_slot_length`: the four intervals between the end of the last
reception, the transmission and the end of the current reception. -/
def slot_intervals (t_rx_stop_tmp : Nat) (s : State) : State :=
  { s with
    T_w_rt_h := sub16 s.t_tx_start s.t_rx_stop,
    T_tx_h := sub16 s.t_tx_stop s.t_tx_start,
    T_w_tr_h := sub16 s.t_rx_start s.t_tx_stop,
    T_rx_h := sub16 t_rx_stop_tmp s.t_rx_start }

/-- The local `T_slot_h_tmp` of `estimate_slot_length`:
`(T_tx_h + T_w_tr_h + T_rx_h + T_w_rt_h) / 2 - (packet_len * F_CPU) / 31250`;
the sum and the division are 16-bit unsigned, the difference is taken in
`unsigned long` and stored in an `rtimer_clock_t`. -/
def T_slot_h_tmp (cfg : Config) (s : State) : Nat :=
  u16 (sub32 (u16 (s.T_tx_h + s.T_w_tr_h + s.T_rx_h + s.T_w_rt_h) / 2) (airtime_h cfg s))

/-- In `estimate_slot_length`: the sample `tmp` enters the estimate, through
the averaging window when `GLOSSY_SYNC_WINDOW` is not 0. -/
def slot_window (cfg : Config) (tmp : Nat) (s1 : State) : State :=
  if cfg.GLOSSY_SYNC_WINDOW ≠ 0 then
    let s2 : State := { s1 with
      T_slot_h_sum := u32 (s1.T_slot_h_sum + tmp),
      win_cnt := u8 (s1.win_cnt + 1) }
    if s2.win_cnt = cfg.GLOSSY_SYNC_WINDOW then
      { s2 with
        T_slot_h := u16 (s2.T_slot_h_sum / cfg.GLOSSY_SYNC_WINDOW),
        T_slot_h_sum := s2.T_slot_h_sum / 2,
        win_cnt := s2.win_cnt / 2 }
    else if s2.win_cnt = 1 then
      { s2 with T_slot_h := tmp }
    else s2
  else
    { s1 with T_slot_h := tmp }

/-- `estimate_slot_length`. -/
def estimate_slot_length (cfg : Config) (t_rx_stop_tmp : Nat) (s : State) : State :=
  if 1 < s.rx_cnt ∧ GLOSSY_RELAY_CNT_FIELD s = s.tx_relay_cnt_last + 2 then
    slot_window cfg (T_slot_h_tmp cfg (slot_intervals t_rx_stop_tmp s))
      (slot_intervals t_rx_stop_tmp s)
  else s

/-- The local `T_ref_to_cap_h` of `compute_sync_reference_time`, an
`unsigned long`: `T_ref_to_rx_h + (unsigned long)T_rx_to_cap_h`, with
`T_rx_to_cap_h = t_cap_h - t_rx_start` and `T_ref_to_rx_h =
(GLOSSY_RELAY_CNT_FIELD - 1) * ((unsigned long)T_slot_h + (packet_len * F_CPU) / 31250)`. -/
def T_ref_to_cap_h (cfg : Config) (t_cap_h : Nat) (s : State) : Nat :=
  let T_rx_to_cap_h : Nat := sub16 t_cap_h s.t_rx_start
  let T_ref_to_rx_h : Nat :=
    u32 (sub32 (GLOSSY_RELAY_CNT_FIELD s) 1 * u32 (s.T_slot_h + airtime_h cfg s))
  u32 (T_ref_to_rx_h + T_rx_to_cap_h)

/-- `compute_sync_reference_time`, with the pair `(t_cap_h, t_cap_l)` captured
by `CAPTURE_NEXT_CLOCK_TICK`. -/
def compute_sync_reference_time (cfg : Config) (t_cap_h t_cap_l : Nat) (s : State) : State :=
  let T_ref_to_cap_l : Nat := u16 (1 + T_ref_to_cap_h cfg t_cap_h s / cfg.CLOCK_PHI)
  { s with
    T_offset_h :=
      u16 (sub32 (sub32 cfg.CLOCK_PHI 1) (T_ref_to_cap_h cfg t_cap_h s % cfg.CLOCK_PHI)),
    t_ref_l := sub16 t_cap_l T_ref_to_cap_l,
    t_ref_l_updated := 1 }

/-! ## The ID log of the payload

`glossy_data_struct` is an `unsigned long seq_no` followed by
`unsigned short logs[20]`: on the MSP430, 4 bytes and then 20 little-endian
16-bit entries, 44 bytes in all. -/

/-- Size of `glossy_data_struct` in bytes. -/
def GLOSSY_DATA_SIZE : Nat := 44

/-- The entry `logs[i]` of a `glossy_data_struct` held in the byte map `g`. -/
def logs (g : Nat → Nat) (i : Nat) : Nat := g (4 + 2 * i) + 256 * g (4 + 2 * i + 1)

/-- The store `logs[i] = v` for an `unsigned short` `v`. -/
def set_log (g : Nat → Nat) (i v : Nat) : Nat → Nat :=
  upd (upd g (4 + 2 * i) (v % 256)) (4 + 2 * i + 1) (v / 256 % 256)

/-- The condition of the ID-log loop at index `i`:
`glossy_data.logs[i] != 0 && glossy_data.logs[i+1] == 0`. -/
def log_slot (g : Nat → Nat) (i : Nat) : Prop := logs g i ≠ 0 ∧ logs g (i + 1) = 0

instance (g : Nat → Nat) (i : Nat) : Decidable (log_slot g i) := by
  unfold log_slot
  infer_instance

/-- The loop `for (i = ...; i < 10; i++)` of `glossy_end_rx` with `n`
iterations left, the next one at index `i`: the first `i` with
`logs[i] != 0 && logs[i+1] == 0` gets `logs[i+1] = id` and ends the loop. -/
def append_id_from (id : Nat) (g : Nat → Nat) : Nat → Nat → (Nat → Nat)
  | 0, _ => g
  | n + 1, i =>
    if log_slot g i then set_log g (i + 1) id
    else append_id_from id g n (i + 1)

/-- The whole loop of `glossy_end_rx`: `for (i = 0; i < 10; i++)`. -/
def append_id (id : Nat) (g : Nat → Nat) : Nat → Nat := append_id_from id g 10 0

/-! ## Interrupt functions -/

/-- Outcome of a spin loop `while (!FIFO_IS_1) ...`: the pin went high (with
the samples left), the deadline passed, or the samples supplied ran out with
the loop still spinning. -/
inductive Wait
  | ready (rest : List Poll)
  | expired
  | spinning

/-- The spin loop `while (!FIFO_IS_1) { if (c && !RTIMER_CLOCK_LT(RTIMER_NOW_DCO(),
t_rx_timeout)) abort }`, where `c` is the first conjunct of the deadline test. -/
def wait_fifo (cfg : Config) (c : Bool) (t_rx_timeout : Nat) : List Poll → Wait
  | [] => .spinning
  | p :: ps =>
    if p.FIFO_IS_1 then .ready ps
    else if c && !cfg.RTIMER_CLOCK_LT p.now_dco t_rx_timeout then .expired
    else wait_fifo cfg c t_rx_timeout ps

/-- The read `FASTSPI_READ_FIFO_BYTE(packet[i])` of the `k`-th byte the RX FIFO
returns in this invocation. -/
def read_fifo_byte (env : IrqEnv) (k i : Nat) (s : State) : State :=
  emit { s with packet := upd s.packet i (u8 (env.fifo k)) } [.readFifo 1]

/-- Outcome of the in-flight read loop of `glossy_begin_rx`. -/
inductive Body
  | finished (s : State)
  | aborted (s : State)
  | spinning

/-- The loop `while (bytes_read <= packet_len_tmp - 8)` of `glossy_begin_rx`,
with `n` iterations left; it starts at `bytes_read = 2` and so runs
`packet_len_tmp - 9` times. -/
def rx_body (cfg : Config) (env : IrqEnv) : Nat → List Poll → State → Body
  | 0, _, s => .finished s
  | n + 1, polls, s =>
    match wait_fifo cfg true s.t_rx_timeout polls with
    | .spinning => .spinning
    | .expired => .aborted (radio_abort_rx s)
    | .ready rest =>
      let s1 := read_fifo_byte env s.bytes_read s.bytes_read s
      rx_body cfg env n rest { s1 with bytes_read := u8 (s1.bytes_read + 1) }

/-- The deadline `t_rx_start + ((rtimer_clock_t)packet_len_tmp * 35 + 200) * 4`. -/
def rx_deadline (s : State) : Nat := u16 (s.t_rx_start + u16 ((s.packet_len_tmp * 35 + 200) * 4))

/-- Head of `glossy_begin_rx`: the capture is recorded, the state is set and,
when the packet length is known, the reception deadline is computed. -/
def begin_rx_arm (env : IrqEnv) (s : State) : State :=
  let s1 : State := { s with t_rx_start := u16 env.TBCCR1, state := .RECEIVING }
  if s1.packet_len ≠ 0 then { s1 with t_rx_timeout := rx_deadline s1 } else s1

/-- The length test of `glossy_begin_rx`:
`(packet_len && (GLOSSY_LEN_FIELD != packet_len_tmp)) || (GLOSSY_LEN_FIELD < FOOTER_LEN)
|| (GLOSSY_LEN_FIELD > 127)`. -/
def bad_length (s : State) : Prop :=
  (s.packet_len ≠ 0 ∧ GLOSSY_LEN_FIELD s ≠ s.packet_len_tmp)
    ∨ GLOSSY_LEN_FIELD s < FOOTER_LEN ∨ GLOSSY_LEN_FIELD s > 127

instance (s : State) : Decidable (bad_length s) := by
  unfold bad_length
  infer_instance

/-- The header test of `glossy_begin_rx`:
`(GLOSSY_HEADER_FIELD & GLOSSY_HEADER_MASK) != GLOSSY_HEADER`. -/
def bad_header (cfg : Config) (s : State) : Prop :=
  GLOSSY_HEADER_FIELD s &&& cfg.GLOSSY_HEADER_MASK ≠ cfg.GLOSSY_HEADER

instance (cfg : Config) (s : State) : Decidable (bad_header cfg s) := by
  unfold bad_header
  infer_instance

/-- After an accepted length byte: `bytes_read = 1` and, when the packet length
is not known yet, the length and the deadline are taken from the frame. -/
def begin_rx_learn (s : State) : State :=
  let s1 : State := { s with bytes_read := 1 }
  if s1.packet_len = 0 then
    let s2 : State := { s1 with packet_len_tmp := GLOSSY_LEN_FIELD s1 }
    { s2 with t_rx_timeout := rx_deadline s2 }
  else s1

/-- After an accepted header byte: `bytes_read = 2`, the in-flight reads when
the packet is longer than 8 bytes, and the RX timeout. -/
def begin_rx_body (cfg : Config) (env : IrqEnv) (polls : List Poll) (s : State) : Option State :=
  let s1 : State := { s with bytes_read := 2 }
  if s1.packet_len_tmp > 8 then
    match rx_body cfg env (s1.packet_len_tmp - 9) polls s1 with
    | .spinning => none
    | .aborted s2 => some s2
    | .finished s2 => some (glossy_schedule_rx_timeout cfg s2)
  else
    some (glossy_schedule_rx_timeout cfg s1)

/-- The first spin loop of `glossy_begin_rx` entered from the state `s`: the
wait for the length byte, with the deadline honoured only when `packet_len` is
known. -/
def wait_len (cfg : Config) (env : IrqEnv) (s : State) : Wait :=
  wait_fifo cfg (decide ((begin_rx_arm env s).packet_len ≠ 0)) (begin_rx_arm env s).t_rx_timeout
    env.polls

/-- The second spin loop of `glossy_begin_rx` entered from the state `s`, on
the samples `polls1` left by the first: the wait for the header byte. -/
def wait_hdr (cfg : Config) (env : IrqEnv) (s : State) (polls1 : List Poll) : Wait :=
  wait_fifo cfg true (begin_rx_learn (read_fifo_byte env 0 0 (begin_rx_arm env s))).t_rx_timeout
    polls1

/-- `glossy_begin_rx`; `none` when a spin loop never ends on the samples
supplied. -/
def glossy_begin_rx (cfg : Config) (env : IrqEnv) (s : State) : Option State :=
  let s1 : State := begin_rx_arm env s
  match wait_len cfg env s with
  | .spinning => none
  | .expired => some (radio_abort_rx s1)
  | .ready polls1 =>
    let s2 : State := read_fifo_byte env 0 0 s1
    if bad_length s2 then some (radio_abort_rx s2)
    else
      let s3 : State := begin_rx_learn s2
      match wait_hdr cfg env s polls1 with
      | .spinning => none
      | .expired => some (radio_abort_rx s3)
      | .ready polls2 =>
        let s4 : State := read_fifo_byte env 1 1 s3
        if bad_header cfg s4 then some (radio_abort_rx s4)
        else begin_rx_body cfg env polls2 s4

/-- The drain at the head of `glossy_end_rx`:
`FASTSPI_READ_FIFO_NO_WAIT(&packet[bytes_read], packet_len_tmp - bytes_read + 1)`
and `bytes_read = packet_len_tmp + 1`. -/
def end_rx_drain (env : IrqEnv) (s : State) : State :=
  let n : Nat := s.packet_len_tmp + 1 - s.bytes_read
  let s1 : State :=
    emit { s with packet := memcpy s.packet s.bytes_read (fun j => u8 (env.fifo j)) 0 n }
      [.readFifo n]
  { s1 with bytes_read := u8 (s1.packet_len_tmp + 1) }

/-- In `glossy_end_rx`: `header = GLOSSY_HEADER_FIELD & ~GLOSSY_HEADER_MASK`. -/
def end_rx_header (cfg : Config) (s : State) : State :=
  { s with header := u8 (and_not (GLOSSY_HEADER_FIELD s) cfg.GLOSSY_HEADER_MASK) }

/-- The local `glossy_data` of `glossy_end_rx` after
`memcpy(&glossy_data, &GLOSSY_DATA_FIELD, data_len)` and, when `sync`, the
ID-log loop. -/
def end_rx_glossy_data (env : IrqEnv) (s : State) : Nat → Nat :=
  let g : Nat → Nat := memcpy (fun j => u8 (env.stack j)) 0 s.packet 2 s.data_len
  if s.sync ≠ 0 then append_id s.id g else g

/-- In `glossy_end_rx`: `if (sync) { GLOSSY_RELAY_CNT_FIELD++; ... }`, the part
that acts on the packet buffer. -/
def end_rx_relay (s : State) : State :=
  if s.sync ≠ 0 then
    { s with packet := upd s.packet (relay_cnt_idx s) (u8 (GLOSSY_RELAY_CNT_FIELD s + 1)) }
  else s

/-- In `glossy_end_rx`: `if (tx_cnt == tx_max) { radio_off(); state = OFF }
else { radio_write_tx(); state = RECEIVED }`. -/
def end_rx_load (s : State) : State :=
  if s.tx_cnt = s.tx_max then { radio_off s with state := .OFF }
  else { radio_write_tx s with state := .RECEIVED }

/-- In `glossy_end_rx`: `if (rx_cnt == 0) { t_first_rx_l = RTIMER_NOW();
if (sync) relay_cnt = GLOSSY_RELAY_CNT_FIELD - 1; }`. -/
def end_rx_first (env : IrqEnv) (s : State) : State :=
  if s.rx_cnt = 0 then
    let s1 : State := { s with t_first_rx_l := u16 env.now_lf }
    if s1.sync ≠ 0 then { s1 with relay_cnt := u8 (sub16 (GLOSSY_RELAY_CNT_FIELD s1) 1) } else s1
  else s

/-- In `glossy_end_rx`: `rx_cnt++`. -/
def end_rx_count (s : State) : State := { s with rx_cnt := u8 (s.rx_cnt + 1) }

/-- In `glossy_end_rx`: `if (sync) estimate_slot_length(t_rx_stop_tmp)`. -/
def end_rx_estimate (cfg : Config) (t_rx_stop_tmp : Nat) (s : State) : State :=
  if s.sync ≠ 0 then estimate_slot_length cfg t_rx_stop_tmp s else s

/-- In `glossy_end_rx`: `t_rx_stop = t_rx_stop_tmp`. -/
def end_rx_stamp (t_rx_stop_tmp : Nat) (s : State) : State := { s with t_rx_stop := t_rx_stop_tmp }

/-- In `glossy_end_rx`: `if (initiator) glossy_stop_initiator_timeout()`. -/
def end_rx_stop_timeout (s : State) : State :=
  if s.initiator ≠ 0 then glossy_stop_initiator_timeout s else s

/-- In `glossy_end_rx`: `if (!packet_len) { packet_len = packet_len_tmp;
data_len = ... }`; the differences are taken in 16-bit unsigned arithmetic and
stored in a `uint8_t`. -/
def end_rx_learn (s : State) : State :=
  if s.packet_len = 0 then
    { s with
      packet_len := s.packet_len_tmp,
      data_len :=
        if s.sync ≠ 0 then
          u8 (sub16 (sub16 (sub16 s.packet_len_tmp FOOTER_LEN) GLOSSY_RELAY_CNT_LEN)
            GLOSSY_HEADER_LEN)
        else u8 (sub16 (sub16 s.packet_len_tmp FOOTER_LEN) GLOSSY_HEADER_LEN) }
  else s

/-- In `glossy_end_rx`: `memcpy(&GLOSSY_DATA_FIELD, (uint8_t *)&glossy_data, data_len)`. -/
def end_rx_copy_back (glossy_data : Nat → Nat) (s : State) : State :=
  { s with packet := memcpy s.packet 2 glossy_data 0 s.data_len }

/-- The branch of `glossy_end_rx` taken when the CRC_OK bit is set. -/
def end_rx_ok (cfg : Config) (env : IrqEnv) (s : State) : State :=
  let t_rx_stop_tmp : Nat := u16 env.TBCCR1
  let s1 : State := end_rx_header cfg s
  let glossy_data : Nat → Nat := end_rx_glossy_data env s1
  let s2 : State := end_rx_relay s1
  let s3 : State := end_rx_load s2
  let s4 : State := end_rx_first env s3
  let s5 : State := end_rx_count s4
  let s6 : State := end_rx_estimate cfg t_rx_stop_tmp s5
  let s7 : State := end_rx_stamp t_rx_stop_tmp s6
  let s8 : State := end_rx_stop_timeout s7
  let s9 : State := end_rx_learn s8
  end_rx_copy_back glossy_data s9

/-- The CRC test of `glossy_end_rx` on the frame as drained from the state `s`:
`GLOSSY_CRC_FIELD & FOOTER1_CRC_OK`. -/
def crc_ok (cfg : Config) (env : IrqEnv) (s : State) : Prop :=
  GLOSSY_CRC_FIELD (end_rx_drain env s) &&& cfg.FOOTER1_CRC_OK ≠ 0

instance (cfg : Config) (env : IrqEnv) (s : State) : Decidable (crc_ok cfg env s) := by
  unfold crc_ok
  infer_instance

/-- `glossy_end_rx`. -/
def glossy_end_rx (cfg : Config) (env : IrqEnv) (s : State) : State :=
  let s1 := end_rx_drain env s
  if crc_ok cfg env s then end_rx_ok cfg env s1
  else set_state .WAITING (radio_abort_tx s1)

/-- In `glossy_begin_tx`: `if ((!initiator) && (rx_cnt == 1)) memcpy(data,
&GLOSSY_DATA_FIELD, data_len)`. -/
def begin_tx_copy (s : State) : State :=
  if s.initiator = 0 ∧ s.rx_cnt = 1 then
    { s with data := memcpy s.data 0 s.packet 2 s.data_len }
  else s

/-- In `glossy_begin_tx`: `if ((sync) && (T_slot_h) && (!t_ref_l_updated) && (rx_cnt))
compute_sync_reference_time()`. -/
def begin_tx_sync (cfg : Config) (env : IrqEnv) (s : State) : State :=
  if s.sync ≠ 0 ∧ s.T_slot_h ≠ 0 ∧ s.t_ref_l_updated = 0 ∧ s.rx_cnt ≠ 0 then
    compute_sync_reference_time cfg env.t_cap_h env.t_cap_l s
  else s

/-- Head of `glossy_begin_tx`: `t_tx_start = TBCCR1; state = TRANSMITTING;
tx_relay_cnt_last = GLOSSY_RELAY_CNT_FIELD`. -/
def begin_tx_mark (env : IrqEnv) (s : State) : State :=
  { s with
    t_tx_start := u16 env.TBCCR1, state := .TRANSMITTING,
    tx_relay_cnt_last := GLOSSY_RELAY_CNT_FIELD s }

/-- `glossy_begin_tx`. -/
def glossy_begin_tx (cfg : Config) (env : IrqEnv) (s : State) : State :=
  begin_tx_sync cfg env (begin_tx_copy (begin_tx_mark env s))

/-- In `glossy_end_tx`: `if ((++tx_cnt == tx_max) && ((tx_max - initiator) > 0))
{ radio_off(); state = OFF } else state = WAITING`, after the increment; the
difference is an `int`, positive exactly when `initiator < tx_max`. -/
def end_tx_next (s : State) : State :=
  if s.tx_cnt = s.tx_max ∧ s.initiator < s.tx_max then { radio_off s with state := .OFF }
  else { s with state := .WAITING }

/-- Head of `glossy_end_tx`: `t_tx_stop = TBCCR1` and the increment `++tx_cnt`. -/
def end_tx_count (env : IrqEnv) (s : State) : State :=
  { s with t_tx_stop := u16 env.TBCCR1, tx_cnt := u8 (s.tx_cnt + 1) }

/-- `glossy_end_tx`. -/
def glossy_end_tx (env : IrqEnv) (s : State) : State :=
  radio_flush_tx (end_tx_next (end_tx_count env s))

/-! ## The Timer-B1 interrupt handler -/

/-- In the initiator-timeout block: `n_timeouts++`. -/
def timeout_count (s : State) : State := { s with n_timeouts := u8 (s.n_timeouts + 1) }

/-- In the initiator-timeout block: the packet is built again (`tx_cnt = 0`,
length, header, relay counter when `sync`, data) and `state = RECEIVED`. -/
def timeout_rebuild (cfg : Config) (s : State) : State :=
  let s2 : State := { s with tx_cnt := 0 }
  let s3 : State := { s2 with packet := upd s2.packet 0 s2.packet_len_tmp }
  let s4 : State := { s3 with
    packet := upd s3.packet 1 (u8 (cfg.GLOSSY_HEADER ||| and_not s3.header cfg.GLOSSY_HEADER_MASK)) }
  let s5 : State :=
    { s4 with
      packet :=
        if s4.sync ≠ 0 then
          upd s4.packet (relay_cnt_idx s4) (u8 (s4.n_timeouts * cfg.GLOSSY_INITIATOR_TIMEOUT))
        else s4.packet }
  let s6 : State := { s5 with packet := memcpy s5.packet 2 s5.data 0 s5.data_len }
  { s6 with state := .RECEIVED }

/-- In the initiator-timeout block: the packet is built again and handed to
the radio (`rx_cnt == 0`). -/
def timeout_resend (cfg : Config) (s : State) : State :=
  glossy_schedule_initiator_timeout cfg (radio_start_tx (radio_write_tx (timeout_rebuild cfg s)))

/-- The initiator-timeout block of `timerb1_interrupt`
(`state == GLOSSY_STATE_WAITING && tbiv == TBIV_TBCCR4`). -/
def initiator_timeout (cfg : Config) (s : State) : State :=
  let s1 : State := timeout_count s
  if s1.rx_cnt = 0 then timeout_resend cfg s1 else glossy_stop_initiator_timeout s1

/-- The variable part of the interrupt latency:
`((RTIMER_NOW_DCO() - TBCCR1) - 21) << 1` in 16-bit unsigned arithmetic. -/
def irq_delay (now_dco capture : Nat) : Nat := u16 (sub16 (sub16 now_dco capture) 21 * 2)

/-- First statement of `timerb1_interrupt`: the latency is measured. -/
def irq_entry (env : IrqEnv) (s : State) : State :=
  { s with T_irq := irq_delay env.now_dco env.TBCCR1 }

/-- The statement `tbiv = TBIV`, which reads the interrupt vector register. -/
def read_tbiv (env : IrqEnv) (s : State) : State := { s with tbiv := env.TBIV }

/-- In the RX-timeout block: `if (state == GLOSSY_STATE_RECEIVING) radio_abort_rx()`. -/
def rx_timeout_abort (s : State) : State :=
  if s.state = .RECEIVING then radio_abort_rx s else s

/-- `timerb1_interrupt`; `none` when a spin loop of `glossy_begin_rx` never
ends on the samples supplied.  The SFD pin is sampled once: the state is fixed
during the dispatch, so the short-circuit conditions read the pin at most
once. -/
def timerb1_interrupt (cfg : Config) (env : IrqEnv) (s0 : State) : Option State :=
  let s : State := irq_entry env s0
  if s.state = .RECEIVING ∧ env.SFD_IS_1 = false then
    if s.T_irq ≤ 8 then
      some (glossy_end_rx cfg env (read_tbiv env (radio_start_tx s)))
    else
      some (read_tbiv env (set_state .WAITING (radio_flush_rx s)))
  else
    let s1 : State := read_tbiv env s
    if s1.state = .WAITING ∧ env.SFD_IS_1 = true then glossy_begin_rx cfg env s1
    else if s1.state = .RECEIVED ∧ env.SFD_IS_1 = true then some (glossy_begin_tx cfg env s1)
    else if s1.state = .TRANSMITTING ∧ env.SFD_IS_1 = false then some (glossy_end_tx env s1)
    else if s1.state = .ABORTED then some (set_state .WAITING s1)
    else if s1.state = .WAITING ∧ s1.tbiv = cfg.TBIV_TBCCR4 then some (initiator_timeout cfg s1)
    else if s1.tbiv = cfg.TBIV_TBCCR5 then some (glossy_stop_rx_timeout (rx_timeout_abort s1))
    else if s1.state ≠ .OFF then some (set_state .WAITING (radio_flush_rx s1))
    else some s1

/-! ## Main interface -/

/-- `glossy_disable_other_interrupts`, as far as Timer B is concerned: the
timer is stopped, sourced by the DCO and started. -/
def glossy_disable_other_interrupts (cfg : Config) (s : State) : State :=
  { s with TBCTL := cfg.TBSSEL1 ||| cfg.MC1 }

/-- `glossy_enable_other_interrupts`, as far as Timer B is concerned: the
timer is stopped, sourced by the 32 kHz clock and started. -/
def glossy_enable_other_interrupts (cfg : Config) (s : State) : State :=
  { s with TBCTL := cfg.TBSSEL0 ||| cfg.MC1 }

/-- In `glossy_start`: `if (data_len) { packet_len_tmp = ...; packet_len =
packet_len_tmp; GLOSSY_LEN_FIELD = ...; GLOSSY_HEADER_FIELD = ... } else
packet_len = 0`. -/
def start_len (cfg : Config) (s : State) : State :=
  if s.data_len ≠ 0 then
    let a : State := { s with
      packet_len_tmp :=
        if s.sync ≠ 0 then
          u8 (s.data_len + FOOTER_LEN + GLOSSY_RELAY_CNT_LEN + GLOSSY_HEADER_LEN)
        else u8 (s.data_len + FOOTER_LEN + GLOSSY_HEADER_LEN) }
    let b : State := { a with packet_len := a.packet_len_tmp }
    let c : State := { b with packet := upd b.packet 0 b.packet_len_tmp }
    { c with
      packet := upd c.packet 1 (u8 (cfg.GLOSSY_HEADER ||| and_not c.header cfg.GLOSSY_HEADER_MASK)) }
  else { s with packet_len := 0 }

/-- In `glossy_start`: the data is copied to the data field and the state is
set, `RECEIVED` at the initiator and `WAITING` at a receiver. -/
def start_role (s : State) : State :=
  if s.initiator ≠ 0 then
    { s with packet := memcpy s.packet 2 s.data 0 s.data_len, state := .RECEIVED }
  else
    { s with packet := memcpy s.packet 2 s.data 0 s.data_len, state := .WAITING }

/-- In `glossy_start`: `if (sync) { GLOSSY_RELAY_CNT_FIELD = 0; t_ref_l_updated = 0; }`. -/
def start_sync (s : State) : State :=
  if s.sync ≠ 0 then
    { s with packet := upd s.packet (relay_cnt_idx s) 0, t_ref_l_updated := 0 }
  else s

/-- In `glossy_start`: `n_timeouts = 0`. -/
def start_timeouts (s : State) : State := { s with n_timeouts := 0 }

/-- In `glossy_start`: the radio is primed; the initiator loads the TX FIFO,
strobes TX and arms its timeout when `(!sync) || T_slot_h`, a receiver loads
the TX FIFO and turns the radio on. -/
def start_radio (cfg : Config) (s : State) : State :=
  if s.initiator ≠ 0 then
    let s1 : State := radio_start_tx (radio_write_tx s)
    if s1.sync = 0 ∨ s1.T_slot_h ≠ 0 then
      glossy_schedule_initiator_timeout cfg (start_timeouts s1)
    else s1
  else
    radio_on (radio_write_tx s)

/-- Head of `glossy_start`: the arguments are copied to the Glossy variables
(the `uint8_t` ones modulo 256). -/
def start_args (data_ : Nat → Nat) (data_len_ initiator_ sync_ tx_max_ header_ t_stop_ id_ : Nat)
    (s : State) : State :=
  { s with
    data := data_, data_len := u8 data_len_, initiator := u8 initiator_, sync := u8 sync_,
    tx_max := u8 tx_max_, header := u8 header_, t_stop := u16 t_stop_, id := u16 id_ }

/-- In `glossy_start`: `tx_cnt = 0; rx_cnt = 0; t_start = RTIMER_NOW_DCO()`. -/
def start_counters (now_dco : Nat) (s : State) : State :=
  { s with tx_cnt := 0, rx_cnt := 0, t_start := u16 now_dco }

/-- `glossy_start`; `now_dco` is the value `RTIMER_NOW_DCO()` returns.  The
callback arguments `cb_`, `rtimer_` and `ptr_` are only stored and are left
out. -/
def glossy_start (cfg : Config) (data_ : Nat → Nat)
    (data_len_ initiator_ sync_ tx_max_ header_ t_stop_ id_ now_dco : Nat) (s : State) : State :=
  let s1 : State := start_args data_ data_len_ initiator_ sync_ tx_max_ header_ t_stop_ id_ s
  let s2 : State := glossy_disable_other_interrupts cfg s1
  let s3 : State := start_counters now_dco s2
  let s4 : State := start_sync (start_role (start_len cfg s3))
  start_radio cfg (radio_flush_tx (radio_flush_rx s4))

/-- `glossy_stop`: the state on return and the value returned. -/
def glossy_stop (cfg : Config) (s : State) : State × Nat :=
  let s1 : State := radio_off (glossy_stop_initiator_timeout s)
  let s2 : State := radio_flush_tx (radio_flush_rx s1)
  let s3 : State := set_state .OFF s2
  let s4 : State := glossy_enable_other_interrupts cfg s3
  (s4, s4.rx_cnt)

/-- Accessor `get_rx_cnt`. -/
def get_rx_cnt (s : State) : Nat := s.rx_cnt

/-- Accessor `get_state`. -/
def get_state (s : State) : GState := s.state

/-- Setter `set_t_ref_l`. -/
def set_t_ref_l (t : Nat) (s : State) : State := { s with t_ref_l := u16 t }

/-- Setter `set_t_ref_l_updated`. -/
def set_t_ref_l_updated (updated : Nat) (s : State) : State :=
  { s with t_ref_l_updated := u8 updated }

/-! ## Sessions -/

/-- A sequence of invocations of the interrupt handler, one per element of the
list, from the state `s`; `none` when one of them never returns. -/
def run (cfg : Config) : List IrqEnv → State → Option State
  | [], s => some s
  | e :: es, s => (timerb1_interrupt cfg e s).bind (run cfg es)

/-- The radio operations a step adds to the log: what is left of the log `after`
once the log `before` is removed from its head. -/
def new_ops (before after : State) : List RadioOp := after.ops.drop before.ops.length

/-- The static variables after program load (all zero, state `OFF`), with an
empty radio log.  The packet buffer is given explicitly. -/
def boot (packet : Nat → Nat) : State :=
  { id := 0, initiator := 0, sync := 0, rx_cnt := 0, tx_cnt := 0, tx_max := 0,
    data := fun _ => 0, packet := packet, data_len := 0, packet_len := 0, packet_len_tmp := 0,
    header := 0, bytes_read := 0, tx_relay_cnt_last := 0, n_timeouts := 0, state := .OFF,
    t_rx_start := 0, t_rx_stop := 0, t_tx_start := 0, t_tx_stop := 0, t_start := 0,
    t_rx_timeout := 0, T_irq := 0, t_stop := 0, tbiv := 0, T_slot_h := 0, T_rx_h := 0,
    T_w_rt_h := 0, T_tx_h := 0, T_w_tr_h := 0, t_ref_l := 0, T_offset_h := 0, t_first_rx_l := 0,
    T_slot_h_sum := 0, win_cnt := 0, relay_cnt := 0, t_ref_l_updated := 0, TBCTL := 0,
    TBCCR4 := 0, TBCCTL4 := 0, TBCCR5 := 0, TBCCTL5 := 0, ops := [] }

/-- A configuration for evaluation: the values of the Glossy release for the
Tmote Sky (magic `0xa0` under mask `0xf0`, CRC_OK bit `0x80`, initiator
timeout of 3 slots, window 64, a 4194304 Hz DCO against the 32768 Hz clock)
and the MSP430 register constants. -/
def sky : Config :=
  { GLOSSY_HEADER := 160, GLOSSY_HEADER_MASK := 240, FOOTER1_CRC_OK := 128,
    GLOSSY_INITIATOR_TIMEOUT := 3, GLOSSY_SYNC_WINDOW := 64, F_CPU := 4194304,
    CLOCK_PHI := 128, TBIV_TBCCR4 := 8, TBIV_TBCCR5 := 10, CCIE := 16,
    TBSSEL0 := 256, TBSSEL1 := 512, MC1 := 32, RTIMER_CLOCK_LT := clock_lt }

/-- An invocation of the handler caused by an edge of the SFD pin, served with
the given latency over the constant 21 ticks: the pin level, the capture
value, and the bytes the RX FIFO returns; every spin-loop sample has the FIFO
pin high. -/
def sfd_edge (level : Bool) (capture latency : Nat) (fifo : Nat → Nat) : IrqEnv :=
  { now_dco := capture + 21 + latency, TBCCR1 := capture, SFD_IS_1 := level, TBIV := 2,
    polls := List.replicate 128 { FIFO_IS_1 := true, now_dco := capture },
    fifo := fifo, now_lf := 0, t_cap_h := 0, t_cap_l := 0, stack := fun _ => 0 }

/-- An invocation of the handler caused by a compare channel of Timer B, with
the SFD pin low. -/
def compare_irq (cause now : Nat) : IrqEnv :=
  { now_dco := now, TBCCR1 := 0, SFD_IS_1 := false, TBIV := cause,
    polls := [], fifo := fun _ => 0, now_lf := 0, t_cap_h := 0, t_cap_l := 0,
    stack := fun _ => 0 }

/-! ## Sample sessions -/

/-- The payload `[0x31, 0x32]` of the single-hop scenario, as a byte map. -/
def payload12 : Nat → Nat := fun j => if j = 0 then 49 else if j = 1 then 50 else 0

/-- An initiator started without sync on the payload `[0x31, 0x32]` with
`tx_max = 2`. -/
def initiator2 : State := glossy_start sky payload12 2 1 0 2 0 0 0 1000 (boot (fun _ => 0))

/-- A session of `initiator2` in which nothing is received: the first
transmission, an initiator timeout, and the second transmission. -/
def lonely_session : List IrqEnv :=
  [sfd_edge true 1100 0 (fun _ => 0), sfd_edge false 1300 0 (fun _ => 0), compare_irq 8 5000,
   sfd_edge true 5100 0 (fun _ => 0), sfd_edge false 5300 0 (fun _ => 0)]

/-- The state of `initiator2` after `lonely_session`. -/
def lonely_final : State := (run sky lonely_session initiator2).getD initiator2

/-- The byte map of a list of bytes (zero past its end). -/
def bytes (l : List Nat) : Nat → Nat := fun j => l.getD j 0

/-- A receiver started without sync for two payload bytes, `tx_max = 2`,
node id `0xB`. -/
def receiver2 : State := glossy_start sky (fun _ => 0) 2 0 0 2 0 0 11 1000 (boot (fun _ => 0))

/-- `receiver2` after the SFD rose on a frame with length byte 5 and the
Glossy header: the reception is under way. -/
def receiving2 : State :=
  (timerb1_interrupt sky (sfd_edge true 2000 0 (bytes [5, 160])) receiver2).getD receiver2

/-- End of the frame of `receiving2`, served without extra latency: payload
`[0x31, 0x32]`, RSSI byte, and a footer byte with the CRC_OK bit clear. -/
def end_bad_crc : IrqEnv := sfd_edge false 2700 0 (bytes [49, 50, 0, 0])

/-- End of the frame of `receiving2`, served without extra latency: payload
`[0x31, 0x32]`, RSSI byte, and a footer byte with the CRC_OK bit set. -/
def end_good_crc : IrqEnv := sfd_edge false 2700 0 (bytes [49, 50, 0, 128])

/-- End of the frame of `receiving2`, served 5 DCO ticks late (`T_irq = 10`). -/
def end_late : IrqEnv := sfd_edge false 2700 5 (bytes [49, 50, 0, 128])

/-- A receiver started with sync for two payload bytes, `tx_max = 2`, node id
`0xB`. -/
def receiver_sync : State :=
  glossy_start sky (fun _ => 0) 2 0 1 2 0 0 11 1000 (boot (fun _ => 0))

/-- `receiver_sync` after the SFD rose on a frame with length byte 6 and the
Glossy header. -/
def receiving_sync : State :=
  (timerb1_interrupt sky (sfd_edge true 2000 0 (bytes [6, 160])) receiver_sync).getD receiver_sync

/-- End of the frame of `receiving_sync`: payload `[0x31, 0x32]`, relay counter
255, RSSI byte, footer byte with the CRC_OK bit set. -/
def end_relay_255 : IrqEnv := sfd_edge false 2700 0 (bytes [49, 50, 255, 0, 128])

/-- End of the frame of `receiving_sync`: payload `[0x31, 0x32]`, relay counter
7, RSSI byte, footer byte with the CRC_OK bit set. -/
def end_relay_7 : IrqEnv := sfd_edge false 2700 0 (bytes [49, 50, 7, 0, 128])

/-- A receiver started with sync for a whole `glossy_data_struct` (44 payload
bytes), `tx_max = 2`, node id `0xB`. -/
def receiver_log : State :=
  glossy_start sky (fun _ => 0) 44 0 1 2 0 0 11 1000 (boot (fun _ => 0))

/-- Head of a frame of length 48 that carries sequence number 1 and the log
`[0xA, 0, ...]`: the length byte, the Glossy header and the first payload
bytes; the bytes after them are zero. -/
def frame_log_A : Nat → Nat := bytes [48, 160, 1, 0, 0, 0, 10, 0]

/-- `receiver_log` after the SFD rose on `frame_log_A`: length, header and
the bytes up to index 40 have been read. -/
def receiving_log : State :=
  (timerb1_interrupt sky (sfd_edge true 2000 0 frame_log_A) receiver_log).getD receiver_log

/-- End of the frame of `receiving_log`: the last five payload bytes, relay
counter 0, RSSI byte, footer byte with the CRC_OK bit set. -/
def end_log : IrqEnv := sfd_edge false 8000 0 (bytes [0, 0, 0, 0, 0, 0, 0, 128])

/-- The SFD rises on the relay transmission. -/
def relay_start : IrqEnv := sfd_edge true 9000 0 (fun _ => 0)

/-- `receiver2` after one complete reception of a frame with payload
`[0x31, 0x32]` and a good CRC: the relay is loaded, its transmission has not
begun. -/
def received2 : State := (timerb1_interrupt sky end_good_crc receiving2).getD receiving2

/-! ## Relations and invariants used in the proofs -/

/-- The state `t` differs from `s` at most in the variables that
`glossy_begin_rx` writes. -/
def RxFrame (s t : State) : Prop :=
  t = { s with
    packet := t.packet, bytes_read := t.bytes_read, ops := t.ops, state := t.state,
    t_rx_start := t.t_rx_start, t_rx_timeout := t.t_rx_timeout,
    packet_len_tmp := t.packet_len_tmp, TBCCR5 := t.TBCCR5, TBCCTL5 := t.TBCCTL5 }

/-- Session invariant behind the transmission bound: the counter is within the
bound, and strictly below it whenever a transmission is pending or under
way. -/
def TxInv (s : State) : Prop :=
  s.tx_cnt ≤ s.tx_max ∧ 1 ≤ s.tx_max ∧ s.tx_max ≤ 255 ∧
    ((s.state = .RECEIVED ∨ s.state = .TRANSMITTING) → s.tx_cnt < s.tx_max)

/-- No frame starts arriving during the invocations `envs` from the state `s`:
whenever the handler is entered in state `WAITING`, the SFD pin is low. -/
def no_reception (cfg : Config) : List IrqEnv → State → Bool
  | [], _ => true
  | e :: es, s =>
    decide (s.state = .WAITING → e.SFD_IS_1 = false)
      && (match timerb1_interrupt cfg e s with
          | none => true
          | some t => no_reception cfg es t)

/-- The length byte `len` of an incoming frame fails the length test at a node
in state `s`: it differs from the known packet length, or is below
`FOOTER_LEN`, or above 127. -/
def bad_len_byte (s : State) (len : Nat) : Prop :=
  (s.packet_len ≠ 0 ∧ len ≠ s.packet_len) ∨ len < FOOTER_LEN ∨ 127 < len

instance (s : State) (len : Nat) : Decidable (bad_len_byte s len) := by
  unfold bad_len_byte
  infer_instance

/-- The frame that starts arriving at the invocation `env`, entered in state
`s`, has its length byte read in time and that byte fails the length test, or
it has an acceptable length byte, its header byte is read in time and that
byte fails the magic test. -/
def bad_frame (cfg : Config) (env : IrqEnv) (s : State) : Bool :=
  match wait_len cfg env s with
  | .ready polls1 =>
    decide (bad_len_byte s (u8 (env.fifo 0)))
      || (match wait_hdr cfg env s polls1 with
          | .ready _ => decide (u8 (env.fifo 1) &&& cfg.GLOSSY_HEADER_MASK ≠ cfg.GLOSSY_HEADER)
          | _ => false)
  | _ => false

/-- Every frame that starts arriving during the invocations `envs` from the
state `s` is a `bad_frame`. -/
def only_bad_frames (cfg : Config) : List IrqEnv → State → Bool
  | [], _ => true
  | e :: es, s =>
    decide (s.state = .WAITING → e.SFD_IS_1 = true → bad_frame cfg e s = true)
      && (match timerb1_interrupt cfg e s with
          | none => true
          | some t => only_bad_frames cfg es t)

/-- Invariant of a node that never accepts a frame: nothing has been received,
no reception is under way between two invocations, and a known packet length
is the length in `packet_len_tmp`. -/
def BadInv (s : State) : Prop :=
  s.rx_cnt = 0 ∧ s.state ≠ .RECEIVING ∧ (s.packet_len ≠ 0 → s.packet_len_tmp = s.packet_len)

/-- The SFD rises at `receiver2` on a frame with length byte 9 instead of 5. -/
def start_wrong_len : IrqEnv := sfd_edge true 2000 0 (bytes [9, 160])

/-- The SFD rises at `receiver2` on a frame with the right length byte and the
header byte `0x50`, whose magic bits are wrong. -/
def start_wrong_hdr : IrqEnv := sfd_edge true 3000 0 (bytes [5, 80])

/-- A session of `receiver2` that sees a frame of the wrong length and then a
frame with the wrong header, each followed by the falling SFD edge. -/
def bad_session : List IrqEnv :=
  [start_wrong_len, sfd_edge false 2600 0 (fun _ => 0), start_wrong_hdr,
   sfd_edge false 3600 0 (fun _ => 0)]

/-- Invariant of an initiator that receives nothing: `rx_cnt` is 0, and
`tx_cnt` is 0 while a transmission is pending or under way and at most 1 while
waiting. -/
def LonelyInv (s : State) : Prop :=
  s.rx_cnt = 0 ∧ s.initiator ≠ 0 ∧ s.tx_cnt ≤ 1
    ∧ (s.state = .WAITING ∨ ((s.state = .RECEIVED ∨ s.state = .TRANSMITTING) ∧ s.tx_cnt = 0))

/-- The number of invocations along the run `envs` from the state `s` at which
`t_ref_l_updated` goes from zero to a non-zero value. -/
def ref_updates (cfg : Config) : List IrqEnv → State → Nat
  | [], _ => 0
  | e :: es, s =>
    match timerb1_interrupt cfg e s with
    | none => 0
    | some t =>
      (if s.t_ref_l_updated = 0 ∧ t.t_ref_l_updated ≠ 0 then 1 else 0) + ref_updates cfg es t

/-- A receiver started with sync as `receiver_sync`, at a node that holds a slot
estimate (`T_slot_h = 1000`) from an earlier session. -/
def receiver_synced : State :=
  glossy_start sky (fun _ => 0) 2 0 1 2 0 0 11 1000 { boot (fun _ => 0) with T_slot_h := 1000 }

/-- End of a frame of length 6: payload `[0x31, 0x32]`, relay counter 0, RSSI
byte, footer byte with the CRC_OK bit set. -/
def end_relay_0 : IrqEnv := sfd_edge false 2700 0 (bytes [49, 50, 0, 0, 128])

/-- A first reception and the start of its relay, at a sync receiver. -/
def first_relay_session : List IrqEnv :=
  [sfd_edge true 2000 0 (bytes [6, 160]), end_relay_0, relay_start]

/-- A receiver started without sync and with `data_len = 0`: it learns the
packet length from the first frame it receives. -/
def receiver_learning : State :=
  glossy_start sky (fun _ => 0) 0 0 0 2 0 0 11 1000 (boot (fun _ => 0))

/-- `receiver_learning` after the SFD rose on a frame with length byte 5 and
the Glossy header. -/
def learning5 : State :=
  (timerb1_interrupt sky (sfd_edge true 2000 0 (bytes [5, 160])) receiver_learning).getD
    receiver_learning

/-- A frame of length 2 (the footer alone) whose first footer byte passes for
a Glossy header, and its end with the CRC_OK bit set. -/
def footer_only_session : List IrqEnv :=
  [sfd_edge true 2000 0 (bytes [2, 160]), sfd_edge false 2200 0 (bytes [128])]

/-- The instantaneous slot estimate as the specification states it, from the
two reception-end timestamps alone:
`((t_rx_stop_tmp - t_rx_stop) mod 2^16) / 2 - packet_len * F_CPU / 31250`, the
difference with the airtime taken like the code takes it. -/
def slot_estimate_spec (cfg : Config) (t_rx_stop_tmp : Nat) (s : State) : Nat :=
  u16 (sub32 (sub16 t_rx_stop_tmp s.t_rx_stop / 2) (airtime_h cfg s))

/-- A sync receiver through a first reception (relay counter 0), the relay of
the frame, and the SFD rising on a second frame. -/
def slot_session : List IrqEnv :=
  [sfd_edge true 2000 0 (bytes [6, 160]), sfd_edge false 2800 0 (bytes [49, 50, 0, 0, 128]),
    sfd_edge true 3400 0 (fun _ => 0), sfd_edge false 4200 0 (fun _ => 0),
    sfd_edge true 4800 0 (bytes [6, 160])]

/-- `receiver_sync` after `slot_session`: the second reception is under way. -/
def second_rx : State := (run sky slot_session receiver_sync).getD receiver_sync

/-- End of the second frame of `slot_session`, with relay counter 2: the frame
sent by the next hop after the relay of `receiver_sync`, which carried 1. -/
def end_relay_2 : IrqEnv := sfd_edge false 5600 0 (bytes [49, 50, 2, 0, 128])

/-- The state on which `glossy_end_rx` calls `estimate_slot_length` at the end
of the second frame of `slot_session`. -/
def at_estimate : State :=
  end_rx_count (end_rx_first end_relay_2 (end_rx_load (end_rx_relay (end_rx_header sky
    (end_rx_drain end_relay_2
      (read_tbiv end_relay_2 (radio_start_tx (irq_entry end_relay_2 second_rx))))))))

/-- `receiver_synced` after its first reception (relay counter 0 received, 1
in the buffer): the relay is loaded. -/
def received_synced : State :=
  (run sky [sfd_edge true 2000 0 (bytes [6, 160]), end_relay_0] receiver_synced).getD
    receiver_synced

/-- An initiator started with sync for the payload `[0x31, 0x32]`,
`tx_max = 2`, at a node that holds a slot estimate (`T_slot_h = 1000`) from an
earlier session, so that the initiator timeout is armed. -/
def initiator_synced : State :=
  glossy_start sky payload12 2 1 1 2 0 0 0 1000 { boot (fun _ => 0) with T_slot_h := 1000 }

/-- `initiator_synced` after its first transmission (SFD up, SFD down), with
nothing received. -/
def initiator_synced_idle : State :=
  (run sky [sfd_edge true 1200 0 (fun _ => 0), sfd_edge false 2000 0 (fun _ => 0)]
    initiator_synced).getD initiator_synced

/-- The configuration `sky` with a DCO-to-LF ratio of `2^17`, above the range
of an `rtimer_clock_t`. -/
def wide_phi : Config := { sky with CLOCK_PHI := 131072 }

/-- Along the run `envs` from the state `s` the counter `rx_cnt` stays below
255 at the entry of every invocation, so that its increment does not wrap. -/
def no_rx_wrap (cfg : Config) : List IrqEnv → State → Bool
  | [], _ => true
  | e :: es, s =>
    decide (s.rx_cnt < 255)
      && (match timerb1_interrupt cfg e s with
          | none => true
          | some t => no_rx_wrap cfg es t)

/-- Along the run `envs` from the state `s` the relay of the first reception
starts: some invocation is entered in state `RECEIVED` with `rx_cnt = 1` and
the SFD pin high, so that the handler runs `glossy_begin_tx` with
`rx_cnt == 1`. -/
def relay_started (cfg : Config) : List IrqEnv → State → Bool
  | [], _ => false
  | e :: es, s =>
    (decide (s.rx_cnt = 1 ∧ s.state = .RECEIVED) && e.SFD_IS_1)
      || (match timerb1_interrupt cfg e s with
          | none => false
          | some t => relay_started cfg es t)

/-- Frames have been received and the relay of the first of them is not
pending: the node is not in state `RECEIVED` with `rx_cnt = 1`, the only state
from which `glossy_begin_tx` copies the payload to the caller. -/
def Settled (s : State) : Prop := 1 ≤ s.rx_cnt ∧ ¬ (s.rx_cnt = 1 ∧ s.state = .RECEIVED)

/-- After the first reception at `receiver2`: the RX timeout fires before the
relay starts, then the relay starts and ends. -/
def relay_after_timeout : List IrqEnv :=
  [compare_irq 10 8000, relay_start, sfd_edge false 9700 0 (fun _ => 0)]

/-- After the first reception at `receiver2`: the relay, then a second frame
with the payload `[0x41, 0x42]` and its relay, which is the last transmission
(`tx_max = 2`). -/
def second_frame_session : List IrqEnv :=
  [relay_start, sfd_edge false 9700 0 (fun _ => 0), sfd_edge true 12000 0 (bytes [5, 160]),
    sfd_edge false 12700 0 (bytes [65, 66, 0, 128]), sfd_edge true 13300 0 (fun _ => 0),
    sfd_edge false 14000 0 (fun _ => 0)]

/-- After the first reception at `receiver2`: an interrupt with no cause the
handler knows, served with the SFD pin low, takes the node back to `WAITING`
before the relay starts. -/
def relay_lost : List IrqEnv := [compare_irq 0 8000, sfd_edge true 12000 0 (bytes [5, 160])]

/-! # Theorems -/

/-! ## Projections through conditionals -/

@[simp] theorem ite_id (c : Prop) [Decidable c] (a b : State) :
    (if c then a else b).id = if c then a.id else b.id := by
  split <;> rfl

@[simp] theorem ite_initiator (c : Prop) [Decidable c] (a b : State) :
    (if c then a else b).initiator = if c then a.initiator else b.initiator := by
  split <;> rfl

@[simp] theorem ite_sync (c : Prop) [Decidable c] (a b : State) :
    (if c then a else b).sync = if c then a.sync else b.sync := by
  split <;> rfl

@[simp] theorem ite_rx_cnt (c : Prop) [Decidable c] (a b : State) :
    (if c then a else b).rx_cnt = if c then a.rx_cnt else b.rx_cnt := by
  split <;> rfl

@[simp] theorem ite_tx_cnt (c : Prop) [Decidable c] (a b : State) :
    (if c then a else b).tx_cnt = if c then a.tx_cnt else b.tx_cnt := by
  split <;> rfl

@[simp] theorem ite_tx_max (c : Prop) [Decidable c] (a b : State) :
    (if c then a else b).tx_max = if c then a.tx_max else b.tx_max := by
  split <;> rfl

@[simp] theorem ite_data_len (c : Prop) [Decidable c] (a b : State) :
    (if c then a else b).data_len = if c then a.data_len else b.data_len := by
  split <;> rfl

@[simp] theorem ite_packet_len (c : Prop) [Decidable c] (a b : State) :
    (if c then a else b).packet_len = if c then a.packet_len else b.packet_len := by
  split <;> rfl

@[simp] theorem ite_packet_len_tmp (c : Prop) [Decidable c] (a b : State) :
    (if c then a else b).packet_len_tmp = if c then a.packet_len_tmp else b.packet_len_tmp := by
  split <;> rfl

@[simp] theorem ite_header (c : Prop) [Decidable c] (a b : State) :
    (if c then a else b).header = if c then a.header else b.header := by
  split <;> rfl

@[simp] theorem ite_bytes_read (c : Prop) [Decidable c] (a b : State) :
    (if c then a else b).bytes_read = if c then a.bytes_read else b.bytes_read := by
  split <;> rfl

@[simp] theorem ite_tx_relay_cnt_last (c : Prop) [Decidable c] (a b : State) :
    (if c then a else b).tx_relay_cnt_last = if c then a.tx_relay_cnt_last else b.tx_relay_cnt_last := by
  split <;> rfl

@[simp] theorem ite_n_timeouts (c : Prop) [Decidable c] (a b : State) :
    (if c then a else b).n_timeouts = if c then a.n_timeouts else b.n_timeouts := by
  split <;> rfl

@[simp] theorem ite_t_rx_start (c : Prop) [Decidable c] (a b : State) :
    (if c then a else b).t_rx_start = if c then a.t_rx_start else b.t_rx_start := by
  split <;> rfl

@[simp] theorem ite_t_rx_stop (c : Prop) [Decidable c] (a b : State) :
    (if c then a else b).t_rx_stop = if c then a.t_rx_stop else b.t_rx_stop := by
  split <;> rfl

@[simp] theorem ite_t_tx_start (c : Prop) [Decidable c] (a b : State) :
    (if c then a else b).t_tx_start = if c then a.t_tx_start else b.t_tx_start := by
  split <;> rfl

@[simp] theorem ite_t_tx_stop (c : Prop) [Decidable c] (a b : State) :
    (if c then a else b).t_tx_stop = if c then a.t_tx_stop else b.t_tx_stop := by
  split <;> rfl

@[simp] theorem ite_t_start (c : Prop) [Decidable c] (a b : State) :
    (if c then a else b).t_start = if c then a.t_start else b.t_start := by
  split <;> rfl

@[simp] theorem ite_t_rx_timeout (c : Prop) [Decidable c] (a b : State) :
    (if c then a else b).t_rx_timeout = if c then a.t_rx_timeout else b.t_rx_timeout := by
  split <;> rfl

@[simp] theorem ite_T_irq (c : Prop) [Decidable c] (a b : State) :
    (if c then a else b).T_irq = if c then a.T_irq else b.T_irq := by
  split <;> rfl

@[simp] theorem ite_t_stop (c : Prop) [Decidable c] (a b : State) :
    (if c then a else b).t_stop = if c then a.t_stop else b.t_stop := by
  split <;> rfl

@[simp] theorem ite_tbiv (c : Prop) [Decidable c] (a b : State) :
    (if c then a else b).tbiv = if c then a.tbiv else b.tbiv := by
  split <;> rfl

@[simp] theorem ite_T_slot_h (c : Prop) [Decidable c] (a b : State) :
    (if c then a else b).T_slot_h = if c then a.T_slot_h else b.T_slot_h := by
  split <;> rfl

@[simp] theorem ite_T_rx_h (c : Prop) [Decidable c] (a b : State) :
    (if c then a else b).T_rx_h = if c then a.T_rx_h else b.T_rx_h := by
  split <;> rfl

@[simp] theorem ite_T_w_rt_h (c : Prop) [Decidable c] (a b : State) :
    (if c then a else b).T_w_rt_h = if c then a.T_w_rt_h else b.T_w_rt_h := by
  split <;> rfl

@[simp] theorem ite_T_tx_h (c : Prop) [Decidable c] (a b : State) :
    (if c then a else b).T_tx_h = if c then a.T_tx_h else b.T_tx_h := by
  split <;> rfl

@[simp] theorem ite_T_w_tr_h (c : Prop) [Decidable c] (a b : State) :
    (if c then a else b).T_w_tr_h = if c then a.T_w_tr_h else b.T_w_tr_h := by
  split <;> rfl

@[simp] theorem ite_t_ref_l (c : Prop) [Decidable c] (a b : State) :
    (if c then a else b).t_ref_l = if c then a.t_ref_l else b.t_ref_l := by
  split <;> rfl

@[simp] theorem ite_T_offset_h (c : Prop) [Decidable c] (a b : State) :
    (if c then a else b).T_offset_h = if c then a.T_offset_h else b.T_offset_h := by
  split <;> rfl

@[simp] theorem ite_t_first_rx_l (c : Prop) [Decidable c] (a b : State) :
    (if c then a else b).t_first_rx_l = if c then a.t_first_rx_l else b.t_first_rx_l := by
  split <;> rfl

@[simp] theorem ite_T_slot_h_sum (c : Prop) [Decidable c] (a b : State) :
    (if c then a else b).T_slot_h_sum = if c then a.T_slot_h_sum else b.T_slot_h_sum := by
  split <;> rfl

@[simp] theorem ite_win_cnt (c : Prop) [Decidable c] (a b : State) :
    (if c then a else b).win_cnt = if c then a.win_cnt else b.win_cnt := by
  split <;> rfl

@[simp] theorem ite_relay_cnt (c : Prop) [Decidable c] (a b : State) :
    (if c then a else b).relay_cnt = if c then a.relay_cnt else b.relay_cnt := by
  split <;> rfl

@[simp] theorem ite_t_ref_l_updated (c : Prop) [Decidable c] (a b : State) :
    (if c then a else b).t_ref_l_updated = if c then a.t_ref_l_updated else b.t_ref_l_updated := by
  split <;> rfl

@[simp] theorem ite_TBCTL (c : Prop) [Decidable c] (a b : State) :
    (if c then a else b).TBCTL = if c then a.TBCTL else b.TBCTL := by
  split <;> rfl

@[simp] theorem ite_TBCCR4 (c : Prop) [Decidable c] (a b : State) :
    (if c then a else b).TBCCR4 = if c then a.TBCCR4 else b.TBCCR4 := by
  split <;> rfl

@[simp] theorem ite_TBCCTL4 (c : Prop) [Decidable c] (a b : State) :
    (if c then a else b).TBCCTL4 = if c then a.TBCCTL4 else b.TBCCTL4 := by
  split <;> rfl

@[simp] theorem ite_TBCCR5 (c : Prop) [Decidable c] (a b : State) :
    (if c then a else b).TBCCR5 = if c then a.TBCCR5 else b.TBCCR5 := by
  split <;> rfl

@[simp] theorem ite_TBCCTL5 (c : Prop) [Decidable c] (a b : State) :
    (if c then a else b).TBCCTL5 = if c then a.TBCCTL5 else b.TBCCTL5 := by
  split <;> rfl

@[simp] theorem ite_data (c : Prop) [Decidable c] (a b : State) :
    (if c then a else b).data = if c then a.data else b.data := by
  split <;> rfl

@[simp] theorem ite_packet (c : Prop) [Decidable c] (a b : State) :
    (if c then a else b).packet = if c then a.packet else b.packet := by
  split <;> rfl

@[simp] theorem ite_state (c : Prop) [Decidable c] (a b : State) :
    (if c then a else b).state = if c then a.state else b.state := by
  split <;> rfl

@[simp] theorem ite_ops (c : Prop) [Decidable c] (a b : State) :
    (if c then a else b).ops = if c then a.ops else b.ops := by
  split <;> rfl


/-! ## Variables each step leaves alone -/

@[simp] theorem emit_keep (s : State) (l : List RadioOp) :
    (emit s l).id = s.id ∧ (emit s l).initiator = s.initiator ∧ (emit s l).sync = s.sync ∧
    (emit s l).rx_cnt = s.rx_cnt ∧ (emit s l).tx_cnt = s.tx_cnt ∧ (emit s l).tx_max = s.tx_max ∧
    (emit s l).data = s.data ∧ (emit s l).packet = s.packet ∧ (emit s l).data_len = s.data_len ∧
    (emit s l).packet_len = s.packet_len ∧ (emit s l).packet_len_tmp = s.packet_len_tmp ∧
    (emit s l).header = s.header ∧ (emit s l).bytes_read = s.bytes_read ∧
    (emit s l).tx_relay_cnt_last = s.tx_relay_cnt_last ∧ (emit s l).n_timeouts = s.n_timeouts ∧
    (emit s l).state = s.state ∧ (emit s l).t_rx_start = s.t_rx_start ∧
    (emit s l).t_rx_stop = s.t_rx_stop ∧ (emit s l).t_tx_start = s.t_tx_start ∧
    (emit s l).t_tx_stop = s.t_tx_stop ∧ (emit s l).t_start = s.t_start ∧
    (emit s l).t_rx_timeout = s.t_rx_timeout ∧ (emit s l).T_irq = s.T_irq ∧
    (emit s l).t_stop = s.t_stop ∧ (emit s l).tbiv = s.tbiv ∧ (emit s l).T_slot_h = s.T_slot_h ∧
    (emit s l).T_rx_h = s.T_rx_h ∧ (emit s l).T_w_rt_h = s.T_w_rt_h ∧
    (emit s l).T_tx_h = s.T_tx_h ∧ (emit s l).T_w_tr_h = s.T_w_tr_h ∧
    (emit s l).t_ref_l = s.t_ref_l ∧ (emit s l).T_offset_h = s.T_offset_h ∧
    (emit s l).t_first_rx_l = s.t_first_rx_l ∧ (emit s l).T_slot_h_sum = s.T_slot_h_sum ∧
    (emit s l).win_cnt = s.win_cnt ∧ (emit s l).relay_cnt = s.relay_cnt ∧
    (emit s l).t_ref_l_updated = s.t_ref_l_updated ∧ (emit s l).TBCTL = s.TBCTL ∧
    (emit s l).TBCCR4 = s.TBCCR4 ∧ (emit s l).TBCCTL4 = s.TBCCTL4 ∧ (emit s l).TBCCR5 = s.TBCCR5 ∧
    (emit s l).TBCCTL5 = s.TBCCTL5 := by
  simp [emit]

@[simp] theorem radio_flush_tx_keep (s : State) :
    (radio_flush_tx s).id = s.id ∧ (radio_flush_tx s).initiator = s.initiator ∧
    (radio_flush_tx s).sync = s.sync ∧ (radio_flush_tx s).rx_cnt = s.rx_cnt ∧
    (radio_flush_tx s).tx_cnt = s.tx_cnt ∧ (radio_flush_tx s).tx_max = s.tx_max ∧
    (radio_flush_tx s).data = s.data ∧ (radio_flush_tx s).packet = s.packet ∧
    (radio_flush_tx s).data_len = s.data_len ∧ (radio_flush_tx s).packet_len = s.packet_len ∧
    (radio_flush_tx s).packet_len_tmp = s.packet_len_tmp ∧ (radio_flush_tx s).header = s.header ∧
    (radio_flush_tx s).bytes_read = s.bytes_read ∧
    (radio_flush_tx s).tx_relay_cnt_last = s.tx_relay_cnt_last ∧
    (radio_flush_tx s).n_timeouts = s.n_timeouts ∧ (radio_flush_tx s).state = s.state ∧
    (radio_flush_tx s).t_rx_start = s.t_rx_start ∧ (radio_flush_tx s).t_rx_stop = s.t_rx_stop ∧
    (radio_flush_tx s).t_tx_start = s.t_tx_start ∧ (radio_flush_tx s).t_tx_stop = s.t_tx_stop ∧
    (radio_flush_tx s).t_start = s.t_start ∧ (radio_flush_tx s).t_rx_timeout = s.t_rx_timeout ∧
    (radio_flush_tx s).T_irq = s.T_irq ∧ (radio_flush_tx s).t_stop = s.t_stop ∧
    (radio_flush_tx s).tbiv = s.tbiv ∧ (radio_flush_tx s).T_slot_h = s.T_slot_h ∧
    (radio_flush_tx s).T_rx_h = s.T_rx_h ∧ (radio_flush_tx s).T_w_rt_h = s.T_w_rt_h ∧
    (radio_flush_tx s).T_tx_h = s.T_tx_h ∧ (radio_flush_tx s).T_w_tr_h = s.T_w_tr_h ∧
    (radio_flush_tx s).t_ref_l = s.t_ref_l ∧ (radio_flush_tx s).T_offset_h = s.T_offset_h ∧
    (radio_flush_tx s).t_first_rx_l = s.t_first_rx_l ∧
    (radio_flush_tx s).T_slot_h_sum = s.T_slot_h_sum ∧ (radio_flush_tx s).win_cnt = s.win_cnt ∧
    (radio_flush_tx s).relay_cnt = s.relay_cnt ∧
    (radio_flush_tx s).t_ref_l_updated = s.t_ref_l_updated ∧ (radio_flush_tx s).TBCTL = s.TBCTL ∧
    (radio_flush_tx s).TBCCR4 = s.TBCCR4 ∧ (radio_flush_tx s).TBCCTL4 = s.TBCCTL4 ∧
    (radio_flush_tx s).TBCCR5 = s.TBCCR5 ∧ (radio_flush_tx s).TBCCTL5 = s.TBCCTL5 := by
  simp [radio_flush_tx, emit]

@[simp] theorem radio_on_keep (s : State) :
    (radio_on s).id = s.id ∧ (radio_on s).initiator = s.initiator ∧ (radio_on s).sync = s.sync ∧
    (radio_on s).rx_cnt = s.rx_cnt ∧ (radio_on s).tx_cnt = s.tx_cnt ∧
    (radio_on s).tx_max = s.tx_max ∧ (radio_on s).data = s.data ∧ (radio_on s).packet = s.packet ∧
    (radio_on s).data_len = s.data_len ∧ (radio_on s).packet_len = s.packet_len ∧
    (radio_on s).packet_len_tmp = s.packet_len_tmp ∧ (radio_on s).header = s.header ∧
    (radio_on s).bytes_read = s.bytes_read ∧
    (radio_on s).tx_relay_cnt_last = s.tx_relay_cnt_last ∧
    (radio_on s).n_timeouts = s.n_timeouts ∧ (radio_on s).state = s.state ∧
    (radio_on s).t_rx_start = s.t_rx_start ∧ (radio_on s).t_rx_stop = s.t_rx_stop ∧
    (radio_on s).t_tx_start = s.t_tx_start ∧ (radio_on s).t_tx_stop = s.t_tx_stop ∧
    (radio_on s).t_start = s.t_start ∧ (radio_on s).t_rx_timeout = s.t_rx_timeout ∧
    (radio_on s).T_irq = s.T_irq ∧ (radio_on s).t_stop = s.t_stop ∧ (radio_on s).tbiv = s.tbiv ∧
    (radio_on s).T_slot_h = s.T_slot_h ∧ (radio_on s).T_rx_h = s.T_rx_h ∧
    (radio_on s).T_w_rt_h = s.T_w_rt_h ∧ (radio_on s).T_tx_h = s.T_tx_h ∧
    (radio_on s).T_w_tr_h = s.T_w_tr_h ∧ (radio_on s).t_ref_l = s.t_ref_l ∧
    (radio_on s).T_offset_h = s.T_offset_h ∧ (radio_on s).t_first_rx_l = s.t_first_rx_l ∧
    (radio_on s).T_slot_h_sum = s.T_slot_h_sum ∧ (radio_on s).win_cnt = s.win_cnt ∧
    (radio_on s).relay_cnt = s.relay_cnt ∧ (radio_on s).t_ref_l_updated = s.t_ref_l_updated ∧
    (radio_on s).TBCTL = s.TBCTL ∧ (radio_on s).TBCCR4 = s.TBCCR4 ∧
    (radio_on s).TBCCTL4 = s.TBCCTL4 ∧ (radio_on s).TBCCR5 = s.TBCCR5 ∧
    (radio_on s).TBCCTL5 = s.TBCCTL5 := by
  simp [radio_on, emit]

@[simp] theorem radio_off_keep (s : State) :
    (radio_off s).id = s.id ∧ (radio_off s).initiator = s.initiator ∧
    (radio_off s).sync = s.sync ∧ (radio_off s).rx_cnt = s.rx_cnt ∧
    (radio_off s).tx_cnt = s.tx_cnt ∧ (radio_off s).tx_max = s.tx_max ∧
    (radio_off s).data = s.data ∧ (radio_off s).packet = s.packet ∧
    (radio_off s).data_len = s.data_len ∧ (radio_off s).packet_len = s.packet_len ∧
    (radio_off s).packet_len_tmp = s.packet_len_tmp ∧ (radio_off s).header = s.header ∧
    (radio_off s).bytes_read = s.bytes_read ∧
    (radio_off s).tx_relay_cnt_last = s.tx_relay_cnt_last ∧
    (radio_off s).n_timeouts = s.n_timeouts ∧ (radio_off s).state = s.state ∧
    (radio_off s).t_rx_start = s.t_rx_start ∧ (radio_off s).t_rx_stop = s.t_rx_stop ∧
    (radio_off s).t_tx_start = s.t_tx_start ∧ (radio_off s).t_tx_stop = s.t_tx_stop ∧
    (radio_off s).t_start = s.t_start ∧ (radio_off s).t_rx_timeout = s.t_rx_timeout ∧
    (radio_off s).T_irq = s.T_irq ∧ (radio_off s).t_stop = s.t_stop ∧
    (radio_off s).tbiv = s.tbiv ∧ (radio_off s).T_slot_h = s.T_slot_h ∧
    (radio_off s).T_rx_h = s.T_rx_h ∧ (radio_off s).T_w_rt_h = s.T_w_rt_h ∧
    (radio_off s).T_tx_h = s.T_tx_h ∧ (radio_off s).T_w_tr_h = s.T_w_tr_h ∧
    (radio_off s).t_ref_l = s.t_ref_l ∧ (radio_off s).T_offset_h = s.T_offset_h ∧
    (radio_off s).t_first_rx_l = s.t_first_rx_l ∧ (radio_off s).T_slot_h_sum = s.T_slot_h_sum ∧
    (radio_off s).win_cnt = s.win_cnt ∧ (radio_off s).relay_cnt = s.relay_cnt ∧
    (radio_off s).t_ref_l_updated = s.t_ref_l_updated ∧ (radio_off s).TBCTL = s.TBCTL ∧
    (radio_off s).TBCCR4 = s.TBCCR4 ∧ (radio_off s).TBCCTL4 = s.TBCCTL4 ∧
    (radio_off s).TBCCR5 = s.TBCCR5 ∧ (radio_off s).TBCCTL5 = s.TBCCTL5 := by
  simp [radio_off, emit]

@[simp] theorem radio_flush_rx_keep (s : State) :
    (radio_flush_rx s).id = s.id ∧ (radio_flush_rx s).initiator = s.initiator ∧
    (radio_flush_rx s).sync = s.sync ∧ (radio_flush_rx s).rx_cnt = s.rx_cnt ∧
    (radio_flush_rx s).tx_cnt = s.tx_cnt ∧ (radio_flush_rx s).tx_max = s.tx_max ∧
    (radio_flush_rx s).data = s.data ∧ (radio_flush_rx s).packet = s.packet ∧
    (radio_flush_rx s).data_len = s.data_len ∧ (radio_flush_rx s).packet_len = s.packet_len ∧
    (radio_flush_rx s).packet_len_tmp = s.packet_len_tmp ∧ (radio_flush_rx s).header = s.header ∧
    (radio_flush_rx s).bytes_read = s.bytes_read ∧
    (radio_flush_rx s).tx_relay_cnt_last = s.tx_relay_cnt_last ∧
    (radio_flush_rx s).n_timeouts = s.n_timeouts ∧ (radio_flush_rx s).state = s.state ∧
    (radio_flush_rx s).t_rx_start = s.t_rx_start ∧ (radio_flush_rx s).t_rx_stop = s.t_rx_stop ∧
    (radio_flush_rx s).t_tx_start = s.t_tx_start ∧ (radio_flush_rx s).t_tx_stop = s.t_tx_stop ∧
    (radio_flush_rx s).t_start = s.t_start ∧ (radio_flush_rx s).t_rx_timeout = s.t_rx_timeout ∧
    (radio_flush_rx s).T_irq = s.T_irq ∧ (radio_flush_rx s).t_stop = s.t_stop ∧
    (radio_flush_rx s).tbiv = s.tbiv ∧ (radio_flush_rx s).T_slot_h = s.T_slot_h ∧
    (radio_flush_rx s).T_rx_h = s.T_rx_h ∧ (radio_flush_rx s).T_w_rt_h = s.T_w_rt_h ∧
    (radio_flush_rx s).T_tx_h = s.T_tx_h ∧ (radio_flush_rx s).T_w_tr_h = s.T_w_tr_h ∧
    (radio_flush_rx s).t_ref_l = s.t_ref_l ∧ (radio_flush_rx s).T_offset_h = s.T_offset_h ∧
    (radio_flush_rx s).t_first_rx_l = s.t_first_rx_l ∧
    (radio_flush_rx s).T_slot_h_sum = s.T_slot_h_sum ∧ (radio_flush_rx s).win_cnt = s.win_cnt ∧
    (radio_flush_rx s).relay_cnt = s.relay_cnt ∧
    (radio_flush_rx s).t_ref_l_updated = s.t_ref_l_updated ∧ (radio_flush_rx s).TBCTL = s.TBCTL ∧
    (radio_flush_rx s).TBCCR4 = s.TBCCR4 ∧ (radio_flush_rx s).TBCCTL4 = s.TBCCTL4 ∧
    (radio_flush_rx s).TBCCR5 = s.TBCCR5 ∧ (radio_flush_rx s).TBCCTL5 = s.TBCCTL5 := by
  simp [radio_flush_rx, emit]

@[simp] theorem radio_abort_rx_keep (s : State) :
    (radio_abort_rx s).id = s.id ∧ (radio_abort_rx s).initiator = s.initiator ∧
    (radio_abort_rx s).sync = s.sync ∧ (radio_abort_rx s).rx_cnt = s.rx_cnt ∧
    (radio_abort_rx s).tx_cnt = s.tx_cnt ∧ (radio_abort_rx s).tx_max = s.tx_max ∧
    (radio_abort_rx s).data = s.data ∧ (radio_abort_rx s).packet = s.packet ∧
    (radio_abort_rx s).data_len = s.data_len ∧ (radio_abort_rx s).packet_len = s.packet_len ∧
    (radio_abort_rx s).packet_len_tmp = s.packet_len_tmp ∧ (radio_abort_rx s).header = s.header ∧
    (radio_abort_rx s).bytes_read = s.bytes_read ∧
    (radio_abort_rx s).tx_relay_cnt_last = s.tx_relay_cnt_last ∧
    (radio_abort_rx s).n_timeouts = s.n_timeouts ∧ (radio_abort_rx s).t_rx_start = s.t_rx_start ∧
    (radio_abort_rx s).t_rx_stop = s.t_rx_stop ∧ (radio_abort_rx s).t_tx_start = s.t_tx_start ∧
    (radio_abort_rx s).t_tx_stop = s.t_tx_stop ∧ (radio_abort_rx s).t_start = s.t_start ∧
    (radio_abort_rx s).t_rx_timeout = s.t_rx_timeout ∧ (radio_abort_rx s).T_irq = s.T_irq ∧
    (radio_abort_rx s).t_stop = s.t_stop ∧ (radio_abort_rx s).tbiv = s.tbiv ∧
    (radio_abort_rx s).T_slot_h = s.T_slot_h ∧ (radio_abort_rx s).T_rx_h = s.T_rx_h ∧
    (radio_abort_rx s).T_w_rt_h = s.T_w_rt_h ∧ (radio_abort_rx s).T_tx_h = s.T_tx_h ∧
    (radio_abort_rx s).T_w_tr_h = s.T_w_tr_h ∧ (radio_abort_rx s).t_ref_l = s.t_ref_l ∧
    (radio_abort_rx s).T_offset_h = s.T_offset_h ∧
    (radio_abort_rx s).t_first_rx_l = s.t_first_rx_l ∧
    (radio_abort_rx s).T_slot_h_sum = s.T_slot_h_sum ∧ (radio_abort_rx s).win_cnt = s.win_cnt ∧
    (radio_abort_rx s).relay_cnt = s.relay_cnt ∧
    (radio_abort_rx s).t_ref_l_updated = s.t_ref_l_updated ∧ (radio_abort_rx s).TBCTL = s.TBCTL ∧
    (radio_abort_rx s).TBCCR4 = s.TBCCR4 ∧ (radio_abort_rx s).TBCCTL4 = s.TBCCTL4 ∧
    (radio_abort_rx s).TBCCR5 = s.TBCCR5 ∧ (radio_abort_rx s).TBCCTL5 = s.TBCCTL5 := by
  simp [radio_abort_rx, radio_flush_rx, emit]

@[simp] theorem radio_abort_tx_keep (s : State) :
    (radio_abort_tx s).id = s.id ∧ (radio_abort_tx s).initiator = s.initiator ∧
    (radio_abort_tx s).sync = s.sync ∧ (radio_abort_tx s).rx_cnt = s.rx_cnt ∧
    (radio_abort_tx s).tx_cnt = s.tx_cnt ∧ (radio_abort_tx s).tx_max = s.tx_max ∧
    (radio_abort_tx s).data = s.data ∧ (radio_abort_tx s).packet = s.packet ∧
    (radio_abort_tx s).data_len = s.data_len ∧ (radio_abort_tx s).packet_len = s.packet_len ∧
    (radio_abort_tx s).packet_len_tmp = s.packet_len_tmp ∧ (radio_abort_tx s).header = s.header ∧
    (radio_abort_tx s).bytes_read = s.bytes_read ∧
    (radio_abort_tx s).tx_relay_cnt_last = s.tx_relay_cnt_last ∧
    (radio_abort_tx s).n_timeouts = s.n_timeouts ∧ (radio_abort_tx s).state = s.state ∧
    (radio_abort_tx s).t_rx_start = s.t_rx_start ∧ (radio_abort_tx s).t_rx_stop = s.t_rx_stop ∧
    (radio_abort_tx s).t_tx_start = s.t_tx_start ∧ (radio_abort_tx s).t_tx_stop = s.t_tx_stop ∧
    (radio_abort_tx s).t_start = s.t_start ∧ (radio_abort_tx s).t_rx_timeout = s.t_rx_timeout ∧
    (radio_abort_tx s).T_irq = s.T_irq ∧ (radio_abort_tx s).t_stop = s.t_stop ∧
    (radio_abort_tx s).tbiv = s.tbiv ∧ (radio_abort_tx s).T_slot_h = s.T_slot_h ∧
    (radio_abort_tx s).T_rx_h = s.T_rx_h ∧ (radio_abort_tx s).T_w_rt_h = s.T_w_rt_h ∧
    (radio_abort_tx s).T_tx_h = s.T_tx_h ∧ (radio_abort_tx s).T_w_tr_h = s.T_w_tr_h ∧
    (radio_abort_tx s).t_ref_l = s.t_ref_l ∧ (radio_abort_tx s).T_offset_h = s.T_offset_h ∧
    (radio_abort_tx s).t_first_rx_l = s.t_first_rx_l ∧
    (radio_abort_tx s).T_slot_h_sum = s.T_slot_h_sum ∧ (radio_abort_tx s).win_cnt = s.win_cnt ∧
    (radio_abort_tx s).relay_cnt = s.relay_cnt ∧
    (radio_abort_tx s).t_ref_l_updated = s.t_ref_l_updated ∧ (radio_abort_tx s).TBCTL = s.TBCTL ∧
    (radio_abort_tx s).TBCCR4 = s.TBCCR4 ∧ (radio_abort_tx s).TBCCTL4 = s.TBCCTL4 ∧
    (radio_abort_tx s).TBCCR5 = s.TBCCR5 ∧ (radio_abort_tx s).TBCCTL5 = s.TBCCTL5 := by
  simp [radio_abort_tx, radio_flush_rx, emit]

@[simp] theorem radio_start_tx_keep (s : State) :
    (radio_start_tx s).id = s.id ∧ (radio_start_tx s).initiator = s.initiator ∧
    (radio_start_tx s).sync = s.sync ∧ (radio_start_tx s).rx_cnt = s.rx_cnt ∧
    (radio_start_tx s).tx_cnt = s.tx_cnt ∧ (radio_start_tx s).tx_max = s.tx_max ∧
    (radio_start_tx s).data = s.data ∧ (radio_start_tx s).packet = s.packet ∧
    (radio_start_tx s).data_len = s.data_len ∧ (radio_start_tx s).packet_len = s.packet_len ∧
    (radio_start_tx s).packet_len_tmp = s.packet_len_tmp ∧ (radio_start_tx s).header = s.header ∧
    (radio_start_tx s).bytes_read = s.bytes_read ∧
    (radio_start_tx s).tx_relay_cnt_last = s.tx_relay_cnt_last ∧
    (radio_start_tx s).n_timeouts = s.n_timeouts ∧ (radio_start_tx s).state = s.state ∧
    (radio_start_tx s).t_rx_start = s.t_rx_start ∧ (radio_start_tx s).t_rx_stop = s.t_rx_stop ∧
    (radio_start_tx s).t_tx_start = s.t_tx_start ∧ (radio_start_tx s).t_tx_stop = s.t_tx_stop ∧
    (radio_start_tx s).t_start = s.t_start ∧ (radio_start_tx s).t_rx_timeout = s.t_rx_timeout ∧
    (radio_start_tx s).T_irq = s.T_irq ∧ (radio_start_tx s).t_stop = s.t_stop ∧
    (radio_start_tx s).tbiv = s.tbiv ∧ (radio_start_tx s).T_slot_h = s.T_slot_h ∧
    (radio_start_tx s).T_rx_h = s.T_rx_h ∧ (radio_start_tx s).T_w_rt_h = s.T_w_rt_h ∧
    (radio_start_tx s).T_tx_h = s.T_tx_h ∧ (radio_start_tx s).T_w_tr_h = s.T_w_tr_h ∧
    (radio_start_tx s).t_ref_l = s.t_ref_l ∧ (radio_start_tx s).T_offset_h = s.T_offset_h ∧
    (radio_start_tx s).t_first_rx_l = s.t_first_rx_l ∧
    (radio_start_tx s).T_slot_h_sum = s.T_slot_h_sum ∧ (radio_start_tx s).win_cnt = s.win_cnt ∧
    (radio_start_tx s).relay_cnt = s.relay_cnt ∧
    (radio_start_tx s).t_ref_l_updated = s.t_ref_l_updated ∧ (radio_start_tx s).TBCTL = s.TBCTL ∧
    (radio_start_tx s).TBCCR4 = s.TBCCR4 ∧ (radio_start_tx s).TBCCTL4 = s.TBCCTL4 ∧
    (radio_start_tx s).TBCCR5 = s.TBCCR5 ∧ (radio_start_tx s).TBCCTL5 = s.TBCCTL5 := by
  simp [radio_start_tx, emit]

@[simp] theorem radio_write_tx_keep (s : State) :
    (radio_write_tx s).id = s.id ∧ (radio_write_tx s).initiator = s.initiator ∧
    (radio_write_tx s).sync = s.sync ∧ (radio_write_tx s).rx_cnt = s.rx_cnt ∧
    (radio_write_tx s).tx_cnt = s.tx_cnt ∧ (radio_write_tx s).tx_max = s.tx_max ∧
    (radio_write_tx s).data = s.data ∧ (radio_write_tx s).packet = s.packet ∧
    (radio_write_tx s).data_len = s.data_len ∧ (radio_write_tx s).packet_len = s.packet_len ∧
    (radio_write_tx s).packet_len_tmp = s.packet_len_tmp ∧ (radio_write_tx s).header = s.header ∧
    (radio_write_tx s).bytes_read = s.bytes_read ∧
    (radio_write_tx s).tx_relay_cnt_last = s.tx_relay_cnt_last ∧
    (radio_write_tx s).n_timeouts = s.n_timeouts ∧ (radio_write_tx s).state = s.state ∧
    (radio_write_tx s).t_rx_start = s.t_rx_start ∧ (radio_write_tx s).t_rx_stop = s.t_rx_stop ∧
    (radio_write_tx s).t_tx_start = s.t_tx_start ∧ (radio_write_tx s).t_tx_stop = s.t_tx_stop ∧
    (radio_write_tx s).t_start = s.t_start ∧ (radio_write_tx s).t_rx_timeout = s.t_rx_timeout ∧
    (radio_write_tx s).T_irq = s.T_irq ∧ (radio_write_tx s).t_stop = s.t_stop ∧
    (radio_write_tx s).tbiv = s.tbiv ∧ (radio_write_tx s).T_slot_h = s.T_slot_h ∧
    (radio_write_tx s).T_rx_h = s.T_rx_h ∧ (radio_write_tx s).T_w_rt_h = s.T_w_rt_h ∧
    (radio_write_tx s).T_tx_h = s.T_tx_h ∧ (radio_write_tx s).T_w_tr_h = s.T_w_tr_h ∧
    (radio_write_tx s).t_ref_l = s.t_ref_l ∧ (radio_write_tx s).T_offset_h = s.T_offset_h ∧
    (radio_write_tx s).t_first_rx_l = s.t_first_rx_l ∧
    (radio_write_tx s).T_slot_h_sum = s.T_slot_h_sum ∧ (radio_write_tx s).win_cnt = s.win_cnt ∧
    (radio_write_tx s).relay_cnt = s.relay_cnt ∧
    (radio_write_tx s).t_ref_l_updated = s.t_ref_l_updated ∧ (radio_write_tx s).TBCTL = s.TBCTL ∧
    (radio_write_tx s).TBCCR4 = s.TBCCR4 ∧ (radio_write_tx s).TBCCTL4 = s.TBCCTL4 ∧
    (radio_write_tx s).TBCCR5 = s.TBCCR5 ∧ (radio_write_tx s).TBCCTL5 = s.TBCCTL5 := by
  simp [radio_write_tx, emit]

@[simp] theorem glossy_schedule_rx_timeout_keep (cfg : Config) (s : State) :
    (glossy_schedule_rx_timeout cfg s).id = s.id ∧
    (glossy_schedule_rx_timeout cfg s).initiator = s.initiator ∧
    (glossy_schedule_rx_timeout cfg s).sync = s.sync ∧
    (glossy_schedule_rx_timeout cfg s).rx_cnt = s.rx_cnt ∧
    (glossy_schedule_rx_timeout cfg s).tx_cnt = s.tx_cnt ∧
    (glossy_schedule_rx_timeout cfg s).tx_max = s.tx_max ∧
    (glossy_schedule_rx_timeout cfg s).data = s.data ∧
    (glossy_schedule_rx_timeout cfg s).packet = s.packet ∧
    (glossy_schedule_rx_timeout cfg s).data_len = s.data_len ∧
    (glossy_schedule_rx_timeout cfg s).packet_len = s.packet_len ∧
    (glossy_schedule_rx_timeout cfg s).packet_len_tmp = s.packet_len_tmp ∧
    (glossy_schedule_rx_timeout cfg s).header = s.header ∧
    (glossy_schedule_rx_timeout cfg s).bytes_read = s.bytes_read ∧
    (glossy_schedule_rx_timeout cfg s).tx_relay_cnt_last = s.tx_relay_cnt_last ∧
    (glossy_schedule_rx_timeout cfg s).n_timeouts = s.n_timeouts ∧
    (glossy_schedule_rx_timeout cfg s).state = s.state ∧
    (glossy_schedule_rx_timeout cfg s).t_rx_start = s.t_rx_start ∧
    (glossy_schedule_rx_timeout cfg s).t_rx_stop = s.t_rx_stop ∧
    (glossy_schedule_rx_timeout cfg s).t_tx_start = s.t_tx_start ∧
    (glossy_schedule_rx_timeout cfg s).t_tx_stop = s.t_tx_stop ∧
    (glossy_schedule_rx_timeout cfg s).t_start = s.t_start ∧
    (glossy_schedule_rx_timeout cfg s).t_rx_timeout = s.t_rx_timeout ∧
    (glossy_schedule_rx_timeout cfg s).T_irq = s.T_irq ∧
    (glossy_schedule_rx_timeout cfg s).t_stop = s.t_stop ∧
    (glossy_schedule_rx_timeout cfg s).tbiv = s.tbiv ∧
    (glossy_schedule_rx_timeout cfg s).T_slot_h = s.T_slot_h ∧
    (glossy_schedule_rx_timeout cfg s).T_rx_h = s.T_rx_h ∧
    (glossy_schedule_rx_timeout cfg s).T_w_rt_h = s.T_w_rt_h ∧
    (glossy_schedule_rx_timeout cfg s).T_tx_h = s.T_tx_h ∧
    (glossy_schedule_rx_timeout cfg s).T_w_tr_h = s.T_w_tr_h ∧
    (glossy_schedule_rx_timeout cfg s).t_ref_l = s.t_ref_l ∧
    (glossy_schedule_rx_timeout cfg s).T_offset_h = s.T_offset_h ∧
    (glossy_schedule_rx_timeout cfg s).t_first_rx_l = s.t_first_rx_l ∧
    (glossy_schedule_rx_timeout cfg s).T_slot_h_sum = s.T_slot_h_sum ∧
    (glossy_schedule_rx_timeout cfg s).win_cnt = s.win_cnt ∧
    (glossy_schedule_rx_timeout cfg s).relay_cnt = s.relay_cnt ∧
    (glossy_schedule_rx_timeout cfg s).t_ref_l_updated = s.t_ref_l_updated ∧
    (glossy_schedule_rx_timeout cfg s).TBCTL = s.TBCTL ∧
    (glossy_schedule_rx_timeout cfg s).TBCCR4 = s.TBCCR4 ∧
    (glossy_schedule_rx_timeout cfg s).TBCCTL4 = s.TBCCTL4 ∧
    (glossy_schedule_rx_timeout cfg s).ops = s.ops := by
  simp [glossy_schedule_rx_timeout]

@[simp] theorem glossy_stop_rx_timeout_keep (s : State) :
    (glossy_stop_rx_timeout s).id = s.id ∧ (glossy_stop_rx_timeout s).initiator = s.initiator ∧
    (glossy_stop_rx_timeout s).sync = s.sync ∧ (glossy_stop_rx_timeout s).rx_cnt = s.rx_cnt ∧
    (glossy_stop_rx_timeout s).tx_cnt = s.tx_cnt ∧ (glossy_stop_rx_timeout s).tx_max = s.tx_max ∧
    (glossy_stop_rx_timeout s).data = s.data ∧ (glossy_stop_rx_timeout s).packet = s.packet ∧
    (glossy_stop_rx_timeout s).data_len = s.data_len ∧
    (glossy_stop_rx_timeout s).packet_len = s.packet_len ∧
    (glossy_stop_rx_timeout s).packet_len_tmp = s.packet_len_tmp ∧
    (glossy_stop_rx_timeout s).header = s.header ∧
    (glossy_stop_rx_timeout s).bytes_read = s.bytes_read ∧
    (glossy_stop_rx_timeout s).tx_relay_cnt_last = s.tx_relay_cnt_last ∧
    (glossy_stop_rx_timeout s).n_timeouts = s.n_timeouts ∧
    (glossy_stop_rx_timeout s).state = s.state ∧
    (glossy_stop_rx_timeout s).t_rx_start = s.t_rx_start ∧
    (glossy_stop_rx_timeout s).t_rx_stop = s.t_rx_stop ∧
    (glossy_stop_rx_timeout s).t_tx_start = s.t_tx_start ∧
    (glossy_stop_rx_timeout s).t_tx_stop = s.t_tx_stop ∧
    (glossy_stop_rx_timeout s).t_start = s.t_start ∧
    (glossy_stop_rx_timeout s).t_rx_timeout = s.t_rx_timeout ∧
    (glossy_stop_rx_timeout s).T_irq = s.T_irq ∧ (glossy_stop_rx_timeout s).t_stop = s.t_stop ∧
    (glossy_stop_rx_timeout s).tbiv = s.tbiv ∧ (glossy_stop_rx_timeout s).T_slot_h = s.T_slot_h ∧
    (glossy_stop_rx_timeout s).T_rx_h = s.T_rx_h ∧
    (glossy_stop_rx_timeout s).T_w_rt_h = s.T_w_rt_h ∧
    (glossy_stop_rx_timeout s).T_tx_h = s.T_tx_h ∧
    (glossy_stop_rx_timeout s).T_w_tr_h = s.T_w_tr_h ∧
    (glossy_stop_rx_timeout s).t_ref_l = s.t_ref_l ∧
    (glossy_stop_rx_timeout s).T_offset_h = s.T_offset_h ∧
    (glossy_stop_rx_timeout s).t_first_rx_l = s.t_first_rx_l ∧
    (glossy_stop_rx_timeout s).T_slot_h_sum = s.T_slot_h_sum ∧
    (glossy_stop_rx_timeout s).win_cnt = s.win_cnt ∧
    (glossy_stop_rx_timeout s).relay_cnt = s.relay_cnt ∧
    (glossy_stop_rx_timeout s).t_ref_l_updated = s.t_ref_l_updated ∧
    (glossy_stop_rx_timeout s).TBCTL = s.TBCTL ∧ (glossy_stop_rx_timeout s).TBCCR4 = s.TBCCR4 ∧
    (glossy_stop_rx_timeout s).TBCCTL4 = s.TBCCTL4 ∧
    (glossy_stop_rx_timeout s).TBCCR5 = s.TBCCR5 ∧ (glossy_stop_rx_timeout s).ops = s.ops := by
  simp [glossy_stop_rx_timeout]

@[simp] theorem glossy_schedule_initiator_timeout_keep (cfg : Config) (s : State) :
    (glossy_schedule_initiator_timeout cfg s).id = s.id ∧
    (glossy_schedule_initiator_timeout cfg s).initiator = s.initiator ∧
    (glossy_schedule_initiator_timeout cfg s).sync = s.sync ∧
    (glossy_schedule_initiator_timeout cfg s).rx_cnt = s.rx_cnt ∧
    (glossy_schedule_initiator_timeout cfg s).tx_cnt = s.tx_cnt ∧
    (glossy_schedule_initiator_timeout cfg s).tx_max = s.tx_max ∧
    (glossy_schedule_initiator_timeout cfg s).data = s.data ∧
    (glossy_schedule_initiator_timeout cfg s).packet = s.packet ∧
    (glossy_schedule_initiator_timeout cfg s).data_len = s.data_len ∧
    (glossy_schedule_initiator_timeout cfg s).packet_len = s.packet_len ∧
    (glossy_schedule_initiator_timeout cfg s).packet_len_tmp = s.packet_len_tmp ∧
    (glossy_schedule_initiator_timeout cfg s).header = s.header ∧
    (glossy_schedule_initiator_timeout cfg s).bytes_read = s.bytes_read ∧
    (glossy_schedule_initiator_timeout cfg s).tx_relay_cnt_last = s.tx_relay_cnt_last ∧
    (glossy_schedule_initiator_timeout cfg s).n_timeouts = s.n_timeouts ∧
    (glossy_schedule_initiator_timeout cfg s).state = s.state ∧
    (glossy_schedule_initiator_timeout cfg s).t_rx_start = s.t_rx_start ∧
    (glossy_schedule_initiator_timeout cfg s).t_rx_stop = s.t_rx_stop ∧
    (glossy_schedule_initiator_timeout cfg s).t_tx_start = s.t_tx_start ∧
    (glossy_schedule_initiator_timeout cfg s).t_tx_stop = s.t_tx_stop ∧
    (glossy_schedule_initiator_timeout cfg s).t_start = s.t_start ∧
    (glossy_schedule_initiator_timeout cfg s).t_rx_timeout = s.t_rx_timeout ∧
    (glossy_schedule_initiator_timeout cfg s).T_irq = s.T_irq ∧
    (glossy_schedule_initiator_timeout cfg s).t_stop = s.t_stop ∧
    (glossy_schedule_initiator_timeout cfg s).tbiv = s.tbiv ∧
    (glossy_schedule_initiator_timeout cfg s).T_slot_h = s.T_slot_h ∧
    (glossy_schedule_initiator_timeout cfg s).T_rx_h = s.T_rx_h ∧
    (glossy_schedule_initiator_timeout cfg s).T_w_rt_h = s.T_w_rt_h ∧
    (glossy_schedule_initiator_timeout cfg s).T_tx_h = s.T_tx_h ∧
    (glossy_schedule_initiator_timeout cfg s).T_w_tr_h = s.T_w_tr_h ∧
    (glossy_schedule_initiator_timeout cfg s).t_ref_l = s.t_ref_l ∧
    (glossy_schedule_initiator_timeout cfg s).T_offset_h = s.T_offset_h ∧
    (glossy_schedule_initiator_timeout cfg s).t_first_rx_l = s.t_first_rx_l ∧
    (glossy_schedule_initiator_timeout cfg s).T_slot_h_sum = s.T_slot_h_sum ∧
    (glossy_schedule_initiator_timeout cfg s).win_cnt = s.win_cnt ∧
    (glossy_schedule_initiator_timeout cfg s).relay_cnt = s.relay_cnt ∧
    (glossy_schedule_initiator_timeout cfg s).t_ref_l_updated = s.t_ref_l_updated ∧
    (glossy_schedule_initiator_timeout cfg s).TBCTL = s.TBCTL ∧
    (glossy_schedule_initiator_timeout cfg s).TBCCR5 = s.TBCCR5 ∧
    (glossy_schedule_initiator_timeout cfg s).TBCCTL5 = s.TBCCTL5 ∧
    (glossy_schedule_initiator_timeout cfg s).ops = s.ops := by
  simp [glossy_schedule_initiator_timeout]

@[simp] theorem glossy_stop_initiator_timeout_keep (s : State) :
    (glossy_stop_initiator_timeout s).id = s.id ∧
    (glossy_stop_initiator_timeout s).initiator = s.initiator ∧
    (glossy_stop_initiator_timeout s).sync = s.sync ∧
    (glossy_stop_initiator_timeout s).rx_cnt = s.rx_cnt ∧
    (glossy_stop_initiator_timeout s).tx_cnt = s.tx_cnt ∧
    (glossy_stop_initiator_timeout s).tx_max = s.tx_max ∧
    (glossy_stop_initiator_timeout s).data = s.data ∧
    (glossy_stop_initiator_timeout s).packet = s.packet ∧
    (glossy_stop_initiator_timeout s).data_len = s.data_len ∧
    (glossy_stop_initiator_timeout s).packet_len = s.packet_len ∧
    (glossy_stop_initiator_timeout s).packet_len_tmp = s.packet_len_tmp ∧
    (glossy_stop_initiator_timeout s).header = s.header ∧
    (glossy_stop_initiator_timeout s).bytes_read = s.bytes_read ∧
    (glossy_stop_initiator_timeout s).tx_relay_cnt_last = s.tx_relay_cnt_last ∧
    (glossy_stop_initiator_timeout s).n_timeouts = s.n_timeouts ∧
    (glossy_stop_initiator_timeout s).state = s.state ∧
    (glossy_stop_initiator_timeout s).t_rx_start = s.t_rx_start ∧
    (glossy_stop_initiator_timeout s).t_rx_stop = s.t_rx_stop ∧
    (glossy_stop_initiator_timeout s).t_tx_start = s.t_tx_start ∧
    (glossy_stop_initiator_timeout s).t_tx_stop = s.t_tx_stop ∧
    (glossy_stop_initiator_timeout s).t_start = s.t_start ∧
    (glossy_stop_initiator_timeout s).t_rx_timeout = s.t_rx_timeout ∧
    (glossy_stop_initiator_timeout s).T_irq = s.T_irq ∧
    (glossy_stop_initiator_timeout s).t_stop = s.t_stop ∧
    (glossy_stop_initiator_timeout s).tbiv = s.tbiv ∧
    (glossy_stop_initiator_timeout s).T_slot_h = s.T_slot_h ∧
    (glossy_stop_initiator_timeout s).T_rx_h = s.T_rx_h ∧
    (glossy_stop_initiator_timeout s).T_w_rt_h = s.T_w_rt_h ∧
    (glossy_stop_initiator_timeout s).T_tx_h = s.T_tx_h ∧
    (glossy_stop_initiator_timeout s).T_w_tr_h = s.T_w_tr_h ∧
    (glossy_stop_initiator_timeout s).t_ref_l = s.t_ref_l ∧
    (glossy_stop_initiator_timeout s).T_offset_h = s.T_offset_h ∧
    (glossy_stop_initiator_timeout s).t_first_rx_l = s.t_first_rx_l ∧
    (glossy_stop_initiator_timeout s).T_slot_h_sum = s.T_slot_h_sum ∧
    (glossy_stop_initiator_timeout s).win_cnt = s.win_cnt ∧
    (glossy_stop_initiator_timeout s).relay_cnt = s.relay_cnt ∧
    (glossy_stop_initiator_timeout s).t_ref_l_updated = s.t_ref_l_updated ∧
    (glossy_stop_initiator_timeout s).TBCTL = s.TBCTL ∧
    (glossy_stop_initiator_timeout s).TBCCR4 = s.TBCCR4 ∧
    (glossy_stop_initiator_timeout s).TBCCR5 = s.TBCCR5 ∧
    (glossy_stop_initiator_timeout s).TBCCTL5 = s.TBCCTL5 ∧
    (glossy_stop_initiator_timeout s).ops = s.ops := by
  simp [glossy_stop_initiator_timeout]

@[simp] theorem estimate_slot_length_keep (cfg : Config) (x : Nat) (s : State) :
    (estimate_slot_length cfg x s).id = s.id ∧
    (estimate_slot_length cfg x s).initiator = s.initiator ∧
    (estimate_slot_length cfg x s).sync = s.sync ∧
    (estimate_slot_length cfg x s).rx_cnt = s.rx_cnt ∧
    (estimate_slot_length cfg x s).tx_cnt = s.tx_cnt ∧
    (estimate_slot_length cfg x s).tx_max = s.tx_max ∧
    (estimate_slot_length cfg x s).data = s.data ∧
    (estimate_slot_length cfg x s).packet = s.packet ∧
    (estimate_slot_length cfg x s).data_len = s.data_len ∧
    (estimate_slot_length cfg x s).packet_len = s.packet_len ∧
    (estimate_slot_length cfg x s).packet_len_tmp = s.packet_len_tmp ∧
    (estimate_slot_length cfg x s).header = s.header ∧
    (estimate_slot_length cfg x s).bytes_read = s.bytes_read ∧
    (estimate_slot_length cfg x s).tx_relay_cnt_last = s.tx_relay_cnt_last ∧
    (estimate_slot_length cfg x s).n_timeouts = s.n_timeouts ∧
    (estimate_slot_length cfg x s).state = s.state ∧
    (estimate_slot_length cfg x s).t_rx_start = s.t_rx_start ∧
    (estimate_slot_length cfg x s).t_rx_stop = s.t_rx_stop ∧
    (estimate_slot_length cfg x s).t_tx_start = s.t_tx_start ∧
    (estimate_slot_length cfg x s).t_tx_stop = s.t_tx_stop ∧
    (estimate_slot_length cfg x s).t_start = s.t_start ∧
    (estimate_slot_length cfg x s).t_rx_timeout = s.t_rx_timeout ∧
    (estimate_slot_length cfg x s).T_irq = s.T_irq ∧
    (estimate_slot_length cfg x s).t_stop = s.t_stop ∧
    (estimate_slot_length cfg x s).tbiv = s.tbiv ∧
    (estimate_slot_length cfg x s).t_ref_l = s.t_ref_l ∧
    (estimate_slot_length cfg x s).T_offset_h = s.T_offset_h ∧
    (estimate_slot_length cfg x s).t_first_rx_l = s.t_first_rx_l ∧
    (estimate_slot_length cfg x s).relay_cnt = s.relay_cnt ∧
    (estimate_slot_length cfg x s).t_ref_l_updated = s.t_ref_l_updated ∧
    (estimate_slot_length cfg x s).TBCTL = s.TBCTL ∧
    (estimate_slot_length cfg x s).TBCCR4 = s.TBCCR4 ∧
    (estimate_slot_length cfg x s).TBCCTL4 = s.TBCCTL4 ∧
    (estimate_slot_length cfg x s).TBCCR5 = s.TBCCR5 ∧
    (estimate_slot_length cfg x s).TBCCTL5 = s.TBCCTL5 ∧
    (estimate_slot_length cfg x s).ops = s.ops := by
  simp [estimate_slot_length, slot_window, slot_intervals]

@[simp] theorem compute_sync_reference_time_keep (cfg : Config) (a b : Nat) (s : State) :
    (compute_sync_reference_time cfg a b s).id = s.id ∧
    (compute_sync_reference_time cfg a b s).initiator = s.initiator ∧
    (compute_sync_reference_time cfg a b s).sync = s.sync ∧
    (compute_sync_reference_time cfg a b s).rx_cnt = s.rx_cnt ∧
    (compute_sync_reference_time cfg a b s).tx_cnt = s.tx_cnt ∧
    (compute_sync_reference_time cfg a b s).tx_max = s.tx_max ∧
    (compute_sync_reference_time cfg a b s).data = s.data ∧
    (compute_sync_reference_time cfg a b s).packet = s.packet ∧
    (compute_sync_reference_time cfg a b s).data_len = s.data_len ∧
    (compute_sync_reference_time cfg a b s).packet_len = s.packet_len ∧
    (compute_sync_reference_time cfg a b s).packet_len_tmp = s.packet_len_tmp ∧
    (compute_sync_reference_time cfg a b s).header = s.header ∧
    (compute_sync_reference_time cfg a b s).bytes_read = s.bytes_read ∧
    (compute_sync_reference_time cfg a b s).tx_relay_cnt_last = s.tx_relay_cnt_last ∧
    (compute_sync_reference_time cfg a b s).n_timeouts = s.n_timeouts ∧
    (compute_sync_reference_time cfg a b s).state = s.state ∧
    (compute_sync_reference_time cfg a b s).t_rx_start = s.t_rx_start ∧
    (compute_sync_reference_time cfg a b s).t_rx_stop = s.t_rx_stop ∧
    (compute_sync_reference_time cfg a b s).t_tx_start = s.t_tx_start ∧
    (compute_sync_reference_time cfg a b s).t_tx_stop = s.t_tx_stop ∧
    (compute_sync_reference_time cfg a b s).t_start = s.t_start ∧
    (compute_sync_reference_time cfg a b s).t_rx_timeout = s.t_rx_timeout ∧
    (compute_sync_reference_time cfg a b s).T_irq = s.T_irq ∧
    (compute_sync_reference_time cfg a b s).t_stop = s.t_stop ∧
    (compute_sync_reference_time cfg a b s).tbiv = s.tbiv ∧
    (compute_sync_reference_time cfg a b s).T_slot_h = s.T_slot_h ∧
    (compute_sync_reference_time cfg a b s).T_rx_h = s.T_rx_h ∧
    (compute_sync_reference_time cfg a b s).T_w_rt_h = s.T_w_rt_h ∧
    (compute_sync_reference_time cfg a b s).T_tx_h = s.T_tx_h ∧
    (compute_sync_reference_time cfg a b s).T_w_tr_h = s.T_w_tr_h ∧
    (compute_sync_reference_time cfg a b s).t_first_rx_l = s.t_first_rx_l ∧
    (compute_sync_reference_time cfg a b s).T_slot_h_sum = s.T_slot_h_sum ∧
    (compute_sync_reference_time cfg a b s).win_cnt = s.win_cnt ∧
    (compute_sync_reference_time cfg a b s).relay_cnt = s.relay_cnt ∧
    (compute_sync_reference_time cfg a b s).TBCTL = s.TBCTL ∧
    (compute_sync_reference_time cfg a b s).TBCCR4 = s.TBCCR4 ∧
    (compute_sync_reference_time cfg a b s).TBCCTL4 = s.TBCCTL4 ∧
    (compute_sync_reference_time cfg a b s).TBCCR5 = s.TBCCR5 ∧
    (compute_sync_reference_time cfg a b s).TBCCTL5 = s.TBCCTL5 ∧
    (compute_sync_reference_time cfg a b s).ops = s.ops := by
  simp [compute_sync_reference_time]

@[simp] theorem end_rx_drain_keep (env : IrqEnv) (s : State) :
    (end_rx_drain env s).id = s.id ∧ (end_rx_drain env s).initiator = s.initiator ∧
    (end_rx_drain env s).sync = s.sync ∧ (end_rx_drain env s).rx_cnt = s.rx_cnt ∧
    (end_rx_drain env s).tx_cnt = s.tx_cnt ∧ (end_rx_drain env s).tx_max = s.tx_max ∧
    (end_rx_drain env s).data = s.data ∧ (end_rx_drain env s).data_len = s.data_len ∧
    (end_rx_drain env s).packet_len = s.packet_len ∧
    (end_rx_drain env s).packet_len_tmp = s.packet_len_tmp ∧
    (end_rx_drain env s).header = s.header ∧
    (end_rx_drain env s).tx_relay_cnt_last = s.tx_relay_cnt_last ∧
    (end_rx_drain env s).n_timeouts = s.n_timeouts ∧ (end_rx_drain env s).state = s.state ∧
    (end_rx_drain env s).t_rx_start = s.t_rx_start ∧
    (end_rx_drain env s).t_rx_stop = s.t_rx_stop ∧
    (end_rx_drain env s).t_tx_start = s.t_tx_start ∧
    (end_rx_drain env s).t_tx_stop = s.t_tx_stop ∧ (end_rx_drain env s).t_start = s.t_start ∧
    (end_rx_drain env s).t_rx_timeout = s.t_rx_timeout ∧ (end_rx_drain env s).T_irq = s.T_irq ∧
    (end_rx_drain env s).t_stop = s.t_stop ∧ (end_rx_drain env s).tbiv = s.tbiv ∧
    (end_rx_drain env s).T_slot_h = s.T_slot_h ∧ (end_rx_drain env s).T_rx_h = s.T_rx_h ∧
    (end_rx_drain env s).T_w_rt_h = s.T_w_rt_h ∧ (end_rx_drain env s).T_tx_h = s.T_tx_h ∧
    (end_rx_drain env s).T_w_tr_h = s.T_w_tr_h ∧ (end_rx_drain env s).t_ref_l = s.t_ref_l ∧
    (end_rx_drain env s).T_offset_h = s.T_offset_h ∧
    (end_rx_drain env s).t_first_rx_l = s.t_first_rx_l ∧
    (end_rx_drain env s).T_slot_h_sum = s.T_slot_h_sum ∧
    (end_rx_drain env s).win_cnt = s.win_cnt ∧ (end_rx_drain env s).relay_cnt = s.relay_cnt ∧
    (end_rx_drain env s).t_ref_l_updated = s.t_ref_l_updated ∧
    (end_rx_drain env s).TBCTL = s.TBCTL ∧ (end_rx_drain env s).TBCCR4 = s.TBCCR4 ∧
    (end_rx_drain env s).TBCCTL4 = s.TBCCTL4 ∧ (end_rx_drain env s).TBCCR5 = s.TBCCR5 ∧
    (end_rx_drain env s).TBCCTL5 = s.TBCCTL5 := by
  simp [end_rx_drain, emit]

@[simp] theorem end_rx_relay_keep (s : State) :
    (end_rx_relay s).id = s.id ∧ (end_rx_relay s).initiator = s.initiator ∧
    (end_rx_relay s).sync = s.sync ∧ (end_rx_relay s).rx_cnt = s.rx_cnt ∧
    (end_rx_relay s).tx_cnt = s.tx_cnt ∧ (end_rx_relay s).tx_max = s.tx_max ∧
    (end_rx_relay s).data = s.data ∧ (end_rx_relay s).data_len = s.data_len ∧
    (end_rx_relay s).packet_len = s.packet_len ∧
    (end_rx_relay s).packet_len_tmp = s.packet_len_tmp ∧ (end_rx_relay s).header = s.header ∧
    (end_rx_relay s).bytes_read = s.bytes_read ∧
    (end_rx_relay s).tx_relay_cnt_last = s.tx_relay_cnt_last ∧
    (end_rx_relay s).n_timeouts = s.n_timeouts ∧ (end_rx_relay s).state = s.state ∧
    (end_rx_relay s).t_rx_start = s.t_rx_start ∧ (end_rx_relay s).t_rx_stop = s.t_rx_stop ∧
    (end_rx_relay s).t_tx_start = s.t_tx_start ∧ (end_rx_relay s).t_tx_stop = s.t_tx_stop ∧
    (end_rx_relay s).t_start = s.t_start ∧ (end_rx_relay s).t_rx_timeout = s.t_rx_timeout ∧
    (end_rx_relay s).T_irq = s.T_irq ∧ (end_rx_relay s).t_stop = s.t_stop ∧
    (end_rx_relay s).tbiv = s.tbiv ∧ (end_rx_relay s).T_slot_h = s.T_slot_h ∧
    (end_rx_relay s).T_rx_h = s.T_rx_h ∧ (end_rx_relay s).T_w_rt_h = s.T_w_rt_h ∧
    (end_rx_relay s).T_tx_h = s.T_tx_h ∧ (end_rx_relay s).T_w_tr_h = s.T_w_tr_h ∧
    (end_rx_relay s).t_ref_l = s.t_ref_l ∧ (end_rx_relay s).T_offset_h = s.T_offset_h ∧
    (end_rx_relay s).t_first_rx_l = s.t_first_rx_l ∧
    (end_rx_relay s).T_slot_h_sum = s.T_slot_h_sum ∧ (end_rx_relay s).win_cnt = s.win_cnt ∧
    (end_rx_relay s).relay_cnt = s.relay_cnt ∧
    (end_rx_relay s).t_ref_l_updated = s.t_ref_l_updated ∧ (end_rx_relay s).TBCTL = s.TBCTL ∧
    (end_rx_relay s).TBCCR4 = s.TBCCR4 ∧ (end_rx_relay s).TBCCTL4 = s.TBCCTL4 ∧
    (end_rx_relay s).TBCCR5 = s.TBCCR5 ∧ (end_rx_relay s).TBCCTL5 = s.TBCCTL5 ∧
    (end_rx_relay s).ops = s.ops := by
  simp [end_rx_relay]

@[simp] theorem end_rx_load_keep (s : State) :
    (end_rx_load s).id = s.id ∧ (end_rx_load s).initiator = s.initiator ∧
    (end_rx_load s).sync = s.sync ∧ (end_rx_load s).rx_cnt = s.rx_cnt ∧
    (end_rx_load s).tx_cnt = s.tx_cnt ∧ (end_rx_load s).tx_max = s.tx_max ∧
    (end_rx_load s).data = s.data ∧ (end_rx_load s).packet = s.packet ∧
    (end_rx_load s).data_len = s.data_len ∧ (end_rx_load s).packet_len = s.packet_len ∧
    (end_rx_load s).packet_len_tmp = s.packet_len_tmp ∧ (end_rx_load s).header = s.header ∧
    (end_rx_load s).bytes_read = s.bytes_read ∧
    (end_rx_load s).tx_relay_cnt_last = s.tx_relay_cnt_last ∧
    (end_rx_load s).n_timeouts = s.n_timeouts ∧ (end_rx_load s).t_rx_start = s.t_rx_start ∧
    (end_rx_load s).t_rx_stop = s.t_rx_stop ∧ (end_rx_load s).t_tx_start = s.t_tx_start ∧
    (end_rx_load s).t_tx_stop = s.t_tx_stop ∧ (end_rx_load s).t_start = s.t_start ∧
    (end_rx_load s).t_rx_timeout = s.t_rx_timeout ∧ (end_rx_load s).T_irq = s.T_irq ∧
    (end_rx_load s).t_stop = s.t_stop ∧ (end_rx_load s).tbiv = s.tbiv ∧
    (end_rx_load s).T_slot_h = s.T_slot_h ∧ (end_rx_load s).T_rx_h = s.T_rx_h ∧
    (end_rx_load s).T_w_rt_h = s.T_w_rt_h ∧ (end_rx_load s).T_tx_h = s.T_tx_h ∧
    (end_rx_load s).T_w_tr_h = s.T_w_tr_h ∧ (end_rx_load s).t_ref_l = s.t_ref_l ∧
    (end_rx_load s).T_offset_h = s.T_offset_h ∧ (end_rx_load s).t_first_rx_l = s.t_first_rx_l ∧
    (end_rx_load s).T_slot_h_sum = s.T_slot_h_sum ∧ (end_rx_load s).win_cnt = s.win_cnt ∧
    (end_rx_load s).relay_cnt = s.relay_cnt ∧
    (end_rx_load s).t_ref_l_updated = s.t_ref_l_updated ∧ (end_rx_load s).TBCTL = s.TBCTL ∧
    (end_rx_load s).TBCCR4 = s.TBCCR4 ∧ (end_rx_load s).TBCCTL4 = s.TBCCTL4 ∧
    (end_rx_load s).TBCCR5 = s.TBCCR5 ∧ (end_rx_load s).TBCCTL5 = s.TBCCTL5 := by
  simp [end_rx_load, radio_off, radio_write_tx, emit]

@[simp] theorem end_rx_first_keep (env : IrqEnv) (s : State) :
    (end_rx_first env s).id = s.id ∧ (end_rx_first env s).initiator = s.initiator ∧
    (end_rx_first env s).sync = s.sync ∧ (end_rx_first env s).rx_cnt = s.rx_cnt ∧
    (end_rx_first env s).tx_cnt = s.tx_cnt ∧ (end_rx_first env s).tx_max = s.tx_max ∧
    (end_rx_first env s).data = s.data ∧ (end_rx_first env s).packet = s.packet ∧
    (end_rx_first env s).data_len = s.data_len ∧ (end_rx_first env s).packet_len = s.packet_len ∧
    (end_rx_first env s).packet_len_tmp = s.packet_len_tmp ∧
    (end_rx_first env s).header = s.header ∧ (end_rx_first env s).bytes_read = s.bytes_read ∧
    (end_rx_first env s).tx_relay_cnt_last = s.tx_relay_cnt_last ∧
    (end_rx_first env s).n_timeouts = s.n_timeouts ∧ (end_rx_first env s).state = s.state ∧
    (end_rx_first env s).t_rx_start = s.t_rx_start ∧
    (end_rx_first env s).t_rx_stop = s.t_rx_stop ∧
    (end_rx_first env s).t_tx_start = s.t_tx_start ∧
    (end_rx_first env s).t_tx_stop = s.t_tx_stop ∧ (end_rx_first env s).t_start = s.t_start ∧
    (end_rx_first env s).t_rx_timeout = s.t_rx_timeout ∧ (end_rx_first env s).T_irq = s.T_irq ∧
    (end_rx_first env s).t_stop = s.t_stop ∧ (end_rx_first env s).tbiv = s.tbiv ∧
    (end_rx_first env s).T_slot_h = s.T_slot_h ∧ (end_rx_first env s).T_rx_h = s.T_rx_h ∧
    (end_rx_first env s).T_w_rt_h = s.T_w_rt_h ∧ (end_rx_first env s).T_tx_h = s.T_tx_h ∧
    (end_rx_first env s).T_w_tr_h = s.T_w_tr_h ∧ (end_rx_first env s).t_ref_l = s.t_ref_l ∧
    (end_rx_first env s).T_offset_h = s.T_offset_h ∧
    (end_rx_first env s).T_slot_h_sum = s.T_slot_h_sum ∧
    (end_rx_first env s).win_cnt = s.win_cnt ∧
    (end_rx_first env s).t_ref_l_updated = s.t_ref_l_updated ∧
    (end_rx_first env s).TBCTL = s.TBCTL ∧ (end_rx_first env s).TBCCR4 = s.TBCCR4 ∧
    (end_rx_first env s).TBCCTL4 = s.TBCCTL4 ∧ (end_rx_first env s).TBCCR5 = s.TBCCR5 ∧
    (end_rx_first env s).TBCCTL5 = s.TBCCTL5 ∧ (end_rx_first env s).ops = s.ops := by
  simp [end_rx_first]

@[simp] theorem end_rx_estimate_keep (cfg : Config) (x : Nat) (s : State) :
    (end_rx_estimate cfg x s).id = s.id ∧ (end_rx_estimate cfg x s).initiator = s.initiator ∧
    (end_rx_estimate cfg x s).sync = s.sync ∧ (end_rx_estimate cfg x s).rx_cnt = s.rx_cnt ∧
    (end_rx_estimate cfg x s).tx_cnt = s.tx_cnt ∧ (end_rx_estimate cfg x s).tx_max = s.tx_max ∧
    (end_rx_estimate cfg x s).data = s.data ∧ (end_rx_estimate cfg x s).packet = s.packet ∧
    (end_rx_estimate cfg x s).data_len = s.data_len ∧
    (end_rx_estimate cfg x s).packet_len = s.packet_len ∧
    (end_rx_estimate cfg x s).packet_len_tmp = s.packet_len_tmp ∧
    (end_rx_estimate cfg x s).header = s.header ∧
    (end_rx_estimate cfg x s).bytes_read = s.bytes_read ∧
    (end_rx_estimate cfg x s).tx_relay_cnt_last = s.tx_relay_cnt_last ∧
    (end_rx_estimate cfg x s).n_timeouts = s.n_timeouts ∧
    (end_rx_estimate cfg x s).state = s.state ∧
    (end_rx_estimate cfg x s).t_rx_start = s.t_rx_start ∧
    (end_rx_estimate cfg x s).t_rx_stop = s.t_rx_stop ∧
    (end_rx_estimate cfg x s).t_tx_start = s.t_tx_start ∧
    (end_rx_estimate cfg x s).t_tx_stop = s.t_tx_stop ∧
    (end_rx_estimate cfg x s).t_start = s.t_start ∧
    (end_rx_estimate cfg x s).t_rx_timeout = s.t_rx_timeout ∧
    (end_rx_estimate cfg x s).T_irq = s.T_irq ∧ (end_rx_estimate cfg x s).t_stop = s.t_stop ∧
    (end_rx_estimate cfg x s).tbiv = s.tbiv ∧ (end_rx_estimate cfg x s).t_ref_l = s.t_ref_l ∧
    (end_rx_estimate cfg x s).T_offset_h = s.T_offset_h ∧
    (end_rx_estimate cfg x s).t_first_rx_l = s.t_first_rx_l ∧
    (end_rx_estimate cfg x s).relay_cnt = s.relay_cnt ∧
    (end_rx_estimate cfg x s).t_ref_l_updated = s.t_ref_l_updated ∧
    (end_rx_estimate cfg x s).TBCTL = s.TBCTL ∧ (end_rx_estimate cfg x s).TBCCR4 = s.TBCCR4 ∧
    (end_rx_estimate cfg x s).TBCCTL4 = s.TBCCTL4 ∧ (end_rx_estimate cfg x s).TBCCR5 = s.TBCCR5 ∧
    (end_rx_estimate cfg x s).TBCCTL5 = s.TBCCTL5 ∧ (end_rx_estimate cfg x s).ops = s.ops := by
  simp [end_rx_estimate]

@[simp] theorem end_rx_stop_timeout_keep (s : State) :
    (end_rx_stop_timeout s).id = s.id ∧ (end_rx_stop_timeout s).initiator = s.initiator ∧
    (end_rx_stop_timeout s).sync = s.sync ∧ (end_rx_stop_timeout s).rx_cnt = s.rx_cnt ∧
    (end_rx_stop_timeout s).tx_cnt = s.tx_cnt ∧ (end_rx_stop_timeout s).tx_max = s.tx_max ∧
    (end_rx_stop_timeout s).data = s.data ∧ (end_rx_stop_timeout s).packet = s.packet ∧
    (end_rx_stop_timeout s).data_len = s.data_len ∧
    (end_rx_stop_timeout s).packet_len = s.packet_len ∧
    (end_rx_stop_timeout s).packet_len_tmp = s.packet_len_tmp ∧
    (end_rx_stop_timeout s).header = s.header ∧
    (end_rx_stop_timeout s).bytes_read = s.bytes_read ∧
    (end_rx_stop_timeout s).tx_relay_cnt_last = s.tx_relay_cnt_last ∧
    (end_rx_stop_timeout s).n_timeouts = s.n_timeouts ∧ (end_rx_stop_timeout s).state = s.state ∧
    (end_rx_stop_timeout s).t_rx_start = s.t_rx_start ∧
    (end_rx_stop_timeout s).t_rx_stop = s.t_rx_stop ∧
    (end_rx_stop_timeout s).t_tx_start = s.t_tx_start ∧
    (end_rx_stop_timeout s).t_tx_stop = s.t_tx_stop ∧
    (end_rx_stop_timeout s).t_start = s.t_start ∧
    (end_rx_stop_timeout s).t_rx_timeout = s.t_rx_timeout ∧
    (end_rx_stop_timeout s).T_irq = s.T_irq ∧ (end_rx_stop_timeout s).t_stop = s.t_stop ∧
    (end_rx_stop_timeout s).tbiv = s.tbiv ∧ (end_rx_stop_timeout s).T_slot_h = s.T_slot_h ∧
    (end_rx_stop_timeout s).T_rx_h = s.T_rx_h ∧ (end_rx_stop_timeout s).T_w_rt_h = s.T_w_rt_h ∧
    (end_rx_stop_timeout s).T_tx_h = s.T_tx_h ∧ (end_rx_stop_timeout s).T_w_tr_h = s.T_w_tr_h ∧
    (end_rx_stop_timeout s).t_ref_l = s.t_ref_l ∧
    (end_rx_stop_timeout s).T_offset_h = s.T_offset_h ∧
    (end_rx_stop_timeout s).t_first_rx_l = s.t_first_rx_l ∧
    (end_rx_stop_timeout s).T_slot_h_sum = s.T_slot_h_sum ∧
    (end_rx_stop_timeout s).win_cnt = s.win_cnt ∧
    (end_rx_stop_timeout s).relay_cnt = s.relay_cnt ∧
    (end_rx_stop_timeout s).t_ref_l_updated = s.t_ref_l_updated ∧
    (end_rx_stop_timeout s).TBCTL = s.TBCTL ∧ (end_rx_stop_timeout s).TBCCR4 = s.TBCCR4 ∧
    (end_rx_stop_timeout s).TBCCR5 = s.TBCCR5 ∧ (end_rx_stop_timeout s).TBCCTL5 = s.TBCCTL5 ∧
    (end_rx_stop_timeout s).ops = s.ops := by
  simp [end_rx_stop_timeout, glossy_stop_initiator_timeout]

@[simp] theorem end_rx_learn_keep (s : State) :
    (end_rx_learn s).id = s.id ∧ (end_rx_learn s).initiator = s.initiator ∧
    (end_rx_learn s).sync = s.sync ∧ (end_rx_learn s).rx_cnt = s.rx_cnt ∧
    (end_rx_learn s).tx_cnt = s.tx_cnt ∧ (end_rx_learn s).tx_max = s.tx_max ∧
    (end_rx_learn s).data = s.data ∧ (end_rx_learn s).packet = s.packet ∧
    (end_rx_learn s).packet_len_tmp = s.packet_len_tmp ∧ (end_rx_learn s).header = s.header ∧
    (end_rx_learn s).bytes_read = s.bytes_read ∧
    (end_rx_learn s).tx_relay_cnt_last = s.tx_relay_cnt_last ∧
    (end_rx_learn s).n_timeouts = s.n_timeouts ∧ (end_rx_learn s).state = s.state ∧
    (end_rx_learn s).t_rx_start = s.t_rx_start ∧ (end_rx_learn s).t_rx_stop = s.t_rx_stop ∧
    (end_rx_learn s).t_tx_start = s.t_tx_start ∧ (end_rx_learn s).t_tx_stop = s.t_tx_stop ∧
    (end_rx_learn s).t_start = s.t_start ∧ (end_rx_learn s).t_rx_timeout = s.t_rx_timeout ∧
    (end_rx_learn s).T_irq = s.T_irq ∧ (end_rx_learn s).t_stop = s.t_stop ∧
    (end_rx_learn s).tbiv = s.tbiv ∧ (end_rx_learn s).T_slot_h = s.T_slot_h ∧
    (end_rx_learn s).T_rx_h = s.T_rx_h ∧ (end_rx_learn s).T_w_rt_h = s.T_w_rt_h ∧
    (end_rx_learn s).T_tx_h = s.T_tx_h ∧ (end_rx_learn s).T_w_tr_h = s.T_w_tr_h ∧
    (end_rx_learn s).t_ref_l = s.t_ref_l ∧ (end_rx_learn s).T_offset_h = s.T_offset_h ∧
    (end_rx_learn s).t_first_rx_l = s.t_first_rx_l ∧
    (end_rx_learn s).T_slot_h_sum = s.T_slot_h_sum ∧ (end_rx_learn s).win_cnt = s.win_cnt ∧
    (end_rx_learn s).relay_cnt = s.relay_cnt ∧
    (end_rx_learn s).t_ref_l_updated = s.t_ref_l_updated ∧ (end_rx_learn s).TBCTL = s.TBCTL ∧
    (end_rx_learn s).TBCCR4 = s.TBCCR4 ∧ (end_rx_learn s).TBCCTL4 = s.TBCCTL4 ∧
    (end_rx_learn s).TBCCR5 = s.TBCCR5 ∧ (end_rx_learn s).TBCCTL5 = s.TBCCTL5 ∧
    (end_rx_learn s).ops = s.ops := by
  simp [end_rx_learn]

@[simp] theorem begin_tx_copy_keep (s : State) :
    (begin_tx_copy s).id = s.id ∧ (begin_tx_copy s).initiator = s.initiator ∧
    (begin_tx_copy s).sync = s.sync ∧ (begin_tx_copy s).rx_cnt = s.rx_cnt ∧
    (begin_tx_copy s).tx_cnt = s.tx_cnt ∧ (begin_tx_copy s).tx_max = s.tx_max ∧
    (begin_tx_copy s).packet = s.packet ∧ (begin_tx_copy s).data_len = s.data_len ∧
    (begin_tx_copy s).packet_len = s.packet_len ∧
    (begin_tx_copy s).packet_len_tmp = s.packet_len_tmp ∧ (begin_tx_copy s).header = s.header ∧
    (begin_tx_copy s).bytes_read = s.bytes_read ∧
    (begin_tx_copy s).tx_relay_cnt_last = s.tx_relay_cnt_last ∧
    (begin_tx_copy s).n_timeouts = s.n_timeouts ∧ (begin_tx_copy s).state = s.state ∧
    (begin_tx_copy s).t_rx_start = s.t_rx_start ∧ (begin_tx_copy s).t_rx_stop = s.t_rx_stop ∧
    (begin_tx_copy s).t_tx_start = s.t_tx_start ∧ (begin_tx_copy s).t_tx_stop = s.t_tx_stop ∧
    (begin_tx_copy s).t_start = s.t_start ∧ (begin_tx_copy s).t_rx_timeout = s.t_rx_timeout ∧
    (begin_tx_copy s).T_irq = s.T_irq ∧ (begin_tx_copy s).t_stop = s.t_stop ∧
    (begin_tx_copy s).tbiv = s.tbiv ∧ (begin_tx_copy s).T_slot_h = s.T_slot_h ∧
    (begin_tx_copy s).T_rx_h = s.T_rx_h ∧ (begin_tx_copy s).T_w_rt_h = s.T_w_rt_h ∧
    (begin_tx_copy s).T_tx_h = s.T_tx_h ∧ (begin_tx_copy s).T_w_tr_h = s.T_w_tr_h ∧
    (begin_tx_copy s).t_ref_l = s.t_ref_l ∧ (begin_tx_copy s).T_offset_h = s.T_offset_h ∧
    (begin_tx_copy s).t_first_rx_l = s.t_first_rx_l ∧
    (begin_tx_copy s).T_slot_h_sum = s.T_slot_h_sum ∧ (begin_tx_copy s).win_cnt = s.win_cnt ∧
    (begin_tx_copy s).relay_cnt = s.relay_cnt ∧
    (begin_tx_copy s).t_ref_l_updated = s.t_ref_l_updated ∧ (begin_tx_copy s).TBCTL = s.TBCTL ∧
    (begin_tx_copy s).TBCCR4 = s.TBCCR4 ∧ (begin_tx_copy s).TBCCTL4 = s.TBCCTL4 ∧
    (begin_tx_copy s).TBCCR5 = s.TBCCR5 ∧ (begin_tx_copy s).TBCCTL5 = s.TBCCTL5 ∧
    (begin_tx_copy s).ops = s.ops := by
  simp [begin_tx_copy]

@[simp] theorem begin_tx_sync_keep (cfg : Config) (env : IrqEnv) (s : State) :
    (begin_tx_sync cfg env s).id = s.id ∧ (begin_tx_sync cfg env s).initiator = s.initiator ∧
    (begin_tx_sync cfg env s).sync = s.sync ∧ (begin_tx_sync cfg env s).rx_cnt = s.rx_cnt ∧
    (begin_tx_sync cfg env s).tx_cnt = s.tx_cnt ∧ (begin_tx_sync cfg env s).tx_max = s.tx_max ∧
    (begin_tx_sync cfg env s).data = s.data ∧ (begin_tx_sync cfg env s).packet = s.packet ∧
    (begin_tx_sync cfg env s).data_len = s.data_len ∧
    (begin_tx_sync cfg env s).packet_len = s.packet_len ∧
    (begin_tx_sync cfg env s).packet_len_tmp = s.packet_len_tmp ∧
    (begin_tx_sync cfg env s).header = s.header ∧
    (begin_tx_sync cfg env s).bytes_read = s.bytes_read ∧
    (begin_tx_sync cfg env s).tx_relay_cnt_last = s.tx_relay_cnt_last ∧
    (begin_tx_sync cfg env s).n_timeouts = s.n_timeouts ∧
    (begin_tx_sync cfg env s).state = s.state ∧
    (begin_tx_sync cfg env s).t_rx_start = s.t_rx_start ∧
    (begin_tx_sync cfg env s).t_rx_stop = s.t_rx_stop ∧
    (begin_tx_sync cfg env s).t_tx_start = s.t_tx_start ∧
    (begin_tx_sync cfg env s).t_tx_stop = s.t_tx_stop ∧
    (begin_tx_sync cfg env s).t_start = s.t_start ∧
    (begin_tx_sync cfg env s).t_rx_timeout = s.t_rx_timeout ∧
    (begin_tx_sync cfg env s).T_irq = s.T_irq ∧ (begin_tx_sync cfg env s).t_stop = s.t_stop ∧
    (begin_tx_sync cfg env s).tbiv = s.tbiv ∧ (begin_tx_sync cfg env s).T_slot_h = s.T_slot_h ∧
    (begin_tx_sync cfg env s).T_rx_h = s.T_rx_h ∧
    (begin_tx_sync cfg env s).T_w_rt_h = s.T_w_rt_h ∧
    (begin_tx_sync cfg env s).T_tx_h = s.T_tx_h ∧
    (begin_tx_sync cfg env s).T_w_tr_h = s.T_w_tr_h ∧
    (begin_tx_sync cfg env s).t_first_rx_l = s.t_first_rx_l ∧
    (begin_tx_sync cfg env s).T_slot_h_sum = s.T_slot_h_sum ∧
    (begin_tx_sync cfg env s).win_cnt = s.win_cnt ∧
    (begin_tx_sync cfg env s).relay_cnt = s.relay_cnt ∧
    (begin_tx_sync cfg env s).TBCTL = s.TBCTL ∧ (begin_tx_sync cfg env s).TBCCR4 = s.TBCCR4 ∧
    (begin_tx_sync cfg env s).TBCCTL4 = s.TBCCTL4 ∧ (begin_tx_sync cfg env s).TBCCR5 = s.TBCCR5 ∧
    (begin_tx_sync cfg env s).TBCCTL5 = s.TBCCTL5 ∧ (begin_tx_sync cfg env s).ops = s.ops := by
  simp [begin_tx_sync]

@[simp] theorem end_tx_next_keep (s : State) :
    (end_tx_next s).id = s.id ∧ (end_tx_next s).initiator = s.initiator ∧
    (end_tx_next s).sync = s.sync ∧ (end_tx_next s).rx_cnt = s.rx_cnt ∧
    (end_tx_next s).tx_cnt = s.tx_cnt ∧ (end_tx_next s).tx_max = s.tx_max ∧
    (end_tx_next s).data = s.data ∧ (end_tx_next s).packet = s.packet ∧
    (end_tx_next s).data_len = s.data_len ∧ (end_tx_next s).packet_len = s.packet_len ∧
    (end_tx_next s).packet_len_tmp = s.packet_len_tmp ∧ (end_tx_next s).header = s.header ∧
    (end_tx_next s).bytes_read = s.bytes_read ∧
    (end_tx_next s).tx_relay_cnt_last = s.tx_relay_cnt_last ∧
    (end_tx_next s).n_timeouts = s.n_timeouts ∧ (end_tx_next s).t_rx_start = s.t_rx_start ∧
    (end_tx_next s).t_rx_stop = s.t_rx_stop ∧ (end_tx_next s).t_tx_start = s.t_tx_start ∧
    (end_tx_next s).t_tx_stop = s.t_tx_stop ∧ (end_tx_next s).t_start = s.t_start ∧
    (end_tx_next s).t_rx_timeout = s.t_rx_timeout ∧ (end_tx_next s).T_irq = s.T_irq ∧
    (end_tx_next s).t_stop = s.t_stop ∧ (end_tx_next s).tbiv = s.tbiv ∧
    (end_tx_next s).T_slot_h = s.T_slot_h ∧ (end_tx_next s).T_rx_h = s.T_rx_h ∧
    (end_tx_next s).T_w_rt_h = s.T_w_rt_h ∧ (end_tx_next s).T_tx_h = s.T_tx_h ∧
    (end_tx_next s).T_w_tr_h = s.T_w_tr_h ∧ (end_tx_next s).t_ref_l = s.t_ref_l ∧
    (end_tx_next s).T_offset_h = s.T_offset_h ∧ (end_tx_next s).t_first_rx_l = s.t_first_rx_l ∧
    (end_tx_next s).T_slot_h_sum = s.T_slot_h_sum ∧ (end_tx_next s).win_cnt = s.win_cnt ∧
    (end_tx_next s).relay_cnt = s.relay_cnt ∧
    (end_tx_next s).t_ref_l_updated = s.t_ref_l_updated ∧ (end_tx_next s).TBCTL = s.TBCTL ∧
    (end_tx_next s).TBCCR4 = s.TBCCR4 ∧ (end_tx_next s).TBCCTL4 = s.TBCCTL4 ∧
    (end_tx_next s).TBCCR5 = s.TBCCR5 ∧ (end_tx_next s).TBCCTL5 = s.TBCCTL5 := by
  simp [end_tx_next, radio_off, emit]

@[simp] theorem end_rx_header_keep (cfg : Config) (s : State) :
    (end_rx_header cfg s).id = s.id ∧ (end_rx_header cfg s).initiator = s.initiator ∧
    (end_rx_header cfg s).sync = s.sync ∧ (end_rx_header cfg s).rx_cnt = s.rx_cnt ∧
    (end_rx_header cfg s).tx_cnt = s.tx_cnt ∧ (end_rx_header cfg s).tx_max = s.tx_max ∧
    (end_rx_header cfg s).data = s.data ∧ (end_rx_header cfg s).packet = s.packet ∧
    (end_rx_header cfg s).data_len = s.data_len ∧
    (end_rx_header cfg s).packet_len = s.packet_len ∧
    (end_rx_header cfg s).packet_len_tmp = s.packet_len_tmp ∧
    (end_rx_header cfg s).bytes_read = s.bytes_read ∧
    (end_rx_header cfg s).tx_relay_cnt_last = s.tx_relay_cnt_last ∧
    (end_rx_header cfg s).n_timeouts = s.n_timeouts ∧ (end_rx_header cfg s).state = s.state ∧
    (end_rx_header cfg s).t_rx_start = s.t_rx_start ∧
    (end_rx_header cfg s).t_rx_stop = s.t_rx_stop ∧
    (end_rx_header cfg s).t_tx_start = s.t_tx_start ∧
    (end_rx_header cfg s).t_tx_stop = s.t_tx_stop ∧ (end_rx_header cfg s).t_start = s.t_start ∧
    (end_rx_header cfg s).t_rx_timeout = s.t_rx_timeout ∧ (end_rx_header cfg s).T_irq = s.T_irq ∧
    (end_rx_header cfg s).t_stop = s.t_stop ∧ (end_rx_header cfg s).tbiv = s.tbiv ∧
    (end_rx_header cfg s).T_slot_h = s.T_slot_h ∧ (end_rx_header cfg s).T_rx_h = s.T_rx_h ∧
    (end_rx_header cfg s).T_w_rt_h = s.T_w_rt_h ∧ (end_rx_header cfg s).T_tx_h = s.T_tx_h ∧
    (end_rx_header cfg s).T_w_tr_h = s.T_w_tr_h ∧ (end_rx_header cfg s).t_ref_l = s.t_ref_l ∧
    (end_rx_header cfg s).T_offset_h = s.T_offset_h ∧
    (end_rx_header cfg s).t_first_rx_l = s.t_first_rx_l ∧
    (end_rx_header cfg s).T_slot_h_sum = s.T_slot_h_sum ∧
    (end_rx_header cfg s).win_cnt = s.win_cnt ∧ (end_rx_header cfg s).relay_cnt = s.relay_cnt ∧
    (end_rx_header cfg s).t_ref_l_updated = s.t_ref_l_updated ∧
    (end_rx_header cfg s).TBCTL = s.TBCTL ∧ (end_rx_header cfg s).TBCCR4 = s.TBCCR4 ∧
    (end_rx_header cfg s).TBCCTL4 = s.TBCCTL4 ∧ (end_rx_header cfg s).TBCCR5 = s.TBCCR5 ∧
    (end_rx_header cfg s).TBCCTL5 = s.TBCCTL5 ∧ (end_rx_header cfg s).ops = s.ops := by
  simp [end_rx_header]

@[simp] theorem end_rx_count_keep (s : State) :
    (end_rx_count s).id = s.id ∧ (end_rx_count s).initiator = s.initiator ∧
    (end_rx_count s).sync = s.sync ∧ (end_rx_count s).tx_cnt = s.tx_cnt ∧
    (end_rx_count s).tx_max = s.tx_max ∧ (end_rx_count s).data = s.data ∧
    (end_rx_count s).packet = s.packet ∧ (end_rx_count s).data_len = s.data_len ∧
    (end_rx_count s).packet_len = s.packet_len ∧
    (end_rx_count s).packet_len_tmp = s.packet_len_tmp ∧ (end_rx_count s).header = s.header ∧
    (end_rx_count s).bytes_read = s.bytes_read ∧
    (end_rx_count s).tx_relay_cnt_last = s.tx_relay_cnt_last ∧
    (end_rx_count s).n_timeouts = s.n_timeouts ∧ (end_rx_count s).state = s.state ∧
    (end_rx_count s).t_rx_start = s.t_rx_start ∧ (end_rx_count s).t_rx_stop = s.t_rx_stop ∧
    (end_rx_count s).t_tx_start = s.t_tx_start ∧ (end_rx_count s).t_tx_stop = s.t_tx_stop ∧
    (end_rx_count s).t_start = s.t_start ∧ (end_rx_count s).t_rx_timeout = s.t_rx_timeout ∧
    (end_rx_count s).T_irq = s.T_irq ∧ (end_rx_count s).t_stop = s.t_stop ∧
    (end_rx_count s).tbiv = s.tbiv ∧ (end_rx_count s).T_slot_h = s.T_slot_h ∧
    (end_rx_count s).T_rx_h = s.T_rx_h ∧ (end_rx_count s).T_w_rt_h = s.T_w_rt_h ∧
    (end_rx_count s).T_tx_h = s.T_tx_h ∧ (end_rx_count s).T_w_tr_h = s.T_w_tr_h ∧
    (end_rx_count s).t_ref_l = s.t_ref_l ∧ (end_rx_count s).T_offset_h = s.T_offset_h ∧
    (end_rx_count s).t_first_rx_l = s.t_first_rx_l ∧
    (end_rx_count s).T_slot_h_sum = s.T_slot_h_sum ∧ (end_rx_count s).win_cnt = s.win_cnt ∧
    (end_rx_count s).relay_cnt = s.relay_cnt ∧
    (end_rx_count s).t_ref_l_updated = s.t_ref_l_updated ∧ (end_rx_count s).TBCTL = s.TBCTL ∧
    (end_rx_count s).TBCCR4 = s.TBCCR4 ∧ (end_rx_count s).TBCCTL4 = s.TBCCTL4 ∧
    (end_rx_count s).TBCCR5 = s.TBCCR5 ∧ (end_rx_count s).TBCCTL5 = s.TBCCTL5 ∧
    (end_rx_count s).ops = s.ops := by
  simp [end_rx_count]

@[simp] theorem end_rx_stamp_keep (x : Nat) (s : State) :
    (end_rx_stamp x s).id = s.id ∧ (end_rx_stamp x s).initiator = s.initiator ∧
    (end_rx_stamp x s).sync = s.sync ∧ (end_rx_stamp x s).rx_cnt = s.rx_cnt ∧
    (end_rx_stamp x s).tx_cnt = s.tx_cnt ∧ (end_rx_stamp x s).tx_max = s.tx_max ∧
    (end_rx_stamp x s).data = s.data ∧ (end_rx_stamp x s).packet = s.packet ∧
    (end_rx_stamp x s).data_len = s.data_len ∧ (end_rx_stamp x s).packet_len = s.packet_len ∧
    (end_rx_stamp x s).packet_len_tmp = s.packet_len_tmp ∧ (end_rx_stamp x s).header = s.header ∧
    (end_rx_stamp x s).bytes_read = s.bytes_read ∧
    (end_rx_stamp x s).tx_relay_cnt_last = s.tx_relay_cnt_last ∧
    (end_rx_stamp x s).n_timeouts = s.n_timeouts ∧ (end_rx_stamp x s).state = s.state ∧
    (end_rx_stamp x s).t_rx_start = s.t_rx_start ∧ (end_rx_stamp x s).t_tx_start = s.t_tx_start ∧
    (end_rx_stamp x s).t_tx_stop = s.t_tx_stop ∧ (end_rx_stamp x s).t_start = s.t_start ∧
    (end_rx_stamp x s).t_rx_timeout = s.t_rx_timeout ∧ (end_rx_stamp x s).T_irq = s.T_irq ∧
    (end_rx_stamp x s).t_stop = s.t_stop ∧ (end_rx_stamp x s).tbiv = s.tbiv ∧
    (end_rx_stamp x s).T_slot_h = s.T_slot_h ∧ (end_rx_stamp x s).T_rx_h = s.T_rx_h ∧
    (end_rx_stamp x s).T_w_rt_h = s.T_w_rt_h ∧ (end_rx_stamp x s).T_tx_h = s.T_tx_h ∧
    (end_rx_stamp x s).T_w_tr_h = s.T_w_tr_h ∧ (end_rx_stamp x s).t_ref_l = s.t_ref_l ∧
    (end_rx_stamp x s).T_offset_h = s.T_offset_h ∧
    (end_rx_stamp x s).t_first_rx_l = s.t_first_rx_l ∧
    (end_rx_stamp x s).T_slot_h_sum = s.T_slot_h_sum ∧ (end_rx_stamp x s).win_cnt = s.win_cnt ∧
    (end_rx_stamp x s).relay_cnt = s.relay_cnt ∧
    (end_rx_stamp x s).t_ref_l_updated = s.t_ref_l_updated ∧ (end_rx_stamp x s).TBCTL = s.TBCTL ∧
    (end_rx_stamp x s).TBCCR4 = s.TBCCR4 ∧ (end_rx_stamp x s).TBCCTL4 = s.TBCCTL4 ∧
    (end_rx_stamp x s).TBCCR5 = s.TBCCR5 ∧ (end_rx_stamp x s).TBCCTL5 = s.TBCCTL5 ∧
    (end_rx_stamp x s).ops = s.ops := by
  simp [end_rx_stamp]

@[simp] theorem end_rx_copy_back_keep (g : Nat → Nat) (s : State) :
    (end_rx_copy_back g s).id = s.id ∧ (end_rx_copy_back g s).initiator = s.initiator ∧
    (end_rx_copy_back g s).sync = s.sync ∧ (end_rx_copy_back g s).rx_cnt = s.rx_cnt ∧
    (end_rx_copy_back g s).tx_cnt = s.tx_cnt ∧ (end_rx_copy_back g s).tx_max = s.tx_max ∧
    (end_rx_copy_back g s).data = s.data ∧ (end_rx_copy_back g s).data_len = s.data_len ∧
    (end_rx_copy_back g s).packet_len = s.packet_len ∧
    (end_rx_copy_back g s).packet_len_tmp = s.packet_len_tmp ∧
    (end_rx_copy_back g s).header = s.header ∧ (end_rx_copy_back g s).bytes_read = s.bytes_read ∧
    (end_rx_copy_back g s).tx_relay_cnt_last = s.tx_relay_cnt_last ∧
    (end_rx_copy_back g s).n_timeouts = s.n_timeouts ∧ (end_rx_copy_back g s).state = s.state ∧
    (end_rx_copy_back g s).t_rx_start = s.t_rx_start ∧
    (end_rx_copy_back g s).t_rx_stop = s.t_rx_stop ∧
    (end_rx_copy_back g s).t_tx_start = s.t_tx_start ∧
    (end_rx_copy_back g s).t_tx_stop = s.t_tx_stop ∧ (end_rx_copy_back g s).t_start = s.t_start ∧
    (end_rx_copy_back g s).t_rx_timeout = s.t_rx_timeout ∧
    (end_rx_copy_back g s).T_irq = s.T_irq ∧ (end_rx_copy_back g s).t_stop = s.t_stop ∧
    (end_rx_copy_back g s).tbiv = s.tbiv ∧ (end_rx_copy_back g s).T_slot_h = s.T_slot_h ∧
    (end_rx_copy_back g s).T_rx_h = s.T_rx_h ∧ (end_rx_copy_back g s).T_w_rt_h = s.T_w_rt_h ∧
    (end_rx_copy_back g s).T_tx_h = s.T_tx_h ∧ (end_rx_copy_back g s).T_w_tr_h = s.T_w_tr_h ∧
    (end_rx_copy_back g s).t_ref_l = s.t_ref_l ∧
    (end_rx_copy_back g s).T_offset_h = s.T_offset_h ∧
    (end_rx_copy_back g s).t_first_rx_l = s.t_first_rx_l ∧
    (end_rx_copy_back g s).T_slot_h_sum = s.T_slot_h_sum ∧
    (end_rx_copy_back g s).win_cnt = s.win_cnt ∧ (end_rx_copy_back g s).relay_cnt = s.relay_cnt ∧
    (end_rx_copy_back g s).t_ref_l_updated = s.t_ref_l_updated ∧
    (end_rx_copy_back g s).TBCTL = s.TBCTL ∧ (end_rx_copy_back g s).TBCCR4 = s.TBCCR4 ∧
    (end_rx_copy_back g s).TBCCTL4 = s.TBCCTL4 ∧ (end_rx_copy_back g s).TBCCR5 = s.TBCCR5 ∧
    (end_rx_copy_back g s).TBCCTL5 = s.TBCCTL5 ∧ (end_rx_copy_back g s).ops = s.ops := by
  simp [end_rx_copy_back]

@[simp] theorem begin_tx_mark_keep (env : IrqEnv) (s : State) :
    (begin_tx_mark env s).id = s.id ∧ (begin_tx_mark env s).initiator = s.initiator ∧
    (begin_tx_mark env s).sync = s.sync ∧ (begin_tx_mark env s).rx_cnt = s.rx_cnt ∧
    (begin_tx_mark env s).tx_cnt = s.tx_cnt ∧ (begin_tx_mark env s).tx_max = s.tx_max ∧
    (begin_tx_mark env s).data = s.data ∧ (begin_tx_mark env s).packet = s.packet ∧
    (begin_tx_mark env s).data_len = s.data_len ∧
    (begin_tx_mark env s).packet_len = s.packet_len ∧
    (begin_tx_mark env s).packet_len_tmp = s.packet_len_tmp ∧
    (begin_tx_mark env s).header = s.header ∧ (begin_tx_mark env s).bytes_read = s.bytes_read ∧
    (begin_tx_mark env s).n_timeouts = s.n_timeouts ∧
    (begin_tx_mark env s).t_rx_start = s.t_rx_start ∧
    (begin_tx_mark env s).t_rx_stop = s.t_rx_stop ∧
    (begin_tx_mark env s).t_tx_stop = s.t_tx_stop ∧ (begin_tx_mark env s).t_start = s.t_start ∧
    (begin_tx_mark env s).t_rx_timeout = s.t_rx_timeout ∧ (begin_tx_mark env s).T_irq = s.T_irq ∧
    (begin_tx_mark env s).t_stop = s.t_stop ∧ (begin_tx_mark env s).tbiv = s.tbiv ∧
    (begin_tx_mark env s).T_slot_h = s.T_slot_h ∧ (begin_tx_mark env s).T_rx_h = s.T_rx_h ∧
    (begin_tx_mark env s).T_w_rt_h = s.T_w_rt_h ∧ (begin_tx_mark env s).T_tx_h = s.T_tx_h ∧
    (begin_tx_mark env s).T_w_tr_h = s.T_w_tr_h ∧ (begin_tx_mark env s).t_ref_l = s.t_ref_l ∧
    (begin_tx_mark env s).T_offset_h = s.T_offset_h ∧
    (begin_tx_mark env s).t_first_rx_l = s.t_first_rx_l ∧
    (begin_tx_mark env s).T_slot_h_sum = s.T_slot_h_sum ∧
    (begin_tx_mark env s).win_cnt = s.win_cnt ∧ (begin_tx_mark env s).relay_cnt = s.relay_cnt ∧
    (begin_tx_mark env s).t_ref_l_updated = s.t_ref_l_updated ∧
    (begin_tx_mark env s).TBCTL = s.TBCTL ∧ (begin_tx_mark env s).TBCCR4 = s.TBCCR4 ∧
    (begin_tx_mark env s).TBCCTL4 = s.TBCCTL4 ∧ (begin_tx_mark env s).TBCCR5 = s.TBCCR5 ∧
    (begin_tx_mark env s).TBCCTL5 = s.TBCCTL5 ∧ (begin_tx_mark env s).ops = s.ops := by
  simp [begin_tx_mark]

@[simp] theorem end_tx_count_keep (env : IrqEnv) (s : State) :
    (end_tx_count env s).id = s.id ∧ (end_tx_count env s).initiator = s.initiator ∧
    (end_tx_count env s).sync = s.sync ∧ (end_tx_count env s).rx_cnt = s.rx_cnt ∧
    (end_tx_count env s).tx_max = s.tx_max ∧ (end_tx_count env s).data = s.data ∧
    (end_tx_count env s).packet = s.packet ∧ (end_tx_count env s).data_len = s.data_len ∧
    (end_tx_count env s).packet_len = s.packet_len ∧
    (end_tx_count env s).packet_len_tmp = s.packet_len_tmp ∧
    (end_tx_count env s).header = s.header ∧ (end_tx_count env s).bytes_read = s.bytes_read ∧
    (end_tx_count env s).tx_relay_cnt_last = s.tx_relay_cnt_last ∧
    (end_tx_count env s).n_timeouts = s.n_timeouts ∧ (end_tx_count env s).state = s.state ∧
    (end_tx_count env s).t_rx_start = s.t_rx_start ∧
    (end_tx_count env s).t_rx_stop = s.t_rx_stop ∧
    (end_tx_count env s).t_tx_start = s.t_tx_start ∧ (end_tx_count env s).t_start = s.t_start ∧
    (end_tx_count env s).t_rx_timeout = s.t_rx_timeout ∧ (end_tx_count env s).T_irq = s.T_irq ∧
    (end_tx_count env s).t_stop = s.t_stop ∧ (end_tx_count env s).tbiv = s.tbiv ∧
    (end_tx_count env s).T_slot_h = s.T_slot_h ∧ (end_tx_count env s).T_rx_h = s.T_rx_h ∧
    (end_tx_count env s).T_w_rt_h = s.T_w_rt_h ∧ (end_tx_count env s).T_tx_h = s.T_tx_h ∧
    (end_tx_count env s).T_w_tr_h = s.T_w_tr_h ∧ (end_tx_count env s).t_ref_l = s.t_ref_l ∧
    (end_tx_count env s).T_offset_h = s.T_offset_h ∧
    (end_tx_count env s).t_first_rx_l = s.t_first_rx_l ∧
    (end_tx_count env s).T_slot_h_sum = s.T_slot_h_sum ∧
    (end_tx_count env s).win_cnt = s.win_cnt ∧ (end_tx_count env s).relay_cnt = s.relay_cnt ∧
    (end_tx_count env s).t_ref_l_updated = s.t_ref_l_updated ∧
    (end_tx_count env s).TBCTL = s.TBCTL ∧ (end_tx_count env s).TBCCR4 = s.TBCCR4 ∧
    (end_tx_count env s).TBCCTL4 = s.TBCCTL4 ∧ (end_tx_count env s).TBCCR5 = s.TBCCR5 ∧
    (end_tx_count env s).TBCCTL5 = s.TBCCTL5 ∧ (end_tx_count env s).ops = s.ops := by
  simp [end_tx_count]

@[simp] theorem timeout_count_keep (s : State) :
    (timeout_count s).id = s.id ∧ (timeout_count s).initiator = s.initiator ∧
    (timeout_count s).sync = s.sync ∧ (timeout_count s).rx_cnt = s.rx_cnt ∧
    (timeout_count s).tx_cnt = s.tx_cnt ∧ (timeout_count s).tx_max = s.tx_max ∧
    (timeout_count s).data = s.data ∧ (timeout_count s).packet = s.packet ∧
    (timeout_count s).data_len = s.data_len ∧ (timeout_count s).packet_len = s.packet_len ∧
    (timeout_count s).packet_len_tmp = s.packet_len_tmp ∧ (timeout_count s).header = s.header ∧
    (timeout_count s).bytes_read = s.bytes_read ∧
    (timeout_count s).tx_relay_cnt_last = s.tx_relay_cnt_last ∧
    (timeout_count s).state = s.state ∧ (timeout_count s).t_rx_start = s.t_rx_start ∧
    (timeout_count s).t_rx_stop = s.t_rx_stop ∧ (timeout_count s).t_tx_start = s.t_tx_start ∧
    (timeout_count s).t_tx_stop = s.t_tx_stop ∧ (timeout_count s).t_start = s.t_start ∧
    (timeout_count s).t_rx_timeout = s.t_rx_timeout ∧ (timeout_count s).T_irq = s.T_irq ∧
    (timeout_count s).t_stop = s.t_stop ∧ (timeout_count s).tbiv = s.tbiv ∧
    (timeout_count s).T_slot_h = s.T_slot_h ∧ (timeout_count s).T_rx_h = s.T_rx_h ∧
    (timeout_count s).T_w_rt_h = s.T_w_rt_h ∧ (timeout_count s).T_tx_h = s.T_tx_h ∧
    (timeout_count s).T_w_tr_h = s.T_w_tr_h ∧ (timeout_count s).t_ref_l = s.t_ref_l ∧
    (timeout_count s).T_offset_h = s.T_offset_h ∧
    (timeout_count s).t_first_rx_l = s.t_first_rx_l ∧
    (timeout_count s).T_slot_h_sum = s.T_slot_h_sum ∧ (timeout_count s).win_cnt = s.win_cnt ∧
    (timeout_count s).relay_cnt = s.relay_cnt ∧
    (timeout_count s).t_ref_l_updated = s.t_ref_l_updated ∧ (timeout_count s).TBCTL = s.TBCTL ∧
    (timeout_count s).TBCCR4 = s.TBCCR4 ∧ (timeout_count s).TBCCTL4 = s.TBCCTL4 ∧
    (timeout_count s).TBCCR5 = s.TBCCR5 ∧ (timeout_count s).TBCCTL5 = s.TBCCTL5 ∧
    (timeout_count s).ops = s.ops := by
  simp [timeout_count]

@[simp] theorem timeout_rebuild_keep (cfg : Config) (s : State) :
    (timeout_rebuild cfg s).id = s.id ∧ (timeout_rebuild cfg s).initiator = s.initiator ∧
    (timeout_rebuild cfg s).sync = s.sync ∧ (timeout_rebuild cfg s).rx_cnt = s.rx_cnt ∧
    (timeout_rebuild cfg s).tx_max = s.tx_max ∧ (timeout_rebuild cfg s).data = s.data ∧
    (timeout_rebuild cfg s).data_len = s.data_len ∧
    (timeout_rebuild cfg s).packet_len = s.packet_len ∧
    (timeout_rebuild cfg s).packet_len_tmp = s.packet_len_tmp ∧
    (timeout_rebuild cfg s).header = s.header ∧
    (timeout_rebuild cfg s).bytes_read = s.bytes_read ∧
    (timeout_rebuild cfg s).tx_relay_cnt_last = s.tx_relay_cnt_last ∧
    (timeout_rebuild cfg s).n_timeouts = s.n_timeouts ∧
    (timeout_rebuild cfg s).t_rx_start = s.t_rx_start ∧
    (timeout_rebuild cfg s).t_rx_stop = s.t_rx_stop ∧
    (timeout_rebuild cfg s).t_tx_start = s.t_tx_start ∧
    (timeout_rebuild cfg s).t_tx_stop = s.t_tx_stop ∧
    (timeout_rebuild cfg s).t_start = s.t_start ∧
    (timeout_rebuild cfg s).t_rx_timeout = s.t_rx_timeout ∧
    (timeout_rebuild cfg s).T_irq = s.T_irq ∧ (timeout_rebuild cfg s).t_stop = s.t_stop ∧
    (timeout_rebuild cfg s).tbiv = s.tbiv ∧ (timeout_rebuild cfg s).T_slot_h = s.T_slot_h ∧
    (timeout_rebuild cfg s).T_rx_h = s.T_rx_h ∧ (timeout_rebuild cfg s).T_w_rt_h = s.T_w_rt_h ∧
    (timeout_rebuild cfg s).T_tx_h = s.T_tx_h ∧ (timeout_rebuild cfg s).T_w_tr_h = s.T_w_tr_h ∧
    (timeout_rebuild cfg s).t_ref_l = s.t_ref_l ∧
    (timeout_rebuild cfg s).T_offset_h = s.T_offset_h ∧
    (timeout_rebuild cfg s).t_first_rx_l = s.t_first_rx_l ∧
    (timeout_rebuild cfg s).T_slot_h_sum = s.T_slot_h_sum ∧
    (timeout_rebuild cfg s).win_cnt = s.win_cnt ∧
    (timeout_rebuild cfg s).relay_cnt = s.relay_cnt ∧
    (timeout_rebuild cfg s).t_ref_l_updated = s.t_ref_l_updated ∧
    (timeout_rebuild cfg s).TBCTL = s.TBCTL ∧ (timeout_rebuild cfg s).TBCCR4 = s.TBCCR4 ∧
    (timeout_rebuild cfg s).TBCCTL4 = s.TBCCTL4 ∧ (timeout_rebuild cfg s).TBCCR5 = s.TBCCR5 ∧
    (timeout_rebuild cfg s).TBCCTL5 = s.TBCCTL5 ∧ (timeout_rebuild cfg s).ops = s.ops := by
  simp [timeout_rebuild]

@[simp] theorem start_timeouts_keep (s : State) :
    (start_timeouts s).id = s.id ∧ (start_timeouts s).initiator = s.initiator ∧
    (start_timeouts s).sync = s.sync ∧ (start_timeouts s).rx_cnt = s.rx_cnt ∧
    (start_timeouts s).tx_cnt = s.tx_cnt ∧ (start_timeouts s).tx_max = s.tx_max ∧
    (start_timeouts s).data = s.data ∧ (start_timeouts s).packet = s.packet ∧
    (start_timeouts s).data_len = s.data_len ∧ (start_timeouts s).packet_len = s.packet_len ∧
    (start_timeouts s).packet_len_tmp = s.packet_len_tmp ∧ (start_timeouts s).header = s.header ∧
    (start_timeouts s).bytes_read = s.bytes_read ∧
    (start_timeouts s).tx_relay_cnt_last = s.tx_relay_cnt_last ∧
    (start_timeouts s).state = s.state ∧ (start_timeouts s).t_rx_start = s.t_rx_start ∧
    (start_timeouts s).t_rx_stop = s.t_rx_stop ∧ (start_timeouts s).t_tx_start = s.t_tx_start ∧
    (start_timeouts s).t_tx_stop = s.t_tx_stop ∧ (start_timeouts s).t_start = s.t_start ∧
    (start_timeouts s).t_rx_timeout = s.t_rx_timeout ∧ (start_timeouts s).T_irq = s.T_irq ∧
    (start_timeouts s).t_stop = s.t_stop ∧ (start_timeouts s).tbiv = s.tbiv ∧
    (start_timeouts s).T_slot_h = s.T_slot_h ∧ (start_timeouts s).T_rx_h = s.T_rx_h ∧
    (start_timeouts s).T_w_rt_h = s.T_w_rt_h ∧ (start_timeouts s).T_tx_h = s.T_tx_h ∧
    (start_timeouts s).T_w_tr_h = s.T_w_tr_h ∧ (start_timeouts s).t_ref_l = s.t_ref_l ∧
    (start_timeouts s).T_offset_h = s.T_offset_h ∧
    (start_timeouts s).t_first_rx_l = s.t_first_rx_l ∧
    (start_timeouts s).T_slot_h_sum = s.T_slot_h_sum ∧ (start_timeouts s).win_cnt = s.win_cnt ∧
    (start_timeouts s).relay_cnt = s.relay_cnt ∧
    (start_timeouts s).t_ref_l_updated = s.t_ref_l_updated ∧ (start_timeouts s).TBCTL = s.TBCTL ∧
    (start_timeouts s).TBCCR4 = s.TBCCR4 ∧ (start_timeouts s).TBCCTL4 = s.TBCCTL4 ∧
    (start_timeouts s).TBCCR5 = s.TBCCR5 ∧ (start_timeouts s).TBCCTL5 = s.TBCCTL5 ∧
    (start_timeouts s).ops = s.ops := by
  simp [start_timeouts]

@[simp] theorem start_counters_keep (now_dco : Nat) (s : State) :
    (start_counters now_dco s).id = s.id ∧ (start_counters now_dco s).initiator = s.initiator ∧
    (start_counters now_dco s).sync = s.sync ∧ (start_counters now_dco s).tx_max = s.tx_max ∧
    (start_counters now_dco s).data = s.data ∧ (start_counters now_dco s).packet = s.packet ∧
    (start_counters now_dco s).data_len = s.data_len ∧
    (start_counters now_dco s).packet_len = s.packet_len ∧
    (start_counters now_dco s).packet_len_tmp = s.packet_len_tmp ∧
    (start_counters now_dco s).header = s.header ∧
    (start_counters now_dco s).bytes_read = s.bytes_read ∧
    (start_counters now_dco s).tx_relay_cnt_last = s.tx_relay_cnt_last ∧
    (start_counters now_dco s).n_timeouts = s.n_timeouts ∧
    (start_counters now_dco s).state = s.state ∧
    (start_counters now_dco s).t_rx_start = s.t_rx_start ∧
    (start_counters now_dco s).t_rx_stop = s.t_rx_stop ∧
    (start_counters now_dco s).t_tx_start = s.t_tx_start ∧
    (start_counters now_dco s).t_tx_stop = s.t_tx_stop ∧
    (start_counters now_dco s).t_rx_timeout = s.t_rx_timeout ∧
    (start_counters now_dco s).T_irq = s.T_irq ∧ (start_counters now_dco s).t_stop = s.t_stop ∧
    (start_counters now_dco s).tbiv = s.tbiv ∧ (start_counters now_dco s).T_slot_h = s.T_slot_h ∧
    (start_counters now_dco s).T_rx_h = s.T_rx_h ∧
    (start_counters now_dco s).T_w_rt_h = s.T_w_rt_h ∧
    (start_counters now_dco s).T_tx_h = s.T_tx_h ∧
    (start_counters now_dco s).T_w_tr_h = s.T_w_tr_h ∧
    (start_counters now_dco s).t_ref_l = s.t_ref_l ∧
    (start_counters now_dco s).T_offset_h = s.T_offset_h ∧
    (start_counters now_dco s).t_first_rx_l = s.t_first_rx_l ∧
    (start_counters now_dco s).T_slot_h_sum = s.T_slot_h_sum ∧
    (start_counters now_dco s).win_cnt = s.win_cnt ∧
    (start_counters now_dco s).relay_cnt = s.relay_cnt ∧
    (start_counters now_dco s).t_ref_l_updated = s.t_ref_l_updated ∧
    (start_counters now_dco s).TBCTL = s.TBCTL ∧ (start_counters now_dco s).TBCCR4 = s.TBCCR4 ∧
    (start_counters now_dco s).TBCCTL4 = s.TBCCTL4 ∧
    (start_counters now_dco s).TBCCR5 = s.TBCCR5 ∧
    (start_counters now_dco s).TBCCTL5 = s.TBCCTL5 ∧ (start_counters now_dco s).ops = s.ops := by
  simp [start_counters]

@[simp] theorem timeout_resend_keep (cfg : Config) (s : State) :
    (timeout_resend cfg s).id = s.id ∧ (timeout_resend cfg s).initiator = s.initiator ∧
    (timeout_resend cfg s).sync = s.sync ∧ (timeout_resend cfg s).rx_cnt = s.rx_cnt ∧
    (timeout_resend cfg s).tx_max = s.tx_max ∧ (timeout_resend cfg s).data = s.data ∧
    (timeout_resend cfg s).data_len = s.data_len ∧
    (timeout_resend cfg s).packet_len = s.packet_len ∧
    (timeout_resend cfg s).packet_len_tmp = s.packet_len_tmp ∧
    (timeout_resend cfg s).header = s.header ∧ (timeout_resend cfg s).bytes_read = s.bytes_read ∧
    (timeout_resend cfg s).tx_relay_cnt_last = s.tx_relay_cnt_last ∧
    (timeout_resend cfg s).n_timeouts = s.n_timeouts ∧
    (timeout_resend cfg s).t_rx_start = s.t_rx_start ∧
    (timeout_resend cfg s).t_rx_stop = s.t_rx_stop ∧
    (timeout_resend cfg s).t_tx_start = s.t_tx_start ∧
    (timeout_resend cfg s).t_tx_stop = s.t_tx_stop ∧ (timeout_resend cfg s).t_start = s.t_start ∧
    (timeout_resend cfg s).t_rx_timeout = s.t_rx_timeout ∧
    (timeout_resend cfg s).T_irq = s.T_irq ∧ (timeout_resend cfg s).t_stop = s.t_stop ∧
    (timeout_resend cfg s).tbiv = s.tbiv ∧ (timeout_resend cfg s).T_slot_h = s.T_slot_h ∧
    (timeout_resend cfg s).T_rx_h = s.T_rx_h ∧ (timeout_resend cfg s).T_w_rt_h = s.T_w_rt_h ∧
    (timeout_resend cfg s).T_tx_h = s.T_tx_h ∧ (timeout_resend cfg s).T_w_tr_h = s.T_w_tr_h ∧
    (timeout_resend cfg s).t_ref_l = s.t_ref_l ∧
    (timeout_resend cfg s).T_offset_h = s.T_offset_h ∧
    (timeout_resend cfg s).t_first_rx_l = s.t_first_rx_l ∧
    (timeout_resend cfg s).T_slot_h_sum = s.T_slot_h_sum ∧
    (timeout_resend cfg s).win_cnt = s.win_cnt ∧ (timeout_resend cfg s).relay_cnt = s.relay_cnt ∧
    (timeout_resend cfg s).t_ref_l_updated = s.t_ref_l_updated ∧
    (timeout_resend cfg s).TBCTL = s.TBCTL ∧ (timeout_resend cfg s).TBCCR5 = s.TBCCR5 ∧
    (timeout_resend cfg s).TBCCTL5 = s.TBCCTL5 := by
  simp [timeout_resend]

@[simp] theorem irq_entry_keep (env : IrqEnv) (s : State) :
    (irq_entry env s).id = s.id ∧ (irq_entry env s).initiator = s.initiator ∧
    (irq_entry env s).sync = s.sync ∧ (irq_entry env s).rx_cnt = s.rx_cnt ∧
    (irq_entry env s).tx_cnt = s.tx_cnt ∧ (irq_entry env s).tx_max = s.tx_max ∧
    (irq_entry env s).data = s.data ∧ (irq_entry env s).packet = s.packet ∧
    (irq_entry env s).data_len = s.data_len ∧ (irq_entry env s).packet_len = s.packet_len ∧
    (irq_entry env s).packet_len_tmp = s.packet_len_tmp ∧ (irq_entry env s).header = s.header ∧
    (irq_entry env s).bytes_read = s.bytes_read ∧
    (irq_entry env s).tx_relay_cnt_last = s.tx_relay_cnt_last ∧
    (irq_entry env s).n_timeouts = s.n_timeouts ∧ (irq_entry env s).state = s.state ∧
    (irq_entry env s).t_rx_start = s.t_rx_start ∧ (irq_entry env s).t_rx_stop = s.t_rx_stop ∧
    (irq_entry env s).t_tx_start = s.t_tx_start ∧ (irq_entry env s).t_tx_stop = s.t_tx_stop ∧
    (irq_entry env s).t_start = s.t_start ∧ (irq_entry env s).t_rx_timeout = s.t_rx_timeout ∧
    (irq_entry env s).t_stop = s.t_stop ∧ (irq_entry env s).tbiv = s.tbiv ∧
    (irq_entry env s).T_slot_h = s.T_slot_h ∧ (irq_entry env s).T_rx_h = s.T_rx_h ∧
    (irq_entry env s).T_w_rt_h = s.T_w_rt_h ∧ (irq_entry env s).T_tx_h = s.T_tx_h ∧
    (irq_entry env s).T_w_tr_h = s.T_w_tr_h ∧ (irq_entry env s).t_ref_l = s.t_ref_l ∧
    (irq_entry env s).T_offset_h = s.T_offset_h ∧
    (irq_entry env s).t_first_rx_l = s.t_first_rx_l ∧
    (irq_entry env s).T_slot_h_sum = s.T_slot_h_sum ∧ (irq_entry env s).win_cnt = s.win_cnt ∧
    (irq_entry env s).relay_cnt = s.relay_cnt ∧
    (irq_entry env s).t_ref_l_updated = s.t_ref_l_updated ∧ (irq_entry env s).TBCTL = s.TBCTL ∧
    (irq_entry env s).TBCCR4 = s.TBCCR4 ∧ (irq_entry env s).TBCCTL4 = s.TBCCTL4 ∧
    (irq_entry env s).TBCCR5 = s.TBCCR5 ∧ (irq_entry env s).TBCCTL5 = s.TBCCTL5 ∧
    (irq_entry env s).ops = s.ops := by
  simp [irq_entry]

@[simp] theorem read_tbiv_keep (env : IrqEnv) (s : State) :
    (read_tbiv env s).id = s.id ∧ (read_tbiv env s).initiator = s.initiator ∧
    (read_tbiv env s).sync = s.sync ∧ (read_tbiv env s).rx_cnt = s.rx_cnt ∧
    (read_tbiv env s).tx_cnt = s.tx_cnt ∧ (read_tbiv env s).tx_max = s.tx_max ∧
    (read_tbiv env s).data = s.data ∧ (read_tbiv env s).packet = s.packet ∧
    (read_tbiv env s).data_len = s.data_len ∧ (read_tbiv env s).packet_len = s.packet_len ∧
    (read_tbiv env s).packet_len_tmp = s.packet_len_tmp ∧ (read_tbiv env s).header = s.header ∧
    (read_tbiv env s).bytes_read = s.bytes_read ∧
    (read_tbiv env s).tx_relay_cnt_last = s.tx_relay_cnt_last ∧
    (read_tbiv env s).n_timeouts = s.n_timeouts ∧ (read_tbiv env s).state = s.state ∧
    (read_tbiv env s).t_rx_start = s.t_rx_start ∧ (read_tbiv env s).t_rx_stop = s.t_rx_stop ∧
    (read_tbiv env s).t_tx_start = s.t_tx_start ∧ (read_tbiv env s).t_tx_stop = s.t_tx_stop ∧
    (read_tbiv env s).t_start = s.t_start ∧ (read_tbiv env s).t_rx_timeout = s.t_rx_timeout ∧
    (read_tbiv env s).T_irq = s.T_irq ∧ (read_tbiv env s).t_stop = s.t_stop ∧
    (read_tbiv env s).T_slot_h = s.T_slot_h ∧ (read_tbiv env s).T_rx_h = s.T_rx_h ∧
    (read_tbiv env s).T_w_rt_h = s.T_w_rt_h ∧ (read_tbiv env s).T_tx_h = s.T_tx_h ∧
    (read_tbiv env s).T_w_tr_h = s.T_w_tr_h ∧ (read_tbiv env s).t_ref_l = s.t_ref_l ∧
    (read_tbiv env s).T_offset_h = s.T_offset_h ∧
    (read_tbiv env s).t_first_rx_l = s.t_first_rx_l ∧
    (read_tbiv env s).T_slot_h_sum = s.T_slot_h_sum ∧ (read_tbiv env s).win_cnt = s.win_cnt ∧
    (read_tbiv env s).relay_cnt = s.relay_cnt ∧
    (read_tbiv env s).t_ref_l_updated = s.t_ref_l_updated ∧ (read_tbiv env s).TBCTL = s.TBCTL ∧
    (read_tbiv env s).TBCCR4 = s.TBCCR4 ∧ (read_tbiv env s).TBCCTL4 = s.TBCCTL4 ∧
    (read_tbiv env s).TBCCR5 = s.TBCCR5 ∧ (read_tbiv env s).TBCCTL5 = s.TBCCTL5 ∧
    (read_tbiv env s).ops = s.ops := by
  simp [read_tbiv]

@[simp] theorem set_state_keep (st : GState) (s : State) :
    (set_state st s).id = s.id ∧ (set_state st s).initiator = s.initiator ∧
    (set_state st s).sync = s.sync ∧ (set_state st s).rx_cnt = s.rx_cnt ∧
    (set_state st s).tx_cnt = s.tx_cnt ∧ (set_state st s).tx_max = s.tx_max ∧
    (set_state st s).data = s.data ∧ (set_state st s).packet = s.packet ∧
    (set_state st s).data_len = s.data_len ∧ (set_state st s).packet_len = s.packet_len ∧
    (set_state st s).packet_len_tmp = s.packet_len_tmp ∧ (set_state st s).header = s.header ∧
    (set_state st s).bytes_read = s.bytes_read ∧
    (set_state st s).tx_relay_cnt_last = s.tx_relay_cnt_last ∧
    (set_state st s).n_timeouts = s.n_timeouts ∧ (set_state st s).t_rx_start = s.t_rx_start ∧
    (set_state st s).t_rx_stop = s.t_rx_stop ∧ (set_state st s).t_tx_start = s.t_tx_start ∧
    (set_state st s).t_tx_stop = s.t_tx_stop ∧ (set_state st s).t_start = s.t_start ∧
    (set_state st s).t_rx_timeout = s.t_rx_timeout ∧ (set_state st s).T_irq = s.T_irq ∧
    (set_state st s).t_stop = s.t_stop ∧ (set_state st s).tbiv = s.tbiv ∧
    (set_state st s).T_slot_h = s.T_slot_h ∧ (set_state st s).T_rx_h = s.T_rx_h ∧
    (set_state st s).T_w_rt_h = s.T_w_rt_h ∧ (set_state st s).T_tx_h = s.T_tx_h ∧
    (set_state st s).T_w_tr_h = s.T_w_tr_h ∧ (set_state st s).t_ref_l = s.t_ref_l ∧
    (set_state st s).T_offset_h = s.T_offset_h ∧ (set_state st s).t_first_rx_l = s.t_first_rx_l ∧
    (set_state st s).T_slot_h_sum = s.T_slot_h_sum ∧ (set_state st s).win_cnt = s.win_cnt ∧
    (set_state st s).relay_cnt = s.relay_cnt ∧
    (set_state st s).t_ref_l_updated = s.t_ref_l_updated ∧ (set_state st s).TBCTL = s.TBCTL ∧
    (set_state st s).TBCCR4 = s.TBCCR4 ∧ (set_state st s).TBCCTL4 = s.TBCCTL4 ∧
    (set_state st s).TBCCR5 = s.TBCCR5 ∧ (set_state st s).TBCCTL5 = s.TBCCTL5 ∧
    (set_state st s).ops = s.ops := by
  simp [set_state]

@[simp] theorem rx_timeout_abort_keep (s : State) :
    (rx_timeout_abort s).id = s.id ∧ (rx_timeout_abort s).initiator = s.initiator ∧
    (rx_timeout_abort s).sync = s.sync ∧ (rx_timeout_abort s).rx_cnt = s.rx_cnt ∧
    (rx_timeout_abort s).tx_cnt = s.tx_cnt ∧ (rx_timeout_abort s).tx_max = s.tx_max ∧
    (rx_timeout_abort s).data = s.data ∧ (rx_timeout_abort s).packet = s.packet ∧
    (rx_timeout_abort s).data_len = s.data_len ∧ (rx_timeout_abort s).packet_len = s.packet_len ∧
    (rx_timeout_abort s).packet_len_tmp = s.packet_len_tmp ∧
    (rx_timeout_abort s).header = s.header ∧ (rx_timeout_abort s).bytes_read = s.bytes_read ∧
    (rx_timeout_abort s).tx_relay_cnt_last = s.tx_relay_cnt_last ∧
    (rx_timeout_abort s).n_timeouts = s.n_timeouts ∧
    (rx_timeout_abort s).t_rx_start = s.t_rx_start ∧
    (rx_timeout_abort s).t_rx_stop = s.t_rx_stop ∧
    (rx_timeout_abort s).t_tx_start = s.t_tx_start ∧
    (rx_timeout_abort s).t_tx_stop = s.t_tx_stop ∧ (rx_timeout_abort s).t_start = s.t_start ∧
    (rx_timeout_abort s).t_rx_timeout = s.t_rx_timeout ∧ (rx_timeout_abort s).T_irq = s.T_irq ∧
    (rx_timeout_abort s).t_stop = s.t_stop ∧ (rx_timeout_abort s).tbiv = s.tbiv ∧
    (rx_timeout_abort s).T_slot_h = s.T_slot_h ∧ (rx_timeout_abort s).T_rx_h = s.T_rx_h ∧
    (rx_timeout_abort s).T_w_rt_h = s.T_w_rt_h ∧ (rx_timeout_abort s).T_tx_h = s.T_tx_h ∧
    (rx_timeout_abort s).T_w_tr_h = s.T_w_tr_h ∧ (rx_timeout_abort s).t_ref_l = s.t_ref_l ∧
    (rx_timeout_abort s).T_offset_h = s.T_offset_h ∧
    (rx_timeout_abort s).t_first_rx_l = s.t_first_rx_l ∧
    (rx_timeout_abort s).T_slot_h_sum = s.T_slot_h_sum ∧
    (rx_timeout_abort s).win_cnt = s.win_cnt ∧ (rx_timeout_abort s).relay_cnt = s.relay_cnt ∧
    (rx_timeout_abort s).t_ref_l_updated = s.t_ref_l_updated ∧
    (rx_timeout_abort s).TBCTL = s.TBCTL ∧ (rx_timeout_abort s).TBCCR4 = s.TBCCR4 ∧
    (rx_timeout_abort s).TBCCTL4 = s.TBCCTL4 ∧ (rx_timeout_abort s).TBCCR5 = s.TBCCR5 ∧
    (rx_timeout_abort s).TBCCTL5 = s.TBCCTL5 := by
  simp [rx_timeout_abort]

@[simp] theorem glossy_disable_other_interrupts_keep (cfg : Config) (s : State) :
    (glossy_disable_other_interrupts cfg s).id = s.id ∧
    (glossy_disable_other_interrupts cfg s).initiator = s.initiator ∧
    (glossy_disable_other_interrupts cfg s).sync = s.sync ∧
    (glossy_disable_other_interrupts cfg s).rx_cnt = s.rx_cnt ∧
    (glossy_disable_other_interrupts cfg s).tx_cnt = s.tx_cnt ∧
    (glossy_disable_other_interrupts cfg s).tx_max = s.tx_max ∧
    (glossy_disable_other_interrupts cfg s).data = s.data ∧
    (glossy_disable_other_interrupts cfg s).packet = s.packet ∧
    (glossy_disable_other_interrupts cfg s).data_len = s.data_len ∧
    (glossy_disable_other_interrupts cfg s).packet_len = s.packet_len ∧
    (glossy_disable_other_interrupts cfg s).packet_len_tmp = s.packet_len_tmp ∧
    (glossy_disable_other_interrupts cfg s).header = s.header ∧
    (glossy_disable_other_interrupts cfg s).bytes_read = s.bytes_read ∧
    (glossy_disable_other_interrupts cfg s).tx_relay_cnt_last = s.tx_relay_cnt_last ∧
    (glossy_disable_other_interrupts cfg s).n_timeouts = s.n_timeouts ∧
    (glossy_disable_other_interrupts cfg s).state = s.state ∧
    (glossy_disable_other_interrupts cfg s).t_rx_start = s.t_rx_start ∧
    (glossy_disable_other_interrupts cfg s).t_rx_stop = s.t_rx_stop ∧
    (glossy_disable_other_interrupts cfg s).t_tx_start = s.t_tx_start ∧
    (glossy_disable_other_interrupts cfg s).t_tx_stop = s.t_tx_stop ∧
    (glossy_disable_other_interrupts cfg s).t_start = s.t_start ∧
    (glossy_disable_other_interrupts cfg s).t_rx_timeout = s.t_rx_timeout ∧
    (glossy_disable_other_interrupts cfg s).T_irq = s.T_irq ∧
    (glossy_disable_other_interrupts cfg s).t_stop = s.t_stop ∧
    (glossy_disable_other_interrupts cfg s).tbiv = s.tbiv ∧
    (glossy_disable_other_interrupts cfg s).T_slot_h = s.T_slot_h ∧
    (glossy_disable_other_interrupts cfg s).T_rx_h = s.T_rx_h ∧
    (glossy_disable_other_interrupts cfg s).T_w_rt_h = s.T_w_rt_h ∧
    (glossy_disable_other_interrupts cfg s).T_tx_h = s.T_tx_h ∧
    (glossy_disable_other_interrupts cfg s).T_w_tr_h = s.T_w_tr_h ∧
    (glossy_disable_other_interrupts cfg s).t_ref_l = s.t_ref_l ∧
    (glossy_disable_other_interrupts cfg s).T_offset_h = s.T_offset_h ∧
    (glossy_disable_other_interrupts cfg s).t_first_rx_l = s.t_first_rx_l ∧
    (glossy_disable_other_interrupts cfg s).T_slot_h_sum = s.T_slot_h_sum ∧
    (glossy_disable_other_interrupts cfg s).win_cnt = s.win_cnt ∧
    (glossy_disable_other_interrupts cfg s).relay_cnt = s.relay_cnt ∧
    (glossy_disable_other_interrupts cfg s).t_ref_l_updated = s.t_ref_l_updated ∧
    (glossy_disable_other_interrupts cfg s).TBCCR4 = s.TBCCR4 ∧
    (glossy_disable_other_interrupts cfg s).TBCCTL4 = s.TBCCTL4 ∧
    (glossy_disable_other_interrupts cfg s).TBCCR5 = s.TBCCR5 ∧
    (glossy_disable_other_interrupts cfg s).TBCCTL5 = s.TBCCTL5 ∧
    (glossy_disable_other_interrupts cfg s).ops = s.ops := by
  simp [glossy_disable_other_interrupts]

@[simp] theorem glossy_enable_other_interrupts_keep (cfg : Config) (s : State) :
    (glossy_enable_other_interrupts cfg s).id = s.id ∧
    (glossy_enable_other_interrupts cfg s).initiator = s.initiator ∧
    (glossy_enable_other_interrupts cfg s).sync = s.sync ∧
    (glossy_enable_other_interrupts cfg s).rx_cnt = s.rx_cnt ∧
    (glossy_enable_other_interrupts cfg s).tx_cnt = s.tx_cnt ∧
    (glossy_enable_other_interrupts cfg s).tx_max = s.tx_max ∧
    (glossy_enable_other_interrupts cfg s).data = s.data ∧
    (glossy_enable_other_interrupts cfg s).packet = s.packet ∧
    (glossy_enable_other_interrupts cfg s).data_len = s.data_len ∧
    (glossy_enable_other_interrupts cfg s).packet_len = s.packet_len ∧
    (glossy_enable_other_interrupts cfg s).packet_len_tmp = s.packet_len_tmp ∧
    (glossy_enable_other_interrupts cfg s).header = s.header ∧
    (glossy_enable_other_interrupts cfg s).bytes_read = s.bytes_read ∧
    (glossy_enable_other_interrupts cfg s).tx_relay_cnt_last = s.tx_relay_cnt_last ∧
    (glossy_enable_other_interrupts cfg s).n_timeouts = s.n_timeouts ∧
    (glossy_enable_other_interrupts cfg s).state = s.state ∧
    (glossy_enable_other_interrupts cfg s).t_rx_start = s.t_rx_start ∧
    (glossy_enable_other_interrupts cfg s).t_rx_stop = s.t_rx_stop ∧
    (glossy_enable_other_interrupts cfg s).t_tx_start = s.t_tx_start ∧
    (glossy_enable_other_interrupts cfg s).t_tx_stop = s.t_tx_stop ∧
    (glossy_enable_other_interrupts cfg s).t_start = s.t_start ∧
    (glossy_enable_other_interrupts cfg s).t_rx_timeout = s.t_rx_timeout ∧
    (glossy_enable_other_interrupts cfg s).T_irq = s.T_irq ∧
    (glossy_enable_other_interrupts cfg s).t_stop = s.t_stop ∧
    (glossy_enable_other_interrupts cfg s).tbiv = s.tbiv ∧
    (glossy_enable_other_interrupts cfg s).T_slot_h = s.T_slot_h ∧
    (glossy_enable_other_interrupts cfg s).T_rx_h = s.T_rx_h ∧
    (glossy_enable_other_interrupts cfg s).T_w_rt_h = s.T_w_rt_h ∧
    (glossy_enable_other_interrupts cfg s).T_tx_h = s.T_tx_h ∧
    (glossy_enable_other_interrupts cfg s).T_w_tr_h = s.T_w_tr_h ∧
    (glossy_enable_other_interrupts cfg s).t_ref_l = s.t_ref_l ∧
    (glossy_enable_other_interrupts cfg s).T_offset_h = s.T_offset_h ∧
    (glossy_enable_other_interrupts cfg s).t_first_rx_l = s.t_first_rx_l ∧
    (glossy_enable_other_interrupts cfg s).T_slot_h_sum = s.T_slot_h_sum ∧
    (glossy_enable_other_interrupts cfg s).win_cnt = s.win_cnt ∧
    (glossy_enable_other_interrupts cfg s).relay_cnt = s.relay_cnt ∧
    (glossy_enable_other_interrupts cfg s).t_ref_l_updated = s.t_ref_l_updated ∧
    (glossy_enable_other_interrupts cfg s).TBCCR4 = s.TBCCR4 ∧
    (glossy_enable_other_interrupts cfg s).TBCCTL4 = s.TBCCTL4 ∧
    (glossy_enable_other_interrupts cfg s).TBCCR5 = s.TBCCR5 ∧
    (glossy_enable_other_interrupts cfg s).TBCCTL5 = s.TBCCTL5 ∧
    (glossy_enable_other_interrupts cfg s).ops = s.ops := by
  simp [glossy_enable_other_interrupts]

@[simp] theorem start_len_keep (cfg : Config) (s : State) :
    (start_len cfg s).id = s.id ∧ (start_len cfg s).initiator = s.initiator ∧
    (start_len cfg s).sync = s.sync ∧ (start_len cfg s).rx_cnt = s.rx_cnt ∧
    (start_len cfg s).tx_cnt = s.tx_cnt ∧ (start_len cfg s).tx_max = s.tx_max ∧
    (start_len cfg s).data = s.data ∧ (start_len cfg s).data_len = s.data_len ∧
    (start_len cfg s).header = s.header ∧ (start_len cfg s).bytes_read = s.bytes_read ∧
    (start_len cfg s).tx_relay_cnt_last = s.tx_relay_cnt_last ∧
    (start_len cfg s).n_timeouts = s.n_timeouts ∧ (start_len cfg s).state = s.state ∧
    (start_len cfg s).t_rx_start = s.t_rx_start ∧ (start_len cfg s).t_rx_stop = s.t_rx_stop ∧
    (start_len cfg s).t_tx_start = s.t_tx_start ∧ (start_len cfg s).t_tx_stop = s.t_tx_stop ∧
    (start_len cfg s).t_start = s.t_start ∧ (start_len cfg s).t_rx_timeout = s.t_rx_timeout ∧
    (start_len cfg s).T_irq = s.T_irq ∧ (start_len cfg s).t_stop = s.t_stop ∧
    (start_len cfg s).tbiv = s.tbiv ∧ (start_len cfg s).T_slot_h = s.T_slot_h ∧
    (start_len cfg s).T_rx_h = s.T_rx_h ∧ (start_len cfg s).T_w_rt_h = s.T_w_rt_h ∧
    (start_len cfg s).T_tx_h = s.T_tx_h ∧ (start_len cfg s).T_w_tr_h = s.T_w_tr_h ∧
    (start_len cfg s).t_ref_l = s.t_ref_l ∧ (start_len cfg s).T_offset_h = s.T_offset_h ∧
    (start_len cfg s).t_first_rx_l = s.t_first_rx_l ∧
    (start_len cfg s).T_slot_h_sum = s.T_slot_h_sum ∧ (start_len cfg s).win_cnt = s.win_cnt ∧
    (start_len cfg s).relay_cnt = s.relay_cnt ∧
    (start_len cfg s).t_ref_l_updated = s.t_ref_l_updated ∧ (start_len cfg s).TBCTL = s.TBCTL ∧
    (start_len cfg s).TBCCR4 = s.TBCCR4 ∧ (start_len cfg s).TBCCTL4 = s.TBCCTL4 ∧
    (start_len cfg s).TBCCR5 = s.TBCCR5 ∧ (start_len cfg s).TBCCTL5 = s.TBCCTL5 ∧
    (start_len cfg s).ops = s.ops := by
  simp [start_len]

@[simp] theorem start_role_keep (s : State) :
    (start_role s).id = s.id ∧ (start_role s).initiator = s.initiator ∧
    (start_role s).sync = s.sync ∧ (start_role s).rx_cnt = s.rx_cnt ∧
    (start_role s).tx_cnt = s.tx_cnt ∧ (start_role s).tx_max = s.tx_max ∧
    (start_role s).data = s.data ∧ (start_role s).data_len = s.data_len ∧
    (start_role s).packet_len = s.packet_len ∧ (start_role s).packet_len_tmp = s.packet_len_tmp ∧
    (start_role s).header = s.header ∧ (start_role s).bytes_read = s.bytes_read ∧
    (start_role s).tx_relay_cnt_last = s.tx_relay_cnt_last ∧
    (start_role s).n_timeouts = s.n_timeouts ∧ (start_role s).t_rx_start = s.t_rx_start ∧
    (start_role s).t_rx_stop = s.t_rx_stop ∧ (start_role s).t_tx_start = s.t_tx_start ∧
    (start_role s).t_tx_stop = s.t_tx_stop ∧ (start_role s).t_start = s.t_start ∧
    (start_role s).t_rx_timeout = s.t_rx_timeout ∧ (start_role s).T_irq = s.T_irq ∧
    (start_role s).t_stop = s.t_stop ∧ (start_role s).tbiv = s.tbiv ∧
    (start_role s).T_slot_h = s.T_slot_h ∧ (start_role s).T_rx_h = s.T_rx_h ∧
    (start_role s).T_w_rt_h = s.T_w_rt_h ∧ (start_role s).T_tx_h = s.T_tx_h ∧
    (start_role s).T_w_tr_h = s.T_w_tr_h ∧ (start_role s).t_ref_l = s.t_ref_l ∧
    (start_role s).T_offset_h = s.T_offset_h ∧ (start_role s).t_first_rx_l = s.t_first_rx_l ∧
    (start_role s).T_slot_h_sum = s.T_slot_h_sum ∧ (start_role s).win_cnt = s.win_cnt ∧
    (start_role s).relay_cnt = s.relay_cnt ∧ (start_role s).t_ref_l_updated = s.t_ref_l_updated ∧
    (start_role s).TBCTL = s.TBCTL ∧ (start_role s).TBCCR4 = s.TBCCR4 ∧
    (start_role s).TBCCTL4 = s.TBCCTL4 ∧ (start_role s).TBCCR5 = s.TBCCR5 ∧
    (start_role s).TBCCTL5 = s.TBCCTL5 ∧ (start_role s).ops = s.ops := by
  simp [start_role]

@[simp] theorem start_sync_keep (s : State) :
    (start_sync s).id = s.id ∧ (start_sync s).initiator = s.initiator ∧
    (start_sync s).sync = s.sync ∧ (start_sync s).rx_cnt = s.rx_cnt ∧
    (start_sync s).tx_cnt = s.tx_cnt ∧ (start_sync s).tx_max = s.tx_max ∧
    (start_sync s).data = s.data ∧ (start_sync s).data_len = s.data_len ∧
    (start_sync s).packet_len = s.packet_len ∧ (start_sync s).packet_len_tmp = s.packet_len_tmp ∧
    (start_sync s).header = s.header ∧ (start_sync s).bytes_read = s.bytes_read ∧
    (start_sync s).tx_relay_cnt_last = s.tx_relay_cnt_last ∧
    (start_sync s).n_timeouts = s.n_timeouts ∧ (start_sync s).state = s.state ∧
    (start_sync s).t_rx_start = s.t_rx_start ∧ (start_sync s).t_rx_stop = s.t_rx_stop ∧
    (start_sync s).t_tx_start = s.t_tx_start ∧ (start_sync s).t_tx_stop = s.t_tx_stop ∧
    (start_sync s).t_start = s.t_start ∧ (start_sync s).t_rx_timeout = s.t_rx_timeout ∧
    (start_sync s).T_irq = s.T_irq ∧ (start_sync s).t_stop = s.t_stop ∧
    (start_sync s).tbiv = s.tbiv ∧ (start_sync s).T_slot_h = s.T_slot_h ∧
    (start_sync s).T_rx_h = s.T_rx_h ∧ (start_sync s).T_w_rt_h = s.T_w_rt_h ∧
    (start_sync s).T_tx_h = s.T_tx_h ∧ (start_sync s).T_w_tr_h = s.T_w_tr_h ∧
    (start_sync s).t_ref_l = s.t_ref_l ∧ (start_sync s).T_offset_h = s.T_offset_h ∧
    (start_sync s).t_first_rx_l = s.t_first_rx_l ∧ (start_sync s).T_slot_h_sum = s.T_slot_h_sum ∧
    (start_sync s).win_cnt = s.win_cnt ∧ (start_sync s).relay_cnt = s.relay_cnt ∧
    (start_sync s).TBCTL = s.TBCTL ∧ (start_sync s).TBCCR4 = s.TBCCR4 ∧
    (start_sync s).TBCCTL4 = s.TBCCTL4 ∧ (start_sync s).TBCCR5 = s.TBCCR5 ∧
    (start_sync s).TBCCTL5 = s.TBCCTL5 ∧ (start_sync s).ops = s.ops := by
  simp [start_sync]

@[simp] theorem start_radio_keep (cfg : Config) (s : State) :
    (start_radio cfg s).id = s.id ∧ (start_radio cfg s).initiator = s.initiator ∧
    (start_radio cfg s).sync = s.sync ∧ (start_radio cfg s).rx_cnt = s.rx_cnt ∧
    (start_radio cfg s).tx_cnt = s.tx_cnt ∧ (start_radio cfg s).tx_max = s.tx_max ∧
    (start_radio cfg s).data = s.data ∧ (start_radio cfg s).packet = s.packet ∧
    (start_radio cfg s).data_len = s.data_len ∧ (start_radio cfg s).packet_len = s.packet_len ∧
    (start_radio cfg s).packet_len_tmp = s.packet_len_tmp ∧
    (start_radio cfg s).header = s.header ∧ (start_radio cfg s).bytes_read = s.bytes_read ∧
    (start_radio cfg s).tx_relay_cnt_last = s.tx_relay_cnt_last ∧
    (start_radio cfg s).state = s.state ∧ (start_radio cfg s).t_rx_start = s.t_rx_start ∧
    (start_radio cfg s).t_rx_stop = s.t_rx_stop ∧ (start_radio cfg s).t_tx_start = s.t_tx_start ∧
    (start_radio cfg s).t_tx_stop = s.t_tx_stop ∧ (start_radio cfg s).t_start = s.t_start ∧
    (start_radio cfg s).t_rx_timeout = s.t_rx_timeout ∧ (start_radio cfg s).T_irq = s.T_irq ∧
    (start_radio cfg s).t_stop = s.t_stop ∧ (start_radio cfg s).tbiv = s.tbiv ∧
    (start_radio cfg s).T_slot_h = s.T_slot_h ∧ (start_radio cfg s).T_rx_h = s.T_rx_h ∧
    (start_radio cfg s).T_w_rt_h = s.T_w_rt_h ∧ (start_radio cfg s).T_tx_h = s.T_tx_h ∧
    (start_radio cfg s).T_w_tr_h = s.T_w_tr_h ∧ (start_radio cfg s).t_ref_l = s.t_ref_l ∧
    (start_radio cfg s).T_offset_h = s.T_offset_h ∧
    (start_radio cfg s).t_first_rx_l = s.t_first_rx_l ∧
    (start_radio cfg s).T_slot_h_sum = s.T_slot_h_sum ∧ (start_radio cfg s).win_cnt = s.win_cnt ∧
    (start_radio cfg s).relay_cnt = s.relay_cnt ∧
    (start_radio cfg s).t_ref_l_updated = s.t_ref_l_updated ∧
    (start_radio cfg s).TBCTL = s.TBCTL ∧ (start_radio cfg s).TBCCR5 = s.TBCCR5 ∧
    (start_radio cfg s).TBCCTL5 = s.TBCCTL5 := by
  simp [start_radio]

@[simp] theorem begin_rx_arm_keep (env : IrqEnv) (s : State) :
    (begin_rx_arm env s).id = s.id ∧ (begin_rx_arm env s).initiator = s.initiator ∧
    (begin_rx_arm env s).sync = s.sync ∧ (begin_rx_arm env s).rx_cnt = s.rx_cnt ∧
    (begin_rx_arm env s).tx_cnt = s.tx_cnt ∧ (begin_rx_arm env s).tx_max = s.tx_max ∧
    (begin_rx_arm env s).data = s.data ∧ (begin_rx_arm env s).packet = s.packet ∧
    (begin_rx_arm env s).data_len = s.data_len ∧ (begin_rx_arm env s).packet_len = s.packet_len ∧
    (begin_rx_arm env s).packet_len_tmp = s.packet_len_tmp ∧
    (begin_rx_arm env s).header = s.header ∧ (begin_rx_arm env s).bytes_read = s.bytes_read ∧
    (begin_rx_arm env s).tx_relay_cnt_last = s.tx_relay_cnt_last ∧
    (begin_rx_arm env s).n_timeouts = s.n_timeouts ∧
    (begin_rx_arm env s).t_rx_stop = s.t_rx_stop ∧
    (begin_rx_arm env s).t_tx_start = s.t_tx_start ∧
    (begin_rx_arm env s).t_tx_stop = s.t_tx_stop ∧ (begin_rx_arm env s).t_start = s.t_start ∧
    (begin_rx_arm env s).T_irq = s.T_irq ∧ (begin_rx_arm env s).t_stop = s.t_stop ∧
    (begin_rx_arm env s).tbiv = s.tbiv ∧ (begin_rx_arm env s).T_slot_h = s.T_slot_h ∧
    (begin_rx_arm env s).T_rx_h = s.T_rx_h ∧ (begin_rx_arm env s).T_w_rt_h = s.T_w_rt_h ∧
    (begin_rx_arm env s).T_tx_h = s.T_tx_h ∧ (begin_rx_arm env s).T_w_tr_h = s.T_w_tr_h ∧
    (begin_rx_arm env s).t_ref_l = s.t_ref_l ∧ (begin_rx_arm env s).T_offset_h = s.T_offset_h ∧
    (begin_rx_arm env s).t_first_rx_l = s.t_first_rx_l ∧
    (begin_rx_arm env s).T_slot_h_sum = s.T_slot_h_sum ∧
    (begin_rx_arm env s).win_cnt = s.win_cnt ∧ (begin_rx_arm env s).relay_cnt = s.relay_cnt ∧
    (begin_rx_arm env s).t_ref_l_updated = s.t_ref_l_updated ∧
    (begin_rx_arm env s).TBCTL = s.TBCTL ∧ (begin_rx_arm env s).TBCCR4 = s.TBCCR4 ∧
    (begin_rx_arm env s).TBCCTL4 = s.TBCCTL4 ∧ (begin_rx_arm env s).TBCCR5 = s.TBCCR5 ∧
    (begin_rx_arm env s).TBCCTL5 = s.TBCCTL5 ∧ (begin_rx_arm env s).ops = s.ops := by
  simp [begin_rx_arm]

@[simp] theorem begin_rx_learn_keep (s : State) :
    (begin_rx_learn s).id = s.id ∧ (begin_rx_learn s).initiator = s.initiator ∧
    (begin_rx_learn s).sync = s.sync ∧ (begin_rx_learn s).rx_cnt = s.rx_cnt ∧
    (begin_rx_learn s).tx_cnt = s.tx_cnt ∧ (begin_rx_learn s).tx_max = s.tx_max ∧
    (begin_rx_learn s).data = s.data ∧ (begin_rx_learn s).packet = s.packet ∧
    (begin_rx_learn s).data_len = s.data_len ∧ (begin_rx_learn s).packet_len = s.packet_len ∧
    (begin_rx_learn s).header = s.header ∧
    (begin_rx_learn s).tx_relay_cnt_last = s.tx_relay_cnt_last ∧
    (begin_rx_learn s).n_timeouts = s.n_timeouts ∧ (begin_rx_learn s).state = s.state ∧
    (begin_rx_learn s).t_rx_start = s.t_rx_start ∧ (begin_rx_learn s).t_rx_stop = s.t_rx_stop ∧
    (begin_rx_learn s).t_tx_start = s.t_tx_start ∧ (begin_rx_learn s).t_tx_stop = s.t_tx_stop ∧
    (begin_rx_learn s).t_start = s.t_start ∧ (begin_rx_learn s).T_irq = s.T_irq ∧
    (begin_rx_learn s).t_stop = s.t_stop ∧ (begin_rx_learn s).tbiv = s.tbiv ∧
    (begin_rx_learn s).T_slot_h = s.T_slot_h ∧ (begin_rx_learn s).T_rx_h = s.T_rx_h ∧
    (begin_rx_learn s).T_w_rt_h = s.T_w_rt_h ∧ (begin_rx_learn s).T_tx_h = s.T_tx_h ∧
    (begin_rx_learn s).T_w_tr_h = s.T_w_tr_h ∧ (begin_rx_learn s).t_ref_l = s.t_ref_l ∧
    (begin_rx_learn s).T_offset_h = s.T_offset_h ∧
    (begin_rx_learn s).t_first_rx_l = s.t_first_rx_l ∧
    (begin_rx_learn s).T_slot_h_sum = s.T_slot_h_sum ∧ (begin_rx_learn s).win_cnt = s.win_cnt ∧
    (begin_rx_learn s).relay_cnt = s.relay_cnt ∧
    (begin_rx_learn s).t_ref_l_updated = s.t_ref_l_updated ∧ (begin_rx_learn s).TBCTL = s.TBCTL ∧
    (begin_rx_learn s).TBCCR4 = s.TBCCR4 ∧ (begin_rx_learn s).TBCCTL4 = s.TBCCTL4 ∧
    (begin_rx_learn s).TBCCR5 = s.TBCCR5 ∧ (begin_rx_learn s).TBCCTL5 = s.TBCCTL5 ∧
    (begin_rx_learn s).ops = s.ops := by
  simp [begin_rx_learn]

@[simp] theorem read_fifo_byte_keep (env : IrqEnv) (k i : Nat) (s : State) :
    (read_fifo_byte env k i s).id = s.id ∧ (read_fifo_byte env k i s).initiator = s.initiator ∧
    (read_fifo_byte env k i s).sync = s.sync ∧ (read_fifo_byte env k i s).rx_cnt = s.rx_cnt ∧
    (read_fifo_byte env k i s).tx_cnt = s.tx_cnt ∧ (read_fifo_byte env k i s).tx_max = s.tx_max ∧
    (read_fifo_byte env k i s).data = s.data ∧ (read_fifo_byte env k i s).data_len = s.data_len ∧
    (read_fifo_byte env k i s).packet_len = s.packet_len ∧
    (read_fifo_byte env k i s).packet_len_tmp = s.packet_len_tmp ∧
    (read_fifo_byte env k i s).header = s.header ∧
    (read_fifo_byte env k i s).bytes_read = s.bytes_read ∧
    (read_fifo_byte env k i s).tx_relay_cnt_last = s.tx_relay_cnt_last ∧
    (read_fifo_byte env k i s).n_timeouts = s.n_timeouts ∧
    (read_fifo_byte env k i s).state = s.state ∧
    (read_fifo_byte env k i s).t_rx_start = s.t_rx_start ∧
    (read_fifo_byte env k i s).t_rx_stop = s.t_rx_stop ∧
    (read_fifo_byte env k i s).t_tx_start = s.t_tx_start ∧
    (read_fifo_byte env k i s).t_tx_stop = s.t_tx_stop ∧
    (read_fifo_byte env k i s).t_start = s.t_start ∧
    (read_fifo_byte env k i s).t_rx_timeout = s.t_rx_timeout ∧
    (read_fifo_byte env k i s).T_irq = s.T_irq ∧ (read_fifo_byte env k i s).t_stop = s.t_stop ∧
    (read_fifo_byte env k i s).tbiv = s.tbiv ∧ (read_fifo_byte env k i s).T_slot_h = s.T_slot_h ∧
    (read_fifo_byte env k i s).T_rx_h = s.T_rx_h ∧
    (read_fifo_byte env k i s).T_w_rt_h = s.T_w_rt_h ∧
    (read_fifo_byte env k i s).T_tx_h = s.T_tx_h ∧
    (read_fifo_byte env k i s).T_w_tr_h = s.T_w_tr_h ∧
    (read_fifo_byte env k i s).t_ref_l = s.t_ref_l ∧
    (read_fifo_byte env k i s).T_offset_h = s.T_offset_h ∧
    (read_fifo_byte env k i s).t_first_rx_l = s.t_first_rx_l ∧
    (read_fifo_byte env k i s).T_slot_h_sum = s.T_slot_h_sum ∧
    (read_fifo_byte env k i s).win_cnt = s.win_cnt ∧
    (read_fifo_byte env k i s).relay_cnt = s.relay_cnt ∧
    (read_fifo_byte env k i s).t_ref_l_updated = s.t_ref_l_updated ∧
    (read_fifo_byte env k i s).TBCTL = s.TBCTL ∧ (read_fifo_byte env k i s).TBCCR4 = s.TBCCR4 ∧
    (read_fifo_byte env k i s).TBCCTL4 = s.TBCCTL4 ∧
    (read_fifo_byte env k i s).TBCCR5 = s.TBCCR5 ∧
    (read_fifo_byte env k i s).TBCCTL5 = s.TBCCTL5 := by
  simp [read_fifo_byte, emit]

/-! ## Radio operations and state of each step -/

@[simp] theorem emit_ops (s : State) (l : List RadioOp) : (emit s l).ops = s.ops ++ l := rfl

@[simp] theorem radio_flush_tx_ops (s : State) :
    (radio_flush_tx s).ops = s.ops ++ [.strobe .SFLUSHTX] := rfl

@[simp] theorem radio_on_ops (s : State) : (radio_on s).ops = s.ops ++ [.strobe .SRXON] := rfl

@[simp] theorem radio_off_ops (s : State) : (radio_off s).ops = s.ops ++ [.strobe .SRFOFF] := rfl

@[simp] theorem radio_flush_rx_ops (s : State) :
    (radio_flush_rx s).ops = s.ops ++ [.readFifo 1, .strobe .SFLUSHRX, .strobe .SFLUSHRX] := rfl

@[simp] theorem radio_abort_rx_ops (s : State) :
    (radio_abort_rx s).ops = s.ops ++ [.readFifo 1, .strobe .SFLUSHRX, .strobe .SFLUSHRX] := rfl

@[simp] theorem radio_abort_tx_ops (s : State) :
    (radio_abort_tx s).ops
      = s.ops ++ [.strobe .SRXON, .readFifo 1, .strobe .SFLUSHRX, .strobe .SFLUSHRX] := by
  simp [radio_abort_tx]

@[simp] theorem radio_start_tx_ops (s : State) :
    (radio_start_tx s).ops = s.ops ++ [.strobe .STXON] := rfl

@[simp] theorem radio_write_tx_ops (s : State) :
    (radio_write_tx s).ops
      = s.ops ++ [.writeFifo ((List.range (s.packet_len_tmp - 1)).map s.packet)] := rfl

@[simp] theorem read_fifo_byte_ops (env : IrqEnv) (k i : Nat) (s : State) :
    (read_fifo_byte env k i s).ops = s.ops ++ [.readFifo 1] := rfl

@[simp] theorem end_rx_drain_ops (env : IrqEnv) (s : State) :
    (end_rx_drain env s).ops = s.ops ++ [.readFifo (s.packet_len_tmp + 1 - s.bytes_read)] := by
  simp [end_rx_drain]

@[simp] theorem end_rx_drain_packet (env : IrqEnv) (s : State) :
    (end_rx_drain env s).packet
      = memcpy s.packet s.bytes_read (fun j => u8 (env.fifo j)) 0
          (s.packet_len_tmp + 1 - s.bytes_read) := by
  simp [end_rx_drain]

@[simp] theorem irq_entry_T_irq (env : IrqEnv) (s : State) :
    (irq_entry env s).T_irq = irq_delay env.now_dco env.TBCCR1 := rfl

@[simp] theorem read_tbiv_tbiv (env : IrqEnv) (s : State) : (read_tbiv env s).tbiv = env.TBIV := rfl

@[simp] theorem radio_abort_rx_state (s : State) : (radio_abort_rx s).state = .ABORTED := by
  simp [radio_abort_rx]

@[simp] theorem set_state_state (st : GState) (s : State) : (set_state st s).state = st := rfl

@[simp] theorem rx_timeout_abort_state (s : State) :
    (rx_timeout_abort s).state = if s.state = .RECEIVING then .ABORTED else s.state := by
  simp [rx_timeout_abort]

@[simp] theorem end_rx_load_state (s : State) :
    (end_rx_load s).state = if s.tx_cnt = s.tx_max then .OFF else .RECEIVED := by
  simp [end_rx_load]

@[simp] theorem end_rx_load_ops (s : State) :
    (end_rx_load s).ops
      = s.ops ++ [if s.tx_cnt = s.tx_max then .strobe .SRFOFF
          else .writeFifo ((List.range (s.packet_len_tmp - 1)).map s.packet)] := by
  simp only [end_rx_load]
  split_ifs <;> simp

@[simp] theorem end_tx_next_state (s : State) :
    (end_tx_next s).state
      = if s.tx_cnt = s.tx_max ∧ s.initiator < s.tx_max then .OFF else .WAITING := by
  simp [end_tx_next]

@[simp] theorem timeout_rebuild_state (cfg : Config) (s : State) :
    (timeout_rebuild cfg s).state = .RECEIVED := rfl

@[simp] theorem timeout_rebuild_tx_cnt (cfg : Config) (s : State) :
    (timeout_rebuild cfg s).tx_cnt = 0 := rfl

@[simp] theorem timeout_resend_state (cfg : Config) (s : State) :
    (timeout_resend cfg s).state = .RECEIVED := by
  simp [timeout_resend]

@[simp] theorem timeout_resend_tx_cnt (cfg : Config) (s : State) :
    (timeout_resend cfg s).tx_cnt = 0 := by
  simp [timeout_resend]

@[simp] theorem end_rx_count_rx_cnt (s : State) : (end_rx_count s).rx_cnt = u8 (s.rx_cnt + 1) := rfl

@[simp] theorem end_tx_count_tx_cnt (env : IrqEnv) (s : State) :
    (end_tx_count env s).tx_cnt = u8 (s.tx_cnt + 1) := rfl

@[simp] theorem begin_tx_mark_state (env : IrqEnv) (s : State) :
    (begin_tx_mark env s).state = .TRANSMITTING := rfl

@[simp] theorem start_counters_tx_cnt (now_dco : Nat) (s : State) :
    (start_counters now_dco s).tx_cnt = 0 := rfl

@[simp] theorem start_counters_rx_cnt (now_dco : Nat) (s : State) :
    (start_counters now_dco s).rx_cnt = 0 := rfl

@[simp] theorem start_args_tx_max (data_ : Nat → Nat)
    (data_len_ initiator_ sync_ tx_max_ header_ t_stop_ id_ : Nat) (s : State) :
    (start_args data_ data_len_ initiator_ sync_ tx_max_ header_ t_stop_ id_ s).tx_max
      = u8 tx_max_ := rfl

theorem glossy_end_rx_of_bad_crc (cfg : Config) (env : IrqEnv) (s : State)
    (h : ¬ crc_ok cfg env s) :
    glossy_end_rx cfg env s = set_state .WAITING (radio_abort_tx (end_rx_drain env s)) := by
  simp [glossy_end_rx, h]

theorem glossy_end_rx_of_crc_ok (cfg : Config) (env : IrqEnv) (s : State)
    (h : crc_ok cfg env s) :
    glossy_end_rx cfg env s = end_rx_ok cfg env (end_rx_drain env s) := by
  simp [glossy_end_rx, h]

theorem crc_ok_congr (cfg : Config) (env : IrqEnv) (s t : State) (h1 : t.packet = s.packet)
    (h2 : t.packet_len_tmp = s.packet_len_tmp) (h3 : t.bytes_read = s.bytes_read) :
    crc_ok cfg env t ↔ crc_ok cfg env s := by
  simp [crc_ok, GLOSSY_CRC_FIELD, h1, h2, h3]

/-! ## The start of a reception -/

theorem RxFrame.refl (s : State) : RxFrame s s := rfl

theorem RxFrame.trans {a b c : State} (h1 : RxFrame a b) (h2 : RxFrame b c) : RxFrame a c := by
  unfold RxFrame at *
  rw [h2, h1]

theorem RxFrame.step {a b c : State} (h2 : RxFrame b c) (h1 : RxFrame a b) : RxFrame a c :=
  RxFrame.trans h1 h2

theorem RxFrame.tx_cnt {s t : State} (h : RxFrame s t) : t.tx_cnt = s.tx_cnt := by
  unfold RxFrame at h
  rw [h]

theorem RxFrame.tx_max {s t : State} (h : RxFrame s t) : t.tx_max = s.tx_max := by
  unfold RxFrame at h
  rw [h]

theorem RxFrame.rx_cnt {s t : State} (h : RxFrame s t) : t.rx_cnt = s.rx_cnt := by
  unfold RxFrame at h
  rw [h]

theorem RxFrame.initiator {s t : State} (h : RxFrame s t) : t.initiator = s.initiator := by
  unfold RxFrame at h
  rw [h]

theorem RxFrame.sync {s t : State} (h : RxFrame s t) : t.sync = s.sync := by
  unfold RxFrame at h
  rw [h]

theorem RxFrame.packet_len {s t : State} (h : RxFrame s t) : t.packet_len = s.packet_len := by
  unfold RxFrame at h
  rw [h]

theorem RxFrame.data_len {s t : State} (h : RxFrame s t) : t.data_len = s.data_len := by
  unfold RxFrame at h
  rw [h]

theorem RxFrame.data {s t : State} (h : RxFrame s t) : t.data = s.data := by
  unfold RxFrame at h
  rw [h]

theorem rxFrame_abort (s : State) : RxFrame s (radio_abort_rx s) := rfl

theorem rxFrame_read (env : IrqEnv) (k i : Nat) (s : State) :
    RxFrame s (read_fifo_byte env k i s) := rfl

theorem rxFrame_arm (env : IrqEnv) (s : State) : RxFrame s (begin_rx_arm env s) := by
  unfold begin_rx_arm
  simp only []
  split <;> rfl

theorem rxFrame_learn (s : State) : RxFrame s (begin_rx_learn s) := by
  unfold begin_rx_learn
  simp only []
  split <;> rfl

theorem rxFrame_schedule (cfg : Config) (s : State) :
    RxFrame s (glossy_schedule_rx_timeout cfg s) := rfl

theorem rx_body_finished (cfg : Config) (env : IrqEnv) :
    ∀ (n : Nat) (polls : List Poll) (s t : State), rx_body cfg env n polls s = .finished t →
      RxFrame s t ∧ t.state = s.state := by
  intro n
  induction n with
  | zero =>
    intro polls s t h
    simp only [rx_body, Body.finished.injEq] at h
    subst h
    exact ⟨RxFrame.refl _, rfl⟩
  | succ n ih =>
    intro polls s t h
    unfold rx_body at h
    split at h
    · cases h
    · cases h
    · obtain ⟨hk, hs⟩ := ih _ _ _ h
      exact ⟨RxFrame.step hk rfl, hs⟩

theorem rx_body_aborted (cfg : Config) (env : IrqEnv) :
    ∀ (n : Nat) (polls : List Poll) (s t : State), rx_body cfg env n polls s = .aborted t →
      RxFrame s t ∧ t.state = .ABORTED := by
  intro n
  induction n with
  | zero =>
    intro polls s t h
    simp only [rx_body] at h
    cases h
  | succ n ih =>
    intro polls s t h
    unfold rx_body at h
    split at h
    · cases h
    · simp only [Body.aborted.injEq] at h
      subst h
      exact ⟨rxFrame_abort _, rfl⟩
    · obtain ⟨hk, hs⟩ := ih _ _ _ h
      exact ⟨RxFrame.step hk rfl, hs⟩

theorem begin_rx_body_frame (cfg : Config) (env : IrqEnv) (polls : List Poll) (s t : State)
    (h : begin_rx_body cfg env polls s = some t) :
    RxFrame s t ∧ (t.state = .ABORTED ∨ t.state = s.state) := by
  unfold begin_rx_body at h
  simp only [] at h
  split at h
  · split at h
    · cases h
    · rename_i s2 hb
      simp only [Option.some.injEq] at h
      subst h
      obtain ⟨hk, hs⟩ := rx_body_aborted _ _ _ _ _ _ hb
      exact ⟨RxFrame.step hk rfl, Or.inl hs⟩
    · rename_i s2 hb
      simp only [Option.some.injEq] at h
      subst h
      obtain ⟨hk, hs⟩ := rx_body_finished _ _ _ _ _ _ hb
      exact ⟨RxFrame.step (RxFrame.trans hk (rxFrame_schedule cfg _)) rfl, Or.inr hs⟩
  · simp only [Option.some.injEq] at h
    subst h
    exact ⟨rfl, Or.inr rfl⟩

theorem begin_rx_arm_state (env : IrqEnv) (s : State) :
    (begin_rx_arm env s).state = .RECEIVING := by
  simp [begin_rx_arm]

theorem begin_rx_learn_state (s : State) : (begin_rx_learn s).state = s.state := by
  simp [begin_rx_learn]

/-- Whatever `glossy_begin_rx` returns differs from the entry state only in
the reception variables, and is in state `ABORTED` or `RECEIVING`. -/
theorem begin_rx_frame (cfg : Config) (env : IrqEnv) (s t : State)
    (h : glossy_begin_rx cfg env s = some t) :
    RxFrame s t ∧ (t.state = .ABORTED ∨ t.state = .RECEIVING) := by
  unfold glossy_begin_rx at h
  simp only [] at h
  split at h
  · cases h
  · simp only [Option.some.injEq] at h
    subst h
    exact ⟨RxFrame.trans (rxFrame_arm env s) (rxFrame_abort _), Or.inl rfl⟩
  · split at h
    · simp only [Option.some.injEq] at h
      subst h
      exact ⟨RxFrame.trans (rxFrame_arm env s)
        (RxFrame.trans (rxFrame_read env 0 0 _) (rxFrame_abort _)), Or.inl rfl⟩
    · split at h
      · cases h
      · simp only [Option.some.injEq] at h
        subst h
        exact ⟨RxFrame.trans (rxFrame_arm env s) (RxFrame.trans (rxFrame_read env 0 0 _)
          (RxFrame.trans (rxFrame_learn _) (rxFrame_abort _))), Or.inl rfl⟩
      · split at h
        · simp only [Option.some.injEq] at h
          subst h
          exact ⟨RxFrame.trans (rxFrame_arm env s) (RxFrame.trans (rxFrame_read env 0 0 _)
            (RxFrame.trans (rxFrame_learn _) (RxFrame.trans (rxFrame_read env 1 1 _)
              (rxFrame_abort _)))), Or.inl rfl⟩
        · obtain ⟨hk, hs⟩ := begin_rx_body_frame _ _ _ _ _ h
          refine ⟨RxFrame.trans (rxFrame_arm env s) (RxFrame.trans (rxFrame_read env 0 0 _)
            (RxFrame.trans (rxFrame_learn _) (RxFrame.trans (rxFrame_read env 1 1 _) hk))), ?_⟩
          rcases hs with hs | hs
          · exact Or.inl hs
          · right
            rw [hs]
            show (begin_rx_learn _).state = _
            rw [begin_rx_learn_state]
            exact begin_rx_arm_state env s

/-! ## The transmission bound -/

theorem start_tx (cfg : Config) (data_ : Nat → Nat)
    (data_len_ initiator_ sync_ tx_max_ header_ t_stop_ id_ now_dco : Nat) (s : State) :
    (glossy_start cfg data_ data_len_ initiator_ sync_ tx_max_ header_ t_stop_ id_ now_dco s).tx_cnt = 0
    ∧ (glossy_start cfg data_ data_len_ initiator_ sync_ tx_max_ header_ t_stop_ id_ now_dco s).tx_max
        = u8 tx_max_ := by
  simp [glossy_start]

theorem end_rx_tx (cfg : Config) (env : IrqEnv) (s : State) :
    (glossy_end_rx cfg env s).tx_cnt = s.tx_cnt ∧ (glossy_end_rx cfg env s).tx_max = s.tx_max
    ∧ (glossy_end_rx cfg env s).state ≠ .TRANSMITTING
    ∧ ((glossy_end_rx cfg env s).state = .RECEIVED → s.tx_cnt ≠ s.tx_max) := by
  simp only [glossy_end_rx, end_rx_ok]
  split_ifs <;> simp
  split_ifs <;> simp_all

theorem begin_tx_tx (cfg : Config) (env : IrqEnv) (s : State) :
    (glossy_begin_tx cfg env s).tx_cnt = s.tx_cnt ∧ (glossy_begin_tx cfg env s).tx_max = s.tx_max
    ∧ (glossy_begin_tx cfg env s).state = .TRANSMITTING := by
  simp [glossy_begin_tx]

theorem end_tx_tx (env : IrqEnv) (s : State) :
    (glossy_end_tx env s).tx_cnt = u8 (s.tx_cnt + 1) ∧ (glossy_end_tx env s).tx_max = s.tx_max
    ∧ ((glossy_end_tx env s).state = .OFF ∨ (glossy_end_tx env s).state = .WAITING) := by
  simp [glossy_end_tx]
  intro _
  omega

theorem timeout_tx (cfg : Config) (s : State) :
    ((initiator_timeout cfg s).tx_cnt = 0 ∨
      ((initiator_timeout cfg s).tx_cnt = s.tx_cnt ∧ (initiator_timeout cfg s).state = s.state))
    ∧ (initiator_timeout cfg s).tx_max = s.tx_max := by
  simp only [initiator_timeout]
  split_ifs <;> simp

theorem TxInv.congr {s t : State} (hi : TxInv s) (h1 : t.tx_cnt = s.tx_cnt)
    (h2 : t.tx_max = s.tx_max) (h3 : t.state = s.state) : TxInv t := by
  unfold TxInv at *
  rw [h1, h2, h3]
  exact hi

theorem TxInv.idle {s t : State} (hi : TxInv s) (h1 : t.tx_cnt = s.tx_cnt)
    (h2 : t.tx_max = s.tx_max) (h3 : t.state ≠ .RECEIVED) (h4 : t.state ≠ .TRANSMITTING) :
    TxInv t := by
  unfold TxInv at *
  rw [h1, h2]
  refine ⟨hi.1, hi.2.1, hi.2.2.1, ?_⟩
  rintro (h | h)
  · exact absurd h h3
  · exact absurd h h4

theorem txInv_end_rx (cfg : Config) (env : IrqEnv) (s : State) (hi : TxInv s) :
    TxInv (glossy_end_rx cfg env s) ∧ (glossy_end_rx cfg env s).tx_max = s.tx_max := by
  obtain ⟨h1, h2, h3, h4⟩ := end_rx_tx cfg env s
  refine ⟨?_, h2⟩
  unfold TxInv at *
  rw [h1, h2]
  refine ⟨hi.1, hi.2.1, hi.2.2.1, ?_⟩
  rintro (h | h)
  · exact lt_of_le_of_ne hi.1 (h4 h)
  · exact absurd h h3

theorem txInv_begin_rx (cfg : Config) (env : IrqEnv) (s t : State) (hi : TxInv s)
    (h : glossy_begin_rx cfg env s = some t) : TxInv t ∧ t.tx_max = s.tx_max := by
  obtain ⟨hf, hs⟩ := begin_rx_frame _ _ _ _ h
  have e1 : t.tx_cnt = s.tx_cnt := hf.tx_cnt
  have e2 : t.tx_max = s.tx_max := hf.tx_max
  refine ⟨hi.idle e1 e2 ?_ ?_, e2⟩
  · rcases hs with hs | hs <;> simp [hs]
  · rcases hs with hs | hs <;> simp [hs]

theorem txInv_begin_tx (cfg : Config) (env : IrqEnv) (s : State) (hi : TxInv s)
    (hs : s.state = .RECEIVED) :
    TxInv (glossy_begin_tx cfg env s) ∧ (glossy_begin_tx cfg env s).tx_max = s.tx_max := by
  obtain ⟨h1, h2, h3⟩ := begin_tx_tx cfg env s
  refine ⟨?_, h2⟩
  unfold TxInv at *
  rw [h1, h2]
  exact ⟨hi.1, hi.2.1, hi.2.2.1, fun _ => hi.2.2.2 (Or.inl hs)⟩

theorem txInv_end_tx (env : IrqEnv) (s : State) (hi : TxInv s) (hs : s.state = .TRANSMITTING) :
    TxInv (glossy_end_tx env s) ∧ (glossy_end_tx env s).tx_max = s.tx_max := by
  obtain ⟨h1, h2, h3⟩ := end_tx_tx env s
  refine ⟨?_, h2⟩
  have hlt : s.tx_cnt < s.tx_max := hi.2.2.2 (Or.inr hs)
  unfold TxInv at *
  rw [h1, h2]
  simp only [u8]
  refine ⟨by omega, hi.2.1, hi.2.2.1, ?_⟩
  rintro (h | h) <;> rcases h3 with h3 | h3 <;> rw [h3] at h <;> cases h

theorem txInv_timeout (cfg : Config) (s : State) (hi : TxInv s) :
    TxInv (initiator_timeout cfg s) ∧ (initiator_timeout cfg s).tx_max = s.tx_max := by
  obtain ⟨h1, h2⟩ := timeout_tx cfg s
  refine ⟨?_, h2⟩
  rcases h1 with h1 | ⟨h1, h3⟩
  · unfold TxInv at *
    rw [h1, h2]
    exact ⟨Nat.zero_le _, hi.2.1, hi.2.2.1, fun _ => hi.2.1⟩
  · exact hi.congr h1 h2 h3

theorem txInv_rx_timeout (s : State) (hi : TxInv s) :
    TxInv (glossy_stop_rx_timeout (rx_timeout_abort s))
      ∧ (glossy_stop_rx_timeout (rx_timeout_abort s)).tx_max = s.tx_max := by
  refine ⟨?_, by simp⟩
  by_cases c : s.state = .RECEIVING
  · exact hi.idle (by simp) (by simp) (by simp [c]) (by simp [c])
  · exact hi.congr (by simp) (by simp) (by simp [c])

/-- One invocation of the interrupt handler keeps the invariant and the bound. -/
theorem txInv_step (cfg : Config) (env : IrqEnv) (s t : State) (hi : TxInv s)
    (h : timerb1_interrupt cfg env s = some t) : TxInv t ∧ t.tx_max = s.tx_max := by
  have hm : (read_tbiv env (irq_entry env s)).tx_max = s.tx_max := by simp
  have hX : TxInv (read_tbiv env (irq_entry env s)) := hi.congr (by simp) (by simp) (by simp)
  unfold timerb1_interrupt at h
  simp only [] at h
  split_ifs at h with c1 c2 c3 c4 c5 c6 c7 c8 c9
  · -- end of reception, relayed
    simp only [Option.some.injEq] at h
    subst h
    have hY : TxInv (read_tbiv env (radio_start_tx (irq_entry env s))) :=
      hi.congr (by simp) (by simp) (by simp)
    obtain ⟨a, b⟩ := txInv_end_rx cfg env _ hY
    exact ⟨a, b.trans (by simp)⟩
  · simp only [Option.some.injEq] at h
    subst h
    exact ⟨hi.idle (by simp) (by simp) (by simp) (by simp), by simp⟩
  · -- start of reception
    obtain ⟨a, b⟩ := txInv_begin_rx cfg env _ t hX h
    exact ⟨a, b.trans hm⟩
  · -- start of transmission
    simp only [Option.some.injEq] at h
    subst h
    obtain ⟨a, b⟩ := txInv_begin_tx cfg env _ hX c4.1
    exact ⟨a, b.trans hm⟩
  · -- end of transmission
    simp only [Option.some.injEq] at h
    subst h
    obtain ⟨a, b⟩ := txInv_end_tx env _ hX c5.1
    exact ⟨a, b.trans hm⟩
  · simp only [Option.some.injEq] at h
    subst h
    exact ⟨hi.idle (by simp) (by simp) (by simp) (by simp), by simp⟩
  · -- initiator timeout
    simp only [Option.some.injEq] at h
    subst h
    obtain ⟨a, b⟩ := txInv_timeout cfg _ hX
    exact ⟨a, b.trans hm⟩
  · -- reception timeout
    simp only [Option.some.injEq] at h
    subst h
    obtain ⟨a, b⟩ := txInv_rx_timeout _ hX
    exact ⟨a, b.trans hm⟩
  · simp only [Option.some.injEq] at h
    subst h
    exact ⟨hi.idle (by simp) (by simp) (by simp) (by simp), by simp⟩
  · simp only [Option.some.injEq] at h
    subst h
    exact ⟨hX, hm⟩

/-- Every run of the handler keeps the invariant and the bound. -/
theorem txInv_run (cfg : Config) :
    ∀ (envs : List IrqEnv) (s t : State), TxInv s → run cfg envs s = some t →
      TxInv t ∧ t.tx_max = s.tx_max := by
  intro envs
  induction envs with
  | nil =>
    intro s t hi h
    simp only [run, Option.some.injEq] at h
    subst h
    exact ⟨hi, rfl⟩
  | cons e es ih =>
    intro s t hi h
    simp only [run] at h
    cases hstep : timerb1_interrupt cfg e s with
    | none => rw [hstep] at h; cases h
    | some u =>
      rw [hstep] at h
      obtain ⟨hu, hm⟩ := txInv_step cfg e s u hi hstep
      obtain ⟨ht, hm2⟩ := ih u t hu h
      exact ⟨ht, hm2.trans hm⟩

/-- C1: in a session begun by `glossy_start` with `1 ≤ tx_max ≤ 255`, every
state reached by any sequence of invocations of the Timer-B interrupt handler
(any SFD level, cause and received bytes) has `tx_cnt ≤ tx_max`, with `tx_max`
the bound given at the start; the same holds in the state `glossy_stop`
returns from. -/
theorem tx_cnt_le_tx_max (cfg : Config) (data_ : Nat → Nat)
    (data_len_ initiator_ sync_ tx_max_ header_ t_stop_ id_ now_dco : Nat) (s0 t : State)
    (envs : List IrqEnv) (h1 : 1 ≤ tx_max_) (h2 : tx_max_ ≤ 255)
    (hrun : run cfg envs
      (glossy_start cfg data_ data_len_ initiator_ sync_ tx_max_ header_ t_stop_ id_ now_dco s0)
        = some t) :
    t.tx_cnt ≤ t.tx_max ∧ t.tx_max = tx_max_
      ∧ (glossy_stop cfg t).1.tx_cnt ≤ (glossy_stop cfg t).1.tx_max := by
  obtain ⟨e1, e2⟩ := start_tx cfg data_ data_len_ initiator_ sync_ tx_max_ header_ t_stop_ id_
    now_dco s0
  have hu : u8 tx_max_ = tx_max_ := by
    unfold u8
    omega
  have h0 : TxInv
      (glossy_start cfg data_ data_len_ initiator_ sync_ tx_max_ header_ t_stop_ id_ now_dco s0) := by
    unfold TxInv
    rw [e1, e2, hu]
    exact ⟨Nat.zero_le _, h1, h2, fun _ => h1⟩
  obtain ⟨ht, hm⟩ := txInv_run cfg envs _ t h0 hrun
  refine ⟨ht.1, by rw [hm, e2, hu], ?_⟩
  simpa [glossy_stop] using ht.1

/-- Witness for C1: the initiator of the single-hop scenario (`tx_max = 2`),
run through two transmissions and one timeout. -/
theorem tx_cnt_le_tx_max_witness :
    (1 ≤ 2 ∧ 2 ≤ 255 ∧ run sky lonely_session initiator2 = some lonely_final)
      ∧ (lonely_final.tx_cnt ≤ lonely_final.tx_max ∧ lonely_final.tx_max = 2
        ∧ (glossy_stop sky lonely_final).1.tx_cnt ≤ (glossy_stop sky lonely_final).1.tx_max) :=
  ⟨⟨by decide, by decide, rfl⟩,
    tx_cnt_le_tx_max sky payload12 2 1 0 2 0 0 0 1000 (boot (fun _ => 0)) lonely_final
      lonely_session (by decide) (by decide) rfl⟩

/-! ## End of a reception: CRC failure and excessive latency -/

/-- The handler at the end of a reception served in time: the TX strobe, then
`glossy_end_rx`. -/
theorem irq_end_rx (cfg : Config) (env : IrqEnv) (s : State) (hs : s.state = .RECEIVING)
    (hsfd : env.SFD_IS_1 = false) (hirq : irq_delay env.now_dco env.TBCCR1 ≤ 8) :
    timerb1_interrupt cfg env s
      = some (glossy_end_rx cfg env (read_tbiv env (radio_start_tx (irq_entry env s)))) := by
  simp [timerb1_interrupt, hs, hsfd, hirq]

/-- The handler at the end of a reception served too late. -/
theorem irq_end_rx_late (cfg : Config) (env : IrqEnv) (s : State) (hs : s.state = .RECEIVING)
    (hsfd : env.SFD_IS_1 = false) (hirq : 8 < irq_delay env.now_dco env.TBCCR1) :
    timerb1_interrupt cfg env s
      = some (read_tbiv env (set_state .WAITING (radio_flush_rx (irq_entry env s)))) := by
  simp [timerb1_interrupt, hs, hsfd, hirq]

/-- C2, as stated, fails: at the end of a frame with the CRC_OK bit clear,
served in time, the handler issues STXON first and aborts it afterwards. -/
theorem crc_failure_strobes_tx :
    receiving2.state = .RECEIVING ∧ end_bad_crc.SFD_IS_1 = false
      ∧ ¬ crc_ok sky end_bad_crc receiving2
      ∧ (timerb1_interrupt sky end_bad_crc receiving2).map (new_ops receiving2)
        = some [.strobe .STXON, .readFifo 4, .strobe .SRXON, .readFifo 1, .strobe .SFLUSHRX,
            .strobe .SFLUSHRX] := by
  decide

/-- C2, amended: at the end of a reception (state `RECEIVING`, SFD low) of a
frame with the CRC_OK bit clear, the handler returns in state `WAITING` with
`tx_cnt` unchanged; served too late (`T_irq > 8`) it issues no STXON at all;
served in time it issues one STXON, before the frame is drained, and follows
it in the same invocation with the SRXON strobe of `radio_abort_tx` and the
RX flush. -/
theorem crc_failure_aborts_tx (cfg : Config) (env : IrqEnv) (s : State)
    (hs : s.state = .RECEIVING) (hsfd : env.SFD_IS_1 = false) (hcrc : ¬ crc_ok cfg env s) :
    ∃ t, timerb1_interrupt cfg env s = some t ∧ t.state = .WAITING ∧ t.tx_cnt = s.tx_cnt
      ∧ t.ops = s.ops ++
          (if irq_delay env.now_dco env.TBCCR1 ≤ 8 then
            [.strobe .STXON, .readFifo (s.packet_len_tmp + 1 - s.bytes_read), .strobe .SRXON,
              .readFifo 1, .strobe .SFLUSHRX, .strobe .SFLUSHRX]
          else [.readFifo 1, .strobe .SFLUSHRX, .strobe .SFLUSHRX]) := by
  by_cases hirq : irq_delay env.now_dco env.TBCCR1 ≤ 8
  · have hc : ¬ crc_ok cfg env (read_tbiv env (radio_start_tx (irq_entry env s))) := by
      rw [crc_ok_congr cfg env s _ (by simp) (by simp) (by simp)]
      exact hcrc
    refine ⟨_, irq_end_rx cfg env s hs hsfd hirq, ?_⟩
    rw [glossy_end_rx_of_bad_crc cfg env _ hc]
    simp [hirq]
  · refine ⟨_, irq_end_rx_late cfg env s hs hsfd (by omega), ?_⟩
    simp [hirq]

/-- Witness for the amended C2: the frame with a bad CRC at `receiving2`. -/
theorem crc_failure_aborts_tx_witness :
    (receiving2.state = .RECEIVING ∧ end_bad_crc.SFD_IS_1 = false
      ∧ ¬ crc_ok sky end_bad_crc receiving2)
    ∧ ∃ t, timerb1_interrupt sky end_bad_crc receiving2 = some t ∧ t.state = .WAITING
      ∧ t.tx_cnt = receiving2.tx_cnt
      ∧ t.ops = receiving2.ops ++
          (if irq_delay end_bad_crc.now_dco end_bad_crc.TBCCR1 ≤ 8 then
            [.strobe .STXON, .readFifo (receiving2.packet_len_tmp + 1 - receiving2.bytes_read),
              .strobe .SRXON, .readFifo 1, .strobe .SFLUSHRX, .strobe .SFLUSHRX]
          else [.readFifo 1, .strobe .SFLUSHRX, .strobe .SFLUSHRX]) :=
  ⟨⟨by decide, by decide, by decide⟩,
    crc_failure_aborts_tx sky end_bad_crc receiving2 (by decide) (by decide) (by decide)⟩

/-- C8: when `glossy_end_rx` finds the CRC_OK bit clear, the state afterwards
is `WAITING` and `rx_cnt`, `tx_cnt`, `relay_cnt`, `header`, `T_slot_h`,
`t_ref_l`, `t_ref_l_updated` and `t_first_rx_l` are unchanged. -/
theorem bad_crc_keeps_counters (cfg : Config) (env : IrqEnv) (s : State)
    (hcrc : ¬ crc_ok cfg env s) :
    (glossy_end_rx cfg env s).state = .WAITING
      ∧ (glossy_end_rx cfg env s).rx_cnt = s.rx_cnt
      ∧ (glossy_end_rx cfg env s).tx_cnt = s.tx_cnt
      ∧ (glossy_end_rx cfg env s).relay_cnt = s.relay_cnt
      ∧ (glossy_end_rx cfg env s).header = s.header
      ∧ (glossy_end_rx cfg env s).T_slot_h = s.T_slot_h
      ∧ (glossy_end_rx cfg env s).t_ref_l = s.t_ref_l
      ∧ (glossy_end_rx cfg env s).t_ref_l_updated = s.t_ref_l_updated
      ∧ (glossy_end_rx cfg env s).t_first_rx_l = s.t_first_rx_l := by
  rw [glossy_end_rx_of_bad_crc cfg env s hcrc]
  simp

/-- Witness for C8: the frame with a bad CRC at `receiving2`. -/
theorem bad_crc_keeps_counters_witness :
    ¬ crc_ok sky end_bad_crc receiving2
    ∧ ((glossy_end_rx sky end_bad_crc receiving2).state = .WAITING
      ∧ (glossy_end_rx sky end_bad_crc receiving2).rx_cnt = receiving2.rx_cnt
      ∧ (glossy_end_rx sky end_bad_crc receiving2).tx_cnt = receiving2.tx_cnt
      ∧ (glossy_end_rx sky end_bad_crc receiving2).relay_cnt = receiving2.relay_cnt
      ∧ (glossy_end_rx sky end_bad_crc receiving2).header = receiving2.header
      ∧ (glossy_end_rx sky end_bad_crc receiving2).T_slot_h = receiving2.T_slot_h
      ∧ (glossy_end_rx sky end_bad_crc receiving2).t_ref_l = receiving2.t_ref_l
      ∧ (glossy_end_rx sky end_bad_crc receiving2).t_ref_l_updated = receiving2.t_ref_l_updated
      ∧ (glossy_end_rx sky end_bad_crc receiving2).t_first_rx_l = receiving2.t_first_rx_l) :=
  ⟨by decide, bad_crc_keeps_counters sky end_bad_crc receiving2 (by decide)⟩

/-- C9: an invocation of the handler in state `RECEIVING` with SFD low and
`T_irq > 8` returns in state `WAITING`, having performed exactly the RX flush
on the radio (a dummy read and two SFLUSHRX strobes, no STXON), with `rx_cnt`
and `tx_cnt` unchanged; `T_irq` is the latency measured at entry. -/
theorem late_irq_drops_relay (cfg : Config) (env : IrqEnv) (s : State)
    (hs : s.state = .RECEIVING) (hsfd : env.SFD_IS_1 = false)
    (hirq : 8 < irq_delay env.now_dco env.TBCCR1) :
    ∃ t, timerb1_interrupt cfg env s = some t
      ∧ t.T_irq = irq_delay env.now_dco env.TBCCR1
      ∧ t.ops = s.ops ++ [.readFifo 1, .strobe .SFLUSHRX, .strobe .SFLUSHRX]
      ∧ RadioOp.strobe .STXON ∉ new_ops s t
      ∧ t.state = .WAITING ∧ t.rx_cnt = s.rx_cnt ∧ t.tx_cnt = s.tx_cnt := by
  refine ⟨_, irq_end_rx_late cfg env s hs hsfd hirq, ?_⟩
  simp [new_ops]

/-- Witness for C9: the end of the frame of `receiving2` served 5 ticks late. -/
theorem late_irq_drops_relay_witness :
    (receiving2.state = .RECEIVING ∧ end_late.SFD_IS_1 = false
      ∧ 8 < irq_delay end_late.now_dco end_late.TBCCR1)
    ∧ ∃ t, timerb1_interrupt sky end_late receiving2 = some t
      ∧ t.T_irq = irq_delay end_late.now_dco end_late.TBCCR1
      ∧ t.ops = receiving2.ops ++ [.readFifo 1, .strobe .SFLUSHRX, .strobe .SFLUSHRX]
      ∧ RadioOp.strobe .STXON ∉ new_ops receiving2 t
      ∧ t.state = .WAITING ∧ t.rx_cnt = receiving2.rx_cnt ∧ t.tx_cnt = receiving2.tx_cnt :=
  ⟨⟨by decide, by decide, by decide⟩,
    late_irq_drops_relay sky end_late receiving2 (by decide) (by decide) (by decide)⟩

/-! ## The relayed frame -/

@[simp] theorem end_rx_relay_packet (s : State) :
    (end_rx_relay s).packet
      = if s.sync ≠ 0 then upd s.packet (relay_cnt_idx s) (u8 (GLOSSY_RELAY_CNT_FIELD s + 1))
        else s.packet := by
  simp only [end_rx_relay]
  split_ifs <;> rfl

/-- Radio operations of the success branch of `glossy_end_rx`: the radio is
turned off when `tx_cnt == tx_max`; otherwise the packet buffer, with the relay
counter already incremented (when `sync`) and the payload as received, is
written to the TX FIFO. -/
theorem end_rx_ok_ops (cfg : Config) (env : IrqEnv) (s : State) :
    (end_rx_ok cfg env s).ops
      = s.ops ++ [if s.tx_cnt = s.tx_max then .strobe .SRFOFF
          else .writeFifo ((List.range (s.packet_len_tmp - 1)).map
            (if s.sync ≠ 0 then upd s.packet (relay_cnt_idx s) (u8 (GLOSSY_RELAY_CNT_FIELD s + 1))
              else s.packet))] := by
  simp [end_rx_ok, relay_cnt_idx, GLOSSY_RELAY_CNT_FIELD]

/-- C3, as stated, fails: a received relay counter of 255 is relayed as 0. -/
theorem relay_cnt_wraps :
    crc_ok sky end_relay_255 receiving_sync ∧ receiving_sync.sync ≠ 0
      ∧ receiving_sync.tx_cnt ≠ receiving_sync.tx_max
      ∧ GLOSSY_RELAY_CNT_FIELD (end_rx_drain end_relay_255 receiving_sync) = 255
      ∧ new_ops receiving_sync (glossy_end_rx sky end_relay_255 receiving_sync)
        = [.readFifo 5, .writeFifo [6, 160, 49, 50, 0]] := by
  decide

/-- C3, amended: on a successful reception (CRC OK) in a sync session with
`tx_cnt != tx_max`, `glossy_end_rx` drains the frame and writes to the TX FIFO
a frame whose relay-counter byte is the received relay counter plus one modulo
256; it is strictly greater than the received value whenever that is below
255. -/
theorem relay_cnt_incremented (cfg : Config) (env : IrqEnv) (s : State)
    (hcrc : crc_ok cfg env s) (hsync : s.sync ≠ 0) (htx : s.tx_cnt ≠ s.tx_max)
    (hlen : 2 ≤ s.packet_len_tmp) :
    ∃ frame : List Nat,
      (glossy_end_rx cfg env s).ops
          = s.ops ++ [.readFifo (s.packet_len_tmp + 1 - s.bytes_read), .writeFifo frame]
        ∧ frame.length = s.packet_len_tmp - 1
        ∧ frame.getD (s.packet_len_tmp - FOOTER_LEN) 0
            = u8 (GLOSSY_RELAY_CNT_FIELD (end_rx_drain env s) + 1)
        ∧ (GLOSSY_RELAY_CNT_FIELD (end_rx_drain env s) < 255 →
            GLOSSY_RELAY_CNT_FIELD (end_rx_drain env s)
              < frame.getD (s.packet_len_tmp - FOOTER_LEN) 0) := by
  rw [glossy_end_rx_of_crc_ok cfg env s hcrc, end_rx_ok_ops]
  have h1 : (end_rx_drain env s).sync ≠ 0 := by simpa using hsync
  have h2 : ¬ (end_rx_drain env s).tx_cnt = (end_rx_drain env s).tx_max := by simpa using htx
  have hlt : s.packet_len_tmp - FOOTER_LEN < s.packet_len_tmp - 1 := by
    unfold FOOTER_LEN
    omega
  refine ⟨(List.range (s.packet_len_tmp - 1)).map
    (upd (end_rx_drain env s).packet (s.packet_len_tmp - FOOTER_LEN)
      (u8 (GLOSSY_RELAY_CNT_FIELD (end_rx_drain env s) + 1))), ?_, ?_, ?_, ?_⟩
  · rw [if_neg h2, if_pos h1, end_rx_drain_ops, List.append_assoc]
    simp [relay_cnt_idx]
  · simp
  · rw [List.getD_eq_getElem _ _ (by simpa using hlt)]
    simp [upd]
  · intro hr
    rw [List.getD_eq_getElem _ _ (by simpa using hlt)]
    simp only [List.getElem_map, List.getElem_range, upd, if_true, u8]
    omega

/-- Witness for the amended C3: a frame with relay counter 7 at
`receiving_sync`. -/
theorem relay_cnt_incremented_witness :
    (crc_ok sky end_relay_7 receiving_sync ∧ receiving_sync.sync ≠ 0
      ∧ receiving_sync.tx_cnt ≠ receiving_sync.tx_max ∧ 2 ≤ receiving_sync.packet_len_tmp)
    ∧ ∃ frame : List Nat,
      (glossy_end_rx sky end_relay_7 receiving_sync).ops
          = receiving_sync.ops
            ++ [.readFifo (receiving_sync.packet_len_tmp + 1 - receiving_sync.bytes_read),
              .writeFifo frame]
        ∧ frame.length = receiving_sync.packet_len_tmp - 1
        ∧ frame.getD (receiving_sync.packet_len_tmp - FOOTER_LEN) 0
            = u8 (GLOSSY_RELAY_CNT_FIELD (end_rx_drain end_relay_7 receiving_sync) + 1)
        ∧ (GLOSSY_RELAY_CNT_FIELD (end_rx_drain end_relay_7 receiving_sync) < 255 →
            GLOSSY_RELAY_CNT_FIELD (end_rx_drain end_relay_7 receiving_sync)
              < frame.getD (receiving_sync.packet_len_tmp - FOOTER_LEN) 0) :=
  ⟨⟨by decide, by decide, by decide, by decide⟩,
    relay_cnt_incremented sky end_relay_7 receiving_sync (by decide) (by decide) (by decide)
      (by decide)⟩

/-! ## The ID log -/

theorem end_rx_glossy_data_congr (env : IrqEnv) (s t : State) (h1 : t.sync = s.sync)
    (h2 : t.id = s.id) (h3 : t.packet = s.packet) (h4 : t.data_len = s.data_len) :
    end_rx_glossy_data env t = end_rx_glossy_data env s := by
  simp [end_rx_glossy_data, h1, h2, h3, h4]

@[simp] theorem end_rx_learn_data_len (s : State) :
    (end_rx_learn s).data_len
      = if s.packet_len = 0 then
          (if s.sync ≠ 0 then
            u8 (sub16 (sub16 (sub16 s.packet_len_tmp FOOTER_LEN) GLOSSY_RELAY_CNT_LEN)
              GLOSSY_HEADER_LEN)
          else u8 (sub16 (sub16 s.packet_len_tmp FOOTER_LEN) GLOSSY_HEADER_LEN))
        else s.data_len := by
  simp only [end_rx_learn]
  split_ifs <;> rfl

/-- The packet buffer on return from the success branch of `glossy_end_rx`: the
buffer that went to the TX FIFO, with the local `glossy_data` copied over the
data field. -/
theorem end_rx_ok_packet (cfg : Config) (env : IrqEnv) (s : State) :
    (end_rx_ok cfg env s).packet
      = memcpy (end_rx_relay s).packet 2 (end_rx_glossy_data env s) 0
          (end_rx_ok cfg env s).data_len := by
  have h : end_rx_glossy_data env (end_rx_header cfg s) = end_rx_glossy_data env s :=
    end_rx_glossy_data_congr env s _ (by simp) (by simp) (by simp) (by simp)
  simp [end_rx_ok, h, end_rx_copy_back, relay_cnt_idx, GLOSSY_RELAY_CNT_FIELD]

theorem end_rx_ok_data_len (cfg : Config) (env : IrqEnv) (s : State) (h : s.packet_len ≠ 0) :
    (end_rx_ok cfg env s).data_len = s.data_len := by
  simp [end_rx_ok, h]

theorem end_rx_ok_state (cfg : Config) (env : IrqEnv) (s : State) :
    (end_rx_ok cfg env s).state = if s.tx_cnt = s.tx_max then .OFF else .RECEIVED := by
  simp [end_rx_ok]

theorem end_rx_ok_rx_cnt (cfg : Config) (env : IrqEnv) (s : State) :
    (end_rx_ok cfg env s).rx_cnt = u8 (s.rx_cnt + 1) := by
  simp [end_rx_ok]

/-- C5 fails on the code: the node `0xB` receives, in a sync session, a frame
whose log is `[0xA, 0, ...]`; the frame `glossy_end_rx` writes to the TX FIFO
still carries the log `[0xA, 0, ...]` (bytes 6 to 9 of the frame are
`10, 0, 0, 0`), with only the relay counter incremented; the id `0xB` is
written to the packet buffer after the TX FIFO has been loaded. -/
theorem relay_frame_lacks_id :
    receiving_log.state = .RECEIVING ∧ receiving_log.sync ≠ 0 ∧ receiving_log.id = 11
      ∧ crc_ok sky end_log receiving_log
      ∧ logs (fun k => (end_rx_drain end_log receiving_log).packet (2 + k)) 0 = 10
      ∧ logs (fun k => (end_rx_drain end_log receiving_log).packet (2 + k)) 1 = 0
      ∧ (timerb1_interrupt sky end_log receiving_log).map (new_ops receiving_log)
        = some [.strobe .STXON, .readFifo 8,
            .writeFifo ([48, 160, 1, 0, 0, 0, 10, 0, 0, 0] ++ List.replicate 36 0 ++ [1])]
      ∧ (timerb1_interrupt sky end_log receiving_log).map
          (fun t => (logs (fun k => t.packet (2 + k)) 0, logs (fun k => t.packet (2 + k)) 1))
        = some (10, 11) := by
  decide

/-! ## The payload handed to the caller -/

@[simp] theorem begin_tx_copy_data (s : State) :
    (begin_tx_copy s).data
      = if s.initiator = 0 ∧ s.rx_cnt = 1 then memcpy s.data 0 s.packet 2 s.data_len
        else s.data := by
  simp only [begin_tx_copy]
  split_ifs <;> rfl

/-- The handler when the SFD rises in state `RECEIVED`: `glossy_begin_tx`. -/
theorem irq_begin_tx (cfg : Config) (env : IrqEnv) (s : State) (hs : s.state = .RECEIVED)
    (hsfd : env.SFD_IS_1 = true) :
    timerb1_interrupt cfg env s = some (glossy_begin_tx cfg env (read_tbiv env (irq_entry env s))) := by
  simp [timerb1_interrupt, hs, hsfd]

/-- Without sync and with a known packet length, the success branch of
`glossy_end_rx` leaves the payload in the packet buffer as it was received. -/
theorem end_rx_ok_payload (cfg : Config) (env : IrqEnv) (s : State) (hsync : s.sync = 0)
    (hpl : s.packet_len ≠ 0) (k : Nat) (hk : k < s.data_len) :
    (end_rx_ok cfg env s).packet (2 + k) = s.packet (2 + k) := by
  rw [end_rx_ok_packet, end_rx_ok_data_len cfg env s hpl]
  simp [memcpy, end_rx_glossy_data, hsync, hk, Nat.add_comm]

/-- C4, as stated, fails: the receiver `receiver2` (no sync) has received the
payload `[0x31, 0x32]` once, `glossy_stop` returns `rx_cnt = 1`, and the
caller's buffer still holds its old content, because the session is stopped
before the relay transmission begins. -/
theorem payload_not_copied_before_relay :
    run sky [sfd_edge true 2000 0 (bytes [5, 160]), end_good_crc] receiver2 = some received2
      ∧ received2.initiator = 0 ∧ received2.sync = 0
      ∧ (glossy_stop sky received2).2 = 1
      ∧ received2.data_len = 2
      ∧ received2.packet 2 = 49 ∧ received2.packet 3 = 50
      ∧ (glossy_stop sky received2).1.data 0 = 0
      ∧ (glossy_stop sky received2).1.data 1 = 0 := by
  refine ⟨rfl, ?_⟩
  decide

/-! ## The initiator that hears nothing -/

/-- The handler when the SFD falls in state `TRANSMITTING`: `glossy_end_tx`. -/
theorem irq_end_tx (cfg : Config) (env : IrqEnv) (s : State) (hs : s.state = .TRANSMITTING)
    (hsfd : env.SFD_IS_1 = false) :
    timerb1_interrupt cfg env s = some (glossy_end_tx env (read_tbiv env (irq_entry env s))) := by
  simp [timerb1_interrupt, hs, hsfd]

/-- The handler on the channel-4 compare in state `WAITING` with SFD low: the
initiator-timeout block. -/
theorem irq_initiator_timeout (cfg : Config) (env : IrqEnv) (s : State) (hs : s.state = .WAITING)
    (hsfd : env.SFD_IS_1 = false) (hc : env.TBIV = cfg.TBIV_TBCCR4) :
    timerb1_interrupt cfg env s = some (initiator_timeout cfg (read_tbiv env (irq_entry env s))) := by
  simp [timerb1_interrupt, hs, hsfd, hc]

theorem lonely_end_tx (env : IrqEnv) (s : State) (hi : s.initiator ≠ 0) (htx : s.tx_cnt = 0) :
    (glossy_end_tx env s).state = .WAITING ∧ (glossy_end_tx env s).tx_cnt = 1 := by
  have h : ¬ (u8 (0 + 1) = s.tx_max ∧ s.initiator < s.tx_max) := by
    simp only [u8]
    omega
  simp [glossy_end_tx, htx, h]
  rfl

/-- One invocation of the handler at an initiator that receives nothing. -/
theorem lonely_step (cfg : Config) (env : IrqEnv) (s : State) (hi : LonelyInv s)
    (hno : s.state = .WAITING → env.SFD_IS_1 = false) :
    ∃ t, timerb1_interrupt cfg env s = some t ∧ LonelyInv t ∧ t.sync = s.sync
      ∧ t.data = s.data := by
  obtain ⟨h1, h2, h3, h4⟩ := hi
  rcases h4 with hs | ⟨hs | hs, h0⟩
  · -- waiting
    have hsfd := hno hs
    by_cases hc : env.TBIV = cfg.TBIV_TBCCR4
    · refine ⟨_, irq_initiator_timeout cfg env s hs hsfd hc, ?_⟩
      simp [initiator_timeout, h1, LonelyInv, h2, timeout_resend]
    · by_cases hc5 : env.TBIV = cfg.TBIV_TBCCR5
      · have hc' : ¬ cfg.TBIV_TBCCR5 = cfg.TBIV_TBCCR4 := by
          rw [← hc5]
          exact hc
        refine ⟨glossy_stop_rx_timeout (rx_timeout_abort (read_tbiv env (irq_entry env s))), ?_, ?_⟩
        · simp [timerb1_interrupt, hs, hsfd, hc5, hc']
        · simp [LonelyInv, h1, h2, h3, hs]
      · refine ⟨set_state .WAITING (radio_flush_rx (read_tbiv env (irq_entry env s))), ?_, ?_⟩
        · simp [timerb1_interrupt, hs, hsfd, hc, hc5]
        · simp [LonelyInv, h1, h2, h3]
  · -- a transmission is pending
    by_cases hsfd : env.SFD_IS_1 = true
    · refine ⟨_, irq_begin_tx cfg env s hs hsfd, ?_⟩
      simp [glossy_begin_tx, LonelyInv, h1, h2, h0, begin_tx_copy]
    · by_cases hc5 : env.TBIV = cfg.TBIV_TBCCR5
      · refine ⟨glossy_stop_rx_timeout (rx_timeout_abort (read_tbiv env (irq_entry env s))), ?_, ?_⟩
        · simp [timerb1_interrupt, hs, hsfd, hc5]
        · simp [LonelyInv, h1, h2, h0, hs]
      · refine ⟨set_state .WAITING (radio_flush_rx (read_tbiv env (irq_entry env s))), ?_, ?_⟩
        · simp [timerb1_interrupt, hs, hsfd, hc5]
        · simp [LonelyInv, h1, h2, h0]
  · -- a transmission is under way
    by_cases hsfd : env.SFD_IS_1 = false
    · refine ⟨_, irq_end_tx cfg env s hs hsfd, ?_⟩
      obtain ⟨e1, e2⟩ := lonely_end_tx env (read_tbiv env (irq_entry env s)) (by simpa using h2)
        (by simpa using h0)
      refine ⟨⟨?_, ?_, ?_, Or.inl e1⟩, ?_, ?_⟩
      · simpa [glossy_end_tx] using h1
      · simpa [glossy_end_tx] using h2
      · omega
      · simp [glossy_end_tx]
      · simp [glossy_end_tx]
    · by_cases hc5 : env.TBIV = cfg.TBIV_TBCCR5
      · refine ⟨glossy_stop_rx_timeout (rx_timeout_abort (read_tbiv env (irq_entry env s))), ?_, ?_⟩
        · simp [timerb1_interrupt, hs, hsfd, hc5]
        · simp [LonelyInv, h1, h2, h0, hs]
      · refine ⟨set_state .WAITING (radio_flush_rx (read_tbiv env (irq_entry env s))), ?_, ?_⟩
        · simp [timerb1_interrupt, hs, hsfd, hc5]
        · simp [LonelyInv, h1, h2, h0]

/-- Every run of the handler at an initiator that receives nothing returns,
and keeps the invariant, the sync flag and the caller's buffer. -/
theorem lonely_run (cfg : Config) :
    ∀ (envs : List IrqEnv) (s : State), LonelyInv s → no_reception cfg envs s = true →
      ∃ t, run cfg envs s = some t ∧ LonelyInv t ∧ t.sync = s.sync ∧ t.data = s.data := by
  intro envs
  induction envs with
  | nil =>
    intro s hi _
    exact ⟨s, rfl, hi, rfl, rfl⟩
  | cons e es ih =>
    intro s hi hno
    simp only [no_reception, Bool.and_eq_true, decide_eq_true_eq] at hno
    obtain ⟨u, hu, hiu, hsu, hdu⟩ := lonely_step cfg e s hi hno.1
    have hno2 := hno.2
    rw [hu] at hno2
    obtain ⟨t, ht, hit, hst, hdt⟩ := ih u hiu hno2
    refine ⟨t, ?_, hit, hst.trans hsu, hdt.trans hdu⟩
    simp only [run, hu, Option.some_bind]
    exact ht

@[simp] theorem start_role_state (s : State) :
    (start_role s).state = if s.initiator ≠ 0 then .RECEIVED else .WAITING := by
  simp only [start_role]
  split_ifs <;> rfl

theorem start_lonely (cfg : Config) (data_ : Nat → Nat)
    (data_len_ initiator_ tx_max_ header_ t_stop_ id_ now_dco : Nat) (s0 : State)
    (h1 : 1 ≤ initiator_) (h2 : initiator_ ≤ 255) :
    LonelyInv (glossy_start cfg data_ data_len_ initiator_ 0 tx_max_ header_ t_stop_ id_ now_dco s0)
      ∧ (glossy_start cfg data_ data_len_ initiator_ 0 tx_max_ header_ t_stop_ id_ now_dco s0).sync = 0
      ∧ (glossy_start cfg data_ data_len_ initiator_ 0 tx_max_ header_ t_stop_ id_ now_dco s0).data
          = data_ := by
  have hu : u8 initiator_ = initiator_ := by
    unfold u8
    omega
  have hne : ¬ initiator_ % 256 = 0 := by omega
  simp [glossy_start, LonelyInv, start_args, hne, u8]

@[simp] theorem timeout_resend_ops (cfg : Config) (s : State) :
    (timeout_resend cfg s).ops
      = s.ops ++ [.writeFifo ((List.range (s.packet_len_tmp - 1)).map (timeout_rebuild cfg s).packet),
          .strobe .STXON] := by
  simp [timeout_resend]

@[simp] theorem timeout_resend_packet (cfg : Config) (s : State) :
    (timeout_resend cfg s).packet = (timeout_rebuild cfg s).packet := by
  simp [timeout_resend]

theorem timeout_rebuild_packet (cfg : Config) (s : State) (hsync : s.sync = 0) :
    (timeout_rebuild cfg s).packet
      = memcpy (upd (upd s.packet 0 s.packet_len_tmp) 1
          (u8 (cfg.GLOSSY_HEADER ||| and_not s.header cfg.GLOSSY_HEADER_MASK))) 2 s.data 0
            s.data_len := by
  simp [timeout_rebuild, hsync]

/-- C10, as stated, fails: the initiator `initiator2` (`tx_max = 2`, no sync)
receives nothing while it transmits, times out and transmits again; all its
transmissions have completed (state `WAITING`), and `tx_cnt` is 1, not
`tx_max`. -/
theorem initiator_without_rx_stays_at_one :
    initiator2.initiator ≠ 0 ∧ initiator2.sync = 0 ∧ initiator2.tx_max = 2
      ∧ no_reception sky lonely_session initiator2 = true
      ∧ run sky lonely_session initiator2 = some lonely_final
      ∧ lonely_final.state = .WAITING ∧ lonely_final.rx_cnt = 0
      ∧ lonely_final.tx_cnt = 1 ∧ lonely_final.tx_max = 2
      ∧ (glossy_stop sky lonely_final).2 = 0 := by
  refine ⟨by decide, by decide, by decide, by decide, rfl, by decide, by decide, by decide,
    by decide, by decide⟩

/-- C10, amended: in an initiator session without sync in which no frame is
ever received, every run of the handler returns with `rx_cnt = 0`, so that
`glossy_stop` returns 0; each firing of the initiator timeout while `WAITING`
resets `tx_cnt` to 0, rebuilds the packet (length byte, data), loads it into
the TX FIFO, issues a TX strobe and sets the state to `RECEIVED`; each
transmission that completes leaves `tx_cnt = 1` and the state `WAITING`; so
`tx_cnt` never exceeds 1 (it equals `tx_max` only when `tx_max = 1`) and the
state `OFF` is not reached before `glossy_stop`. -/
theorem lonely_initiator (cfg : Config) (data_ : Nat → Nat)
    (data_len_ initiator_ tx_max_ header_ t_stop_ id_ now_dco : Nat) (s0 : State)
    (envs : List IrqEnv) (h1 : 1 ≤ initiator_) (h2 : initiator_ ≤ 255)
    (hno : no_reception cfg envs
      (glossy_start cfg data_ data_len_ initiator_ 0 tx_max_ header_ t_stop_ id_ now_dco s0)
        = true) :
    ∃ t, run cfg envs
        (glossy_start cfg data_ data_len_ initiator_ 0 tx_max_ header_ t_stop_ id_ now_dco s0)
          = some t
      ∧ t.rx_cnt = 0 ∧ (glossy_stop cfg t).2 = 0 ∧ t.tx_cnt ≤ 1 ∧ t.state ≠ .OFF
      ∧ (∀ env : IrqEnv, t.state = .WAITING → env.SFD_IS_1 = false →
          env.TBIV = cfg.TBIV_TBCCR4 →
          ∃ u, timerb1_interrupt cfg env t = some u ∧ u.state = .RECEIVED ∧ u.tx_cnt = 0
            ∧ u.ops = t.ops ++ [.writeFifo ((List.range (t.packet_len_tmp - 1)).map u.packet),
                .strobe .STXON]
            ∧ u.packet 0 = t.packet_len_tmp
            ∧ ∀ k, k < t.data_len → u.packet (2 + k) = data_ k)
      ∧ (∀ env : IrqEnv, t.state = .TRANSMITTING → env.SFD_IS_1 = false →
          ∃ u, timerb1_interrupt cfg env t = some u ∧ u.state = .WAITING ∧ u.tx_cnt = 1) := by
  obtain ⟨hi0, hs0, hd0⟩ := start_lonely cfg data_ data_len_ initiator_ tx_max_ header_ t_stop_
    id_ now_dco s0 h1 h2
  obtain ⟨t, ht, hit, hst, hdt⟩ := lonely_run cfg envs _ hi0 hno
  rw [hs0] at hst
  rw [hd0] at hdt
  obtain ⟨i1, i2, i3, i4⟩ := hit
  refine ⟨t, ht, i1, ?_, i3, ?_, ?_, ?_⟩
  · simpa [glossy_stop] using i1
  · rcases i4 with h | ⟨h | h, _⟩ <;> simp [h]
  · intro env hs hsfd hc
    refine ⟨_, irq_initiator_timeout cfg env t hs hsfd hc, ?_⟩
    have hrb := timeout_rebuild_packet cfg (timeout_count (read_tbiv env (irq_entry env t)))
      (by simpa using hst)
    simp only [initiator_timeout, timeout_count_keep, read_tbiv_keep, irq_entry_keep, i1,
      if_true, timeout_resend_state, timeout_resend_tx_cnt, timeout_resend_ops,
      timeout_resend_packet, true_and]
    refine ⟨?_, ?_⟩
    · rw [hrb]
      simp [memcpy, upd]
    · intro k hk
      rw [hrb]
      simp [memcpy, hk, hdt, Nat.add_comm k 2]
  · intro env hs hsfd
    refine ⟨_, irq_end_tx cfg env t hs hsfd, ?_⟩
    have h0 : t.tx_cnt = 0 := by
      rcases i4 with h | ⟨_, h⟩
      · rw [hs] at h
        cases h
      · exact h
    exact lonely_end_tx env _ (by simpa using i2) (by simpa using h0)

/-- Witness for the amended C10: the session of `initiator2`. -/
theorem lonely_initiator_witness :
    (1 ≤ 1 ∧ 1 ≤ 255 ∧ no_reception sky lonely_session
      (glossy_start sky payload12 2 1 0 2 0 0 0 1000 (boot (fun _ => 0))) = true)
    ∧ ∃ t, run sky lonely_session
        (glossy_start sky payload12 2 1 0 2 0 0 0 1000 (boot (fun _ => 0))) = some t
      ∧ t.rx_cnt = 0 ∧ (glossy_stop sky t).2 = 0 ∧ t.tx_cnt ≤ 1 ∧ t.state ≠ .OFF
      ∧ (∀ env : IrqEnv, t.state = .WAITING → env.SFD_IS_1 = false →
          env.TBIV = sky.TBIV_TBCCR4 →
          ∃ u, timerb1_interrupt sky env t = some u ∧ u.state = .RECEIVED ∧ u.tx_cnt = 0
            ∧ u.ops = t.ops ++ [.writeFifo ((List.range (t.packet_len_tmp - 1)).map u.packet),
                .strobe .STXON]
            ∧ u.packet 0 = t.packet_len_tmp
            ∧ ∀ k, k < t.data_len → u.packet (2 + k) = payload12 k)
      ∧ (∀ env : IrqEnv, t.state = .TRANSMITTING → env.SFD_IS_1 = false →
          ∃ u, timerb1_interrupt sky env t = some u ∧ u.state = .WAITING ∧ u.tx_cnt = 1) :=
  ⟨⟨by decide, by decide, by decide⟩,
    lonely_initiator sky payload12 2 1 2 0 0 0 1000 (boot (fun _ => 0)) lonely_session
      (by decide) (by decide) (by decide)⟩

/-! ## Frames rejected at the start of a reception -/

/-- The handler when the SFD rises in state `WAITING`: `glossy_begin_rx`. -/
theorem irq_begin_rx (cfg : Config) (env : IrqEnv) (s : State) (hs : s.state = .WAITING)
    (hsfd : env.SFD_IS_1 = true) :
    timerb1_interrupt cfg env s = glossy_begin_rx cfg env (read_tbiv env (irq_entry env s)) := by
  simp [timerb1_interrupt, hs, hsfd]

theorem wait_len_entry (cfg : Config) (env : IrqEnv) (s : State) :
    wait_len cfg env (read_tbiv env (irq_entry env s)) = wait_len cfg env s := by
  simp [wait_len, begin_rx_arm, rx_deadline]

theorem wait_hdr_entry (cfg : Config) (env : IrqEnv) (s : State) (polls1 : List Poll) :
    wait_hdr cfg env (read_tbiv env (irq_entry env s)) polls1 = wait_hdr cfg env s polls1 := by
  simp [wait_hdr, begin_rx_arm, begin_rx_learn, rx_deadline, GLOSSY_LEN_FIELD, read_fifo_byte]

theorem bad_length_iff (env : IrqEnv) (s : State)
    (hinv : s.packet_len ≠ 0 → s.packet_len_tmp = s.packet_len) :
    bad_length (read_fifo_byte env 0 0 (begin_rx_arm env (read_tbiv env (irq_entry env s))))
      ↔ bad_len_byte s (u8 (env.fifo 0)) := by
  simp only [bad_length, bad_len_byte, GLOSSY_LEN_FIELD, read_fifo_byte_keep, begin_rx_arm_keep,
    read_tbiv_keep, irq_entry_keep]
  have hp : (read_fifo_byte env 0 0 (begin_rx_arm env (read_tbiv env (irq_entry env s)))).packet 0
      = u8 (env.fifo 0) := by
    simp [read_fifo_byte, upd]
  rw [hp]
  by_cases h0 : s.packet_len = 0
  · simp [h0]
  · rw [hinv h0]

theorem bad_header_iff (cfg : Config) (env : IrqEnv) (s : State) :
    bad_header cfg (read_fifo_byte env 1 1 s)
      ↔ u8 (env.fifo 1) &&& cfg.GLOSSY_HEADER_MASK ≠ cfg.GLOSSY_HEADER := by
  simp [bad_header, GLOSSY_HEADER_FIELD, read_fifo_byte, upd]

/-- What the handler returns on a `bad_frame`: the state in which
`glossy_begin_rx` calls `radio_abort_rx`, after one FIFO read when the length
byte is bad and two when the header byte is. -/
theorem irq_bad_frame (cfg : Config) (env : IrqEnv) (s : State) (hs : s.state = .WAITING)
    (hsfd : env.SFD_IS_1 = true) (hinv : s.packet_len ≠ 0 → s.packet_len_tmp = s.packet_len)
    (hbad : bad_frame cfg env s = true) :
    ∃ t, timerb1_interrupt cfg env s = some t ∧ t.state = .ABORTED
      ∧ t.ops = s.ops ++
          (if bad_len_byte s (u8 (env.fifo 0)) then
            [.readFifo 1, .readFifo 1, .strobe .SFLUSHRX, .strobe .SFLUSHRX]
          else [.readFifo 1, .readFifo 1, .readFifo 1, .strobe .SFLUSHRX, .strobe .SFLUSHRX])
      ∧ t.rx_cnt = s.rx_cnt ∧ t.tx_cnt = s.tx_cnt
      ∧ t.packet_len = s.packet_len
      ∧ (s.packet_len ≠ 0 → t.packet_len_tmp = s.packet_len_tmp) := by
  rw [irq_begin_rx cfg env s hs hsfd]
  unfold bad_frame at hbad
  unfold glossy_begin_rx
  simp only [wait_len_entry, wait_hdr_entry]
  cases hw : wait_len cfg env s with
  | spinning => simp [hw] at hbad
  | expired => simp [hw] at hbad
  | ready polls1 =>
    simp only [hw, Bool.or_eq_true, decide_eq_true_eq] at hbad
    simp only []
    by_cases hl : bad_len_byte s (u8 (env.fifo 0))
    · rw [if_pos ((bad_length_iff env s hinv).2 hl)]
      refine ⟨_, rfl, ?_⟩
      simp [hl]
    · rw [if_neg (fun h => hl ((bad_length_iff env s hinv).1 h))]
      rcases hbad with hbad | hbad
      · exact absurd hbad hl
      · cases hw2 : wait_hdr cfg env s polls1 with
        | spinning => simp [hw2] at hbad
        | expired => simp [hw2] at hbad
        | ready polls2 =>
          simp only [hw2, decide_eq_true_eq] at hbad
          simp only []
          rw [if_pos ((bad_header_iff cfg env _).2 hbad)]
          refine ⟨_, rfl, ?_⟩
          simp [hl]
          intro h0
          simp [begin_rx_learn, h0]

/-- The handler from a state other than `RECEIVING`, when no reception starts:
it returns, in a state other than `RECEIVING`, with `rx_cnt` and both packet
lengths unchanged. -/
theorem irq_no_rx (cfg : Config) (env : IrqEnv) (s : State) (h1 : s.state ≠ .RECEIVING)
    (h2 : ¬ (s.state = .WAITING ∧ env.SFD_IS_1 = true)) :
    ∃ t, timerb1_interrupt cfg env s = some t ∧ t.state ≠ .RECEIVING ∧ t.rx_cnt = s.rx_cnt
      ∧ t.packet_len = s.packet_len ∧ t.packet_len_tmp = s.packet_len_tmp := by
  unfold timerb1_interrupt
  simp only [irq_entry_keep, read_tbiv_keep, h1, false_and, if_false, h2]
  split_ifs with c1 c2 c3 c4 c5 c6
  · exact ⟨_, rfl, by simp [glossy_begin_tx], by simp [glossy_begin_tx],
      by simp [glossy_begin_tx], by simp [glossy_begin_tx]⟩
  · refine ⟨_, rfl, ?_, by simp [glossy_end_tx], by simp [glossy_end_tx],
      by simp [glossy_end_tx]⟩
    simp only [glossy_end_tx, radio_flush_tx_keep, end_tx_next_state]
    split_ifs <;> simp
  · exact ⟨_, rfl, by simp, by simp, by simp, by simp⟩
  · refine ⟨_, rfl, ?_, ?_, ?_, ?_⟩
    · simp only [initiator_timeout]
      split_ifs
      · simp
      · simpa using h1
    · simp only [initiator_timeout]
      split_ifs <;> simp
    · simp only [initiator_timeout]
      split_ifs <;> simp
    · simp only [initiator_timeout]
      split_ifs <;> simp
  · exact ⟨_, rfl, by simp [h1], by simp, by simp, by simp⟩
  · exact ⟨_, rfl, by simp, by simp, by simp, by simp⟩
  · exact ⟨_, rfl, by simpa using h1, by simp, by simp, by simp⟩

/-- One invocation of the handler at a node that sees only bad frames. -/
theorem bad_step (cfg : Config) (env : IrqEnv) (s : State) (hi : BadInv s)
    (hb : s.state = .WAITING → env.SFD_IS_1 = true → bad_frame cfg env s = true) :
    ∃ t, timerb1_interrupt cfg env s = some t ∧ BadInv t := by
  obtain ⟨h1, h2, h3⟩ := hi
  by_cases hc : s.state = .WAITING ∧ env.SFD_IS_1 = true
  · obtain ⟨t, ht, e1, _, e3, _, e5, e6⟩ := irq_bad_frame cfg env s hc.1 hc.2 h3 (hb hc.1 hc.2)
    refine ⟨t, ht, e3.trans h1, by simp [e1], ?_⟩
    intro hp
    rw [e5] at hp ⊢
    rw [e6 hp]
    exact h3 hp
  · obtain ⟨t, ht, e1, e2, e3, e4⟩ := irq_no_rx cfg env s h2 hc
    refine ⟨t, ht, e2.trans h1, e1, ?_⟩
    rw [e3, e4]
    exact h3

/-- Every run of the handler at a node that sees only bad frames returns and
keeps the invariant. -/
theorem bad_run (cfg : Config) :
    ∀ (envs : List IrqEnv) (s : State), BadInv s → only_bad_frames cfg envs s = true →
      ∃ t, run cfg envs s = some t ∧ BadInv t := by
  intro envs
  induction envs with
  | nil =>
    intro s hi _
    exact ⟨s, rfl, hi⟩
  | cons e es ih =>
    intro s hi hb
    simp only [only_bad_frames, Bool.and_eq_true, decide_eq_true_eq] at hb
    obtain ⟨u, hu, hiu⟩ := bad_step cfg e s hi hb.1
    have hb2 := hb.2
    rw [hu] at hb2
    obtain ⟨t, ht, hit⟩ := ih u hiu hb2
    refine ⟨t, ?_, hit⟩
    simp only [run, hu, Option.some_bind]
    exact ht

theorem start_len_lengths (cfg : Config) (s : State) :
    (start_len cfg s).packet_len ≠ 0 →
      (start_len cfg s).packet_len_tmp = (start_len cfg s).packet_len := by
  simp only [start_len]
  split_ifs <;> simp

theorem start_bad (cfg : Config) (data_ : Nat → Nat)
    (data_len_ initiator_ sync_ tx_max_ header_ t_stop_ id_ now_dco : Nat) (s0 : State) :
    BadInv
      (glossy_start cfg data_ data_len_ initiator_ sync_ tx_max_ header_ t_stop_ id_ now_dco s0) := by
  refine ⟨by simp [glossy_start], ?_, ?_⟩
  · simp only [glossy_start, start_radio_keep, radio_flush_tx_keep, radio_flush_rx_keep,
      start_sync_keep, start_role_state]
    split_ifs <;> simp
  · simp only [glossy_start, start_radio_keep, radio_flush_tx_keep, radio_flush_rx_keep,
      start_sync_keep, start_role_keep]
    exact start_len_lengths cfg _

/-- The handler in state `ABORTED`: the state is cleared to `WAITING` and the
radio is not touched. -/
theorem irq_aborted (cfg : Config) (env : IrqEnv) (s : State) (hs : s.state = .ABORTED) :
    timerb1_interrupt cfg env s = some (set_state .WAITING (read_tbiv env (irq_entry env s))) := by
  simp [timerb1_interrupt, hs]

/-- C7: when the SFD rises at a waiting node on a frame whose length byte
differs from the known `packet_len`, or is below `FOOTER_LEN` or above 127, or
whose header byte fails `(header & GLOSSY_HEADER_MASK) == GLOSSY_HEADER`,
`glossy_begin_rx` aborts the reception: the handler returns in state
`ABORTED`, having read the bytes tested and flushed the RX FIFO, with no TX
strobe and with `rx_cnt` and `tx_cnt` unchanged; the next invocation of the
handler, whatever its cause, leaves the node in `WAITING` without touching the
radio; and a session begun by `glossy_start` that sees only such frames ends
with `rx_cnt = 0`, the value `glossy_stop` returns. -/
theorem bad_frames_rejected (cfg : Config) (env env' : IrqEnv) (s : State)
    (data_ : Nat → Nat) (data_len_ initiator_ sync_ tx_max_ header_ t_stop_ id_ now_dco : Nat)
    (s0 : State) (envs : List IrqEnv)
    (hs : s.state = .WAITING) (hsfd : env.SFD_IS_1 = true)
    (hinv : s.packet_len ≠ 0 → s.packet_len_tmp = s.packet_len)
    (hbad : bad_frame cfg env s = true)
    (hall : only_bad_frames cfg envs
      (glossy_start cfg data_ data_len_ initiator_ sync_ tx_max_ header_ t_stop_ id_ now_dco s0)
        = true) :
    (∃ t, timerb1_interrupt cfg env s = some t ∧ t.state = .ABORTED
      ∧ t.ops = s.ops ++
          (if bad_len_byte s (u8 (env.fifo 0)) then
            [.readFifo 1, .readFifo 1, .strobe .SFLUSHRX, .strobe .SFLUSHRX]
          else [.readFifo 1, .readFifo 1, .readFifo 1, .strobe .SFLUSHRX, .strobe .SFLUSHRX])
      ∧ RadioOp.strobe .STXON ∉ new_ops s t
      ∧ t.rx_cnt = s.rx_cnt ∧ t.tx_cnt = s.tx_cnt
      ∧ ∃ u, timerb1_interrupt cfg env' t = some u ∧ u.state = .WAITING ∧ u.ops = t.ops
        ∧ u.rx_cnt = s.rx_cnt ∧ u.tx_cnt = s.tx_cnt)
    ∧ ∃ t, run cfg envs
        (glossy_start cfg data_ data_len_ initiator_ sync_ tx_max_ header_ t_stop_ id_ now_dco s0)
          = some t
      ∧ t.rx_cnt = 0 ∧ (glossy_stop cfg t).2 = 0 := by
  constructor
  · obtain ⟨t, ht, e1, e2, e3, e4, _, _⟩ := irq_bad_frame cfg env s hs hsfd hinv hbad
    refine ⟨t, ht, e1, e2, ?_, e3, e4, _, irq_aborted cfg env' t e1, by simp, by simp,
      by simpa using e3, by simpa using e4⟩
    rw [new_ops, e2]
    split_ifs <;> simp
  · obtain ⟨t, ht, hit⟩ := bad_run cfg envs _
      (start_bad cfg data_ data_len_ initiator_ sync_ tx_max_ header_ t_stop_ id_ now_dco s0) hall
    exact ⟨t, ht, hit.1, by simpa [glossy_stop] using hit.1⟩

/-- Witness for C7: `receiver2` on a frame of the wrong length, and its session
`bad_session`. -/
theorem bad_frames_rejected_witness :
    (receiver2.state = .WAITING ∧ start_wrong_len.SFD_IS_1 = true
      ∧ (receiver2.packet_len ≠ 0 → receiver2.packet_len_tmp = receiver2.packet_len)
      ∧ bad_frame sky start_wrong_len receiver2 = true
      ∧ only_bad_frames sky bad_session
          (glossy_start sky (fun _ => 0) 2 0 0 2 0 0 11 1000 (boot (fun _ => 0))) = true)
    ∧ ((∃ t, timerb1_interrupt sky start_wrong_len receiver2 = some t ∧ t.state = .ABORTED
        ∧ t.ops = receiver2.ops ++
            (if bad_len_byte receiver2 (u8 (start_wrong_len.fifo 0)) then
              [.readFifo 1, .readFifo 1, .strobe .SFLUSHRX, .strobe .SFLUSHRX]
            else [.readFifo 1, .readFifo 1, .readFifo 1, .strobe .SFLUSHRX, .strobe .SFLUSHRX])
        ∧ RadioOp.strobe .STXON ∉ new_ops receiver2 t
        ∧ t.rx_cnt = receiver2.rx_cnt ∧ t.tx_cnt = receiver2.tx_cnt
        ∧ ∃ u, timerb1_interrupt sky (compare_irq 10 2500) t = some u ∧ u.state = .WAITING
          ∧ u.ops = t.ops ∧ u.rx_cnt = receiver2.rx_cnt ∧ u.tx_cnt = receiver2.tx_cnt)
      ∧ ∃ t, run sky bad_session
          (glossy_start sky (fun _ => 0) 2 0 0 2 0 0 11 1000 (boot (fun _ => 0))) = some t
        ∧ t.rx_cnt = 0 ∧ (glossy_stop sky t).2 = 0) :=
  ⟨⟨by decide, by decide, by decide, by decide, by decide⟩,
    bad_frames_rejected sky start_wrong_len (compare_irq 10 2500) receiver2 (fun _ => 0) 2 0 0 2 0
      0 11 1000 (boot (fun _ => 0)) bad_session (by decide) (by decide) (by decide) (by decide)
      (by decide)⟩

/-! ## Stopping, and the state `OFF` -/

/-- The handler in state `OFF`: the latency and the vector register are
recorded and, when the cause is the channel-5 compare, the RX timeout is
stopped. -/
theorem irq_off (cfg : Config) (env : IrqEnv) (s : State) (hs : s.state = .OFF) :
    timerb1_interrupt cfg env s
      = some (if env.TBIV = cfg.TBIV_TBCCR5 then
          glossy_stop_rx_timeout (read_tbiv env (irq_entry env s))
        else read_tbiv env (irq_entry env s)) := by
  by_cases hc : env.TBIV = cfg.TBIV_TBCCR5
  · simp [timerb1_interrupt, hs, hc, rx_timeout_abort]
  · simp [timerb1_interrupt, hs, hc]

/-- The handler in state `OFF` returns in state `OFF` with the radio log, the
Timer B control register and the channel-4 control register unchanged. -/
theorem irq_off_keeps (cfg : Config) (env : IrqEnv) (s : State) (hs : s.state = .OFF) :
    ∃ t, timerb1_interrupt cfg env s = some t ∧ t.state = .OFF ∧ t.ops = s.ops
      ∧ t.TBCTL = s.TBCTL ∧ t.TBCCTL4 = s.TBCCTL4
      ∧ (env.TBIV = cfg.TBIV_TBCCR5 → t.TBCCTL5 = 0) := by
  refine ⟨_, irq_off cfg env s hs, ?_⟩
  by_cases hc : env.TBIV = cfg.TBIV_TBCCR5
  · simp [hc, hs, glossy_stop_rx_timeout]
  · simp [hc, hs]

/-- A sequence of handler invocations from state `OFF` returns in state `OFF`
with the radio log unchanged. -/
theorem run_off (cfg : Config) :
    ∀ (envs : List IrqEnv) (s : State), s.state = .OFF →
      ∃ t, run cfg envs s = some t ∧ t.state = .OFF ∧ t.ops = s.ops
  | [], s, hs => ⟨s, rfl, hs, rfl⟩
  | e :: es, s, hs => by
    obtain ⟨t, ht, hst, hops, -⟩ := irq_off_keeps cfg e s hs
    obtain ⟨u, hu, hsu, hou⟩ := run_off cfg es t hst
    exact ⟨u, by simp [run, ht, hu], hsu, by rw [hou, hops]⟩

/-- The state set by `glossy_start`: `RECEIVED` at the initiator, `WAITING` at
a receiver. -/
theorem glossy_start_state (cfg : Config) (data_ : Nat → Nat)
    (data_len_ initiator_ sync_ tx_max_ header_ t_stop_ id_ now_dco : Nat) (s : State) :
    (glossy_start cfg data_ data_len_ initiator_ sync_ tx_max_ header_ t_stop_ id_ now_dco s).state
      = if u8 initiator_ ≠ 0 then .RECEIVED else .WAITING := by
  simp [glossy_start, start_args]

/-- C11, as stated, fails: `glossy_stop` called while the RX timeout is armed
(a reception is under way at `receiving2`) returns with the channel-5 compare
interrupt still enabled. -/
theorem stop_leaves_rx_timeout_armed :
    receiving2.TBCCTL5 = sky.CCIE
      ∧ (glossy_stop sky receiving2).1.TBCCTL5 = sky.CCIE
      ∧ (glossy_stop sky receiving2).1.TBCCTL5 &&& sky.CCIE ≠ 0 := by
  decide

/-- C11, amended: in every state, on return from `glossy_stop` Timer B is
sourced by the 32 kHz clock and running (`TBCTL = TBSSEL0 | MC1`), the
channel-4 compare interrupt is disabled and the state is `OFF`; the channel-5
control register is left as it was on entry; an RX timeout still armed is
disarmed by the handler invocation that serves the channel-5 compare, which
returns in state `OFF` with the radio, the clock source and channel 4
untouched. -/
theorem stop_timer_b (cfg : Config) (s : State) :
    (glossy_stop cfg s).1.TBCTL = cfg.TBSSEL0 ||| cfg.MC1
      ∧ (glossy_stop cfg s).1.TBCCTL4 = 0
      ∧ (glossy_stop cfg s).1.state = .OFF
      ∧ (glossy_stop cfg s).1.TBCCTL5 = s.TBCCTL5
      ∧ ∀ env : IrqEnv, env.TBIV = cfg.TBIV_TBCCR5 →
          ∃ u, timerb1_interrupt cfg env (glossy_stop cfg s).1 = some u
            ∧ u.TBCCTL5 = 0 ∧ u.TBCCTL4 = 0 ∧ u.TBCTL = cfg.TBSSEL0 ||| cfg.MC1
            ∧ u.state = .OFF ∧ u.ops = (glossy_stop cfg s).1.ops := by
  have h1 : (glossy_stop cfg s).1.TBCTL = cfg.TBSSEL0 ||| cfg.MC1 := by
    simp [glossy_stop, glossy_enable_other_interrupts]
  have h2 : (glossy_stop cfg s).1.TBCCTL4 = 0 := by
    simp [glossy_stop, glossy_stop_initiator_timeout]
  have h3 : (glossy_stop cfg s).1.state = .OFF := by simp [glossy_stop]
  have h4 : (glossy_stop cfg s).1.TBCCTL5 = s.TBCCTL5 := by simp [glossy_stop]
  refine ⟨h1, h2, h3, h4, fun env hc => ?_⟩
  obtain ⟨u, hu, hsu, hou, hctl, hc4, hc5⟩ := irq_off_keeps cfg env _ h3
  exact ⟨u, hu, hc5 hc, by rw [hc4, h2], by rw [hctl, h1], hsu, hou⟩

/-- Witness for the amended C11: `glossy_stop` during the reception at
`receiving2`, then the channel-5 compare. -/
theorem stop_timer_b_witness :
    (compare_irq 10 40000).TBIV = sky.TBIV_TBCCR5
      ∧ ∃ u, timerb1_interrupt sky (compare_irq 10 40000) (glossy_stop sky receiving2).1 = some u
        ∧ u.TBCCTL5 = 0 ∧ u.TBCCTL4 = 0 ∧ u.TBCTL = sky.TBSSEL0 ||| sky.MC1
        ∧ u.state = .OFF ∧ u.ops = (glossy_stop sky receiving2).1.ops :=
  ⟨by decide, (stop_timer_b sky receiving2).2.2.2.2 (compare_irq 10 40000) (by decide)⟩

/-- C12: a handler invocation entered in state `OFF`, whatever the SFD level
and the cause, performs no radio operation and returns in state `OFF`, and so
does every sequence of invocations; the setters keep the state and
`glossy_stop` sets it to `OFF`; `glossy_start` leaves `OFF`, for `RECEIVED` at
the initiator and `WAITING` at a receiver. -/
theorem off_forbids_radio (cfg : Config) (s : State) (hs : s.state = .OFF) :
    (∀ env : IrqEnv, ∃ t, timerb1_interrupt cfg env s = some t ∧ t.state = .OFF ∧ t.ops = s.ops)
      ∧ (∀ envs : List IrqEnv, ∃ t, run cfg envs s = some t ∧ t.state = .OFF ∧ t.ops = s.ops)
      ∧ (∀ t : Nat, (set_t_ref_l t s).state = .OFF)
      ∧ (∀ updated : Nat, (set_t_ref_l_updated updated s).state = .OFF)
      ∧ (glossy_stop cfg s).1.state = .OFF
      ∧ ∀ (data_ : Nat → Nat) (data_len_ initiator_ sync_ tx_max_ header_ t_stop_ id_ now_dco : Nat),
          (glossy_start cfg data_ data_len_ initiator_ sync_ tx_max_ header_ t_stop_ id_ now_dco
            s).state = (if u8 initiator_ ≠ 0 then .RECEIVED else .WAITING)
          ∧ (glossy_start cfg data_ data_len_ initiator_ sync_ tx_max_ header_ t_stop_ id_ now_dco
            s).state ≠ .OFF := by
  refine ⟨fun env => ?_, fun envs => run_off cfg envs s hs, fun _ => hs, fun _ => hs,
    by simp [glossy_stop], fun data_ data_len_ initiator_ sync_ tx_max_ header_ t_stop_ id_ now_dco => ?_⟩
  · obtain ⟨t, ht, hst, hops, -⟩ := irq_off_keeps cfg env s hs
    exact ⟨t, ht, hst, hops⟩
  · rw [glossy_start_state]
    refine ⟨rfl, ?_⟩
    split_ifs <;> simp

/-- Witness for C12: the state after program load. -/
theorem off_forbids_radio_witness :
    (boot (fun _ => 0)).state = .OFF
      ∧ (∀ env : IrqEnv, ∃ t, timerb1_interrupt sky env (boot (fun _ => 0)) = some t
          ∧ t.state = .OFF ∧ t.ops = (boot (fun _ => 0)).ops)
      ∧ ∀ envs : List IrqEnv, ∃ t, run sky envs (boot (fun _ => 0)) = some t
          ∧ t.state = .OFF ∧ t.ops = (boot (fun _ => 0)).ops :=
  ⟨by decide, (off_forbids_radio sky (boot (fun _ => 0)) (by decide)).1,
    (off_forbids_radio sky (boot (fun _ => 0)) (by decide)).2.1⟩

/-! ## The RX timeout -/

theorem RxFrame.t_ref_l_updated {s t : State} (h : RxFrame s t) :
    t.t_ref_l_updated = s.t_ref_l_updated := by
  unfold RxFrame at h
  rw [h]

theorem end_rx_ref (cfg : Config) (env : IrqEnv) (s : State) :
    (glossy_end_rx cfg env s).t_ref_l_updated = s.t_ref_l_updated := by
  simp only [glossy_end_rx, end_rx_ok]
  split_ifs <;> simp

/-- `glossy_begin_tx` leaves `t_ref_l_updated` alone, or sets it from 0 to 1
under the guard `sync && T_slot_h && !t_ref_l_updated && rx_cnt`. -/
theorem begin_tx_ref (cfg : Config) (env : IrqEnv) (s : State) :
    (glossy_begin_tx cfg env s).t_ref_l_updated = s.t_ref_l_updated
      ∨ (s.sync ≠ 0 ∧ s.T_slot_h ≠ 0 ∧ s.t_ref_l_updated = 0 ∧ s.rx_cnt ≠ 0
          ∧ (glossy_begin_tx cfg env s).t_ref_l_updated = 1) := by
  unfold glossy_begin_tx begin_tx_sync
  split_ifs with c
  · right
    simp only [begin_tx_copy_keep, begin_tx_mark_keep] at c
    exact ⟨c.1, c.2.1, c.2.2.1, c.2.2.2, by simp [compute_sync_reference_time]⟩
  · left
    simp

/-- One invocation of the handler leaves `t_ref_l_updated` alone, unless it is
the start of a transmission (state `RECEIVED`, SFD high), where
`glossy_begin_tx` may set it from 0 to 1 under its guard. -/
theorem irq_ref_updated (cfg : Config) (env : IrqEnv) (s t : State)
    (h : timerb1_interrupt cfg env s = some t) :
    t.t_ref_l_updated = s.t_ref_l_updated
      ∨ (s.state = .RECEIVED ∧ env.SFD_IS_1 = true
          ∧ t = glossy_begin_tx cfg env (read_tbiv env (irq_entry env s))
          ∧ s.sync ≠ 0 ∧ s.T_slot_h ≠ 0 ∧ s.rx_cnt ≠ 0
          ∧ s.t_ref_l_updated = 0 ∧ t.t_ref_l_updated = 1) := by
  unfold timerb1_interrupt at h
  simp only [] at h
  split_ifs at h with c1 c2 c3 c4 c5 c6 c7 c8 c9
  · simp only [Option.some.injEq] at h
    subst h
    left
    rw [end_rx_ref]
    simp
  · simp only [Option.some.injEq] at h
    subst h
    left
    simp
  · left
    rw [(begin_rx_frame cfg env _ t h).1.t_ref_l_updated]
    simp
  · simp only [Option.some.injEq] at h
    subst h
    rcases begin_tx_ref cfg env (read_tbiv env (irq_entry env s)) with e | ⟨a, b, c, d, e⟩
    · left
      rw [e]
      simp
    · right
      simp only [read_tbiv_keep, irq_entry_keep] at a b c d c4
      exact ⟨c4.1, c4.2, rfl, a, b, d, c, e⟩
  · simp only [Option.some.injEq] at h
    subst h
    left
    simp [glossy_end_tx]
  · simp only [Option.some.injEq] at h
    subst h
    left
    simp
  · simp only [Option.some.injEq] at h
    subst h
    left
    simp only [initiator_timeout]
    split_ifs <;> simp
  · simp only [Option.some.injEq] at h
    subst h
    left
    simp
  · simp only [Option.some.injEq] at h
    subst h
    left
    simp
  · simp only [Option.some.injEq] at h
    subst h
    left
    simp

/-- Once `t_ref_l_updated` is non-zero, no run of the handler changes it. -/
theorem run_ref_stays (cfg : Config) :
    ∀ (envs : List IrqEnv) (s t : State), s.t_ref_l_updated ≠ 0 → run cfg envs s = some t →
      t.t_ref_l_updated = s.t_ref_l_updated
  | [], s, t, _, h => by
    simp only [run, Option.some.injEq] at h
    rw [h]
  | e :: es, s, t, hs, h => by
    simp only [run] at h
    cases hstep : timerb1_interrupt cfg e s with
    | none => rw [hstep] at h; cases h
    | some u =>
      rw [hstep] at h
      simp only [Option.some_bind] at h
      rcases irq_ref_updated cfg e s u hstep with e1 | ⟨-, -, -, -, -, -, e0, -⟩
      · rw [run_ref_stays cfg es u t (by rw [e1]; exact hs) h, e1]
      · exact absurd e0 hs

theorem ref_updates_of_ne (cfg : Config) :
    ∀ (envs : List IrqEnv) (s : State), s.t_ref_l_updated ≠ 0 → ref_updates cfg envs s = 0
  | [], _, _ => rfl
  | e :: es, s, hs => by
    simp only [ref_updates]
    cases hstep : timerb1_interrupt cfg e s with
    | none => rfl
    | some u =>
      simp only []
      rcases irq_ref_updated cfg e s u hstep with e1 | ⟨-, -, -, -, -, -, e0, -⟩
      · rw [ref_updates_of_ne cfg es u (by rw [e1]; exact hs)]
        simp [hs]
      · exact absurd e0 hs

theorem ref_updates_le_one (cfg : Config) :
    ∀ (envs : List IrqEnv) (s : State), ref_updates cfg envs s ≤ 1
  | [], _ => by simp [ref_updates]
  | e :: es, s => by
    simp only [ref_updates]
    cases hstep : timerb1_interrupt cfg e s with
    | none => simp
    | some u =>
      simp only []
      by_cases c : s.t_ref_l_updated = 0 ∧ u.t_ref_l_updated ≠ 0
      · rw [ref_updates_of_ne cfg es u c.2]
        simp [c]
      · have := ref_updates_le_one cfg es u
        simp only [c, if_false]
        omega

/-- C13: in a sync session `t_ref_l_updated` is 0 after `glossy_start`; an
invocation of the handler changes it only from 0 to 1, and only at the start
of a transmission (state `RECEIVED`, SFD high), where the handler runs
`glossy_begin_tx` with `sync`, `T_slot_h` and `rx_cnt` all non-zero
(`rx_cnt >= 1`: a frame has been received); once it is 1 every later run of
the handler leaves it at 1; so along any run of the session it leaves 0 at
most once. -/
theorem t_ref_l_updated_once (cfg : Config) (data_ : Nat → Nat)
    (data_len_ initiator_ sync_ tx_max_ header_ t_stop_ id_ now_dco : Nat) (s0 : State)
    (hsync : u8 sync_ ≠ 0) :
    (glossy_start cfg data_ data_len_ initiator_ sync_ tx_max_ header_ t_stop_ id_ now_dco
        s0).t_ref_l_updated = 0
      ∧ (∀ (envs : List IrqEnv) (env : IrqEnv) (t u : State),
          run cfg envs (glossy_start cfg data_ data_len_ initiator_ sync_ tx_max_ header_ t_stop_
            id_ now_dco s0) = some t →
          timerb1_interrupt cfg env t = some u →
          u.t_ref_l_updated = t.t_ref_l_updated
            ∨ (t.t_ref_l_updated = 0 ∧ u.t_ref_l_updated = 1
                ∧ t.state = .RECEIVED ∧ env.SFD_IS_1 = true
                ∧ u = glossy_begin_tx cfg env (read_tbiv env (irq_entry env t))
                ∧ 1 ≤ t.rx_cnt ∧ t.T_slot_h ≠ 0 ∧ t.sync ≠ 0))
      ∧ (∀ (envs envs' : List IrqEnv) (t u : State),
          run cfg envs (glossy_start cfg data_ data_len_ initiator_ sync_ tx_max_ header_ t_stop_
            id_ now_dco s0) = some t →
          t.t_ref_l_updated = 1 → run cfg envs' t = some u → u.t_ref_l_updated = 1)
      ∧ ∀ envs : List IrqEnv,
          ref_updates cfg envs (glossy_start cfg data_ data_len_ initiator_ sync_ tx_max_ header_
            t_stop_ id_ now_dco s0) ≤ 1 := by
  refine ⟨?_, fun envs env t u _ hu => ?_, fun envs envs' t u _ h1 hu => ?_,
    fun envs => ref_updates_le_one cfg envs _⟩
  · simp [glossy_start, start_sync, start_args, hsync]
  · rcases irq_ref_updated cfg env t u hu with e | ⟨a, b, c, d, e, f, g, h⟩
    · exact Or.inl e
    · exact Or.inr ⟨g, h, a, b, c, Nat.one_le_iff_ne_zero.mpr f, e, d⟩
  · rw [run_ref_stays cfg envs' t u (by rw [h1]; decide) hu, h1]

/-- Witness for C13: the sync session of `receiver_synced`, where the flag is
set at the start of the first relay. -/
theorem t_ref_l_updated_once_witness :
    u8 1 ≠ 0
      ∧ receiver_synced.t_ref_l_updated = 0
      ∧ (∀ envs : List IrqEnv, ref_updates sky envs receiver_synced ≤ 1)
      ∧ ref_updates sky first_relay_session receiver_synced = 1
      ∧ (run sky first_relay_session receiver_synced).map (fun t => t.t_ref_l_updated) = some 1 :=
  ⟨by decide,
    (t_ref_l_updated_once sky (fun _ => 0) 2 0 1 2 0 0 11 1000
      { boot (fun _ => 0) with T_slot_h := 1000 } (by decide)).1,
    (t_ref_l_updated_once sky (fun _ => 0) 2 0 1 2 0 0 11 1000
      { boot (fun _ => 0) with T_slot_h := 1000 } (by decide)).2.2.2,
    by decide, by decide⟩

/-! ## The packet length -/

theorem rx_body_finished_len (cfg : Config) (env : IrqEnv) :
    ∀ (n : Nat) (polls : List Poll) (s t : State), rx_body cfg env n polls s = .finished t →
      t.packet_len_tmp = s.packet_len_tmp := by
  intro n
  induction n with
  | zero =>
    intro polls s t h
    simp only [rx_body, Body.finished.injEq] at h
    rw [h]
  | succ n ih =>
    intro polls s t h
    unfold rx_body at h
    split at h
    · cases h
    · cases h
    · rw [ih _ _ _ h]
      simp

/-- A reception that `glossy_begin_rx` lets through its in-flight reads keeps
the length taken from the frame. -/
theorem begin_rx_body_len (cfg : Config) (env : IrqEnv) (polls : List Poll) (s t : State)
    (h : begin_rx_body cfg env polls s = some t) (hr : t.state = .RECEIVING) :
    t.packet_len_tmp = s.packet_len_tmp := by
  unfold begin_rx_body at h
  simp only [] at h
  split_ifs at h with c
  · split at h
    · cases h
    · rename_i s2 hb
      simp only [Option.some.injEq] at h
      subst h
      rw [(rx_body_aborted cfg env _ _ _ _ hb).2] at hr
      cases hr
    · rename_i s2 hb
      simp only [Option.some.injEq] at h
      subst h
      have := rx_body_finished_len cfg env _ _ _ _ hb
      simpa using this
  · simp only [Option.some.injEq] at h
    subst h
    simp

/-- A frame accepted by `glossy_begin_rx` at a node that does not know the
packet length yet: the length is taken from the length byte, which lies
between `FOOTER_LEN` and 127. -/
theorem begin_rx_accepted (cfg : Config) (env : IrqEnv) (s t : State)
    (h : glossy_begin_rx cfg env s = some t) (hr : t.state = .RECEIVING)
    (hp : s.packet_len = 0) :
    t.packet_len_tmp = u8 (env.fifo 0) ∧ 2 ≤ t.packet_len_tmp ∧ t.packet_len_tmp ≤ 127 := by
  unfold glossy_begin_rx at h
  simp only [] at h
  split at h
  · cases h
  · simp only [Option.some.injEq] at h
    subst h
    simp at hr
  · split at h
    · simp only [Option.some.injEq] at h
      subst h
      simp at hr
    · rename_i hlen
      split at h
      · cases h
      · simp only [Option.some.injEq] at h
        subst h
        simp at hr
      · split at h
        · simp only [Option.some.injEq] at h
          subst h
          simp at hr
        · have e := begin_rx_body_len cfg env _ _ t h hr
          have e1 : t.packet_len_tmp = u8 (env.fifo 0) := by
            rw [e]
            simp [begin_rx_learn, hp, GLOSSY_LEN_FIELD, read_fifo_byte, emit, upd]
          have e2 : GLOSSY_LEN_FIELD (read_fifo_byte env 0 0 (begin_rx_arm env s))
              = u8 (env.fifo 0) := by
            simp [GLOSSY_LEN_FIELD, read_fifo_byte, emit, upd]
          unfold bad_length at hlen
          rw [e2] at hlen
          simp only [FOOTER_LEN] at hlen
          rw [e1]
          omega

theorem end_rx_learn_packet_len (s : State) :
    (end_rx_learn s).packet_len = if s.packet_len = 0 then s.packet_len_tmp else s.packet_len := by
  simp only [end_rx_learn]
  split_ifs <;> simp_all

/-- The lengths after a successful reception at a node that did not know the
packet length. -/
theorem end_rx_ok_learned (cfg : Config) (env : IrqEnv) (s : State) (hp : s.packet_len = 0) :
    (end_rx_ok cfg env s).packet_len = s.packet_len_tmp
      ∧ (end_rx_ok cfg env s).sync = s.sync
      ∧ (end_rx_ok cfg env s).data_len
        = if s.sync ≠ 0 then
            u8 (sub16 (sub16 (sub16 s.packet_len_tmp FOOTER_LEN) GLOSSY_RELAY_CNT_LEN)
              GLOSSY_HEADER_LEN)
          else u8 (sub16 (sub16 s.packet_len_tmp FOOTER_LEN) GLOSSY_HEADER_LEN) := by
  refine ⟨?_, ?_, ?_⟩
  · simp [end_rx_ok, end_rx_learn_packet_len, hp]
  · simp [end_rx_ok]
  · simp [end_rx_ok, hp]

/-- The lengths set by `glossy_start`. -/
theorem glossy_start_lengths (cfg : Config) (data_ : Nat → Nat)
    (data_len_ initiator_ sync_ tx_max_ header_ t_stop_ id_ now_dco : Nat) (s : State) :
    (glossy_start cfg data_ data_len_ initiator_ sync_ tx_max_ header_ t_stop_ id_ now_dco
        s).data_len = u8 data_len_
      ∧ (glossy_start cfg data_ data_len_ initiator_ sync_ tx_max_ header_ t_stop_ id_ now_dco
        s).sync = u8 sync_
      ∧ (glossy_start cfg data_ data_len_ initiator_ sync_ tx_max_ header_ t_stop_ id_ now_dco
        s).packet_len
        = if u8 data_len_ ≠ 0 then
            (if u8 sync_ ≠ 0 then
              u8 (u8 data_len_ + FOOTER_LEN + GLOSSY_RELAY_CNT_LEN + GLOSSY_HEADER_LEN)
            else u8 (u8 data_len_ + FOOTER_LEN + GLOSSY_HEADER_LEN))
          else 0 := by
  refine ⟨by simp [glossy_start, start_args], by simp [glossy_start, start_args], ?_⟩
  simp only [glossy_start, start_radio_keep, radio_flush_tx_keep, radio_flush_rx_keep,
    start_sync_keep, start_role_keep]
  simp only [start_len]
  split_ifs with c1 c2 c3 c4 <;>
    simp_all [start_args]

/-- C15, as stated, fails: `glossy_start` does not test the length, so 200
payload bytes give `packet_len = 203`, above 127, and 253 payload bytes give
`packet_len = 0`; and a receiver started with `data_len = 0` that accepts a
frame of length 2 is left with `packet_len = 2` and `data_len = 255`. -/
theorem packet_len_exceeds_mtu :
    (glossy_start sky payload12 200 1 0 2 0 0 0 1000 (boot (fun _ => 0))).data_len = 200
      ∧ (glossy_start sky payload12 200 1 0 2 0 0 0 1000 (boot (fun _ => 0))).packet_len = 203
      ∧ (glossy_start sky payload12 253 1 0 2 0 0 0 1000 (boot (fun _ => 0))).data_len = 253
      ∧ (glossy_start sky payload12 253 1 0 2 0 0 0 1000 (boot (fun _ => 0))).packet_len = 0
      ∧ receiver_learning.data_len = 0
      ∧ (run sky footer_only_session receiver_learning).map
          (fun t => (t.rx_cnt, t.packet_len, t.data_len, t.sync)) = some (1, 2, 255, 0) := by
  decide

theorem eq_some_getD {α : Type} (o : Option α) (d : α) (h : o.isSome = true) :
    o = some (o.getD d) := by
  cases o with
  | none => cases h
  | some a => rfl

/-- C15, amended: after `glossy_start` with `data_len > 0`, `packet_len` is
`data_len + 1 + (1 if sync) + 2` reduced modulo 256, which is that sum and at
most 127 when `data_len + (1 if sync) <= 124` (`glossy_start` does not test the
bound); after `glossy_start` with `data_len = 0`, `packet_len` is 0; and a
waiting node with `packet_len = 0` that accepts a frame and finds its CRC good
is left with `packet_len` equal to the length byte `L` of the frame, between
`FOOTER_LEN` and 127, and with `packet_len = data_len + 1 + (1 if sync) + 2`
when `L` is at least 3 (4 with sync). -/
theorem packet_len_formula (cfg : Config) (data_ : Nat → Nat)
    (data_len_ initiator_ sync_ tx_max_ header_ t_stop_ id_ now_dco : Nat) (s0 s : State)
    (hs : s = glossy_start cfg data_ data_len_ initiator_ sync_ tx_max_ header_ t_stop_ id_
      now_dco s0) :
    (0 < s.data_len →
        s.packet_len = u8 (s.data_len + 1 + (if s.sync ≠ 0 then 1 else 0) + 2)
        ∧ (s.data_len + (if s.sync ≠ 0 then 1 else 0) ≤ 124 →
            s.packet_len = s.data_len + 1 + (if s.sync ≠ 0 then 1 else 0) + 2
            ∧ s.packet_len ≤ 127))
      ∧ (s.data_len = 0 → s.packet_len = 0)
      ∧ ∀ (r t : State) (envA envB : IrqEnv),
          r.state = .WAITING → r.packet_len = 0 → envA.SFD_IS_1 = true →
          timerb1_interrupt cfg envA r = some t → t.state = .RECEIVING →
          envB.SFD_IS_1 = false → irq_delay envB.now_dco envB.TBCCR1 ≤ 8 →
          crc_ok cfg envB t →
          ∃ u, timerb1_interrupt cfg envB t = some u
            ∧ u.rx_cnt = u8 (r.rx_cnt + 1)
            ∧ u.packet_len = u8 (envA.fifo 0) ∧ FOOTER_LEN ≤ u.packet_len ∧ u.packet_len ≤ 127
            ∧ ((if u.sync ≠ 0 then 4 else 3) ≤ u.packet_len →
                u.packet_len = u.data_len + 1 + (if u.sync ≠ 0 then 1 else 0) + 2) := by
  obtain ⟨h1, h2, h3⟩ := glossy_start_lengths cfg data_ data_len_ initiator_ sync_ tx_max_
    header_ t_stop_ id_ now_dco s0
  rw [← hs] at h1 h2 h3
  rw [← h1, ← h2] at h3
  refine ⟨fun hd => ?_, fun hd => ?_, ?_⟩
  · have hd' : s.data_len ≠ 0 := by omega
    rw [if_pos hd'] at h3
    by_cases c : s.sync ≠ 0
    · rw [if_pos c] at h3
      simp only [c, if_true, ne_eq, not_false_eq_true]
      simp only [u8, FOOTER_LEN, GLOSSY_RELAY_CNT_LEN, GLOSSY_HEADER_LEN] at h3 ⊢
      refine ⟨by omega, fun hb => by omega⟩
    · rw [if_neg c] at h3
      simp only [c, if_false]
      simp only [u8, FOOTER_LEN, GLOSSY_HEADER_LEN] at h3 ⊢
      refine ⟨by omega, fun hb => by omega⟩
  · rw [h3]
    simp [hd]
  · intro r t envA envB hr hp hA ht htr hB hirq hcrc
    rw [irq_begin_rx cfg envA r hr hA] at ht
    obtain ⟨a1, a2, a3⟩ := begin_rx_accepted cfg envA _ t ht htr (by simpa using hp)
    obtain ⟨hf, -⟩ := begin_rx_frame cfg envA _ t ht
    have b1 : t.packet_len = 0 := by rw [hf.packet_len]; simpa using hp
    have b2 : t.rx_cnt = r.rx_cnt := by rw [hf.rx_cnt]; simp
    have hc : crc_ok cfg envB (read_tbiv envB (radio_start_tx (irq_entry envB t))) := by
      rw [crc_ok_congr cfg envB t _ (by simp) (by simp) (by simp)]
      exact hcrc
    refine ⟨_, irq_end_rx cfg envB t htr hB hirq, ?_⟩
    rw [glossy_end_rx_of_crc_ok cfg envB _ hc]
    obtain ⟨e1, e2, e3⟩ := end_rx_ok_learned cfg envB
      (end_rx_drain envB (read_tbiv envB (radio_start_tx (irq_entry envB t))))
      (by simpa using b1)
    simp only [end_rx_drain_keep, read_tbiv_keep, radio_start_tx_keep, irq_entry_keep] at e1 e2 e3
    refine ⟨by rw [end_rx_ok_rx_cnt]; simp [b2], by rw [e1, a1], by rw [e1]; exact a2,
      by rw [e1]; exact a3, ?_⟩
    rw [e1, e2, e3]
    by_cases c : t.sync ≠ 0
    · simp only [c, if_true, ne_eq, not_false_eq_true]
      simp only [u8, sub16, FOOTER_LEN, GLOSSY_RELAY_CNT_LEN, GLOSSY_HEADER_LEN]
      intro hl
      omega
    · simp only [c, if_false]
      simp only [u8, sub16, FOOTER_LEN, GLOSSY_HEADER_LEN]
      intro hl
      omega

/-- Witness for the amended C15: the start of `receiver2`, and the first
reception at `receiver_learning`. -/
theorem packet_len_formula_witness :
    receiver2.data_len = 2 ∧ receiver2.packet_len = 5
      ∧ receiver_learning.state = .WAITING ∧ receiver_learning.packet_len = 0
      ∧ learning5.state = .RECEIVING ∧ crc_ok sky end_good_crc learning5
      ∧ ∃ u, timerb1_interrupt sky end_good_crc learning5 = some u
            ∧ u.rx_cnt = u8 (receiver_learning.rx_cnt + 1)
            ∧ u.packet_len = u8 ((sfd_edge true 2000 0 (bytes [5, 160])).fifo 0)
            ∧ FOOTER_LEN ≤ u.packet_len ∧ u.packet_len ≤ 127
            ∧ ((if u.sync ≠ 0 then 4 else 3) ≤ u.packet_len →
                u.packet_len = u.data_len + 1 + (if u.sync ≠ 0 then 1 else 0) + 2) :=
  ⟨by decide, by decide, by decide, by decide, by decide, by decide,
    (packet_len_formula sky (fun _ => 0) 2 0 0 2 0 0 11 1000 (boot (fun _ => 0)) receiver2
      rfl).2.2 receiver_learning learning5 (sfd_edge true 2000 0 (bytes [5, 160])) end_good_crc
      (by decide) (by decide) (by decide) (eq_some_getD _ _ (by decide)) (by decide) (by decide)
      (by decide) (by decide)⟩

/-! ## The header byte -/

/-- Bit-level content of the header round trip: with the magic bits inside a
one-byte mask, the byte `H | (h & ~M)` has the magic bits `H` under the mask
and the bits `h & ~M` outside it. -/
theorem header_bits (H M h : Nat) (hH : H &&& M = H) (hM : M < 256) (hh : h < 256) :
    u8 (H ||| and_not h M) &&& M = H
      ∧ u8 (and_not (u8 (H ||| and_not h M)) M) = and_not h M := by
  have e8 : (256 : Nat) = 2 ^ 8 := by norm_num
  have e16 : (65536 : Nat) = 2 ^ 16 := by norm_num
  have e15 : (65535 : Nat) = 2 ^ 16 - 1 := by norm_num
  have hHM : ∀ i, H.testBit i = true → M.testBit i = true := by
    intro i hi
    have := congrArg (fun x => x.testBit i) hH
    simp only [Nat.testBit_and] at this
    rw [hi] at this
    simpa using this
  have hM8 : ∀ i, 8 ≤ i → M.testBit i = false := by
    intro i hi
    apply Nat.testBit_eq_false_of_lt
    calc M < 2 ^ 8 := by omega
      _ ≤ 2 ^ i := Nat.pow_le_pow_right (by norm_num) hi
  have hh8 : ∀ i, 8 ≤ i → h.testBit i = false := by
    intro i hi
    apply Nat.testBit_eq_false_of_lt
    calc h < 2 ^ 8 := by omega
      _ ≤ 2 ^ i := Nat.pow_le_pow_right (by norm_num) hi
  unfold u8 and_not
  rw [e8, e16, e15]
  constructor
  · apply Nat.eq_of_testBit_eq
    intro i
    simp only [Nat.testBit_and, Nat.testBit_or, Nat.testBit_xor, Nat.testBit_mod_two_pow,
      Nat.testBit_two_pow_sub_one]
    by_cases c8 : i < 8
    · have c16 : i < 16 := by omega
      have := hHM i
      cases hb : H.testBit i <;> cases mb : M.testBit i <;> cases xb : h.testBit i <;>
        simp_all
    · have := hM8 i (by omega)
      have := hHM i
      cases hb : H.testBit i <;> simp_all
  · apply Nat.eq_of_testBit_eq
    intro i
    simp only [Nat.testBit_and, Nat.testBit_or, Nat.testBit_xor, Nat.testBit_mod_two_pow,
      Nat.testBit_two_pow_sub_one]
    by_cases c8 : i < 8
    · have c16 : i < 16 := by omega
      have := hHM i
      cases hb : H.testBit i <;> cases mb : M.testBit i <;> cases xb : h.testBit i <;>
        simp_all
    · have := hh8 i (by omega)
      simp_all

/-- The packet buffer after `glossy_start` is the one built by `start_len`,
`start_role` and `start_sync`. -/
theorem glossy_start_packet (cfg : Config) (data_ : Nat → Nat)
    (data_len_ initiator_ sync_ tx_max_ header_ t_stop_ id_ now_dco : Nat) (s : State) :
    (glossy_start cfg data_ data_len_ initiator_ sync_ tx_max_ header_ t_stop_ id_ now_dco s).packet
      = (start_sync (start_role (start_len cfg (start_counters now_dco
          (glossy_disable_other_interrupts cfg
            (start_args data_ data_len_ initiator_ sync_ tx_max_ header_ t_stop_ id_ s)))))).packet
      := by
  simp [glossy_start]

/-- The header byte after `glossy_start` with a payload within the MTU. -/
theorem glossy_start_header_field (cfg : Config) (data_ : Nat → Nat)
    (data_len_ initiator_ sync_ tx_max_ header_ t_stop_ id_ now_dco : Nat) (s : State)
    (hd : 0 < u8 data_len_) (hmtu : u8 data_len_ ≤ 123) :
    GLOSSY_HEADER_FIELD
        (glossy_start cfg data_ data_len_ initiator_ sync_ tx_max_ header_ t_stop_ id_ now_dco s)
      = u8 (cfg.GLOSSY_HEADER ||| and_not (u8 header_) cfg.GLOSSY_HEADER_MASK) := by
  have hd' : ¬ u8 data_len_ = 0 := by omega
  unfold GLOSSY_HEADER_FIELD
  rw [glossy_start_packet]
  by_cases c : u8 sync_ = 0
  · simp [start_sync, start_role, start_len, start_args, c, hd', memcpy, upd]
  · have e : u8 (u8 data_len_ + 2 + GLOSSY_RELAY_CNT_LEN + GLOSSY_HEADER_LEN)
        = u8 data_len_ + 4 := by
      simp only [u8, GLOSSY_RELAY_CNT_LEN, GLOSSY_HEADER_LEN] at *
      omega
    simp [start_sync, start_role, start_len, start_args, c, hd', memcpy, upd, relay_cnt_idx,
      FOOTER_LEN]
    intro h
    rw [e] at h
    omega

/-- C16: with the magic bits `GLOSSY_HEADER` inside the one-byte mask
`GLOSSY_HEADER_MASK`, for every application header `h` (the `uint8_t`
argument of `glossy_start`, payload within the MTU) the header byte that
`glossy_start` builds is `GLOSSY_HEADER | (h & ~GLOSSY_HEADER_MASK)`; at a
receiver whose buffer holds that byte it passes the test of `glossy_begin_rx`,
`(byte & GLOSSY_HEADER_MASK) == GLOSSY_HEADER`, and the header extracted by
`glossy_end_rx` is `h & ~GLOSSY_HEADER_MASK`. -/
theorem header_round_trip (cfg : Config) (data_ : Nat → Nat)
    (data_len_ initiator_ sync_ tx_max_ header_ t_stop_ id_ now_dco : Nat) (s0 r : State)
    (hH : cfg.GLOSSY_HEADER &&& cfg.GLOSSY_HEADER_MASK = cfg.GLOSSY_HEADER)
    (hM : cfg.GLOSSY_HEADER_MASK < 256)
    (hd : 0 < u8 data_len_) (hmtu : u8 data_len_ ≤ 123)
    (hr : GLOSSY_HEADER_FIELD r = GLOSSY_HEADER_FIELD
      (glossy_start cfg data_ data_len_ initiator_ sync_ tx_max_ header_ t_stop_ id_ now_dco s0)) :
    GLOSSY_HEADER_FIELD
        (glossy_start cfg data_ data_len_ initiator_ sync_ tx_max_ header_ t_stop_ id_ now_dco s0)
      = u8 (cfg.GLOSSY_HEADER ||| and_not (u8 header_) cfg.GLOSSY_HEADER_MASK)
      ∧ GLOSSY_HEADER_FIELD r &&& cfg.GLOSSY_HEADER_MASK = cfg.GLOSSY_HEADER
      ∧ ¬ bad_header cfg r
      ∧ (end_rx_header cfg r).header = and_not (u8 header_) cfg.GLOSSY_HEADER_MASK := by
  have hf := glossy_start_header_field cfg data_ data_len_ initiator_ sync_ tx_max_ header_
    t_stop_ id_ now_dco s0 hd hmtu
  have hh : u8 header_ < 256 := Nat.mod_lt _ (by norm_num)
  obtain ⟨b1, b2⟩ := header_bits cfg.GLOSSY_HEADER cfg.GLOSSY_HEADER_MASK (u8 header_) hH hM hh
  rw [hf] at hr
  refine ⟨hf, by rw [hr]; exact b1, ?_, ?_⟩
  · unfold bad_header
    rw [hr]
    exact fun h => h b1
  · simp only [end_rx_header]
    rw [hr]
    exact b2

/-- Witness for C16: the initiator of the single-hop scenario started with
application header 5, and a receiver that has read the header byte `0xa5`. -/
theorem header_round_trip_witness :
    (sky.GLOSSY_HEADER &&& sky.GLOSSY_HEADER_MASK = sky.GLOSSY_HEADER
      ∧ sky.GLOSSY_HEADER_MASK < 256 ∧ 0 < u8 2 ∧ u8 2 ≤ 123
      ∧ GLOSSY_HEADER_FIELD (read_fifo_byte (sfd_edge true 2000 0 (bytes [5, 165])) 1 1 receiver2)
        = 165)
    ∧ GLOSSY_HEADER_FIELD
        (glossy_start sky payload12 2 1 0 2 5 0 0 1000 (boot (fun _ => 0)))
      = u8 (sky.GLOSSY_HEADER ||| and_not (u8 5) sky.GLOSSY_HEADER_MASK)
    ∧ GLOSSY_HEADER_FIELD (read_fifo_byte (sfd_edge true 2000 0 (bytes [5, 165])) 1 1 receiver2)
        &&& sky.GLOSSY_HEADER_MASK = sky.GLOSSY_HEADER
    ∧ ¬ bad_header sky (read_fifo_byte (sfd_edge true 2000 0 (bytes [5, 165])) 1 1 receiver2)
    ∧ (end_rx_header sky
        (read_fifo_byte (sfd_edge true 2000 0 (bytes [5, 165])) 1 1 receiver2)).header
      = and_not (u8 5) sky.GLOSSY_HEADER_MASK :=
  ⟨⟨by decide, by decide, by decide, by decide, by decide⟩,
    header_round_trip sky payload12 2 1 0 2 5 0 0 1000 (boot (fun _ => 0))
      (read_fifo_byte (sfd_edge true 2000 0 (bytes [5, 165])) 1 1 receiver2)
      (by decide) (by decide) (by decide) (by decide) (by decide)⟩

/-! ## The slot-length estimate -/

/-- A 16-bit difference, as an integer: the difference modulo `2^16`. -/
theorem sub16_int (a b : Nat) : ((sub16 a b : Nat) : Int) = ((a : Int) - (b : Int)) % 65536 := by
  unfold sub16
  omega

/-- The four intervals telescope in 16-bit arithmetic. -/
theorem intervals_telescope (t_rx_stop t_tx_start t_tx_stop t_rx_start t_rx_stop_tmp : Nat) :
    u16 (sub16 t_tx_stop t_tx_start + sub16 t_rx_start t_tx_stop
        + sub16 t_rx_stop_tmp t_rx_start + sub16 t_tx_start t_rx_stop)
      = sub16 t_rx_stop_tmp t_rx_stop := by
  apply Int.ofNat_inj.mp
  rw [sub16_int]
  unfold u16
  push_cast
  rw [sub16_int, sub16_int, sub16_int, sub16_int]
  have h : (((t_tx_stop : Int) - t_tx_start) % 65536 + ((t_rx_start : Int) - t_tx_stop) % 65536
      + ((t_rx_stop_tmp : Int) - t_rx_start) % 65536 + ((t_tx_start : Int) - t_rx_stop) % 65536)
      ≡ (((t_tx_stop : Int) - t_tx_start) + ((t_rx_start : Int) - t_tx_stop)
      + ((t_rx_stop_tmp : Int) - t_rx_start) + ((t_tx_start : Int) - t_rx_stop)) [ZMOD 65536] :=
    (((Int.mod_modEq _ _).add (Int.mod_modEq _ _)).add (Int.mod_modEq _ _)).add (Int.mod_modEq _ _)
  have e : (((t_tx_stop : Int) - t_tx_start) + ((t_rx_start : Int) - t_tx_stop)
      + ((t_rx_stop_tmp : Int) - t_rx_start) + ((t_tx_start : Int) - t_rx_stop))
      = (t_rx_stop_tmp : Int) - t_rx_stop := by ring
  rw [e] at h
  exact h

theorem T_slot_h_tmp_spec (cfg : Config) (x : Nat) (s : State) :
    T_slot_h_tmp cfg (slot_intervals x s) = slot_estimate_spec cfg x s := by
  simp only [T_slot_h_tmp, slot_estimate_spec, slot_intervals, airtime_h]
  rw [intervals_telescope]

/-- C20: when `estimate_slot_length` takes a sample, the four intervals it
computes add up, in 16-bit arithmetic, to `(t_rx_stop_tmp - t_rx_stop) mod
2^16`; the sample `T_slot_h_tmp` is `((t_rx_stop_tmp - t_rx_stop) mod 2^16) / 2
- packet_len * F_CPU / 31250`, and it is this value that enters the estimate;
so the sample and the estimate are the same for every value of `t_tx_start`,
`t_tx_stop` and `t_rx_start`. -/
theorem slot_sample_telescopes (cfg : Config) (x : Nat) (s : State)
    (hc : 1 < s.rx_cnt ∧ GLOSSY_RELAY_CNT_FIELD s = s.tx_relay_cnt_last + 2) :
    u16 ((estimate_slot_length cfg x s).T_tx_h + (estimate_slot_length cfg x s).T_w_tr_h
        + (estimate_slot_length cfg x s).T_rx_h + (estimate_slot_length cfg x s).T_w_rt_h)
      = sub16 x s.t_rx_stop
      ∧ T_slot_h_tmp cfg (slot_intervals x s) = slot_estimate_spec cfg x s
      ∧ estimate_slot_length cfg x s
        = slot_window cfg (slot_estimate_spec cfg x s) (slot_intervals x s)
      ∧ ∀ a b c : Nat,
          T_slot_h_tmp cfg
              (slot_intervals x { s with t_tx_start := a, t_tx_stop := b, t_rx_start := c })
            = T_slot_h_tmp cfg (slot_intervals x s)
          ∧ (estimate_slot_length cfg x
              { s with t_tx_start := a, t_tx_stop := b, t_rx_start := c }).T_slot_h
            = (estimate_slot_length cfg x s).T_slot_h
          ∧ (estimate_slot_length cfg x
              { s with t_tx_start := a, t_tx_stop := b, t_rx_start := c }).T_slot_h_sum
            = (estimate_slot_length cfg x s).T_slot_h_sum
          ∧ (estimate_slot_length cfg x
              { s with t_tx_start := a, t_tx_stop := b, t_rx_start := c }).win_cnt
            = (estimate_slot_length cfg x s).win_cnt := by
  have e : estimate_slot_length cfg x s
      = slot_window cfg (slot_estimate_spec cfg x s) (slot_intervals x s) := by
    simp only [estimate_slot_length]
    rw [if_pos hc, T_slot_h_tmp_spec]
  refine ⟨?_, T_slot_h_tmp_spec cfg x s, e, fun a b c => ?_⟩
  · rw [e]
    have : ∀ (tmp : Nat) (i : State),
        (slot_window cfg tmp i).T_tx_h = i.T_tx_h ∧ (slot_window cfg tmp i).T_w_tr_h = i.T_w_tr_h
          ∧ (slot_window cfg tmp i).T_rx_h = i.T_rx_h
          ∧ (slot_window cfg tmp i).T_w_rt_h = i.T_w_rt_h := by
      intro tmp i
      simp only [slot_window]
      split_ifs <;> simp
    obtain ⟨h1, h2, h3, h4⟩ := this (slot_estimate_spec cfg x s) (slot_intervals x s)
    rw [h1, h2, h3, h4]
    simp only [slot_intervals]
    exact intervals_telescope _ _ _ _ _
  · have hc' : 1 < ({ s with t_tx_start := a, t_tx_stop := b, t_rx_start := c } : State).rx_cnt
        ∧ GLOSSY_RELAY_CNT_FIELD { s with t_tx_start := a, t_tx_stop := b, t_rx_start := c }
          = ({ s with t_tx_start := a, t_tx_stop := b, t_rx_start := c } : State).tx_relay_cnt_last
            + 2 := hc
    have e' : estimate_slot_length cfg x { s with t_tx_start := a, t_tx_stop := b, t_rx_start := c }
        = slot_window cfg (slot_estimate_spec cfg x s)
            (slot_intervals x { s with t_tx_start := a, t_tx_stop := b, t_rx_start := c }) := by
      simp only [estimate_slot_length]
      rw [if_pos hc', T_slot_h_tmp_spec]
      rfl
    refine ⟨by rw [T_slot_h_tmp_spec, T_slot_h_tmp_spec]; rfl, ?_, ?_, ?_⟩
    · rw [e, e']
      simp only [slot_window, slot_intervals]
      split_ifs <;> simp
    · rw [e, e']
      simp only [slot_window, slot_intervals]
      split_ifs <;> simp
    · rw [e, e']
      simp only [slot_window, slot_intervals]
      split_ifs <;> simp

/-- Witness for C20: the sample taken at the end of the second frame of
`slot_session`, `(5600 - 2800) / 2 - 805 = 595`. -/
theorem slot_sample_telescopes_witness :
    (1 < at_estimate.rx_cnt
      ∧ GLOSSY_RELAY_CNT_FIELD at_estimate = at_estimate.tx_relay_cnt_last + 2)
    ∧ u16 ((estimate_slot_length sky 5600 at_estimate).T_tx_h
        + (estimate_slot_length sky 5600 at_estimate).T_w_tr_h
        + (estimate_slot_length sky 5600 at_estimate).T_rx_h
        + (estimate_slot_length sky 5600 at_estimate).T_w_rt_h)
      = sub16 5600 at_estimate.t_rx_stop
    ∧ T_slot_h_tmp sky (slot_intervals 5600 at_estimate) = slot_estimate_spec sky 5600 at_estimate
    ∧ slot_estimate_spec sky 5600 at_estimate = 595
    ∧ (estimate_slot_length sky 5600 at_estimate).T_slot_h = 595 :=
  ⟨⟨by decide, by decide⟩,
    (slot_sample_telescopes sky 5600 at_estimate ⟨by decide, by decide⟩).1,
    (slot_sample_telescopes sky 5600 at_estimate ⟨by decide, by decide⟩).2.1,
    by decide, by decide⟩

theorem slot_window_congr (cfg : Config) (tmp : Nat) (a b : State)
    (h1 : a.T_slot_h = b.T_slot_h) (h2 : a.T_slot_h_sum = b.T_slot_h_sum)
    (h3 : a.win_cnt = b.win_cnt) :
    (slot_window cfg tmp a).T_slot_h = (slot_window cfg tmp b).T_slot_h
      ∧ (slot_window cfg tmp a).T_slot_h_sum = (slot_window cfg tmp b).T_slot_h_sum
      ∧ (slot_window cfg tmp a).win_cnt = (slot_window cfg tmp b).win_cnt := by
  simp only [slot_window, h2, h3]
  split_ifs <;> simp [h1, h2, h3]

/-- The slot estimate after the success branch of `glossy_end_rx` is the one
left by `estimate_slot_length` on the state with the relay counter and
`rx_cnt` already incremented. -/
theorem end_rx_ok_estimate (cfg : Config) (env : IrqEnv) (s : State) (hsync : s.sync ≠ 0) :
    (end_rx_ok cfg env s).T_slot_h
        = (estimate_slot_length cfg (u16 env.TBCCR1)
            (end_rx_count (end_rx_first env (end_rx_load (end_rx_relay
              (end_rx_header cfg s)))))).T_slot_h
      ∧ (end_rx_ok cfg env s).T_slot_h_sum
        = (estimate_slot_length cfg (u16 env.TBCCR1)
            (end_rx_count (end_rx_first env (end_rx_load (end_rx_relay
              (end_rx_header cfg s)))))).T_slot_h_sum
      ∧ (end_rx_ok cfg env s).win_cnt
        = (estimate_slot_length cfg (u16 env.TBCCR1)
            (end_rx_count (end_rx_first env (end_rx_load (end_rx_relay
              (end_rx_header cfg s)))))).win_cnt := by
  simp [end_rx_ok, end_rx_estimate, hsync]

/-- The relay counter and `rx_cnt` on which `glossy_end_rx` calls
`estimate_slot_length`. -/
theorem at_estimate_fields (cfg : Config) (env : IrqEnv) (s : State) (hsync : s.sync ≠ 0) :
    GLOSSY_RELAY_CNT_FIELD (end_rx_count (end_rx_first env (end_rx_load (end_rx_relay
        (end_rx_header cfg s)))))
      = u8 (GLOSSY_RELAY_CNT_FIELD s + 1)
    ∧ (end_rx_count (end_rx_first env (end_rx_load (end_rx_relay
        (end_rx_header cfg s))))).rx_cnt = u8 (s.rx_cnt + 1)
    ∧ (end_rx_count (end_rx_first env (end_rx_load (end_rx_relay
        (end_rx_header cfg s))))).tx_relay_cnt_last = s.tx_relay_cnt_last := by
  refine ⟨?_, by simp, by simp⟩
  simp [GLOSSY_RELAY_CNT_FIELD, relay_cnt_idx, hsync, upd]

/-- A sample of `estimate_slot_length` enters the window step with the value
the specification gives. -/
theorem estimate_slot_length_sample (cfg : Config) (x : Nat) (s : State)
    (hc : 1 < s.rx_cnt ∧ GLOSSY_RELAY_CNT_FIELD s = s.tx_relay_cnt_last + 2) :
    estimate_slot_length cfg x s
      = slot_window cfg (slot_estimate_spec cfg x s) (slot_intervals x s) := by
  simp only [estimate_slot_length]
  rw [if_pos hc, T_slot_h_tmp_spec]

/-- C17, as stated, fails: at the second reception of `slot_session` the node
last transmitted relay counter 1 and the frame just received carries 2, not
`tx_relay_cnt_last + 2 = 3`; yet the estimator takes a sample: `T_slot_h`,
`T_slot_h_sum` and `win_cnt` change from 0 to 595, 595 and 1. -/
theorem slot_estimate_off_by_one :
    second_rx.state = .RECEIVING ∧ second_rx.sync ≠ 0 ∧ crc_ok sky end_relay_2 second_rx
      ∧ second_rx.rx_cnt = 1 ∧ second_rx.tx_relay_cnt_last = 1
      ∧ GLOSSY_RELAY_CNT_FIELD (end_rx_drain end_relay_2 second_rx) = 2
      ∧ (second_rx.T_slot_h, second_rx.T_slot_h_sum, second_rx.win_cnt) = (0, 0, 0)
      ∧ (timerb1_interrupt sky end_relay_2 second_rx).map
          (fun t => (t.rx_cnt, t.T_slot_h, t.T_slot_h_sum, t.win_cnt)) = some (2, 595, 595, 1) := by
  decide

/-- C17, amended: on a successful sync reception `glossy_end_rx` increments the
relay counter of the buffer and `rx_cnt` before it calls
`estimate_slot_length`, so the estimator takes a sample exactly when the
incremented `rx_cnt` exceeds 1 and the incremented relay counter equals
`tx_relay_cnt_last + 2`: for counters below 255, when a frame was received
before and the frame just received carries `tx_relay_cnt_last + 1`.  With a
sample, `T_slot_h`, `T_slot_h_sum` and `win_cnt` are those the window step
gives for the sample; in every other case they are unchanged by the
reception. -/
theorem slot_estimate_trigger (cfg : Config) (env : IrqEnv) (s : State)
    (hcrc : crc_ok cfg env s) (hsync : s.sync ≠ 0) :
    (¬ (1 < u8 (s.rx_cnt + 1)
          ∧ u8 (GLOSSY_RELAY_CNT_FIELD (end_rx_drain env s) + 1) = s.tx_relay_cnt_last + 2) →
        (glossy_end_rx cfg env s).T_slot_h = s.T_slot_h
          ∧ (glossy_end_rx cfg env s).T_slot_h_sum = s.T_slot_h_sum
          ∧ (glossy_end_rx cfg env s).win_cnt = s.win_cnt)
      ∧ ((1 < u8 (s.rx_cnt + 1)
          ∧ u8 (GLOSSY_RELAY_CNT_FIELD (end_rx_drain env s) + 1) = s.tx_relay_cnt_last + 2) →
        (glossy_end_rx cfg env s).T_slot_h
            = (slot_window cfg (slot_estimate_spec cfg (u16 env.TBCCR1) s) s).T_slot_h
          ∧ (glossy_end_rx cfg env s).T_slot_h_sum
            = (slot_window cfg (slot_estimate_spec cfg (u16 env.TBCCR1) s) s).T_slot_h_sum
          ∧ (glossy_end_rx cfg env s).win_cnt
            = (slot_window cfg (slot_estimate_spec cfg (u16 env.TBCCR1) s) s).win_cnt)
      ∧ (s.rx_cnt < 255 → GLOSSY_RELAY_CNT_FIELD (end_rx_drain env s) < 255 →
          ((1 < u8 (s.rx_cnt + 1)
              ∧ u8 (GLOSSY_RELAY_CNT_FIELD (end_rx_drain env s) + 1) = s.tx_relay_cnt_last + 2)
            ↔ (1 ≤ s.rx_cnt
              ∧ GLOSSY_RELAY_CNT_FIELD (end_rx_drain env s) = s.tx_relay_cnt_last + 1))) := by
  have hd : (end_rx_drain env s).sync ≠ 0 := by simpa using hsync
  obtain ⟨f1, f2, f3⟩ := at_estimate_fields cfg env (end_rx_drain env s) hd
  obtain ⟨g1, g2, g3⟩ := end_rx_ok_estimate cfg env (end_rx_drain env s) hd
  simp only [end_rx_drain_keep] at f2 f3
  rw [glossy_end_rx_of_crc_ok cfg env s hcrc, g1, g2, g3]
  refine ⟨fun hn => ?_, fun hy => ?_, fun h1 h2 => ?_⟩
  · have hn' : ¬ (1 < (end_rx_count (end_rx_first env (end_rx_load (end_rx_relay
          (end_rx_header cfg (end_rx_drain env s)))))).rx_cnt
        ∧ GLOSSY_RELAY_CNT_FIELD (end_rx_count (end_rx_first env (end_rx_load (end_rx_relay
          (end_rx_header cfg (end_rx_drain env s))))))
          = (end_rx_count (end_rx_first env (end_rx_load (end_rx_relay
          (end_rx_header cfg (end_rx_drain env s)))))).tx_relay_cnt_last + 2) := by
      rw [f1, f2, f3]
      exact hn
    simp only [estimate_slot_length, if_neg hn']
    simp
  · have hy' : 1 < (end_rx_count (end_rx_first env (end_rx_load (end_rx_relay
          (end_rx_header cfg (end_rx_drain env s)))))).rx_cnt
        ∧ GLOSSY_RELAY_CNT_FIELD (end_rx_count (end_rx_first env (end_rx_load (end_rx_relay
          (end_rx_header cfg (end_rx_drain env s))))))
          = (end_rx_count (end_rx_first env (end_rx_load (end_rx_relay
          (end_rx_header cfg (end_rx_drain env s)))))).tx_relay_cnt_last + 2 := by
      rw [f1, f2, f3]
      exact hy
    rw [estimate_slot_length_sample cfg (u16 env.TBCCR1) _ hy']
    have e : slot_estimate_spec cfg (u16 env.TBCCR1)
        (end_rx_count (end_rx_first env (end_rx_load (end_rx_relay
          (end_rx_header cfg (end_rx_drain env s))))))
        = slot_estimate_spec cfg (u16 env.TBCCR1) s := by
      simp [slot_estimate_spec, airtime_h]
    rw [e]
    exact slot_window_congr cfg _ _ _ (by simp [slot_intervals]) (by simp [slot_intervals])
      (by simp [slot_intervals])
  · simp only [u8]
    constructor
    · rintro ⟨a, b⟩
      omega
    · rintro ⟨a, b⟩
      omega

/-- Witness for the amended C17: the second reception of `slot_session`, where
a sample is taken, and the first reception at `receiving_sync`, where none
is. -/
theorem slot_estimate_trigger_witness :
    (crc_ok sky end_relay_2 second_rx ∧ second_rx.sync ≠ 0
      ∧ 1 < u8 (second_rx.rx_cnt + 1)
      ∧ u8 (GLOSSY_RELAY_CNT_FIELD (end_rx_drain end_relay_2 second_rx) + 1)
        = second_rx.tx_relay_cnt_last + 2)
    ∧ ((glossy_end_rx sky end_relay_2 second_rx).T_slot_h
          = (slot_window sky (slot_estimate_spec sky (u16 end_relay_2.TBCCR1) second_rx)
              second_rx).T_slot_h
        ∧ (glossy_end_rx sky end_relay_2 second_rx).T_slot_h_sum
          = (slot_window sky (slot_estimate_spec sky (u16 end_relay_2.TBCCR1) second_rx)
              second_rx).T_slot_h_sum
        ∧ (glossy_end_rx sky end_relay_2 second_rx).win_cnt
          = (slot_window sky (slot_estimate_spec sky (u16 end_relay_2.TBCCR1) second_rx)
              second_rx).win_cnt)
    ∧ (crc_ok sky end_relay_7 receiving_sync ∧ receiving_sync.sync ≠ 0
      ∧ ¬ 1 < u8 (receiving_sync.rx_cnt + 1))
    ∧ ((glossy_end_rx sky end_relay_7 receiving_sync).T_slot_h = receiving_sync.T_slot_h
        ∧ (glossy_end_rx sky end_relay_7 receiving_sync).T_slot_h_sum
          = receiving_sync.T_slot_h_sum
        ∧ (glossy_end_rx sky end_relay_7 receiving_sync).win_cnt = receiving_sync.win_cnt) :=
  ⟨⟨by decide, by decide, by decide, by decide⟩,
    (slot_estimate_trigger sky end_relay_2 second_rx (by decide) (by decide)).2.1
      ⟨by decide, by decide⟩,
    ⟨by decide, by decide, by decide⟩,
    (slot_estimate_trigger sky end_relay_7 receiving_sync (by decide) (by decide)).1
      (by decide)⟩

/-! ## The reference time -/

/-- Radio operations of `glossy_start` at the initiator: both FIFOs are
flushed, the packet is written to the TX FIFO and the TX strobe is issued. -/
theorem glossy_start_ops_initiator (cfg : Config) (data_ : Nat → Nat)
    (data_len_ initiator_ sync_ tx_max_ header_ t_stop_ id_ now_dco : Nat) (s : State)
    (hi : u8 initiator_ ≠ 0) :
    (glossy_start cfg data_ data_len_ initiator_ sync_ tx_max_ header_ t_stop_ id_ now_dco s).ops
      = s.ops ++ [.readFifo 1, .strobe .SFLUSHRX, .strobe .SFLUSHRX, .strobe .SFLUSHTX,
          .writeFifo ((List.range
            ((glossy_start cfg data_ data_len_ initiator_ sync_ tx_max_ header_ t_stop_ id_
              now_dco s).packet_len_tmp - 1)).map
            (glossy_start cfg data_ data_len_ initiator_ sync_ tx_max_ header_ t_stop_ id_
              now_dco s).packet),
          .strobe .STXON] := by
  have hi' : (radio_flush_tx (radio_flush_rx (start_sync (start_role (start_len cfg
      (start_counters now_dco (glossy_disable_other_interrupts cfg
        (start_args data_ data_len_ initiator_ sync_ tx_max_ header_ t_stop_ id_ s)))))))).initiator
      ≠ 0 := by
    simpa [start_args] using hi
  simp only [glossy_start, start_radio, if_pos hi']
  split_ifs <;> simp [start_args]

/-- The relay counter and the length of the packet after `glossy_start` with
sync and a payload within the MTU. -/
theorem glossy_start_relay_field (cfg : Config) (data_ : Nat → Nat)
    (data_len_ initiator_ sync_ tx_max_ header_ t_stop_ id_ now_dco : Nat) (s : State)
    (hsync : u8 sync_ ≠ 0) (hd : 0 < u8 data_len_) (hmtu : u8 data_len_ ≤ 123) :
    (glossy_start cfg data_ data_len_ initiator_ sync_ tx_max_ header_ t_stop_ id_ now_dco
        s).packet_len_tmp = u8 data_len_ + 4
      ∧ (glossy_start cfg data_ data_len_ initiator_ sync_ tx_max_ header_ t_stop_ id_ now_dco
        s).packet (u8 data_len_ + 2) = 0 := by
  have hd' : ¬ u8 data_len_ = 0 := by omega
  have e : u8 (u8 data_len_ + 2 + GLOSSY_RELAY_CNT_LEN + GLOSSY_HEADER_LEN)
      = u8 data_len_ + 4 := by
    simp only [u8, GLOSSY_RELAY_CNT_LEN, GLOSSY_HEADER_LEN] at *
    omega
  have h1 : (glossy_start cfg data_ data_len_ initiator_ sync_ tx_max_ header_ t_stop_ id_ now_dco
        s).packet_len_tmp = u8 data_len_ + 4 := by
    simp [glossy_start, start_len, start_args, hd', hsync, FOOTER_LEN, e]
  refine ⟨h1, ?_⟩
  rw [glossy_start_packet]
  simp [start_sync, start_role, start_len, start_args, hd', hsync, relay_cnt_idx, FOOTER_LEN, e,
    upd]

/-- The relay counter of the packet rebuilt at an initiator timeout with sync:
`n_timeouts * GLOSSY_INITIATOR_TIMEOUT` in a `uint8_t`. -/
theorem timeout_rebuild_relay (cfg : Config) (s : State) (hsync : s.sync ≠ 0)
    (hfit : s.data_len + 4 ≤ s.packet_len_tmp) :
    (timeout_rebuild cfg s).packet (s.packet_len_tmp - 2)
      = u8 (s.n_timeouts * cfg.GLOSSY_INITIATOR_TIMEOUT) := by
  have h1 : ¬ s.packet_len_tmp - 2 < 2 + s.data_len := by omega
  simp [timeout_rebuild, hsync, memcpy, upd, relay_cnt_idx, FOOTER_LEN, h1]

/-- C19, as stated, fails: the sync initiator `initiator_synced`, having
received nothing after its first transmission, is served the initiator
timeout and loads a frame whose relay counter is
`n_timeouts * GLOSSY_INITIATOR_TIMEOUT = 3`, not 0. -/
theorem timeout_frame_relay_cnt :
    initiator_synced.sync ≠ 0 ∧ initiator_synced.initiator ≠ 0
      ∧ initiator_synced_idle.state = .WAITING ∧ initiator_synced_idle.rx_cnt = 0
      ∧ initiator_synced_idle.TBCCTL4 = sky.CCIE
      ∧ (compare_irq 8 30000).TBIV = sky.TBIV_TBCCR4
      ∧ (timerb1_interrupt sky (compare_irq 8 30000) initiator_synced_idle).map
          (new_ops initiator_synced_idle)
        = some [.writeFifo [6, 160, 49, 50, 3], .strobe .STXON] := by
  decide

/-- C19, amended: in a sync session with a payload within the MTU, the frame
the initiator loads into the TX FIFO at `glossy_start` carries relay counter
0; the frame it loads at an initiator-timeout retransmission (state
`WAITING`, cause channel 4, nothing received) carries
`n_timeouts * GLOSSY_INITIATOR_TIMEOUT` modulo 256, with `n_timeouts` already
incremented for this timeout. -/
theorem initiator_relay_cnt (cfg : Config) (data_ : Nat → Nat)
    (data_len_ initiator_ sync_ tx_max_ header_ t_stop_ id_ now_dco : Nat) (s0 : State)
    (hi : u8 initiator_ ≠ 0) (hsync : u8 sync_ ≠ 0) (hd : 0 < u8 data_len_)
    (hmtu : u8 data_len_ ≤ 123) :
    (∃ frame : List Nat,
        (glossy_start cfg data_ data_len_ initiator_ sync_ tx_max_ header_ t_stop_ id_ now_dco
            s0).ops
          = s0.ops ++ [.readFifo 1, .strobe .SFLUSHRX, .strobe .SFLUSHRX, .strobe .SFLUSHTX,
              .writeFifo frame, .strobe .STXON]
        ∧ frame.length = u8 data_len_ + 3
        ∧ frame.getD (u8 data_len_ + 2) 0 = 0)
      ∧ ∀ (t : State) (env : IrqEnv),
          t.state = .WAITING → env.SFD_IS_1 = false → env.TBIV = cfg.TBIV_TBCCR4 →
          t.rx_cnt = 0 → t.sync ≠ 0 → t.data_len + 4 = t.packet_len_tmp →
          ∃ (u : State) (frame : List Nat),
            timerb1_interrupt cfg env t = some u
              ∧ u.ops = t.ops ++ [.writeFifo frame, .strobe .STXON]
              ∧ frame.length = t.data_len + 3
              ∧ u.n_timeouts = u8 (t.n_timeouts + 1)
              ∧ frame.getD (t.data_len + 2) 0
                = u8 (u.n_timeouts * cfg.GLOSSY_INITIATOR_TIMEOUT) := by
  obtain ⟨p1, p2⟩ := glossy_start_relay_field cfg data_ data_len_ initiator_ sync_ tx_max_
    header_ t_stop_ id_ now_dco s0 hsync hd hmtu
  constructor
  · refine ⟨_, glossy_start_ops_initiator cfg data_ data_len_ initiator_ sync_ tx_max_
      header_ t_stop_ id_ now_dco s0 hi, ?_, ?_⟩
    · simp [p1]
    · rw [List.getD_eq_getElem _ _ (by simp [p1])]
      simp [p2]
  · intro t env hs hsfd hc hrx hsy hfit
    have hrx' : (timeout_count (read_tbiv env (irq_entry env t))).rx_cnt = 0 := by simpa using hrx
    refine ⟨_, (List.range (t.packet_len_tmp - 1)).map
      (timeout_rebuild cfg (timeout_count (read_tbiv env (irq_entry env t)))).packet,
      irq_initiator_timeout cfg env t hs hsfd hc, ?_, ?_, ?_, ?_⟩
    · simp only [initiator_timeout, if_pos hrx', timeout_resend_ops]
      simp only [timeout_count_keep, read_tbiv_keep, irq_entry_keep]
    · simp [← hfit]
    · simp [initiator_timeout, hrx, timeout_resend, timeout_count]
    · rw [List.getD_eq_getElem _ _ (by simp [← hfit])]
      have hr := timeout_rebuild_relay cfg (timeout_count (read_tbiv env (irq_entry env t)))
        (by simpa using hsy) (by simp [← hfit])
      simp only [timeout_count_keep, read_tbiv_keep, irq_entry_keep] at hr
      have hn : (initiator_timeout cfg (read_tbiv env (irq_entry env t))).n_timeouts
          = (timeout_count (read_tbiv env (irq_entry env t))).n_timeouts := by
        simp [initiator_timeout, hrx, timeout_resend]
      rw [hn]
      simp only [List.getElem_map, List.getElem_range]
      rw [← hr, ← hfit]
      rfl

/-- Witness for the amended C19: the start of `initiator_synced` and its first
timeout retransmission. -/
theorem initiator_relay_cnt_witness :
    (u8 1 ≠ 0 ∧ 0 < u8 2 ∧ u8 2 ≤ 123)
    ∧ (∃ frame : List Nat,
        initiator_synced.ops
          = ({ boot (fun _ => 0) with T_slot_h := 1000 } : State).ops
            ++ [.readFifo 1, .strobe .SFLUSHRX, .strobe .SFLUSHRX, .strobe .SFLUSHTX,
              .writeFifo frame, .strobe .STXON]
        ∧ frame.length = u8 2 + 3 ∧ frame.getD (u8 2 + 2) 0 = 0)
    ∧ (initiator_synced_idle.state = .WAITING ∧ (compare_irq 8 30000).SFD_IS_1 = false
      ∧ (compare_irq 8 30000).TBIV = sky.TBIV_TBCCR4 ∧ initiator_synced_idle.rx_cnt = 0
      ∧ initiator_synced_idle.sync ≠ 0
      ∧ initiator_synced_idle.data_len + 4 = initiator_synced_idle.packet_len_tmp)
    ∧ ∃ (u : State) (frame : List Nat),
        timerb1_interrupt sky (compare_irq 8 30000) initiator_synced_idle = some u
          ∧ u.ops = initiator_synced_idle.ops ++ [.writeFifo frame, .strobe .STXON]
          ∧ frame.length = initiator_synced_idle.data_len + 3
          ∧ u.n_timeouts = u8 (initiator_synced_idle.n_timeouts + 1)
          ∧ frame.getD (initiator_synced_idle.data_len + 2) 0
            = u8 (u.n_timeouts * sky.GLOSSY_INITIATOR_TIMEOUT) :=
  ⟨⟨by decide, by decide, by decide⟩,
    (initiator_relay_cnt sky payload12 2 1 1 2 0 0 0 1000
      { boot (fun _ => 0) with T_slot_h := 1000 } (by decide) (by decide) (by decide)
      (by decide)).1,
    ⟨by decide, by decide, by decide, by decide, by decide, by decide⟩,
    (initiator_relay_cnt sky payload12 2 1 1 2 0 0 0 1000
      { boot (fun _ => 0) with T_slot_h := 1000 } (by decide) (by decide) (by decide)
      (by decide)).2 initiator_synced_idle (compare_irq 8 30000) (by decide) (by decide)
      (by decide) (by decide) (by decide) (by decide)⟩

/-! ## The high-resolution offset of the reference time -/

/-- The two values `compute_sync_reference_time` stores, in terms of its local
`T_ref_to_cap_h`. -/
theorem compute_sync_fields (cfg : Config) (t_cap_h t_cap_l : Nat) (s : State) :
    (compute_sync_reference_time cfg t_cap_h t_cap_l s).T_offset_h
        = u16 (sub32 (sub32 cfg.CLOCK_PHI 1) (T_ref_to_cap_h cfg t_cap_h s % cfg.CLOCK_PHI))
      ∧ (compute_sync_reference_time cfg t_cap_h t_cap_l s).t_ref_l
        = sub16 t_cap_l (1 + T_ref_to_cap_h cfg t_cap_h s / cfg.CLOCK_PHI) := by
  constructor
  · simp only [compute_sync_reference_time]
  · simp only [compute_sync_reference_time]
    simp [sub16, u16]

/-- C21, as stated, fails: with `CLOCK_PHI = 2^17` and `T_ref_to_cap_h = 0`
(relay counter 1, tick captured at `t_rx_start`), the offset `2^17 - 1` is
stored in the 16-bit `T_offset_h` as 65535, and
`T_ref_to_cap_h + T_offset_h + 1 = 65536`, not `CLOCK_PHI`. -/
theorem offset_truncated :
    0 < wide_phi.CLOCK_PHI
      ∧ T_ref_to_cap_h wide_phi 2000 received_synced = 0
      ∧ (compute_sync_reference_time wide_phi 2000 70 received_synced).T_offset_h = 65535
      ∧ T_ref_to_cap_h wide_phi 2000 received_synced
          + (compute_sync_reference_time wide_phi 2000 70 received_synced).T_offset_h + 1
        ≠ (1 + T_ref_to_cap_h wide_phi 2000 received_synced / wide_phi.CLOCK_PHI)
          * wide_phi.CLOCK_PHI := by
  decide

/-- C21, amended: for every input of `compute_sync_reference_time` with
`CLOCK_PHI > 0`, `T_offset_h <= CLOCK_PHI - 1`; when moreover
`CLOCK_PHI <= 2^16`, so that the offset fits the 16-bit `T_offset_h`,
`T_offset_h = (CLOCK_PHI - 1) - (T_ref_to_cap_h mod CLOCK_PHI)` and
`T_ref_to_cap_h + T_offset_h + 1 = (1 + T_ref_to_cap_h / CLOCK_PHI) *
CLOCK_PHI`, where `1 + T_ref_to_cap_h / CLOCK_PHI` is the number of
low-frequency ticks subtracted from `t_cap_l` to give `t_ref_l`. -/
theorem T_offset_h_bounds (cfg : Config) (t_cap_h t_cap_l : Nat) (s : State)
    (h0 : 0 < cfg.CLOCK_PHI) :
    (compute_sync_reference_time cfg t_cap_h t_cap_l s).T_offset_h ≤ cfg.CLOCK_PHI - 1
      ∧ (compute_sync_reference_time cfg t_cap_h t_cap_l s).t_ref_l
        = sub16 t_cap_l (1 + T_ref_to_cap_h cfg t_cap_h s / cfg.CLOCK_PHI)
      ∧ (cfg.CLOCK_PHI ≤ 65536 →
          (compute_sync_reference_time cfg t_cap_h t_cap_l s).T_offset_h
              = (cfg.CLOCK_PHI - 1) - T_ref_to_cap_h cfg t_cap_h s % cfg.CLOCK_PHI
            ∧ T_ref_to_cap_h cfg t_cap_h s
                + (compute_sync_reference_time cfg t_cap_h t_cap_l s).T_offset_h + 1
              = (1 + T_ref_to_cap_h cfg t_cap_h s / cfg.CLOCK_PHI) * cfg.CLOCK_PHI) := by
  obtain ⟨e1, e2⟩ := compute_sync_fields cfg t_cap_h t_cap_l s
  have hm : T_ref_to_cap_h cfg t_cap_h s % cfg.CLOCK_PHI < cfg.CLOCK_PHI := Nat.mod_lt _ h0
  have hd : cfg.CLOCK_PHI * (T_ref_to_cap_h cfg t_cap_h s / cfg.CLOCK_PHI)
      + T_ref_to_cap_h cfg t_cap_h s % cfg.CLOCK_PHI = T_ref_to_cap_h cfg t_cap_h s :=
    Nat.div_add_mod _ _
  rw [e1]
  refine ⟨?_, e2, fun h1 => ?_⟩
  · generalize T_ref_to_cap_h cfg t_cap_h s % cfg.CLOCK_PHI = m at hm
    by_cases c : cfg.CLOCK_PHI ≤ 65536
    · unfold u16 sub32
      omega
    · have : u16 (sub32 (sub32 cfg.CLOCK_PHI 1) m) < 65536 := Nat.mod_lt _ (by norm_num)
      omega
  · have e3 : u16 (sub32 (sub32 cfg.CLOCK_PHI 1) (T_ref_to_cap_h cfg t_cap_h s % cfg.CLOCK_PHI))
        = (cfg.CLOCK_PHI - 1) - T_ref_to_cap_h cfg t_cap_h s % cfg.CLOCK_PHI := by
      generalize T_ref_to_cap_h cfg t_cap_h s % cfg.CLOCK_PHI = m at hm
      unfold u16 sub32
      omega
    rw [e3]
    refine ⟨rfl, ?_⟩
    rw [Nat.add_mul, Nat.one_mul, Nat.mul_comm (T_ref_to_cap_h cfg t_cap_h s / cfg.CLOCK_PHI)]
    generalize cfg.CLOCK_PHI * (T_ref_to_cap_h cfg t_cap_h s / cfg.CLOCK_PHI) = q at hd ⊢
    generalize T_ref_to_cap_h cfg t_cap_h s % cfg.CLOCK_PHI = m at hm hd ⊢
    omega

/-- Witness for the amended C21: the reference time at `received_synced` for
the tick captured at DCO time 9100, with `CLOCK_PHI = 128`:
`T_ref_to_cap_h = 7100`, `T_offset_h = 67`, and `7100 + 67 + 1 = 56 * 128`. -/
theorem T_offset_h_bounds_witness :
    (0 < sky.CLOCK_PHI ∧ sky.CLOCK_PHI ≤ 65536 ∧ T_ref_to_cap_h sky 9100 received_synced = 7100)
    ∧ (compute_sync_reference_time sky 9100 70 received_synced).T_offset_h ≤ sky.CLOCK_PHI - 1
    ∧ ((compute_sync_reference_time sky 9100 70 received_synced).T_offset_h
          = (sky.CLOCK_PHI - 1) - T_ref_to_cap_h sky 9100 received_synced % sky.CLOCK_PHI
        ∧ T_ref_to_cap_h sky 9100 received_synced
            + (compute_sync_reference_time sky 9100 70 received_synced).T_offset_h + 1
          = (1 + T_ref_to_cap_h sky 9100 received_synced / sky.CLOCK_PHI) * sky.CLOCK_PHI)
    ∧ (compute_sync_reference_time sky 9100 70 received_synced).T_offset_h = 67 :=
  ⟨⟨by decide, by decide, by decide⟩,
    (T_offset_h_bounds sky 9100 70 received_synced (by decide)).1,
    (T_offset_h_bounds sky 9100 70 received_synced (by decide)).2.2 (by decide),
    by decide⟩

/-! ## The interrupt latency -/

theorem sub16_lt (a b : Nat) : sub16 a b < 65536 := Nat.mod_lt _ (by norm_num)

/-- The latency before the shift, as an integer: `now - capture - 21` modulo
`2^16`. -/
theorem latency_int (now capture : Nat) :
    ((sub16 (sub16 now capture) 21 : Nat) : Int)
      = ((now : Int) - (capture : Int) - 21) % 65536 := by
  rw [sub16_int, sub16_int]
  exact (Int.mod_modEq _ _).sub_right 21

/-- The latency before the shift, reduced modulo `2^15`. -/
theorem latency_mod_int (now capture : Nat) :
    ((sub16 (sub16 now capture) 21 % 32768 : Nat) : Int)
      = ((now : Int) - (capture : Int) - 21) % 32768 := by
  push_cast
  rw [latency_int]
  exact Int.emod_emod_of_dvd _ (by norm_num)

/-- C22: `T_irq`, as the handler records it, is
`(((now - capture - 21) mod 2^16) * 2) mod 2^16` and is even; when it is at
most 8 it is one of 0, 2, 4, 6, 8; it is at most 8 exactly when
`(now - capture - 21) mod 2^15 <= 4`; and at the end of a reception (state
`RECEIVING`, SFD low) the handler takes the relay branch, which issues the TX
strobe and runs `glossy_end_rx`, exactly in that case, and otherwise flushes
the RX FIFO and returns to `WAITING`. -/
theorem T_irq_even (cfg : Config) (env : IrqEnv) (s : State) :
    (((irq_entry env s).T_irq : Nat) : Int)
        = ((((env.now_dco : Int) - (env.TBCCR1 : Int) - 21) % 65536) * 2) % 65536
      ∧ (irq_entry env s).T_irq % 2 = 0
      ∧ ((irq_entry env s).T_irq ≤ 8 →
          (irq_entry env s).T_irq = 0 ∨ (irq_entry env s).T_irq = 2
            ∨ (irq_entry env s).T_irq = 4 ∨ (irq_entry env s).T_irq = 6
            ∨ (irq_entry env s).T_irq = 8)
      ∧ ((irq_entry env s).T_irq ≤ 8
          ↔ ((env.now_dco : Int) - (env.TBCCR1 : Int) - 21) % 32768 ≤ 4)
      ∧ (s.state = .RECEIVING → env.SFD_IS_1 = false →
          (((env.now_dco : Int) - (env.TBCCR1 : Int) - 21) % 32768 ≤ 4 →
            timerb1_interrupt cfg env s
              = some (glossy_end_rx cfg env (read_tbiv env (radio_start_tx (irq_entry env s)))))
          ∧ (¬ ((env.now_dco : Int) - (env.TBCCR1 : Int) - 21) % 32768 ≤ 4 →
            timerb1_interrupt cfg env s
              = some (read_tbiv env (set_state .WAITING (radio_flush_rx (irq_entry env s)))))) := by
  have hd := sub16_lt (sub16 env.now_dco env.TBCCR1) 21
  have hi := latency_int env.now_dco env.TBCCR1
  have hm := latency_mod_int env.now_dco env.TBCCR1
  have hiff : irq_delay env.now_dco env.TBCCR1 ≤ 8
      ↔ ((env.now_dco : Int) - (env.TBCCR1 : Int) - 21) % 32768 ≤ 4 := by
    rw [← hm]
    unfold irq_delay u16
    generalize sub16 (sub16 env.now_dco env.TBCCR1) 21 = d at hd
    omega
  rw [irq_entry_T_irq]
  refine ⟨?_, ?_, ?_, hiff, fun hs hsfd => ⟨fun h => ?_, fun h => ?_⟩⟩
  · rw [← hi]
    unfold irq_delay u16
    push_cast
    rfl
  · unfold irq_delay u16
    generalize sub16 (sub16 env.now_dco env.TBCCR1) 21 = d at hd
    omega
  · unfold irq_delay u16
    generalize sub16 (sub16 env.now_dco env.TBCCR1) 21 = d at hd
    omega
  · exact irq_end_rx cfg env s hs hsfd (hiff.mpr h)
  · have : ¬ irq_delay env.now_dco env.TBCCR1 ≤ 8 := fun c => h (hiff.mp c)
    exact irq_end_rx_late cfg env s hs hsfd (by omega)

/-- Witness for C22: the end of the frame at `receiving2`, served without
extra latency (`T_irq = 0`, relay) and served 5 ticks late (`T_irq = 10`, no
relay). -/
theorem T_irq_even_witness :
    (receiving2.state = .RECEIVING ∧ end_good_crc.SFD_IS_1 = false ∧ end_late.SFD_IS_1 = false
      ∧ ((end_good_crc.now_dco : Int) - (end_good_crc.TBCCR1 : Int) - 21) % 32768 ≤ 4
      ∧ ¬ ((end_late.now_dco : Int) - (end_late.TBCCR1 : Int) - 21) % 32768 ≤ 4)
    ∧ (irq_entry end_good_crc receiving2).T_irq = 0
    ∧ (irq_entry end_late receiving2).T_irq = 10
    ∧ timerb1_interrupt sky end_good_crc receiving2
        = some (glossy_end_rx sky end_good_crc
            (read_tbiv end_good_crc (radio_start_tx (irq_entry end_good_crc receiving2))))
    ∧ timerb1_interrupt sky end_late receiving2
        = some (read_tbiv end_late
            (set_state .WAITING (radio_flush_rx (irq_entry end_late receiving2)))) :=
  ⟨⟨by decide, by decide, by decide, by decide, by decide⟩, by decide, by decide,
    ((T_irq_even sky end_good_crc receiving2).2.2.2.2 (by decide) (by decide)).1 (by decide),
    ((T_irq_even sky end_late receiving2).2.2.2.2 (by decide) (by decide)).2 (by decide)⟩

/-! ## The payload handed to the caller, along a session -/

theorem end_rx_data (cfg : Config) (env : IrqEnv) (s : State) :
    (glossy_end_rx cfg env s).data = s.data
      ∧ (glossy_end_rx cfg env s).initiator = s.initiator
      ∧ ((glossy_end_rx cfg env s).rx_cnt = u8 (s.rx_cnt + 1)
        ∨ ((glossy_end_rx cfg env s).rx_cnt = s.rx_cnt
          ∧ (glossy_end_rx cfg env s).state = .WAITING)) := by
  simp only [glossy_end_rx]
  split_ifs
  · exact ⟨by simp [end_rx_ok], by simp [end_rx_ok], Or.inl (end_rx_ok_rx_cnt cfg env _)⟩
  · exact ⟨by simp, by simp, Or.inr ⟨by simp, by simp⟩⟩

theorem RxFrame.state_data {s t : State} (h : RxFrame s t) :
    t.data = s.data ∧ t.rx_cnt = s.rx_cnt ∧ t.initiator = s.initiator :=
  ⟨h.data, h.rx_cnt, h.initiator⟩

/-- One invocation of the handler at a settled node whose `rx_cnt` does not
wrap: the node stays settled and the caller's buffer is not written. -/
theorem settled_step (cfg : Config) (env : IrqEnv) (s t : State) (hq : Settled s)
    (hw : s.rx_cnt < 255) (h : timerb1_interrupt cfg env s = some t) :
    Settled t ∧ t.data = s.data ∧ t.initiator = s.initiator := by
  obtain ⟨q1, q2⟩ := hq
  unfold timerb1_interrupt at h
  simp only [] at h
  split_ifs at h with c1 c2 c3 c4 c5 c6 c7 c8 c9
  · simp only [Option.some.injEq] at h
    subst h
    obtain ⟨e1, e2, e3⟩ := end_rx_data cfg env (read_tbiv env (radio_start_tx (irq_entry env s)))
    refine ⟨?_, by rw [e1]; simp, by rw [e2]; simp⟩
    rcases e3 with e | ⟨e, est⟩
    · simp only [read_tbiv_keep, radio_start_tx_keep, irq_entry_keep, u8] at e
      unfold Settled
      rw [e]
      constructor
      · omega
      · intro hc
        omega
    · simp only [read_tbiv_keep, radio_start_tx_keep, irq_entry_keep] at e
      unfold Settled
      rw [e, est]
      exact ⟨q1, by simp⟩
  · simp only [Option.some.injEq] at h
    subst h
    exact ⟨⟨by simpa using q1, by simp⟩, by simp, by simp⟩
  · obtain ⟨hf, hst⟩ := begin_rx_frame cfg env _ t h
    obtain ⟨d1, d2, d3⟩ := hf.state_data
    simp only [read_tbiv_keep, irq_entry_keep] at d1 d2 d3
    refine ⟨⟨by rw [d2]; exact q1, ?_⟩, d1, d3⟩
    rintro ⟨-, hr⟩
    rcases hst with hst | hst <;> rw [hst] at hr <;> cases hr
  · simp only [Option.some.injEq] at h
    subst h
    simp only [read_tbiv_keep, irq_entry_keep] at c4
    have hne : ¬ s.rx_cnt = 1 := fun hc => q2 ⟨hc, c4.1⟩
    refine ⟨⟨by simpa [glossy_begin_tx] using q1, by simp [glossy_begin_tx]⟩, ?_, ?_⟩
    · simp [glossy_begin_tx, hne]
    · simp [glossy_begin_tx]
  · simp only [Option.some.injEq] at h
    subst h
    obtain ⟨-, -, hst⟩ := end_tx_tx env (read_tbiv env (irq_entry env s))
    refine ⟨⟨by simpa [glossy_end_tx] using q1, ?_⟩, by simp [glossy_end_tx],
      by simp [glossy_end_tx]⟩
    rintro ⟨-, hr⟩
    rcases hst with hst | hst <;> rw [hst] at hr <;> cases hr
  · simp only [Option.some.injEq] at h
    subst h
    exact ⟨⟨by simpa using q1, by simp⟩, by simp, by simp⟩
  · simp only [Option.some.injEq] at h
    subst h
    simp only [read_tbiv_keep, irq_entry_keep] at c7
    have hne : ¬ s.rx_cnt = 0 := by omega
    refine ⟨⟨by simpa [initiator_timeout, hne] using q1, ?_⟩, by simp [initiator_timeout, hne],
      by simp [initiator_timeout, hne]⟩
    simp [initiator_timeout, hne, c7.1]
  · simp only [Option.some.injEq] at h
    subst h
    refine ⟨⟨by simpa using q1, ?_⟩, by simp, by simp⟩
    simp only [glossy_stop_rx_timeout_keep, rx_timeout_abort_keep, rx_timeout_abort_state,
      read_tbiv_keep, irq_entry_keep]
    rintro ⟨hr, hst⟩
    by_cases c : s.state = .RECEIVING
    · simp [c] at hst
    · simp only [c, if_false] at hst
      exact q2 ⟨hr, hst⟩
  · simp only [Option.some.injEq] at h
    subst h
    exact ⟨⟨by simpa using q1, by simp⟩, by simp, by simp⟩
  · simp only [Option.some.injEq] at h
    subst h
    exact ⟨⟨by simpa using q1, by simpa using q2⟩, by simp, by simp⟩

/-- Every run of the handler from a settled node whose `rx_cnt` does not wrap:
the relay of the first reception does not start, the node stays settled and
the caller's buffer is not written. -/
theorem settled_run (cfg : Config) :
    ∀ (envs : List IrqEnv) (s : State), Settled s → no_rx_wrap cfg envs s = true →
      relay_started cfg envs s = false
        ∧ ∀ u, run cfg envs s = some u → Settled u ∧ u.data = s.data
  | [], s, hq, _ => ⟨rfl, fun u h => by
      simp only [run, Option.some.injEq] at h
      subst h
      exact ⟨hq, rfl⟩⟩
  | e :: es, s, hq, hw => by
    have hnp : ¬ (s.rx_cnt = 1 ∧ s.state = .RECEIVED) := hq.2
    cases hstep : timerb1_interrupt cfg e s with
    | none =>
      refine ⟨by simp [relay_started, hstep, hnp], fun u h => ?_⟩
      simp [run, hstep] at h
    | some t =>
      simp only [no_rx_wrap, hstep, Bool.and_eq_true, decide_eq_true_eq] at hw
      obtain ⟨q', d', -⟩ := settled_step cfg e s t hq hw.1 hstep
      obtain ⟨r', k'⟩ := settled_run cfg es t q' hw.2
      refine ⟨by simp [relay_started, hstep, hnp, r'], fun u h => ?_⟩
      simp only [run, hstep, Option.some_bind] at h
      obtain ⟨a, b⟩ := k' u h
      exact ⟨a, b.trans d'⟩

/-- One invocation of the handler while the relay of the first reception is
pending (state `RECEIVED`, `rx_cnt = 1`) at a receiver: on the rising SFD
`glossy_begin_tx` copies the payload from the packet buffer to the caller and
the node is settled; with the SFD low the caller's buffer is not written, and
the relay is still pending, with the same packet buffer, or the node is
settled. -/
theorem pending_step (cfg : Config) (env : IrqEnv) (s t : State) (hr : s.rx_cnt = 1)
    (hs : s.state = .RECEIVED) (hi : s.initiator = 0)
    (h : timerb1_interrupt cfg env s = some t) :
    t.initiator = 0
      ∧ (env.SFD_IS_1 = true →
          Settled t ∧ ∀ k, k < s.data_len → t.data k = s.packet (2 + k))
      ∧ (env.SFD_IS_1 = false →
          t.data = s.data
            ∧ ((t.rx_cnt = 1 ∧ t.state = .RECEIVED ∧ t.packet = s.packet
                ∧ t.data_len = s.data_len) ∨ Settled t)) := by
  by_cases hsfd : env.SFD_IS_1 = true
  · rw [irq_begin_tx cfg env s hs hsfd] at h
    simp only [Option.some.injEq] at h
    subst h
    refine ⟨by simp [glossy_begin_tx, hi], fun _ => ⟨⟨?_, ?_⟩, fun k hk => ?_⟩, fun hc => ?_⟩
    · simp [glossy_begin_tx, hr]
    · simp [glossy_begin_tx]
    · simp [glossy_begin_tx, hi, hr, memcpy, hk, Nat.add_comm k 2]
    · rw [hsfd] at hc
      cases hc
  · have hlow : env.SFD_IS_1 = false := by simpa using hsfd
    by_cases hc5 : env.TBIV = cfg.TBIV_TBCCR5
    · have e : timerb1_interrupt cfg env s
          = some (glossy_stop_rx_timeout (rx_timeout_abort (read_tbiv env (irq_entry env s)))) := by
        simp [timerb1_interrupt, hs, hlow, hc5]
      rw [e] at h
      simp only [Option.some.injEq] at h
      subst h
      refine ⟨by simpa using hi, fun hc => absurd hc hsfd, fun _ => ⟨by simp, Or.inl ?_⟩⟩
      simp [hr, hs]
    · have e : timerb1_interrupt cfg env s
          = some (set_state .WAITING (radio_flush_rx (read_tbiv env (irq_entry env s)))) := by
        simp [timerb1_interrupt, hs, hlow, hc5]
      rw [e] at h
      simp only [Option.some.injEq] at h
      subst h
      refine ⟨by simpa using hi, fun hc => absurd hc hsfd, fun _ => ⟨by simp, Or.inr ?_⟩⟩
      exact ⟨by simp [hr], by simp⟩

/-- Every run of the handler at a receiver that has received a frame and
whose `rx_cnt` does not wrap: `rx_cnt` stays positive; if the relay of the
first reception starts during the run, it was pending at the beginning and the
caller's buffer ends with the payload held by the packet buffer at the
beginning; if it does not start, the caller's buffer is not written. -/
theorem receiver_run (cfg : Config) :
    ∀ (envs : List IrqEnv) (s u : State), 1 ≤ s.rx_cnt → s.initiator = 0 →
      no_rx_wrap cfg envs s = true → run cfg envs s = some u →
      1 ≤ u.rx_cnt
        ∧ (relay_started cfg envs s = true →
            (s.rx_cnt = 1 ∧ s.state = .RECEIVED)
              ∧ ∀ k, k < s.data_len → u.data k = s.packet (2 + k))
        ∧ (relay_started cfg envs s = false → u.data = s.data)
  | [], s, u, h1, _, _, h => by
    simp only [run, Option.some.injEq] at h
    subst h
    exact ⟨h1, fun c => by simp [relay_started] at c, fun _ => rfl⟩
  | e :: es, s, u, h1, hi, hw, h => by
    cases hstep : timerb1_interrupt cfg e s with
    | none => simp [run, hstep] at h
    | some t =>
      simp only [run, hstep, Option.some_bind] at h
      have hw0 := hw
      simp only [no_rx_wrap, hstep, Bool.and_eq_true, decide_eq_true_eq] at hw
      by_cases hp : s.rx_cnt = 1 ∧ s.state = .RECEIVED
      · obtain ⟨i', hhigh, hlow⟩ := pending_step cfg e s t hp.1 hp.2 hi hstep
        by_cases hsfd : e.SFD_IS_1 = true
        · obtain ⟨q', c'⟩ := hhigh hsfd
          obtain ⟨-, k'⟩ := settled_run cfg es t q' hw.2
          obtain ⟨a, b⟩ := k' u h
          refine ⟨a.1, fun _ => ⟨hp, fun k hk => ?_⟩, fun c => ?_⟩
          · rw [b]
            exact c' k hk
          · simp [relay_started, hp, hsfd] at c
        · have hl : e.SFD_IS_1 = false := by simpa using hsfd
          obtain ⟨d', alt⟩ := hlow hl
          have hrs : relay_started cfg (e :: es) s = relay_started cfg es t := by
            simp [relay_started, hstep, hl]
          rw [hrs]
          rcases alt with ⟨r1, r2, r3, r4⟩ | q'
          · obtain ⟨a, b, c⟩ := receiver_run cfg es t u (by omega) i' hw.2 h
            refine ⟨a, fun hc => ⟨hp, fun k hk => ?_⟩, fun hc => (c hc).trans d'⟩
            have := (b hc).2 k (by rw [r4]; exact hk)
            rw [r3] at this
            exact this
          · obtain ⟨r', k'⟩ := settled_run cfg es t q' hw.2
            obtain ⟨a, b⟩ := k' u h
            refine ⟨a.1, fun hc => ?_, fun _ => b.trans d'⟩
            rw [r'] at hc
            cases hc
      · have hq : Settled s := ⟨h1, hp⟩
        obtain ⟨r', k'⟩ := settled_run cfg (e :: es) s hq hw0
        obtain ⟨a, b⟩ := k' u (by simp only [run, hstep, Option.some_bind]; exact h)
        refine ⟨a.1, fun hc => ?_, fun _ => b⟩
        rw [r'] at hc
        cases hc

/-- C4, amended: for a receiver without sync whose payload length is known
(`packet_len != 0`, `data_len` at most the 44 bytes of `glossy_data_struct`),
the first successful reception (served in time, CRC OK) sets `rx_cnt = 1` and
leaves the caller's buffer untouched; from then on, along every run of the
handler in which `rx_cnt` does not wrap, `glossy_stop` returns
`rx_cnt >= 1` and leaves the buffer as it is, and the buffer is as follows:
once the relay of that first reception has started (`glossy_begin_tx` has run
with `rx_cnt == 1`, which requires `tx_cnt != tx_max` at the reception), its
first `data_len` bytes equal, byte for byte, the payload bytes of the first
frame received, whatever is received or sent afterwards; as long as that relay
has not started, the buffer still holds what the caller left in it. -/
theorem payload_copied_once_relay_started (cfg : Config) (envA : IrqEnv) (s : State)
    (hst : s.state = .RECEIVING) (hini : s.initiator = 0) (hsync : s.sync = 0)
    (hrx : s.rx_cnt = 0) (hpl : s.packet_len ≠ 0) (_hdl : s.data_len ≤ GLOSSY_DATA_SIZE)
    (hA1 : envA.SFD_IS_1 = false) (hA2 : irq_delay envA.now_dco envA.TBCCR1 ≤ 8)
    (hA3 : crc_ok cfg envA s) :
    ∃ t, timerb1_interrupt cfg envA s = some t
      ∧ t.rx_cnt = 1 ∧ t.data = s.data
      ∧ t.state = (if s.tx_cnt = s.tx_max then .OFF else .RECEIVED)
      ∧ ∀ (envs : List IrqEnv) (u : State),
          no_rx_wrap cfg envs t = true → run cfg envs t = some u →
          (glossy_stop cfg u).2 = u.rx_cnt ∧ 1 ≤ (glossy_stop cfg u).2
            ∧ (glossy_stop cfg u).1.data = u.data
            ∧ (relay_started cfg envs t = true →
                s.tx_cnt ≠ s.tx_max
                  ∧ ∀ k, k < s.data_len → u.data k = (end_rx_drain envA s).packet (2 + k))
            ∧ (relay_started cfg envs t = false → u.data = s.data) := by
  have hc : crc_ok cfg envA (read_tbiv envA (radio_start_tx (irq_entry envA s))) := by
    rw [crc_ok_congr cfg envA s _ (by simp) (by simp) (by simp)]
    exact hA3
  have hA := irq_end_rx cfg envA s hst hA1 hA2
  rw [glossy_end_rx_of_crc_ok cfg envA _ hc] at hA
  have hpk : (end_rx_drain envA (read_tbiv envA (radio_start_tx (irq_entry envA s)))).packet
      = (end_rx_drain envA s).packet := by simp
  have hstate : (end_rx_ok cfg envA
      (end_rx_drain envA (read_tbiv envA (radio_start_tx (irq_entry envA s))))).state
        = (if s.tx_cnt = s.tx_max then .OFF else .RECEIVED) := by
    rw [end_rx_ok_state]
    simp
  have hrx1 : (end_rx_ok cfg envA
      (end_rx_drain envA (read_tbiv envA (radio_start_tx (irq_entry envA s))))).rx_cnt = 1 := by
    rw [end_rx_ok_rx_cnt]
    simp [hrx, u8]
  have hdl1 : (end_rx_ok cfg envA
      (end_rx_drain envA (read_tbiv envA (radio_start_tx (irq_entry envA s))))).data_len
        = s.data_len := by
    rw [end_rx_ok_data_len _ _ _ (by simpa using hpl)]
    simp
  have hkeep : (end_rx_ok cfg envA
        (end_rx_drain envA (read_tbiv envA (radio_start_tx (irq_entry envA s))))).initiator = 0
      ∧ (end_rx_ok cfg envA
        (end_rx_drain envA (read_tbiv envA (radio_start_tx (irq_entry envA s))))).data = s.data := by
    simp [end_rx_ok, hini]
  refine ⟨_, hA, hrx1, hkeep.2, hstate, fun envs u hw hu => ?_⟩
  obtain ⟨a, b, c⟩ := receiver_run cfg envs _ u (by rw [hrx1]) hkeep.1 hw hu
  refine ⟨by simp [glossy_stop], by simpa [glossy_stop] using a, by simp [glossy_stop],
    fun hs => ⟨?_, fun k hk => ?_⟩, fun hs => (c hs).trans hkeep.2⟩
  · intro htx
    have := (b hs).1.2
    rw [hstate, if_pos htx] at this
    cases this
  · have hp := end_rx_ok_payload cfg envA
      (end_rx_drain envA (read_tbiv envA (radio_start_tx (irq_entry envA s))))
      (by simpa using hsync) (by simpa using hpl) k (by simpa using hk)
    rw [hpk] at hp
    rw [(b hs).2 k (by rw [hdl1]; exact hk), hp]

/-- Witness for the amended C4: `receiver2` receives `[0x31, 0x32]` with a good
CRC; stopped after the RX timeout, the relay start and the relay end, it
returns 1 with `[0x31, 0x32]` in the caller's buffer; stopped after a second
frame with the payload `[0x41, 0x42]` and its relay, it returns 2 with
`[0x31, 0x32]`; stopped after the relay was lost to a stray interrupt, it
returns 1 with the buffer untouched. -/
theorem payload_copied_once_relay_started_witness :
    (receiving2.state = .RECEIVING ∧ receiving2.initiator = 0 ∧ receiving2.sync = 0
      ∧ receiving2.rx_cnt = 0 ∧ receiving2.packet_len ≠ 0
      ∧ receiving2.data_len ≤ GLOSSY_DATA_SIZE ∧ end_good_crc.SFD_IS_1 = false
      ∧ irq_delay end_good_crc.now_dco end_good_crc.TBCCR1 ≤ 8
      ∧ crc_ok sky end_good_crc receiving2)
    ∧ (∃ t, timerb1_interrupt sky end_good_crc receiving2 = some t
      ∧ t.rx_cnt = 1 ∧ t.data = receiving2.data
      ∧ t.state = (if receiving2.tx_cnt = receiving2.tx_max then .OFF else .RECEIVED)
      ∧ ∀ (envs : List IrqEnv) (u : State),
          no_rx_wrap sky envs t = true → run sky envs t = some u →
          (glossy_stop sky u).2 = u.rx_cnt ∧ 1 ≤ (glossy_stop sky u).2
            ∧ (glossy_stop sky u).1.data = u.data
            ∧ (relay_started sky envs t = true →
                receiving2.tx_cnt ≠ receiving2.tx_max
                  ∧ ∀ k, k < receiving2.data_len →
                      u.data k = (end_rx_drain end_good_crc receiving2).packet (2 + k))
            ∧ (relay_started sky envs t = false → u.data = receiving2.data))
    ∧ timerb1_interrupt sky end_good_crc receiving2 = some received2
    ∧ (no_rx_wrap sky relay_after_timeout received2 = true
      ∧ relay_started sky relay_after_timeout received2 = true
      ∧ (run sky relay_after_timeout received2).map
          (fun u => ((glossy_stop sky u).2, (glossy_stop sky u).1.data 0,
            (glossy_stop sky u).1.data 1)) = some (1, 49, 50))
    ∧ (no_rx_wrap sky second_frame_session received2 = true
      ∧ relay_started sky second_frame_session received2 = true
      ∧ (run sky second_frame_session received2).map
          (fun u => (u.state, u.packet 2, u.packet 3, (glossy_stop sky u).2,
            (glossy_stop sky u).1.data 0, (glossy_stop sky u).1.data 1))
        = some (.OFF, 65, 66, 2, 49, 50))
    ∧ (no_rx_wrap sky relay_lost received2 = true
      ∧ relay_started sky relay_lost received2 = false
      ∧ (run sky relay_lost received2).map
          (fun u => ((glossy_stop sky u).2, (glossy_stop sky u).1.data 0,
            (glossy_stop sky u).1.data 1)) = some (1, 0, 0)) :=
  ⟨by decide,
    payload_copied_once_relay_started sky end_good_crc receiving2 (by decide) (by decide)
      (by decide) (by decide) (by decide) (by decide) (by decide) (by decide) (by decide),
    eq_some_getD _ _ (by decide), by decide, by decide, by decide⟩

end Glossy
